import Mathlib

/-! # bplib: a shallow embedding of `src/src/bplib.c`

The development follows the C source function by function.  Unsigned 32-bit
fields are natural numbers reduced modulo `2 ^ 32` wherever the source does
arithmetic on them, C `int`s are integers, C arrays are lists read and written
through `arr_get` and `arr_set`.  The persistence service is a record of
functions over an explicit store state, the shape of `bp_store_t` with its
function pointers.  Code that the repository keeps in files that are not part
of the sources at hand (the block codecs, the SDNV codec, the ACS record
codec) is taken as a parameter, `bp_codec`.
-/

namespace Bplib

/-! ## Defines (bplib.c, lines 79-163) -/

def BP_EMPTY : Int := -1
def BP_MAX_FILL : Nat := 0x3FFF
def BP_DATA_HDR_BUF_SIZE : Int := 128
def BP_DACS_HDR_BUF_SIZE : Int := 128
def BP_ACTIVE_TABLE_SIZE : Nat := 16384
def BP_DACS_TABLE_SIZE : Int := 4
def BP_MAX_CHANNELS : Int := 4
def BP_MAX_FILLS_PER_DACS : Int := 64
def BP_DEFAULT_TIMEOUT : Int := 10
def BP_DEFAULT_BUNDLE_MAXLENGTH : Int := 4096
def BP_DEFAULT_DACS_RATE : Int := 1000
def BP_DACS_PAY_SIZE : Int := 8 + (2 * BP_MAX_FILLS_PER_DACS)

/-- The modulus of `uint32_t` arithmetic. -/
def UINT32_MOD : Nat := 2 ^ 32

/-! ## Constants of `bplib.h`

`bplib.h` is not among the sources; the constants it defines are modelled. -/

/-- Modelled from the spec: the return code for success, defined in the missing
`bplib.h`.  The source returns a positive byte count or "error code (zero,
negative)", and `bplib_process` turns every `status > 0` into `BP_SUCCESS`. -/
def BP_SUCCESS : Int := 1
/-- Modelled from the spec: `TIMEOUT`, defined in the missing `bplib.h`. -/
def BP_TIMEOUT : Int := 0
/-- Modelled from the spec: `PARM_ERR`, defined in the missing `bplib.h`. -/
def BP_PARMERR : Int := -1
/-- Modelled from the spec: `INVALID_CHANNEL`, defined in the missing `bplib.h`. -/
def BP_INVALIDCHANNEL : Int := -7
/-- Modelled from the spec: `BUNDLE_PARSE_ERR`, defined in the missing `bplib.h`. -/
def BP_BUNDLEPARSEERR : Int := -8
/-- Modelled from the spec: `FAILED_STORE`, defined in the missing `bplib.h`. -/
def BP_FAILEDSTORE : Int := -10
/-- Modelled from the spec: `OVERFLOW`, defined in the missing `bplib.h`. -/
def BP_OVERFLOW : Int := -11
/-- Modelled from the spec: `BUNDLE_TOO_LARGE`, defined in the missing `bplib.h`. -/
def BP_BUNDLETOOLARGE : Int := -14

/-- Modelled from the spec: the wrap responses `resend`, `block`, `drop` of the
missing `bplib.h`. -/
def BP_WRAP_RESEND : Int := 0
/-- Modelled from the spec: see `BP_WRAP_RESEND`. -/
def BP_WRAP_BLOCK : Int := 1
/-- Modelled from the spec: see `BP_WRAP_RESEND`. -/
def BP_WRAP_DROP : Int := 2

/-- Modelled from the spec: the diagnostic flags are "bitwise OR-able", one bit
each; their values are defined in the missing `bplib.h`. -/
def BP_FLAG_ROUTENEEDED : Nat := 0x0008
/-- Modelled from the spec: see `BP_FLAG_ROUTENEEDED`. -/
def BP_FLAG_STOREFAIL : Nat := 0x0010
/-- Modelled from the spec: see `BP_FLAG_ROUTENEEDED`. -/
def BP_FLAG_TOOMANYSOURCES : Nat := 0x0020
/-- Modelled from the spec: see `BP_FLAG_ROUTENEEDED`. -/
def BP_FLAG_TOOMANYFILLS : Nat := 0x0040
/-- Modelled from the spec: see `BP_FLAG_ROUTENEEDED`. -/
def BP_FLAG_FILLOVERFLOW : Nat := 0x0080
/-- Modelled from the spec: see `BP_FLAG_ROUTENEEDED`. -/
def BP_FLAG_CIDWENTBACKWARDS : Nat := 0x0100
/-- Modelled from the spec: see `BP_FLAG_ROUTENEEDED`. -/
def BP_FLAG_UNABLETOSTORE : Nat := 0x0200

/-- A storage identifier (`bp_sid_t`). -/
abbrev bp_sid_t := Nat

/-- Modelled from the spec: the "vacancy sentinel" of the active table, defined
in the missing `bplib.h`; the null storage identifier. -/
def BP_SID_VACANT : bp_sid_t := 0

/-! ## C arrays -/

/-- Read `a[i]`. -/
def arr_get (a : List Nat) (i : Int) : Nat :=
  if i < 0 then 0 else a.getD i.toNat 0

/-- Write `a[i] = v`. -/
def arr_set (a : List Nat) (i : Int) (v : Nat) : List Nat :=
  if i < 0 then a else a.set i.toNat v

/-! ## Typedefs (bplib.c, lines 170-248, and the block initialisers, lines 264-331) -/

/-- Time since the DTN epoch: `(seconds, nanoseconds)`. -/
structure bp_time_t where
  s : Nat
  ns : Nat
deriving DecidableEq, Repr, Inhabited

/-- An SDNV field descriptor: value, index, width. -/
structure bp_sdnv_t where
  value : Nat
  index : Nat
  width : Nat
deriving DecidableEq, Repr, Inhabited

structure bp_blk_pri_t where
  pcf : bp_sdnv_t
  blklen : bp_sdnv_t
  dstnode : bp_sdnv_t
  dstserv : bp_sdnv_t
  srcnode : bp_sdnv_t
  srcserv : bp_sdnv_t
  rptnode : bp_sdnv_t
  rptserv : bp_sdnv_t
  cstnode : bp_sdnv_t
  cstserv : bp_sdnv_t
  createtms : bp_sdnv_t
  createtmns : bp_sdnv_t
  createseq : bp_sdnv_t
  lifetime : bp_sdnv_t
  dictlen : bp_sdnv_t
  fragoffset : bp_sdnv_t
  paylen : bp_sdnv_t
  version : Nat
  is_admin_rec : Bool
  request_custody : Bool
  allow_frag : Bool
  report_deletion : Bool
deriving DecidableEq, Repr, Inhabited

structure bp_blk_cteb_t where
  bf : bp_sdnv_t
  blklen : bp_sdnv_t
  cid : bp_sdnv_t
  cstnode : bp_sdnv_t
  cstserv : bp_sdnv_t
deriving DecidableEq, Repr, Inhabited

structure bp_blk_bib_t where
  bf : bp_sdnv_t
  blklen : bp_sdnv_t
  paytype : bp_sdnv_t
  paycrc : bp_sdnv_t
deriving DecidableEq, Repr, Inhabited

/-- Data Bundle Storage Block. -/
structure bp_data_store_t where
  retxtime : bp_time_t
  cteboffset : Int
  biboffset : Int
  payoffset : Int
  headersize : Int
  bundlesize : Int
  header : List Nat
deriving DecidableEq, Repr, Inhabited

/-- DTN Aggregate Custody Bundle Storage Block. -/
structure bp_dacs_store_t where
  cstnode : Nat
  cstserv : Nat
  first_cid : Nat
  last_cid : Nat
  num_cids : Nat
  fills : List Nat
  num_fills : Int
  biboffset : Int
  payoffset : Int
  headersize : Int
  bundlesize : Int
  header : List Nat
deriving DecidableEq, Repr, Inhabited

/-- DTN Aggregate Custody Signal Bundle. -/
structure bp_dacs_bundle_t where
  primary_block : bp_blk_pri_t
  custody_block : bp_blk_cteb_t
  integrity_block : bp_blk_bib_t
  dacs_storage : List bp_dacs_store_t
  dacs_store_handle : Int
  num_entries : Int
  rate_ms : Int
deriving DecidableEq, Repr, Inhabited

/-- Payload Storage Block. -/
structure bp_payload_store_t where
  cstrqst : Bool
  cstnode : Nat
  cstserv : Nat
  cid : Nat
deriving DecidableEq, Repr, Inhabited

/-- Data Bundle.  `active_table` has `BP_ACTIVE_TABLE_SIZE` slots. -/
structure bp_data_bundle_t where
  primary_block : bp_blk_pri_t
  custody_block : bp_blk_cteb_t
  integrity_block : bp_blk_bib_t
  data_storage : bp_data_store_t
  data_store_handle : Int
  payload_storage : bp_payload_store_t
  payload_store_handle : Int
  creation_time_sys : Bool
  active_table : List bp_sid_t
  current_custody_id : Nat
  oldest_custody_id : Nat
deriving DecidableEq, Repr, Inhabited

/-- Channel Control Block.  The `store` member, the copy of the caller's
`bp_store_t` taken by `bplib_open` and never assigned again, is not a field: the
functions that call through it take the storage service as an argument. -/
structure bp_channel_t where
  channel_index : Int
  data_bundle : bp_data_bundle_t
  dacs_bundle : bp_dacs_bundle_t
  timeout : Int
  bundle_maxlength : Int
  fragment_maxlength : Int
  proc_admin_only : Bool
  wrap_response : Int
deriving DecidableEq, Repr, Inhabited

/-! ## The persistence service and the codecs -/

/-- Memory handed back by `dequeue` and `retrieve` (`void** data`), as the caller
reads it: `raw` is the memory as bytes from its first byte, `ds` the same memory
read through the `bp_data_store_t*` cast and `tail` the bytes that follow the
`bp_data_store_t` in it. -/
structure bp_storebuf where
  raw : List Nat
  ds : bp_data_store_t
  tail : List Nat
deriving DecidableEq, Repr, Inhabited

/-- The storage service (`bp_store_t`): its functions act on an explicit store
state `σ`.  `enqueue st handle data1 data1_size data2 data2_size timeout`,
`dequeue st handle timeout` (status, data, size, sid),
`retrieve st handle sid timeout` (status, data, size),
`refresh st handle data size offset sid timeout`, `relinquish st handle sid`. -/
structure bp_store_t (σ : Type) where
  create : σ → σ × Int
  destroy : σ → Int → σ × Int
  enqueue : σ → Int → List Nat → Int → List Nat → Int → Int → σ × Int
  dequeue : σ → Int → Int → σ × Int × bp_storebuf × Int × bp_sid_t
  retrieve : σ → Int → bp_sid_t → Int → σ × Int × bp_storebuf × Int
  refresh : σ → Int → bp_storebuf → Int → Int → bp_sid_t → Int → σ × Int
  relinquish : σ → Int → bp_sid_t → σ × Int

/-- The functions of `bplib_sdnv.c`, `bplib_blk_*.c` and `bplib_rec_acs.c`, which
are not among the sources, the `sizeof` of two types and the range of the
seconds of a `bp_time_t`.  A writer maps the memory
from the pointer it is given to that memory after the call; a block writer also
returns the block it was handed and its return value; `bplib_sdnv_write` returns
the bits it sets in `*flags`. -/
structure bp_codec where
  bplib_blk_pri_write : List Nat → Int → bp_blk_pri_t → Bool → List Nat × bp_blk_pri_t × Int
  bplib_blk_cteb_write : List Nat → Int → bp_blk_cteb_t → Bool → List Nat × bp_blk_cteb_t × Int
  bplib_blk_bib_write : List Nat → Int → bp_blk_bib_t → Bool → List Nat × bp_blk_bib_t × Int
  bplib_blk_pay_write : List Nat → Int → List Nat × Int
  bplib_sdnv_write : List Nat → Option Int → bp_sdnv_t → List Nat × Nat
  bplib_blk_bib_update : List Nat → Int → List Nat → Int → bp_blk_bib_t → List Nat × bp_blk_bib_t
  bplib_blk_pay_update : List Nat → Int → Int → List Nat
  bplib_rec_acs_write : List Nat → Int → Bool → Nat → List Nat → Int → List Nat × Int
  sizeof_bp_time_t : Int
  sizeof_bp_channel_t : Int
  /-- The number of values of the seconds field of `bp_time_t`, an unsigned
  integer of the missing `bplib.h`. -/
  time_modulus : Nat

/-- Apply a writer to `&buf[off]`. -/
def at_offset {α : Type} (buf : List Nat) (off : Int) (f : List Nat → List Nat × α) :
    List Nat × α :=
  let r := f (buf.drop off.toNat)
  (buf.take off.toNat ++ r.1, r.2)

/-! ## The ACS accumulator (bplib.c, lines 412-593) -/

/-- `initialize_dacs_header` (lines 422-439): the bundle and the table entry after
the call, and the return value. -/
def initialize_dacs_header (codec : bp_codec) (bundle : bp_dacs_bundle_t)
    (ds : bp_dacs_store_t) (dstnode dstserv : Nat) :
    bp_dacs_bundle_t × bp_dacs_store_t × Int :=
  let hdrbuf := ds.header
  let flags : Nat := 0
  let w1 := at_offset hdrbuf 0
    (fun b => let r := codec.bplib_blk_pri_write b BP_DATA_HDR_BUF_SIZE bundle.primary_block false
              (r.1, r.2))
  let hdrbuf := w1.1
  let bundle := { bundle with primary_block := w1.2.1 }
  let ds := { ds with biboffset := w1.2.2 }
  let w2 := at_offset hdrbuf ds.biboffset
    (fun b => let r := codec.bplib_blk_bib_write b (BP_DATA_HDR_BUF_SIZE - ds.biboffset)
                bundle.integrity_block false
              (r.1, r.2))
  let hdrbuf := w2.1
  let bundle := { bundle with integrity_block := w2.2.1 }
  let ds := { ds with payoffset := w2.2.2 }
  let w3 := at_offset hdrbuf ds.payoffset
    (fun b => codec.bplib_blk_pay_write b (BP_DATA_HDR_BUF_SIZE - ds.payoffset))
  let hdrbuf := w3.1
  let ds := { ds with headersize := w3.2 }
  let bundle := { bundle with primary_block :=
    { bundle.primary_block with
        dstnode := { bundle.primary_block.dstnode with value := dstnode },
        dstserv := { bundle.primary_block.dstserv with value := dstserv } } }
  let s1 := codec.bplib_sdnv_write hdrbuf (some BP_DATA_HDR_BUF_SIZE) bundle.primary_block.dstnode
  let flags := flags ||| s1.2
  let s2 := codec.bplib_sdnv_write s1.1 (some BP_DATA_HDR_BUF_SIZE) bundle.primary_block.dstserv
  let flags := flags ||| s2.2
  let ds := { ds with header := s2.1 }
  (bundle, ds, if flags ≠ 0 then BP_BUNDLEPARSEERR else ds.headersize)

/-- `update_dacs_header` (lines 446-472); `tm` is what `bplib_systime` reads. -/
def update_dacs_header (codec : bp_codec) (tm : bp_time_t) (bundle : bp_dacs_bundle_t)
    (dacs : bp_dacs_store_t) (payload : List Nat) (payload_size : Int) :
    bp_dacs_bundle_t × bp_dacs_store_t × Int :=
  let flags : Nat := 0
  let hdrbuf := dacs.header
  let pri := bundle.primary_block
  let pri := { pri with createtms := { pri.createtms with value := tm.s },
                        createtmns := { pri.createtmns with value := tm.ns } }
  let s1 := codec.bplib_sdnv_write hdrbuf (some BP_DATA_HDR_BUF_SIZE) pri.createtms
  let flags := flags ||| s1.2
  let s2 := codec.bplib_sdnv_write s1.1 (some BP_DATA_HDR_BUF_SIZE) pri.createtmns
  let flags := flags ||| s2.2
  let s3 := codec.bplib_sdnv_write s2.1 (some BP_DATA_HDR_BUF_SIZE) pri.createseq
  let flags := flags ||| s3.2
  let w4 := at_offset s3.1 dacs.biboffset
    (fun b => codec.bplib_blk_bib_update b (BP_DATA_HDR_BUF_SIZE - dacs.biboffset)
                payload payload_size bundle.integrity_block)
  let w5 := at_offset w4.1 dacs.payoffset
    (fun b => (codec.bplib_blk_pay_update b 4 payload_size, ()))
  let bundle := { bundle with primary_block := pri, integrity_block := w4.2 }
  let dacs := { dacs with header := w5.1 }
  (bundle, dacs, if flags ≠ 0 then BP_BUNDLEPARSEERR else BP_SUCCESS)

/-- `initialize_dacs_payload` (lines 477-484). -/
def initialize_dacs_payload (dacs : bp_dacs_store_t) (cid : Nat) : bp_dacs_store_t :=
  { dacs with
      first_cid := cid,
      last_cid := cid,
      fills := arr_set dacs.fills 0 0,
      num_fills := 1,
      num_cids := 1 }

/-- The entry `dacs_storage[i]`. -/
def dacs_get (storage : List bp_dacs_store_t) (i : Int) : bp_dacs_store_t :=
  if i < 0 then default else storage.getD i.toNat default

/-- The table with `dacs_storage[i]` replaced. -/
def dacs_set (storage : List bp_dacs_store_t) (i : Int) (e : bp_dacs_store_t) :
    List bp_dacs_store_t :=
  if i < 0 then storage else storage.set i.toNat e

/-- The search loop of `update_dacs_payload` (lines 496-504), from index `i` with
`n` iterations left: the index of the first entry of the custodian, or
`BP_DACS_TABLE_SIZE`. -/
def find_dacs_entry (storage : List bp_dacs_store_t) (cstnode cstserv : Nat) :
    Nat → Int → Int
  | 0, _ => BP_DACS_TABLE_SIZE
  | n + 1, i =>
    if (dacs_get storage i).cstnode = cstnode ∧ (dacs_get storage i).cstserv = cstserv then i
    else find_dacs_entry storage cstnode cstserv n (i + 1)

/-- The fill update of `update_dacs_payload` for `cid > ds->last_cid`
(lines 541-571): the entry and the flags after it. -/
def update_fill (ds : bp_dacs_store_t) (cid : Nat) (flags : Nat) : bp_dacs_store_t × Nat :=
  let cid_delta := (cid - ds.last_cid) % UINT32_MOD
  let hop_val := (cid_delta + UINT32_MOD - 1) % UINT32_MOD
  let fill_index := ds.num_fills - 1
  let ds := { ds with last_cid := cid }
  if fill_index + 2 < BP_MAX_FILLS_PER_DACS then
    if hop_val = 0 ∧ arr_get ds.fills fill_index < BP_MAX_FILL then
      ({ ds with fills :=
          arr_set ds.fills fill_index ((arr_get ds.fills fill_index + 1) % UINT32_MOD) }, flags)
    else if hop_val < BP_MAX_FILL then
      let fills := arr_set ds.fills (fill_index + 1) hop_val
      let fills := arr_set fills (fill_index + 2)
        ((arr_get fills (fill_index + 2) + 1) % UINT32_MOD)
      ({ ds with fills := fills, num_fills := ds.num_fills + 2 }, flags)
    else
      (ds, flags ||| BP_FLAG_FILLOVERFLOW)
  else
    (ds, flags ||| BP_FLAG_TOOMANYFILLS)

/-- "Find ACS Table Entry" and "Handle Entry Not Found" of `update_dacs_payload`
(lines 495-525): the bundle, `dacs_entry` and `flags` after them. -/
def dacs_lookup (codec : bp_codec) (bundle : bp_dacs_bundle_t) (cstnode cstserv : Nat) :
    bp_dacs_bundle_t × Int × Nat :=
  let flags : Nat := 0
  /- Find ACS Table Entry -/
  let dacs_entry := find_dacs_entry bundle.dacs_storage cstnode cstserv bundle.num_entries.toNat 0
  /- Handle Entry Not Found -/
  if dacs_entry = BP_DACS_TABLE_SIZE then
    if bundle.num_entries < BP_DACS_TABLE_SIZE then
      /- Populate ACS Table -/
      let e := dacs_get bundle.dacs_storage bundle.num_entries
      let e := { e with cstnode := cstnode, cstserv := cstserv, num_cids := 0 }
      let entry := bundle.num_entries
      let bundle := { bundle with
        dacs_storage := dacs_set bundle.dacs_storage bundle.num_entries e,
        num_entries := bundle.num_entries + 1 }
      /- Initial ACS Header -/
      let r := initialize_dacs_header codec bundle (dacs_get bundle.dacs_storage entry)
        cstnode cstserv
      ({ r.1 with dacs_storage := dacs_set r.1.dacs_storage entry r.2.1 }, entry, flags)
    else
      /- No Room in Table for Another Source -/
      (bundle, dacs_entry, flags ||| BP_FLAG_TOOMANYSOURCES)
  else
    (bundle, dacs_entry, flags)

/-- The update of the entry `ds` in "Populate/Send ACS Bundle(s)" (lines 531-571):
the entry and the flags after it. -/
def dacs_update (ds : bp_dacs_store_t) (cid : Nat) (flags : Nat) : bp_dacs_store_t × Nat :=
  if ds.num_cids = 0 then
    /- Start New ACS -/
    (initialize_dacs_payload ds cid, flags)
  else if cid ≤ ds.last_cid then
    /- Mark CID Going Backwards -/
    (ds, flags ||| BP_FLAG_CIDWENTBACKWARDS)
  else
    update_fill ds cid flags

/-- What `update_dacs_payload` leaves behind: the returned flags, the bundle, the
store state and the static payload `buffer`. -/
structure dacs_result (σ : Type) where
  flags : Nat
  bundle : bp_dacs_bundle_t
  store : σ
  buffer : List Nat

/-- The body of "Check Flags" in `update_dacs_payload` (lines 576-587), run when
`flags != 0`, for the entry `ds` at index `dacs_entry`. -/
def dacs_send {σ : Type} (codec : bp_codec) (adapter : bp_store_t σ) (st : σ)
    (buffer : List Nat) (tm : bp_time_t) (bundle : bp_dacs_bundle_t) (dacs_entry : Int)
    (ds : bp_dacs_store_t) (flags : Nat) (cid : Nat) (delivered : Bool) (timeout : Int) :
    dacs_result σ :=
  /- Build ACS -/
  let w := codec.bplib_rec_acs_write buffer BP_DACS_PAY_SIZE delivered ds.first_cid
    ds.fills ds.num_fills
  let buffer := w.1
  let dacs_size := w.2
  let h := update_dacs_header codec tm bundle ds buffer dacs_size
  let bundle := h.1
  let ds := h.2.1
  /- Send (enqueue) ACS -/
  let en := adapter.enqueue st bundle.dacs_store_handle ds.header BP_DACS_HDR_BUF_SIZE
    buffer dacs_size timeout
  let flags := if en.2 ≠ BP_SUCCESS then flags ||| BP_FLAG_UNABLETOSTORE else flags
  /- Start New DTN ACS -/
  let ds := initialize_dacs_payload ds cid
  { flags := flags,
    bundle := { bundle with dacs_storage := dacs_set bundle.dacs_storage dacs_entry ds },
    store := en.1, buffer := buffer }

/-- "Populate/Send ACS Bundle(s)" of `update_dacs_payload` (lines 528-589), run
when an entry was found or made. -/
def dacs_populate {σ : Type} (codec : bp_codec) (adapter : bp_store_t σ) (st : σ)
    (buffer : List Nat) (tm : bp_time_t) (bundle : bp_dacs_bundle_t) (dacs_entry : Int)
    (flags : Nat) (cid : Nat) (delivered : Bool) (timeout : Int) : dacs_result σ :=
  let upd := dacs_update (dacs_get bundle.dacs_storage dacs_entry) cid flags
  /- Check Flags -/
  if upd.2 ≠ 0 then
    dacs_send codec adapter st buffer tm bundle dacs_entry upd.1 upd.2 cid delivered timeout
  else
    { flags := upd.2,
      bundle := { bundle with dacs_storage := dacs_set bundle.dacs_storage dacs_entry upd.1 },
      store := st, buffer := buffer }

/-- `update_dacs_payload` (lines 489-593).  `st` is the store state, `buffer` the
function's static payload buffer, `tm` what `bplib_systime` reads. -/
def update_dacs_payload {σ : Type} (codec : bp_codec) (adapter : bp_store_t σ) (st : σ)
    (buffer : List Nat) (tm : bp_time_t) (bundle : bp_dacs_bundle_t)
    (cid cstnode cstserv : Nat) (delivered : Bool) (timeout : Int) : dacs_result σ :=
  let found := dacs_lookup codec bundle cstnode cstserv
  /- Populate/Send ACS Bundle(s) -/
  if found.2.1 ≠ BP_DACS_TABLE_SIZE then
    dacs_populate codec adapter st buffer tm found.1 found.2.1 found.2.2 cid delivered timeout
  else
    /- Return Flags -/
    { flags := found.2.2, bundle := found.1, store := st, buffer := buffer }

/-! ## File data (bplib.c, lines 262-331) -/

/-- Modelled from the spec: `BP_PRI_VERSION` of the missing `bplib_blk_pri.h`,
"version = 6". -/
def BP_DEFAULT_BP_VERSION : Nat := 6

/-- Modelled from the spec: `BP_BIB_CRC16` of the missing `bplib_blk_bib.h`,
"1=CRC-16". -/
def BP_DEFAULT_PAY_CRC : Nat := 1

def native_data_pri_blk : bp_blk_pri_t :=
  { pcf := ⟨0, 1, 3⟩, blklen := ⟨0, 4, 4⟩, dstnode := ⟨0, 8, 4⟩, dstserv := ⟨0, 12, 4⟩,
    srcnode := ⟨0, 16, 4⟩, srcserv := ⟨0, 20, 4⟩, rptnode := ⟨0, 24, 4⟩,
    rptserv := ⟨0, 28, 4⟩, cstnode := ⟨0, 32, 4⟩, cstserv := ⟨0, 36, 4⟩,
    createtms := ⟨0, 40, 4⟩, createtmns := ⟨0, 44, 4⟩, createseq := ⟨0, 48, 4⟩,
    lifetime := ⟨0, 52, 4⟩, dictlen := ⟨0, 56, 4⟩, fragoffset := ⟨0, 60, 4⟩,
    paylen := ⟨0, 64, 4⟩, version := BP_DEFAULT_BP_VERSION, is_admin_rec := false,
    request_custody := true, allow_frag := false, report_deletion := false }

def native_dacs_pri_blk : bp_blk_pri_t :=
  { pcf := ⟨0, 1, 3⟩, blklen := ⟨0, 4, 4⟩, dstnode := ⟨0, 8, 4⟩, dstserv := ⟨0, 12, 4⟩,
    srcnode := ⟨0, 16, 4⟩, srcserv := ⟨0, 20, 4⟩, rptnode := ⟨0, 24, 4⟩,
    rptserv := ⟨0, 28, 4⟩, cstnode := ⟨0, 32, 4⟩, cstserv := ⟨0, 36, 4⟩,
    createtms := ⟨0, 40, 4⟩, createtmns := ⟨0, 44, 4⟩, createseq := ⟨0, 48, 4⟩,
    lifetime := ⟨0, 52, 4⟩, dictlen := ⟨0, 56, 4⟩, fragoffset := ⟨0, 0, 0⟩,
    paylen := ⟨0, 0, 0⟩, version := BP_DEFAULT_BP_VERSION, is_admin_rec := true,
    request_custody := false, allow_frag := false, report_deletion := false }

def native_cteb_blk : bp_blk_cteb_t :=
  { bf := ⟨0, 1, 1⟩, blklen := ⟨0, 2, 2⟩, cid := ⟨0, 4, 4⟩, cstnode := ⟨0, 8, 4⟩,
    cstserv := ⟨0, 12, 4⟩ }

def native_bib_blk : bp_blk_bib_t :=
  { bf := ⟨0, 1, 1⟩, blklen := ⟨0, 2, 2⟩, paytype := ⟨BP_DEFAULT_PAY_CRC, 4, 2⟩,
    paycrc := ⟨0, 6, 2⟩ }

/-! ## Channel lifecycle (bplib.c, lines 338-361 and 828-938) -/

/-- `initialize_data_header` (lines 350-361): the bundle after the call and the
return value. -/
def initialize_data_header (codec : bp_codec) (bundle : bp_data_bundle_t) :
    bp_data_bundle_t × Int :=
  let ds := bundle.data_storage
  let hdrbuf := ds.header
  let w1 := at_offset hdrbuf 0
    (fun b => let r := codec.bplib_blk_pri_write b BP_DATA_HDR_BUF_SIZE bundle.primary_block false
              (r.1, r.2))
  let ds := { ds with cteboffset := w1.2.2 }
  let w2 := at_offset w1.1 ds.cteboffset
    (fun b => let r := codec.bplib_blk_cteb_write b (BP_DATA_HDR_BUF_SIZE - ds.cteboffset)
                bundle.custody_block false
              (r.1, r.2))
  let ds := { ds with biboffset := w2.2.2 }
  let w3 := at_offset w2.1 ds.biboffset
    (fun b => let r := codec.bplib_blk_bib_write b (BP_DATA_HDR_BUF_SIZE - ds.biboffset)
                bundle.integrity_block false
              (r.1, r.2))
  let ds := { ds with payoffset := w3.2.2 }
  let w4 := at_offset w3.1 ds.payoffset
    (fun b => codec.bplib_blk_pay_write b (BP_DATA_HDR_BUF_SIZE - ds.payoffset))
  let ds := { ds with headersize := w4.2, header := w4.1 }
  ({ bundle with primary_block := w1.2.1, custody_block := w2.2.1,
                 integrity_block := w3.2.1, data_storage := ds }, ds.headersize)

/-- The channel control block with every byte zero, the content of the static
`channels` array when the program starts; `N` is `BP_ACTIVE_TABLE_SIZE`. -/
def zero_channel (N : Nat) : bp_channel_t :=
  let z : bp_sdnv_t := ⟨0, 0, 0⟩
  let pri : bp_blk_pri_t :=
    { pcf := z, blklen := z, dstnode := z, dstserv := z, srcnode := z, srcserv := z,
      rptnode := z, rptserv := z, cstnode := z, cstserv := z, createtms := z,
      createtmns := z, createseq := z, lifetime := z, dictlen := z, fragoffset := z,
      paylen := z, version := 0, is_admin_rec := false, request_custody := false,
      allow_frag := false, report_deletion := false }
  let cteb : bp_blk_cteb_t := { bf := z, blklen := z, cid := z, cstnode := z, cstserv := z }
  let bib : bp_blk_bib_t := { bf := z, blklen := z, paytype := z, paycrc := z }
  let dacs : bp_dacs_store_t :=
    { cstnode := 0, cstserv := 0, first_cid := 0, last_cid := 0, num_cids := 0,
      fills := List.replicate BP_MAX_FILLS_PER_DACS.toNat 0, num_fills := 0, biboffset := 0,
      payoffset := 0, headersize := 0, bundlesize := 0,
      header := List.replicate BP_DACS_HDR_BUF_SIZE.toNat 0 }
  { channel_index := 0,
    data_bundle :=
      { primary_block := pri, custody_block := cteb, integrity_block := bib,
        data_storage :=
          { retxtime := ⟨0, 0⟩, cteboffset := 0, biboffset := 0, payoffset := 0,
            headersize := 0, bundlesize := 0,
            header := List.replicate BP_DATA_HDR_BUF_SIZE.toNat 0 },
        data_store_handle := 0,
        payload_storage := { cstrqst := false, cstnode := 0, cstserv := 0, cid := 0 },
        payload_store_handle := 0, creation_time_sys := false,
        active_table := List.replicate N 0, current_custody_id := 0,
        oldest_custody_id := 0 },
    dacs_bundle :=
      { primary_block := pri, custody_block := cteb, integrity_block := bib,
        dacs_storage := List.replicate BP_DACS_TABLE_SIZE.toNat dacs,
        dacs_store_handle := 0, num_entries := 0, rate_ms := 0 },
    timeout := 0, bundle_maxlength := 0, fragment_maxlength := 0,
    proc_admin_only := false, wrap_response := 0 }

/-- libc `memset(s, c, n)` on an object of `size` bytes whose all-zero value is
`zero`: a count of zero writes nothing, a fill of the whole object with the byte
zero clears it.  Any other fill depends on the byte layout of the object and is
not modelled (the object is returned as it is). -/
def memset {α : Type} (zero : α) (size : Int) (s : α) (c n : Int) : α :=
  if n = 0 then s else if n = size ∧ c = 0 then zero else s

/-- `bplib_os_memset` (bplib_os_posix.c, lines 80-83): `memset(addr, len, val)`. -/
def bplib_os_memset {α : Type} (zero : α) (size : Int) (addr : α) (len val : Int) : α :=
  memset zero size addr len val

/-- `bplib_init` (lines 831-840). -/
def bplib_init (channels : List bp_channel_t) : List bp_channel_t :=
  channels.map (fun ch => { ch with channel_index := BP_EMPTY })

def BP_DEFAULT_WRAP_RESPONSE : Int := BP_WRAP_RESEND

/-- The body of the `if` in `bplib_open` (lines 863-915) for the slot `i` whose
memory is `ch`: the channel and the store state after it. -/
def open_channel {σ : Type} (N : Nat) (codec : bp_codec) (adapter : bp_store_t σ) (st : σ)
    (ch : bp_channel_t) (i : Int)
    (local_node local_service destination_node destination_service : Nat) :
    bp_channel_t × σ :=
  /- Clear Channel Memory -/
  let ch := bplib_os_memset (zero_channel N) codec.sizeof_bp_channel_t ch
    codec.sizeof_bp_channel_t 0
  /- Initialize Assets -/
  let ch := { ch with channel_index := i }
  /- Initialize Data Bundle -/
  let c1 := adapter.create st
  let c2 := adapter.create c1.1
  let sv := fun (d : bp_sdnv_t) (v : Nat) => { d with value := v }
  let db := { ch.data_bundle with
    data_store_handle := c1.2,
    payload_store_handle := c2.2,
    primary_block := { native_data_pri_blk with
      dstnode := sv native_data_pri_blk.dstnode destination_node,
      dstserv := sv native_data_pri_blk.dstserv destination_service,
      srcnode := sv native_data_pri_blk.srcnode local_node,
      srcserv := sv native_data_pri_blk.srcserv local_service,
      rptnode := sv native_data_pri_blk.rptnode local_node,
      rptserv := sv native_data_pri_blk.rptserv local_service,
      cstnode := sv native_data_pri_blk.cstnode local_node,
      cstserv := sv native_data_pri_blk.cstserv local_service },
    custody_block := { native_cteb_blk with
      cid := sv native_cteb_blk.cid 0,
      cstnode := sv native_cteb_blk.cstnode local_node,
      cstserv := sv native_cteb_blk.cstserv local_service },
    integrity_block := native_bib_blk,
    creation_time_sys := true,
    current_custody_id := 0,
    oldest_custody_id := 0 }
  /- Initialize Primary DACS Block -/
  let c3 := adapter.create c2.1
  let dacs := { ch.dacs_bundle with
    dacs_store_handle := c3.2,
    primary_block := { native_dacs_pri_blk with
      srcnode := sv native_dacs_pri_blk.srcnode local_node,
      srcserv := sv native_dacs_pri_blk.srcserv local_service,
      rptnode := sv native_dacs_pri_blk.rptnode local_node,
      rptserv := sv native_dacs_pri_blk.rptserv local_service,
      cstnode := sv native_dacs_pri_blk.cstnode local_node,
      cstserv := sv native_dacs_pri_blk.cstserv local_service },
    integrity_block := native_bib_blk,
    num_entries := 0,
    rate_ms := BP_DEFAULT_DACS_RATE }
  /- Initialize Data -/
  let ch := { ch with
    dacs_bundle := dacs,
    timeout := BP_DEFAULT_TIMEOUT,
    bundle_maxlength := BP_DEFAULT_BUNDLE_MAXLENGTH,
    fragment_maxlength := BP_DEFAULT_BUNDLE_MAXLENGTH,
    proc_admin_only := true,
    wrap_response := BP_DEFAULT_WRAP_RESPONSE }
  /- Populate Initial Data Bundle Storage Header -/
  ({ ch with data_bundle := (initialize_data_header codec db).1 }, c3.1)

/-- Modelled from the spec: `CHANNELS_FULL`, defined in the missing `bplib.h`. -/
def BP_CHANNELSFULL : Int := -6

/-- The slot search of `bplib_open` (lines 859-920) from index `i`, `n` slots left. -/
def open_loop {σ : Type} (N : Nat) (codec : bp_codec) (adapter : bp_store_t σ)
    (local_node local_service destination_node destination_service : Nat) :
    Nat → Nat → List bp_channel_t → σ → List bp_channel_t × σ × Int
  | 0, _, channels, st => (channels, st, BP_CHANNELSFULL)
  | n + 1, i, channels, st =>
    if (channels.getD i default).channel_index = BP_EMPTY then
      let r := open_channel N codec adapter st (channels.getD i default) i
        local_node local_service destination_node destination_service
      (channels.set i r.1, r.2, i)
    else
      open_loop N codec adapter local_node local_service destination_node destination_service
        n (i + 1) channels st

/-- `bplib_open` (lines 845-924): the `channels` array, the store state and the
return value.  `N` is `BP_ACTIVE_TABLE_SIZE`. -/
def bplib_open {σ : Type} (N : Nat) (codec : bp_codec) (adapter : bp_store_t σ) (st : σ)
    (channels : List bp_channel_t)
    (local_node local_service destination_node destination_service : Nat) :
    List bp_channel_t × σ × Int :=
  open_loop N codec adapter local_node local_service destination_node destination_service
    BP_MAX_CHANNELS.toNat 0 channels st

/-- `bplib_close` (lines 929-938). -/
def bplib_close {σ : Type} (adapter : bp_store_t σ) (st : σ) (channels : List bp_channel_t)
    (channel : Int) : List bp_channel_t × σ :=
  if channel ≥ 0 ∧ channel < BP_MAX_CHANNELS then
    let ch := channels.getD channel.toNat default
    let d1 := adapter.destroy st ch.data_bundle.data_store_handle
    let d2 := adapter.destroy d1.1 ch.data_bundle.payload_store_handle
    let d3 := adapter.destroy d2.1 ch.dacs_bundle.dacs_store_handle
    (channels.set channel.toNat { ch with channel_index := BP_EMPTY }, d3.1)
  else
    (channels, st)

/-! ## Time (bplib.c, lines 1591-1637) -/

/-- `bplib_addtime` (lines 1597-1603): `result->s = tm.s + sec` (line 1600) adds
the `int` to the unsigned seconds field and keeps the sum modulo the number
`modulus` of values of that field, whose width is set in the missing `bplib.h`
(`bplib_os_systime` of bplib_os_posix.c, line 95, fills a `uint32_t`). -/
def bplib_addtime (modulus : Nat) (tm : bp_time_t) (sec : Int) : bp_time_t :=
  { s := (((tm.s : Int) + sec) % (modulus : Int)).toNat, ns := tm.ns }

/-- `bplib_cmptime` (lines 1615-1637). -/
def bplib_cmptime (tm1 tm2 : bp_time_t) : Int :=
  if tm1.s > tm2.s then 1
  else if tm1.s < tm2.s then -1
  else if tm1.ns > tm2.ns then 1
  else if tm1.ns < tm2.ns then -1
  else 0

/-! ## `bplib_load` (bplib.c, lines 1025-1225) -/

/-- `bplog` (`bplib_os_log`, bplib_os_posix.c): "Returns - the error code passed
in". -/
def bplog (error : Int) : Int := error

/-- The local variables of `bplib_load` that its loops assign, with the channel
and the store state.  `load_bundle` is `none` for `NULL` and otherwise the memory
from the pointer on. -/
structure load_state (σ : Type) where
  ch : bp_channel_t
  store : σ
  loadflags : Nat
  load_bundle : Option (List Nat)
  load_size : Int
  load_store : Int
  load_custody : Bool
  sid : bp_sid_t
  status : Int

/-- The channel with `oldest_custody_id++`. -/
def incr_oldest (ch : bp_channel_t) : bp_channel_t :=
  { ch with data_bundle := { ch.data_bundle with
      oldest_custody_id := (ch.data_bundle.oldest_custody_id + 1) % UINT32_MOD } }

/-- The channel with `active_table[ati] = sid`. -/
def set_active (ch : bp_channel_t) (ati : Nat) (sid : bp_sid_t) : bp_channel_t :=
  { ch with data_bundle := { ch.data_bundle with
      active_table := ch.data_bundle.active_table.set ati sid } }

/-- "Try to Send Timed-out Bundle", the first `while` of `bplib_load`
(lines 1083-1114), run for at most `fuel` iterations; `none` when an iteration
is still due after them. -/
def load_timedout {σ : Type} (N : Nat) (adapter : bp_store_t σ) (sysnow : bp_time_t)
    (timeout : Int) : Nat → load_state σ → Option (load_state σ)
  | 0, s =>
    if s.load_bundle = none ∧
        s.ch.data_bundle.oldest_custody_id < s.ch.data_bundle.current_custody_id then none
    else some s
  | fuel + 1, s =>
    if s.load_bundle = none ∧
        s.ch.data_bundle.oldest_custody_id < s.ch.data_bundle.current_custody_id then
      let ati := s.ch.data_bundle.oldest_custody_id % N
      let sid := s.ch.data_bundle.active_table.getD ati 0
      if sid = BP_SID_VACANT then
        load_timedout N adapter sysnow timeout fuel
          { s with sid := sid, ch := incr_oldest s.ch }
      else
        let r := adapter.retrieve s.store s.ch.data_bundle.data_store_handle sid timeout
        if r.2.1 = BP_SUCCESS then
          /- Check Timeout -/
          let ds := r.2.2.1.ds
          if bplib_cmptime sysnow ds.retxtime ≥ 0 then
            /- Retransmit Bundle -/
            some { s with
              store := r.1, sid := sid,
              load_bundle := some (ds.header ++ r.2.2.1.tail),
              load_size := ds.bundlesize,
              load_store := s.ch.data_bundle.data_store_handle,
              load_custody := true }
          else
            some { s with store := r.1, sid := sid }
        else
          let q := adapter.relinquish r.1 s.ch.data_bundle.data_store_handle sid
          load_timedout N adapter sysnow timeout fuel
            { s with
              store := q.1, sid := sid,
              ch := set_active s.ch ati BP_SID_VACANT,
              loadflags := s.loadflags ||| BP_FLAG_STOREFAIL }
    else some s

/-- "Try to Send Stored Bundle (if nothing sent yet)", the second `while` of
`bplib_load` (lines 1117-1188), run for at most `fuel` iterations; `none` when
an iteration is still due after them. -/
def load_stored {σ : Type} (N : Nat) (codec : bp_codec) (adapter : bp_store_t σ)
    (sysnow : bp_time_t) (timeout : Int) : Nat → load_state σ → Option (load_state σ)
  | 0, s => if s.load_bundle = none then none else some s
  | fuel + 1, s =>
    if s.load_bundle = none then
      let ati := s.ch.data_bundle.current_custody_id % N
      let sid := s.ch.data_bundle.active_table.getD ati 0
      if sid = BP_SID_VACANT then
        /- Dequeue Bundle from Storage Service -/
        let d := adapter.dequeue s.store s.ch.data_bundle.data_store_handle timeout
        if d.2.1 = BP_SUCCESS then
          /- Write Re-Transmit Time -/
          let sysretx := bplib_addtime codec.time_modulus sysnow s.ch.timeout
          let storebuf := { d.2.2.1 with ds := { d.2.2.1.ds with retxtime := sysretx } }
          let f := adapter.refresh d.1 s.ch.data_bundle.data_store_handle storebuf
            codec.sizeof_bp_time_t 0 d.2.2.2.2 timeout
          /- Transmit Dequeued Bundle -/
          some { s with
            store := f.1, sid := d.2.2.2.2,
            load_bundle := some (storebuf.ds.header ++ storebuf.tail),
            load_size := storebuf.ds.bundlesize,
            load_store := s.ch.data_bundle.data_store_handle,
            load_custody := true }
        else if d.2.1 = BP_TIMEOUT then
          /- No Bundles in Storage to Send -/
          some { s with store := d.1, sid := d.2.2.2.2, status := BP_TIMEOUT }
        else
          /- Failed Storage Service -/
          some { s with store := d.1, sid := d.2.2.2.2, status := BP_FAILEDSTORE,
                        loadflags := s.loadflags ||| BP_FLAG_STOREFAIL }
      else if s.ch.wrap_response = BP_WRAP_RESEND then
        /- Retrieve Bundle from Storage -/
        let r := adapter.retrieve s.store s.ch.data_bundle.data_store_handle sid timeout
        if r.2.1 = BP_SUCCESS then
          /- Retransmit Bundle -/
          let ds := r.2.2.1.ds
          load_stored N codec adapter sysnow timeout fuel
            { s with
              store := r.1, sid := sid,
              load_bundle := some (ds.header ++ r.2.2.1.tail),
              load_size := ds.bundlesize,
              load_store := s.ch.data_bundle.data_store_handle,
              load_custody := true }
        else
          let q := adapter.relinquish r.1 s.ch.data_bundle.data_store_handle sid
          load_stored N codec adapter sysnow timeout fuel
            { s with
              store := q.1, sid := sid,
              ch := set_active s.ch ati BP_SID_VACANT,
              loadflags := s.loadflags ||| BP_FLAG_STOREFAIL }
      else if s.ch.wrap_response = BP_WRAP_BLOCK then
        /- Custody ID Wrapped Around to Occupied Slot -/
        some { s with sid := sid, status := BP_OVERFLOW }
      else
        let q := adapter.relinquish s.store s.ch.data_bundle.data_store_handle sid
        load_stored N codec adapter sysnow timeout fuel
          { s with
            store := q.1, sid := sid,
            ch := incr_oldest (set_active s.ch ati BP_SID_VACANT) }
    else some s

/-- "Check if Bundle Ready to Transmit" (lines 1190-1221): the state and the
caller's buffer `bundle` after it. -/
def load_transmit {σ : Type} (N : Nat) (codec : bp_codec) (adapter : bp_store_t σ)
    (bundle : List Nat) (size : Int) (s : load_state σ) : load_state σ × List Nat :=
  match s.load_bundle with
  | none => (s, bundle)
  | some load_bundle =>
    /- Check Buffer Size -/
    if size < s.load_size then
      let q := adapter.relinquish s.store s.load_store s.sid
      ({ s with status := bplog BP_BUNDLETOOLARGE, store := q.1 }, bundle)
    else
      /- Assign Custody ID -/
      let a : bp_channel_t × List Nat :=
        if s.load_custody = true then
          let ati := s.ch.data_bundle.current_custody_id % N
          let ch := set_active s.ch ati s.sid
          let cid : bp_sdnv_t :=
            { ch.data_bundle.custody_block.cid with value := ch.data_bundle.current_custody_id }
          let ch := { ch with data_bundle := { ch.data_bundle with
            custody_block := { ch.data_bundle.custody_block with cid := cid },
            current_custody_id := (ch.data_bundle.current_custody_id + 1) % UINT32_MOD } }
          /- a failed write sets `status`, which the assignment below overwrites -/
          (ch, (codec.bplib_sdnv_write load_bundle none cid).1)
        else (s.ch, load_bundle)
      /- Successfully Load Bundle to Application and Relinquish Memory -/
      let bundle := a.2.take s.load_size.toNat ++ bundle.drop s.load_size.toNat
      let q := adapter.relinquish s.store s.load_store s.sid
      ({ s with ch := a.1, load_bundle := some a.2, status := s.load_size, store := q.1 },
        bundle)

/-- What `bplib_load` leaves behind: the return value, the channel, the store
state, the caller's buffer and `*loadflags`. -/
structure load_result (σ : Type) where
  status : Int
  ch : bp_channel_t
  store : σ
  bundle : List Nat
  loadflags : Nat

/-- "Setup State" and "Check if ACS Needs to be Sent" of `bplib_load`
(lines 1056-1080). -/
def load_setup {σ : Type} (adapter : bp_store_t σ) (st : σ) (ch : bp_channel_t)
    (timeout : Int) : load_state σ :=
  let d := adapter.dequeue st ch.dacs_bundle.dacs_store_handle timeout
  if d.2.1 = BP_SUCCESS then
    /- Transmit ACS Bundle; ACS Always Need to be Routed -/
    { ch := ch, store := d.1, loadflags := 0 ||| BP_FLAG_ROUTENEEDED,
      load_bundle := some d.2.2.1.raw, load_size := d.2.2.2.1,
      load_store := ch.dacs_bundle.dacs_store_handle, load_custody := false,
      sid := d.2.2.2.2, status := BP_SUCCESS }
  else
    { ch := ch, store := d.1, loadflags := 0, load_bundle := none, load_size := 0,
      load_store := 0, load_custody := false, sid := d.2.2.2.2, status := BP_SUCCESS }

/-- `bplib_load` from "Setup State" on (lines 1056-1224), for the channel `ch`;
`sysnow` is what `bplib_systime` reads, `bundle` the caller's buffer.  `none`
when a loop does not end within its bound of iterations. -/
def load_channel {σ : Type} (N : Nat) (codec : bp_codec) (adapter : bp_store_t σ) (st : σ)
    (sysnow : bp_time_t) (ch : bp_channel_t) (bundle : List Nat) (size : Int)
    (timeout : Int) : Option (load_result σ) :=
  /- Try to Send Timed-out Bundle -/
  (load_timedout N adapter sysnow timeout
    (2 * (ch.data_bundle.current_custody_id - ch.data_bundle.oldest_custody_id))
    (load_setup adapter st ch timeout)).bind
  fun s1 =>
  /- Try to Send Stored Bundle (if nothing sent yet) -/
  (load_stored N codec adapter sysnow timeout 2 s1).map
  fun s2 =>
  /- Check if Bundle Ready to Transmit -/
  let t := load_transmit N codec adapter bundle size s2
  { status := t.1.status, ch := t.1.ch, store := t.1.store, bundle := t.2,
    loadflags := t.1.loadflags }

/-- What a call of `bplib_load` leaves behind: the return value, the `channels`
array, the store state, the caller's buffer and `*loadflags`. -/
structure bplib_load_result (σ : Type) where
  status : Int
  channels : List bp_channel_t
  store : σ
  bundle : Option (List Nat)
  loadflags : Nat

/-- `bplib_load` (lines 1025-1225).  `bundle` is `none` for a `NULL` buffer,
`loadflags` is the content of `*loadflags` before the call. -/
def bplib_load {σ : Type} (N : Nat) (codec : bp_codec) (adapter : bp_store_t σ) (st : σ)
    (sysnow : bp_time_t) (channels : List bp_channel_t) (channel : Int)
    (bundle : Option (List Nat)) (size : Int) (timeout : Int) (loadflags : Nat) :
    Option (bplib_load_result σ) :=
  /- Check Parameters -/
  if channel < 0 ∨ channel ≥ BP_MAX_CHANNELS then
    some { status := BP_PARMERR, channels := channels, store := st, bundle := bundle,
           loadflags := loadflags }
  else if (channels.getD channel.toNat default).channel_index ≠ channel then
    some { status := BP_INVALIDCHANNEL, channels := channels, store := st, bundle := bundle,
           loadflags := loadflags }
  else
    match bundle with
    | none =>
      some { status := BP_PARMERR, channels := channels, store := st, bundle := bundle,
             loadflags := loadflags }
    | some buf =>
      (load_channel N codec adapter st sysnow (channels.getD channel.toNat default) buf size
        timeout).map
      fun r =>
      { status := r.status, channels := channels.set channel.toNat r.ch, store := r.store,
        bundle := some r.bundle, loadflags := r.loadflags }

/-! ## More constants of `bplib.h` and of the block headers -/

/-- Modelled from the spec: `UNSUPPORTED`, defined in the missing `bplib.h`. -/
def BP_UNSUPPORTED : Int := -2
/-- Modelled from the spec: `EXPIRED`, defined in the missing `bplib.h`. -/
def BP_EXPIRED : Int := -3
/-- Modelled from the spec: `IGNORE`, defined in the missing `bplib.h`. -/
def BP_IGNORE : Int := -4
/-- Modelled from the spec: `DROPPED`, defined in the missing `bplib.h`. -/
def BP_DROPPED : Int := -5
/-- Modelled from the spec: `UNKNOWN_REC`, defined in the missing `bplib.h`. -/
def BP_UNKNOWNREC : Int := -9
/-- Modelled from the spec: `WRONG_CHANNEL`, defined in the missing `bplib.h`. -/
def BP_WRONGCHANNEL : Int := -12
/-- Modelled from the spec: `PAYLOAD_TOO_LARGE`, defined in the missing `bplib.h`. -/
def BP_PAYLOADTOOLARGE : Int := -15
/-- Modelled from the spec: the diagnostic flag `NONCOMPLIANT`. -/
def BP_FLAG_NONCOMPLIANT : Nat := 0x0001
/-- Modelled from the spec: the diagnostic flag `INCOMPLETE`. -/
def BP_FLAG_INCOMPLETE : Nat := 0x0002
/-- Modelled from the spec: the diagnostic flag `REPORT_DELETE`. -/
def BP_FLAG_REPORTDELETE : Nat := 0x0004
/-- Modelled from the spec: the block type of the payload block (RFC 5050). -/
def BP_PROTO_PAY_BLK_TYPE : Nat := 0x1
/-- Modelled from the spec: the block type of the CTEB. -/
def BP_CTEB_BLK_TYPE : Nat := 0xA
/-- Modelled from the spec: the block type of the BIB. -/
def BP_BIB_BLK_TYPE : Nat := 0xD
/-- Modelled from the spec: "Admin record types: 0x40=ACS". -/
def BP_PROTO_ACS_REC_TYPE : Nat := 0x40
/-- Modelled from the spec: the admin record type of a custody signal (RFC 5050). -/
def BP_PROTO_CS_REC_TYPE : Nat := 0x20
/-- Modelled from the spec: the admin record type of a status report (RFC 5050). -/
def BP_PROTO_STAT_REC_TYPE : Nat := 0x10
/-- Modelled from the spec: block flag "transmit status report if block cannot be
processed" (RFC 5050). -/
def BP_BLK_NOTIFYNOPROC_MASK : Nat := 0x02
/-- Modelled from the spec: block flag "delete bundle if block cannot be
processed" (RFC 5050). -/
def BP_BLK_DELETENOPROC_MASK : Nat := 0x04
/-- Modelled from the spec: block flag "discard block if it cannot be processed"
(RFC 5050). -/
def BP_BLK_DROPNOPROC_MASK : Nat := 0x10
/-- Modelled from the spec: block flag "block was forwarded without being
processed" (RFC 5050). -/
def BP_BLK_FORWARDNOPROC_MASK : Nat := 0x20

/-- Conversion to `uint32_t`. -/
def to_uint32 (x : Int) : Nat := (x % (UINT32_MOD : Int)).toNat

/-- Conversion of a 32-bit value to `int`. -/
def to_int (x : Int) : Int := (x + 2 ^ 31) % 2 ^ 32 - 2 ^ 31

/-! ## Object representations

`bplib_store`, `bplib_process` and `bplib_accept` hand structures to the storage
service as bytes and read bytes back through pointer casts.  How a structure
lies in memory is fixed by the compiler and by type declarations of the missing
headers; it is a parameter. -/

/-- The memory layout: sizes, the bytes of an object from its first byte on, and
an object read through a pointer cast.  `data_bundle_bytes` is the memory from
`&ch->data_bundle` on. -/
structure bp_layout where
  sizeof_int : Int
  sizeof_bp_ipn_t : Int
  sizeof_bp_data_store_t : Int
  sizeof_bp_payload_store_t : Int
  prologsize : Int
  data_bundle_bytes : bp_data_bundle_t → List Nat
  data_store_bytes : bp_data_store_t → List Nat
  payload_store_bytes : bp_payload_store_t → List Nat
  payload_store_view : List Nat → bp_payload_store_t

/-- The memory of a channel under a pointer of another type.  `bplib_accept`
hands its `bp_channel_t* ch` to `update_dacs_payload`, whose parameter is a
`bp_dacs_bundle_t*` (line 1553): `channel_as_dacs ch` is the accumulator that
the callee finds at the first byte of the channel, which is not
`ch->dacs_bundle` (`bp_channel_t`, lines 238-248, starts with `channel_index`,
`store` and `data_bundle`), and `channel_of_dacs ch b` is the channel after the
callee has left `b` there.  Both depend on how the two structures lie in
memory; they are a parameter, and the runs of `bplib_accept` end at the call. -/
structure bp_overlay where
  channel_as_dacs : bp_channel_t → bp_dacs_bundle_t
  channel_of_dacs : bp_channel_t → bp_dacs_bundle_t → bp_channel_t

/-! ## `update_data_header` and `bplib_store` (bplib.c, lines 363-410 and 968-1020) -/

/-- `update_data_header` (lines 368-410): the bundle after the call and the
return value; `tm` is what `bplib_systime` reads. -/
def update_data_header (codec : bp_codec) (tm : bp_time_t) (bundle : bp_data_bundle_t)
    (fragment_payload : List Nat)
    (fragment_payload_size fragment_payload_offset total_payload_size : Int) :
    bp_data_bundle_t × Int :=
  let flags : Nat := 0
  let hdrbuf := bundle.data_storage.header
  let pri := bundle.primary_block
  /- Set Fragmentation -/
  if pri.allow_frag = true then
    let pri := { pri with
      fragoffset := { pri.fragoffset with value := to_uint32 fragment_payload_offset },
      paylen := { pri.paylen with value := to_uint32 total_payload_size } }
    let s1 := codec.bplib_sdnv_write hdrbuf (some BP_DATA_HDR_BUF_SIZE) pri.fragoffset
    let flags := flags ||| s1.2
    let s2 := codec.bplib_sdnv_write s1.1 (some BP_DATA_HDR_BUF_SIZE) pri.paylen
    let flags := flags ||| s2.2
    /- Set Creation Time -/
    let t : bp_blk_pri_t × List Nat × Nat :=
      if bundle.creation_time_sys = true then
        let pri := { pri with createtms := { pri.createtms with value := tm.s },
                              createtmns := { pri.createtmns with value := tm.ns } }
        let s3 := codec.bplib_sdnv_write s2.1 (some BP_DATA_HDR_BUF_SIZE) pri.createtms
        let s4 := codec.bplib_sdnv_write s3.1 (some BP_DATA_HDR_BUF_SIZE) pri.createtmns
        (pri, s4.1, flags ||| s3.2 ||| s4.2)
      else (pri, s2.1, flags)
    let pri := t.1
    /- Set Sequence -/
    let s5 := codec.bplib_sdnv_write t.2.1 (some BP_DATA_HDR_BUF_SIZE) pri.createseq
    let flags := t.2.2 ||| s5.2
    /- Update Bundle Integrity Block -/
    let w6 := at_offset s5.1 bundle.data_storage.biboffset
      (fun b => codec.bplib_blk_bib_update b
                  (BP_DATA_HDR_BUF_SIZE - bundle.data_storage.biboffset)
                  fragment_payload fragment_payload_size bundle.integrity_block)
    /- Update Payload Block -/
    let w7 := at_offset w6.1 bundle.data_storage.payoffset
      (fun b => (codec.bplib_blk_pay_update b 4 fragment_payload_size, ()))
    ({ bundle with primary_block := pri, integrity_block := w6.2,
                   data_storage := { bundle.data_storage with header := w7.1 } },
      if flags ≠ 0 then BP_BUNDLEPARSEERR else BP_SUCCESS)
  else
    (bundle, bplog BP_UNSUPPORTED)

/-- The channel with `data_storage.bundlesize = headersize + n`. -/
def set_bundlesize (db : bp_data_bundle_t) (n : Int) : bp_data_bundle_t :=
  { db with data_storage :=
      { db.data_storage with bundlesize := db.data_storage.headersize + n } }

/-- The `while(payload_offset < size)` loop of `bplib_store` (lines 990-999), run
for at most `fuel` iterations; `none` when an iteration is still due after them.
`payload` is the memory from the caller's pointer on. -/
def store_fragments {σ : Type} (codec : bp_codec) (layout : bp_layout)
    (adapter : bp_store_t σ) (tm : bp_time_t) (payload : List Nat) (size timeout : Int) :
    Nat → bp_channel_t → σ → Int → Option (bp_channel_t × σ)
  | 0, ch, st, payload_offset => if payload_offset < size then none else some (ch, st)
  | fuel + 1, ch, st, payload_offset =>
    if payload_offset < size then
      /- Enqueue Pre-Built Bundle in Storage Service -/
      let fragment_size :=
        if ch.fragment_maxlength < size - payload_offset then ch.fragment_maxlength
        else size - payload_offset
      let u := update_data_header codec tm (set_bundlesize ch.data_bundle fragment_size)
        (payload.drop payload_offset.toNat) fragment_size payload_offset size
      let e := adapter.enqueue st u.1.data_store_handle (layout.data_bundle_bytes u.1)
        layout.sizeof_bp_data_store_t (payload.drop payload_offset.toNat) fragment_size timeout
      store_fragments codec layout adapter tm payload size timeout fuel
        { ch with data_bundle := u.1 } e.1 (payload_offset + fragment_size)
    else some (ch, st)

/-- The channel with `primary_block.createseq.value++`. -/
def incr_createseq (ch : bp_channel_t) : bp_channel_t :=
  { ch with data_bundle := { ch.data_bundle with primary_block :=
      { ch.data_bundle.primary_block with createseq :=
          { ch.data_bundle.primary_block.createseq with
              value := (ch.data_bundle.primary_block.createseq.value + 1) % UINT32_MOD } } } }

/-- What a call leaves behind: the return value, the channel and the store
state. -/
structure call_result (σ : Type) where
  status : Int
  ch : bp_channel_t
  store : σ

/-- `bplib_store` from "Check Fragmentation" on (lines 986-1019), for the channel
`ch`; the lines between the row of slashes print the header and are left out.
`none` when the loop does not end within `size` iterations. -/
def store_channel {σ : Type} (codec : bp_codec) (layout : bp_layout)
    (adapter : bp_store_t σ) (st : σ) (tm : bp_time_t) (ch : bp_channel_t)
    (payload : List Nat) (size timeout : Int) : Option (call_result σ) :=
  /- Check Fragmentation -/
  let r : Option (bp_channel_t × σ) :=
    if ch.data_bundle.primary_block.allow_frag = true then
      store_fragments codec layout adapter tm payload size timeout size.toNat ch st 0
    else
      /- Enqueue Pre-Built Bundle in Storage Service -/
      let u := update_data_header codec tm (set_bundlesize ch.data_bundle size)
        payload size 0 size
      let e := adapter.enqueue st u.1.data_store_handle (layout.data_bundle_bytes u.1)
        layout.sizeof_bp_data_store_t payload size timeout
      some ({ ch with data_bundle := u.1 }, e.1)
  /- Increment Sequence Count; Return Status -/
  r.map (fun x => { status := BP_SUCCESS, ch := incr_createseq x.1, store := x.2 })

/-- What a call leaves behind: the return value, the `channels` array and the
store state. -/
structure bplib_result (σ : Type) where
  status : Int
  channels : List bp_channel_t
  store : σ

/-- `bplib_store` (lines 971-1020).  `payload` is `none` for a `NULL` pointer. -/
def bplib_store {σ : Type} (codec : bp_codec) (layout : bp_layout) (adapter : bp_store_t σ)
    (st : σ) (tm : bp_time_t) (channels : List bp_channel_t) (channel : Int)
    (payload : Option (List Nat)) (size timeout : Int) : Option (bplib_result σ) :=
  /- Check Parameters -/
  if channel < 0 ∨ channel ≥ BP_MAX_CHANNELS then
    some { status := BP_PARMERR, channels := channels, store := st }
  else if (channels.getD channel.toNat default).channel_index ≠ channel then
    some { status := BP_INVALIDCHANNEL, channels := channels, store := st }
  else
    match payload with
    | none => some { status := BP_PARMERR, channels := channels, store := st }
    | some p =>
      if size > (channels.getD channel.toNat default).bundle_maxlength then
        some { status := BP_PARMERR, channels := channels, store := st }
      else
        (store_channel codec layout adapter st tm (channels.getD channel.toNat default) p size
          timeout).map
        fun r =>
        { status := r.status, channels := channels.set channel.toNat r.ch, store := r.store }

/-! ## Options (bplib.c, lines 594-966) -/

/-- The case labels of the `switch(opt)` of `getset_opt`; their numbers are set
in the missing `bplib.h`.  `other` is an `opt` that equals none of them. -/
inductive bp_opt where
  | BP_OPT_DSTNODE_D | BP_OPT_DSTSERV_D | BP_OPT_SRCNODE_D | BP_OPT_SRCSERV_D
  | BP_OPT_RPTNODE_D | BP_OPT_RPTSERV_D | BP_OPT_CSTNODE_D | BP_OPT_CSTSERV_D
  | BP_OPT_CREATETIMESYS_D | BP_OPT_CREATETIMEVAL_D | BP_OPT_SETSEQUENCE_D
  | BP_OPT_LIFETIME_D | BP_OPT_CSTRQST_D | BP_OPT_ALLOWFRAG_D | BP_OPT_PAYCRC_D
  | BP_OPT_TIMEOUT | BP_OPT_BUNDLELEN | BP_OPT_FRAGMENTLEN | BP_OPT_PROCADMINONLY
  | BP_OPT_WRAPRSP | BP_OPT_ACSRATE
  | other
deriving DecidableEq, Repr

/-- The memory behind `void* val`, as read through each of the pointer types
that `getset_opt` casts it to.  A write through one of the pointers is recorded
in the field of that pointer type alone. -/
structure bp_optval where
  as_ipn : Nat
  as_int : Int
  as_time : bp_time_t
  as_uint32 : Nat
deriving DecidableEq, Repr, Inhabited

/-- C truth value of a flag. -/
def of_bool (b : Bool) : Int := if b = true then 1 else 0

/-- An option held in an SDNV descriptor of the primary block, of type
`bp_ipn_t`: `set` stores the value in the descriptor picked by `put`. -/
def getset_ipn (layout : bp_layout) (ch : bp_channel_t) (val : bp_optval) (len : Int)
    (getset : Bool) (get : bp_blk_pri_t → bp_sdnv_t)
    (put : bp_blk_pri_t → bp_sdnv_t → bp_blk_pri_t) :
    Option (bp_channel_t × bp_optval) :=
  if len ≠ layout.sizeof_bp_ipn_t then none
  else if getset = true then
    let d := get ch.data_bundle.primary_block
    let pri := put ch.data_bundle.primary_block { d with value := val.as_ipn }
    some ({ ch with data_bundle := { ch.data_bundle with primary_block := pri } }, val)
  else some (ch, { val with as_ipn := (get ch.data_bundle.primary_block).value })

/-- An option of type `int` that takes `BP_TRUE` or `BP_FALSE`. -/
def getset_flag (layout : bp_layout) (ch : bp_channel_t) (val : bp_optval) (len : Int)
    (getset : Bool) (get : bp_channel_t → Bool) (put : bp_channel_t → Bool → bp_channel_t) :
    Option (bp_channel_t × bp_optval) :=
  if len ≠ layout.sizeof_int then none
  else if val.as_int ≠ 1 ∧ val.as_int ≠ 0 then none
  else if getset = true then some (put ch (decide (val.as_int = 1)), val)
  else some (ch, { val with as_int := of_bool (get ch) })

/-- An option of type `int`. -/
def getset_int (layout : bp_layout) (ch : bp_channel_t) (val : bp_optval) (len : Int)
    (getset : Bool) (get : bp_channel_t → Int) (put : bp_channel_t → Int → bp_channel_t) :
    Option (bp_channel_t × bp_optval) :=
  if len ≠ layout.sizeof_int then none
  else if getset = true then some (put ch val.as_int, val)
  else some (ch, { val with as_int := get ch })

/-- The channel with the primary block `f pri`. -/
def with_pri (ch : bp_channel_t) (f : bp_blk_pri_t → bp_blk_pri_t) : bp_channel_t :=
  { ch with data_bundle := { ch.data_bundle with
      primary_block := f ch.data_bundle.primary_block } }

/-- The `switch(opt)` of `getset_opt` (lines 605-815): `none` where a case
returns `BP_PARMERR`, else the channel and the memory behind `val` at the
`break`.  `sizeof(bp_time_t)` is taken from the codec. -/
def getset_switch (codec : bp_codec) (layout : bp_layout) (ch : bp_channel_t) (opt : bp_opt)
    (val : bp_optval) (len : Int) (getset : Bool) : Option (bp_channel_t × bp_optval) :=
  match opt with
  | .BP_OPT_DSTNODE_D =>
    getset_ipn layout ch val len getset (fun p => p.dstnode) (fun p d => { p with dstnode := d })
  | .BP_OPT_DSTSERV_D =>
    getset_ipn layout ch val len getset (fun p => p.dstserv) (fun p d => { p with dstserv := d })
  | .BP_OPT_SRCNODE_D =>
    getset_ipn layout ch val len getset (fun p => p.srcnode) (fun p d => { p with srcnode := d })
  | .BP_OPT_SRCSERV_D =>
    getset_ipn layout ch val len getset (fun p => p.srcserv) (fun p d => { p with srcserv := d })
  | .BP_OPT_RPTNODE_D =>
    getset_ipn layout ch val len getset (fun p => p.rptnode) (fun p d => { p with rptnode := d })
  | .BP_OPT_RPTSERV_D =>
    getset_ipn layout ch val len getset (fun p => p.rptserv) (fun p d => { p with rptserv := d })
  | .BP_OPT_CSTNODE_D =>
    getset_ipn layout ch val len getset (fun p => p.cstnode) (fun p d => { p with cstnode := d })
  | .BP_OPT_CSTSERV_D =>
    getset_ipn layout ch val len getset (fun p => p.cstserv) (fun p d => { p with cstserv := d })
  | .BP_OPT_CREATETIMESYS_D =>
    getset_flag layout ch val len getset (fun c => c.data_bundle.creation_time_sys)
      (fun c b => { c with data_bundle := { c.data_bundle with creation_time_sys := b } })
  | .BP_OPT_CREATETIMEVAL_D =>
    if len ≠ codec.sizeof_bp_time_t then none
    else if getset = true then
      some (with_pri ch (fun p => { p with
              createtms := { p.createtms with value := val.as_time.s },
              createtmns := { p.createtmns with value := val.as_time.ns } }), val)
    else
      some (ch, { val with as_time :=
        ⟨ch.data_bundle.primary_block.createtms.value,
          ch.data_bundle.primary_block.createtmns.value⟩ })
  | .BP_OPT_SETSEQUENCE_D =>
    if len ≠ layout.sizeof_int then none
    else if getset = true then
      some (with_pri ch (fun p => { p with
              createseq := { p.createseq with value := val.as_uint32 } }), val)
    else some (ch, { val with as_uint32 := ch.data_bundle.primary_block.createseq.value })
  | .BP_OPT_LIFETIME_D =>
    getset_int layout ch val len getset
      (fun c => to_int c.data_bundle.primary_block.lifetime.value)
      (fun c v => with_pri c (fun p => { p with
        lifetime := { p.lifetime with value := to_uint32 v } }))
  | .BP_OPT_CSTRQST_D =>
    getset_flag layout ch val len getset (fun c => c.data_bundle.primary_block.request_custody)
      (fun c b => with_pri c (fun p => { p with request_custody := b }))
  | .BP_OPT_ALLOWFRAG_D =>
    getset_flag layout ch val len getset (fun c => c.data_bundle.primary_block.allow_frag)
      (fun c b => with_pri c (fun p => { p with allow_frag := b }))
  | .BP_OPT_PAYCRC_D =>
    getset_int layout ch val len getset
      (fun c => to_int c.data_bundle.integrity_block.paytype.value)
      (fun c v => { c with data_bundle := { c.data_bundle with integrity_block :=
        { c.data_bundle.integrity_block with
            paytype := { c.data_bundle.integrity_block.paytype with value := to_uint32 v } } } })
  | .BP_OPT_TIMEOUT =>
    getset_int layout ch val len getset (fun c => c.timeout) (fun c v => { c with timeout := v })
  | .BP_OPT_BUNDLELEN =>
    getset_int layout ch val len getset (fun c => c.bundle_maxlength)
      (fun c v => { c with bundle_maxlength := v })
  | .BP_OPT_FRAGMENTLEN =>
    getset_int layout ch val len getset (fun c => c.fragment_maxlength)
      (fun c v => { c with fragment_maxlength := v })
  | .BP_OPT_PROCADMINONLY =>
    getset_flag layout ch val len getset (fun c => c.proc_admin_only)
      (fun c b => { c with proc_admin_only := b })
  | .BP_OPT_WRAPRSP =>
    if len ≠ layout.sizeof_int then none
    else if val.as_int ≠ BP_WRAP_RESEND ∧ val.as_int ≠ BP_WRAP_BLOCK ∧
        val.as_int ≠ BP_WRAP_DROP then none
    else if getset = true then some ({ ch with wrap_response := val.as_int }, val)
    else some (ch, { val with as_int := ch.wrap_response })
  | .BP_OPT_ACSRATE =>
    getset_int layout ch val len getset (fun c => c.dacs_bundle.rate_ms)
      (fun c v => { c with dacs_bundle := { c.dacs_bundle with rate_ms := v } })
  | .other => none

/-- `getset_opt` (lines 600-822): the channel, the memory behind `val` and the
return value. -/
def getset_opt (codec : bp_codec) (layout : bp_layout) (ch : bp_channel_t) (opt : bp_opt)
    (val : bp_optval) (len : Int) (getset : Bool) : bp_channel_t × bp_optval × Int :=
  match getset_switch codec layout ch opt val len getset with
  | none => (ch, val, bplog BP_PARMERR)
  | some r =>
    /- Re-initialize Bundle Header -/
    let ch := if getset = true then
      { r.1 with data_bundle := (initialize_data_header codec r.1.data_bundle).1 } else r.1
    /- Option Successfully Processed -/
    (ch, r.2, BP_SUCCESS)

/-- What `bplib_getopt` and `bplib_setopt` leave behind: the return value, the
`channels` array and the memory behind `val`. -/
structure opt_result where
  status : Int
  channels : List bp_channel_t
  val : Option bp_optval

/-- The body shared by `bplib_getopt` and `bplib_setopt`. -/
def bplib_getset (codec : bp_codec) (layout : bp_layout) (channels : List bp_channel_t)
    (channel : Int) (opt : bp_opt) (val : Option bp_optval) (len : Int) (getset : Bool) :
    opt_result :=
  /- Check Parameters -/
  if channel < 0 ∨ channel ≥ BP_MAX_CHANNELS then
    { status := BP_PARMERR, channels := channels, val := val }
  else if (channels.getD channel.toNat default).channel_index ≠ channel then
    { status := BP_INVALIDCHANNEL, channels := channels, val := val }
  else
    match val with
    | none => { status := BP_PARMERR, channels := channels, val := val }
    | some v =>
      /- Call Internal Function -/
      let r := getset_opt codec layout (channels.getD channel.toNat default) opt v len getset
      { status := r.2.2, channels := channels.set channel.toNat r.1, val := some r.2.1 }

/-- `bplib_getopt` (lines 943-952); `val` is `none` for a `NULL` pointer. -/
def bplib_getopt (codec : bp_codec) (layout : bp_layout) (channels : List bp_channel_t)
    (channel : Int) (opt : bp_opt) (val : Option bp_optval) (len : Int) : opt_result :=
  bplib_getset codec layout channels channel opt val len false

/-- `bplib_setopt` (lines 957-966); `val` is `none` for a `NULL` pointer. -/
def bplib_setopt (codec : bp_codec) (layout : bp_layout) (channels : List bp_channel_t)
    (channel : Int) (opt : bp_opt) (val : Option bp_optval) (len : Int) : opt_result :=
  bplib_getset codec layout channels channel opt val len true

/-! ## `bplib_process` (bplib.c, lines 1227-1493) -/

/-- The readers of `bplib_sdnv.c`, `bplib_blk_*.c` and `bplib_rec_acs.c`, which
are not among the sources.  A block reader maps the memory from the pointer it is
given and the size to the block it fills in and its return value;
`bplib_sdnv_read` maps the memory, the size and `*flags` before the call to its
return value, the value read and `*flags` after the call; `bplib_rec_acs_process`
takes the memory, the size, the record status, the active table, its size, the
`relinquish` function, the store handle and the store state, and returns its
return value, the active table and the store state; `bplib_sdnv_write_flags` is
the three-argument `bplib_sdnv_write(buffer, size, value)` of line 1480. -/
structure bp_reader (σ : Type) where
  bplib_blk_pri_read : List Nat → Int → bp_blk_pri_t × Int
  bplib_blk_cteb_read : List Nat → Int → bp_blk_cteb_t × Int
  bplib_blk_bib_read : List Nat → Int → bp_blk_bib_t × Int
  bplib_sdnv_read : List Nat → Int → Nat → Int × Nat × Nat
  bplib_blk_bib_verify : List Nat → Int → bp_blk_bib_t → Int
  bplib_rec_acs_process : List Nat → Int → Nat → List bp_sid_t → Nat →
    (σ → Int → bp_sid_t → σ × Int) → Int → σ → Int × List bp_sid_t × σ
  bplib_sdnv_write_flags : List Nat → Int → Nat → List Nat

/-- The locals of `bplib_process` that it reads without having assigned them on
every path: `flags`, `ctebblk`, `bibblk` and `tmpstore`, as they lie on the stack
when the function is entered. -/
structure proc_stack where
  flags : Nat
  ctebblk : bp_blk_cteb_t
  bibblk : bp_blk_bib_t
  tmpstore : bp_data_store_t
deriving DecidableEq, Repr, Inhabited

/-- What `bplib_process` leaves behind: the return value, the channel, the store
state, `*procflags`, the caller's bundle memory and the static payload buffer of
`update_dacs_payload`. -/
structure proc_result (σ : Type) where
  status : Int
  ch : bp_channel_t
  store : σ
  procflags : Nat
  bundle : List Nat
  dacs_buffer : List Nat

/-- The locals of `bplib_process` that its loop assigns, with the channel, the
store state, `*procflags` and the two buffers. -/
structure proc_state (σ : Type) where
  ch : bp_channel_t
  store : σ
  procflags : Nat
  buffer : List Nat
  dacs_buffer : List Nat
  index : Int
  flags : Nat
  bib_present : Bool
  cteb_present : Bool
  ctebblk : bp_blk_cteb_t
  bibblk : bp_blk_bib_t

/-- A `return status` of `bplib_process` in the state `s`. -/
def proc_return {σ : Type} (s : proc_state σ) (status : Int) : proc_result σ :=
  { status := status, ch := s.ch, store := s.store, procflags := s.procflags,
    bundle := s.buffer, dacs_buffer := s.dacs_buffer }

/-- The all-zero `bp_data_store_t`. -/
def zero_data_store : bp_data_store_t :=
  { retxtime := ⟨0, 0⟩, cteboffset := 0, biboffset := 0, payoffset := 0, headersize := 0,
    bundlesize := 0, header := List.replicate BP_DATA_HDR_BUF_SIZE.toNat 0 }

/-- "Administrative Record" (lines 1311-1345): the admin record in the payload
block that starts at `s.index`; the state and `status` after it. -/
def process_admin {σ : Type} (N : Nat) (reader : bp_reader σ) (adapter : bp_store_t σ)
    (size : Int) (s : proc_state σ) : proc_state σ × Int :=
  /- Read Record Information -/
  let rec_type := arr_get s.buffer s.index
  let rec_status := arr_get s.buffer (s.index + 1)
  let s := { s with index := s.index + 2 }
  /- Check Record Type -/
  if rec_type = BP_PROTO_ACS_REC_TYPE then
    let r := reader.bplib_rec_acs_process (s.buffer.drop s.index.toNat) (size - s.index)
      rec_status s.ch.data_bundle.active_table N adapter.relinquish
      s.ch.data_bundle.data_store_handle s.store
    ({ s with
        ch := { s.ch with data_bundle := { s.ch.data_bundle with active_table := r.2.1 } },
        store := r.2.2 }, r.1)
  else if rec_type = BP_PROTO_CS_REC_TYPE then (s, BP_UNSUPPORTED)
  else if rec_type = BP_PROTO_STAT_REC_TYPE then (s, BP_UNSUPPORTED)
  else (s, BP_UNKNOWNREC)

/-- "Forward Bundle" (lines 1349-1402): the state and `status` after it. -/
def process_forward {σ : Type} (codec : bp_codec) (layout : bp_layout)
    (adapter : bp_store_t σ) (tm : bp_time_t) (stack : proc_stack) (priblk : bp_blk_pri_t)
    (size timeout : Int) (s : proc_state σ) : proc_state σ × Int :=
  if priblk.dstnode.value ≠ s.ch.data_bundle.primary_block.dstnode.value then
    (s, bplog BP_WRONGCHANNEL)
  else if size > s.ch.fragment_maxlength then
    (s, if priblk.allow_frag = true then BP_UNSUPPORTED else BP_BUNDLETOOLARGE)
  else if priblk.request_custody = true then
    /- Accept Custody -/
    if s.cteb_present = true then
      /- Update New Bundle Header to Send -/
      let u := update_data_header codec tm s.ch.data_bundle (s.buffer.drop s.index.toNat)
        (size - s.index) 0 (size - s.index)
      let db := { u.1 with data_storage := { u.1.data_storage with retxtime := ⟨0, 0⟩ } }
      let e := adapter.enqueue s.store db.data_store_handle (layout.data_bundle_bytes db)
        layout.sizeof_bp_data_store_t (s.buffer.drop s.index.toNat) (size - s.index) timeout
      /- Update DACS -/
      let d := update_dacs_payload codec adapter e.1 s.dacs_buffer tm s.ch.dacs_bundle
        s.ctebblk.cid.value s.ctebblk.cstnode.value s.ctebblk.cstserv.value false timeout
      ({ s with
          ch := { s.ch with data_bundle := db, dacs_bundle := d.bundle },
          store := d.store, dacs_buffer := d.buffer,
          procflags := s.procflags ||| d.flags }, e.2)
    else
      ({ s with procflags := s.procflags ||| BP_FLAG_NONCOMPLIANT }, bplog BP_UNSUPPORTED)
  else
    /- Enqueue Received Bundle As-Is in Storage Service -/
    let tmpstore := bplib_os_memset zero_data_store layout.sizeof_bp_data_store_t
      stack.tmpstore 0 layout.sizeof_bp_data_store_t
    let tmpstore := { tmpstore with bundlesize := size }
    let e := adapter.enqueue s.store s.ch.data_bundle.data_store_handle
      (layout.data_store_bytes tmpstore) layout.prologsize s.buffer size timeout
    ({ s with store := e.1 }, e.2)

/-- "Deliver bundle payload to application" (lines 1413-1438): the state and
`status` after it. -/
def process_deliver {σ : Type} (layout : bp_layout) (adapter : bp_store_t σ)
    (priblk : bp_blk_pri_t) (size timeout : Int) (s : proc_state σ) : proc_state σ × Int :=
  /- Populate Payload -/
  let pay : bp_payload_store_t :=
    { cid := s.ctebblk.cid.value, cstnode := s.ctebblk.cstnode.value,
      cstserv := s.ctebblk.cstserv.value, cstrqst := false }
  /- Set Custody Transfer Request -/
  let pay := if priblk.request_custody = true ∧ s.cteb_present = true
    then { pay with cstrqst := true } else pay
  let procflags := if priblk.request_custody = true ∧ s.cteb_present = false
    then s.procflags ||| BP_FLAG_NONCOMPLIANT else s.procflags
  /- Enqueue Payload into Storage -/
  let e := adapter.enqueue s.store s.ch.data_bundle.payload_store_handle
    (layout.payload_store_bytes pay) layout.sizeof_bp_payload_store_t
    (s.buffer.drop s.index.toNat) (size - s.index) timeout
  ({ s with
      ch := { s.ch with data_bundle := { s.ch.data_bundle with payload_storage := pay } },
      store := e.1, procflags := procflags }, e.2)

/-- The payload block (lines 1298-1444), with `index` after the block length
field: what `bplib_process` returns. -/
def process_payload {σ : Type} (N : Nat) (codec : bp_codec) (layout : bp_layout)
    (reader : bp_reader σ) (adapter : bp_store_t σ) (tm : bp_time_t) (stack : proc_stack)
    (priblk : bp_blk_pri_t) (size timeout : Int) (blk_length : Nat) (s : proc_state σ) :
    proc_result σ :=
  /- Verify Block Length -/
  if size - s.index < to_int blk_length then proc_return s BP_BUNDLEPARSEERR
  else
    /- Perform Integrity Check -/
    let v := if s.bib_present = true then
      reader.bplib_blk_bib_verify (s.buffer.drop s.index.toNat) blk_length s.bibblk else 1
    if s.bib_present = true ∧ v ≤ 0 then proc_return s (bplog v)
    else
      /- Process Payload -/
      if priblk.is_admin_rec = true then
        /- Check Record Length -/
        if blk_length < 2 then proc_return s (bplog BP_BUNDLEPARSEERR)
        else
          let a := process_admin N reader adapter size s
          proc_return a.1 (if a.2 ≤ 0 then a.2 else BP_SUCCESS)
      else
        let a :=
          if priblk.dstnode.value ≠ s.ch.data_bundle.primary_block.srcnode.value then
            process_forward codec layout adapter tm stack priblk size timeout s
          else if priblk.dstserv.value ≠ s.ch.data_bundle.primary_block.srcserv.value then
            (s, bplog BP_WRONGCHANNEL)
          else process_deliver layout adapter priblk size timeout s
        /- Return Status (Payload Blocks Must Be Last) -/
        proc_return a.1 (if a.2 ≤ 0 then a.2 else BP_SUCCESS)

/-- The blocks other than the payload block (lines 1446-1485), with `s.index`
after the block length field: the state at "Check End Index of Block", or what
`bplib_process` returns from inside the branch.  `start_index` is the index of
the block type, `flag_size` the size of the block flags field. -/
def process_other {σ : Type} (reader : bp_reader σ) (size : Int) (start_index : Int)
    (blk_type : Nat) (flag_size : Int) (blk_flags blk_length : Nat) (s : proc_state σ) :
    proc_state σ ⊕ proc_result σ :=
  if blk_type = BP_CTEB_BLK_TYPE then
    let c := reader.bplib_blk_cteb_read (s.buffer.drop s.index.toNat) (size - s.index)
    let s := { s with cteb_present := true, ctebblk := c.1 }
    if c.2 ≤ 0 then .inr (proc_return s c.2)
    else .inl { s with index := s.index + c.2 }
  else if blk_type = BP_BIB_BLK_TYPE then
    let b := reader.bplib_blk_bib_read (s.buffer.drop s.index.toNat) (size - s.index)
    let s := { s with bib_present := true, bibblk := b.1 }
    if b.2 ≤ 0 then .inr (proc_return s b.2)
    else .inl { s with index := s.index + b.2 }
  else
    /- Mark Processing as Incomplete -/
    let s := { s with procflags := s.procflags ||| BP_FLAG_INCOMPLETE }
    /- Should transmit status report that block cannot be processed -/
    let s := if blk_flags &&& BP_BLK_NOTIFYNOPROC_MASK ≠ 0
      then { s with procflags := s.procflags ||| BP_FLAG_NONCOMPLIANT } else s
    /- Delete bundle since block not recognized -/
    if blk_flags &&& BP_BLK_DELETENOPROC_MASK ≠ 0 then .inr (proc_return s BP_DROPPED)
    else
      /- Should drop block since it cannot be processed -/
      let s := if blk_flags &&& BP_BLK_DROPNOPROC_MASK ≠ 0
        then { s with procflags := s.procflags ||| BP_FLAG_NONCOMPLIANT } else s
      /- Mark As Forwarded without Processed -/
      let blk_flags := blk_flags ||| BP_BLK_FORWARDNOPROC_MASK
      let w := at_offset s.buffer start_index
        (fun b => (reader.bplib_sdnv_write_flags b flag_size blk_flags, ()))
      /- Goto Next Block -/
      .inl { s with buffer := w.1, index := to_int (s.index + blk_length) }

/-- "Parse and Process Remaining Blocks" (lines 1281-1488), run for at most
`fuel` blocks; `none` when a block is still due after them. -/
def process_blocks {σ : Type} (N : Nat) (codec : bp_codec) (layout : bp_layout)
    (reader : bp_reader σ) (adapter : bp_store_t σ) (tm : bp_time_t) (stack : proc_stack)
    (priblk : bp_blk_pri_t) (size timeout : Int) :
    Nat → proc_state σ → Option (proc_result σ)
  | 0, s => if s.index < size then none else some (proc_return s BP_SUCCESS)
  | fuel + 1, s =>
    if s.index < size then
      /- Read Block Information -/
      let start_index := s.index
      let blk_type := arr_get s.buffer s.index
      let index := s.index + 1
      let r1 := reader.bplib_sdnv_read (s.buffer.drop index.toNat) (size - index) s.flags
      let flag_size := r1.1
      let blk_flags := r1.2.1
      let index := index + flag_size
      let r2 := reader.bplib_sdnv_read (s.buffer.drop index.toNat) (size - index) r1.2.2
      let blk_length := r2.2.1
      let index := index + r2.1
      let s := { s with index := index, flags := r2.2.2 }
      if s.flags ≠ BP_SUCCESS.toNat then some (proc_return s BP_BUNDLEPARSEERR)
      else
        let end_index := to_int (index + blk_length)
        /- Check Block Type -/
        if blk_type = BP_PROTO_PAY_BLK_TYPE then
          some (process_payload N codec layout reader adapter tm stack priblk size timeout
            blk_length s)
        else
          match process_other reader size start_index blk_type flag_size blk_flags blk_length
            s with
          | .inr r => some r
          | .inl s =>
            /- Check End Index of Block -/
            if s.index ≠ end_index then some (proc_return s (bplog BP_BUNDLEPARSEERR))
            else
              process_blocks N codec layout reader adapter tm stack priblk size timeout fuel s
    else some (proc_return s BP_SUCCESS)

/-- `bplib_process` from "Setup Bundle Parsing" on (lines 1254-1492), for the
channel `ch`; `tm` is what `bplib_systime` reads, `bundle` the caller's memory,
`dacs_buffer` the static payload buffer of `update_dacs_payload`.  `none` when
the block loop does not end within `fuel` blocks. -/
def process_channel {σ : Type} (N : Nat) (codec : bp_codec) (layout : bp_layout)
    (reader : bp_reader σ) (adapter : bp_store_t σ) (st : σ) (tm : bp_time_t)
    (stack : proc_stack) (fuel : Nat) (ch : bp_channel_t) (bundle : List Nat)
    (dacs_buffer : List Nat) (size timeout : Int) : Option (proc_result σ) :=
  /- Setup Bundle Parsing -/
  let s : proc_state σ :=
    { ch := ch, store := st, procflags := 0, buffer := bundle, dacs_buffer := dacs_buffer,
      index := 0, flags := stack.flags, bib_present := false, cteb_present := false,
      ctebblk := stack.ctebblk, bibblk := stack.bibblk }
  /- Parse Primary Block -/
  let p := reader.bplib_blk_pri_read bundle size
  let priblk := p.1
  if p.2 ≤ 0 then some (proc_return s p.2)
  else
    let s := { s with index := p.2 }
    /- Set Processing Flag for Reporting Deletion -/
    let s := if priblk.report_deletion = true
      then { s with procflags := s.procflags ||| BP_FLAG_REPORTDELETE } else s
    /- Check Administrative Record Status -/
    if ch.proc_admin_only = true ∧ priblk.is_admin_rec = false then
      some (proc_return s (bplog BP_IGNORE))
    /- Check Unsupported -/
    else if priblk.allow_frag = true ∨ priblk.dictlen.value ≠ 0 then
      some (proc_return s (bplog BP_UNSUPPORTED))
    else
      /- Check Life Time -/
      let blktime : bp_time_t := ⟨priblk.createtms.value, priblk.createtmns.value⟩
      let expiretime := bplib_addtime codec.time_modulus blktime (to_int priblk.lifetime.value)
      if bplib_cmptime tm expiretime ≥ 0 then some (proc_return s (bplog BP_EXPIRED))
      else
        /- Parse and Process Remaining Blocks -/
        process_blocks N codec layout reader adapter tm stack priblk size timeout fuel s

/-- What `bplib_process` leaves behind: the return value, the `channels` array,
the store state, `*procflags`, the caller's bundle memory and the static payload
buffer of `update_dacs_payload`. -/
structure bplib_process_result (σ : Type) where
  status : Int
  channels : List bp_channel_t
  store : σ
  procflags : Nat
  bundle : Option (List Nat)
  dacs_buffer : List Nat

/-- `bplib_process` (lines 1230-1493).  `bundle` is `none` for a `NULL` pointer,
`procflags` the content of `*procflags` before the call. -/
def bplib_process {σ : Type} (N : Nat) (codec : bp_codec) (layout : bp_layout)
    (reader : bp_reader σ) (adapter : bp_store_t σ) (st : σ) (tm : bp_time_t)
    (stack : proc_stack) (fuel : Nat) (channels : List bp_channel_t) (channel : Int)
    (bundle : Option (List Nat)) (dacs_buffer : List Nat) (size timeout : Int)
    (procflags : Nat) : Option (bplib_process_result σ) :=
  /- Check Parameters -/
  if channel < 0 ∨ channel ≥ BP_MAX_CHANNELS then
    some { status := BP_PARMERR, channels := channels, store := st, procflags := procflags,
           bundle := bundle, dacs_buffer := dacs_buffer }
  else if (channels.getD channel.toNat default).channel_index ≠ channel then
    some { status := BP_INVALIDCHANNEL, channels := channels, store := st,
           procflags := procflags, bundle := bundle, dacs_buffer := dacs_buffer }
  else
    match bundle with
    | none =>
      some { status := BP_PARMERR, channels := channels, store := st, procflags := procflags,
             bundle := bundle, dacs_buffer := dacs_buffer }
    | some buf =>
      (process_channel N codec layout reader adapter st tm stack fuel
        (channels.getD channel.toNat default) buf dacs_buffer size timeout).map
      fun r =>
      { status := r.status, channels := channels.set channel.toNat r.ch, store := r.store,
        procflags := r.procflags, bundle := some r.bundle, dacs_buffer := r.dacs_buffer }

/-! ## `bplib_accept` (bplib.c, lines 1495-1558) -/

/-- What `bplib_accept` leaves behind: the return value, the channel, the store
state, the caller's buffer, `*acptflags` and the static payload buffer of
`update_dacs_payload`. -/
structure accept_result (σ : Type) where
  status : Int
  ch : bp_channel_t
  store : σ
  payload : List Nat
  acptflags : Nat
  dacs_buffer : List Nat

/-- `bplib_accept` from "Set Acceptance Flags" on (lines 1518-1557), for the
channel `ch`; `payload` is the caller's buffer. -/
def accept_channel {σ : Type} (codec : bp_codec) (layout : bp_layout) (overlay : bp_overlay)
    (adapter : bp_store_t σ) (st : σ) (tm : bp_time_t) (ch : bp_channel_t)
    (payload : List Nat) (dacs_buffer : List Nat) (size timeout : Int) : accept_result σ :=
  /- Dequeue Payload from Storage -/
  let d := adapter.dequeue st ch.data_bundle.payload_store_handle timeout
  let storelen := d.2.2.2.1
  let sid := d.2.2.2.2
  if d.2.1 ≠ BP_SUCCESS then
    { status := d.2.1, ch := ch, store := d.1, payload := payload, acptflags := 0,
      dacs_buffer := dacs_buffer }
  else if storelen < layout.sizeof_bp_payload_store_t then
    { status := bplog BP_FAILEDSTORE, ch := ch, store := d.1, payload := payload,
      acptflags := 0, dacs_buffer := dacs_buffer }
  else
    /- Access Payload -/
    let payptr := layout.payload_store_view d.2.2.1.raw
    let paylen := storelen - layout.sizeof_bp_payload_store_t
    /- Copy Payload -/
    let c : Int × List Nat × σ :=
      if size < paylen then (BP_PAYLOADTOOLARGE, payload, d.1)
      else
        /- Successfully Return Payload to Application and Relinquish Memory -/
        (paylen,
          (d.2.2.1.raw.drop layout.sizeof_bp_payload_store_t.toNat).take paylen.toNat
            ++ payload.drop paylen.toNat,
          (adapter.relinquish d.1 ch.data_bundle.payload_store_handle sid).1)
    /- Acknowledge Custody -/
    if payptr.cstrqst = true ∧ c.1 > 0 then
      let u := update_dacs_payload codec adapter c.2.2 dacs_buffer tm
        (overlay.channel_as_dacs ch) payptr.cid payptr.cstnode payptr.cstserv true timeout
      { status := c.1, ch := overlay.channel_of_dacs ch u.bundle, store := u.store,
        payload := c.2.1, acptflags := 0 ||| u.flags, dacs_buffer := u.buffer }
    else
      { status := c.1, ch := ch, store := c.2.2, payload := c.2.1, acptflags := 0,
        dacs_buffer := dacs_buffer }

/-- `bplib_accept` from "Set Acceptance Flags" to the condition of "Acknowledge
Custody" (lines 1518-1551), for the channel `ch`.  The first component is the
state at that condition, which is what the call leaves behind when
`payptr->cstrqst && (status > 0)` does not hold; the second is the payload
record `*payptr` with which `update_dacs_payload` is called when it holds. -/
def accept_payload {σ : Type} (layout : bp_layout) (adapter : bp_store_t σ) (st : σ)
    (ch : bp_channel_t) (payload : List Nat) (dacs_buffer : List Nat) (size timeout : Int) :
    accept_result σ × Option bp_payload_store_t :=
  /- Dequeue Payload from Storage -/
  let d := adapter.dequeue st ch.data_bundle.payload_store_handle timeout
  let storelen := d.2.2.2.1
  let sid := d.2.2.2.2
  if d.2.1 ≠ BP_SUCCESS then
    ({ status := d.2.1, ch := ch, store := d.1, payload := payload, acptflags := 0,
       dacs_buffer := dacs_buffer }, none)
  else if storelen < layout.sizeof_bp_payload_store_t then
    ({ status := bplog BP_FAILEDSTORE, ch := ch, store := d.1, payload := payload,
       acptflags := 0, dacs_buffer := dacs_buffer }, none)
  else
    /- Access Payload -/
    let payptr := layout.payload_store_view d.2.2.1.raw
    let paylen := storelen - layout.sizeof_bp_payload_store_t
    /- Copy Payload -/
    let c : Int × List Nat × σ :=
      if size < paylen then (BP_PAYLOADTOOLARGE, payload, d.1)
      else
        /- Successfully Return Payload to Application and Relinquish Memory -/
        (paylen,
          (d.2.2.1.raw.drop layout.sizeof_bp_payload_store_t.toNat).take paylen.toNat
            ++ payload.drop paylen.toNat,
          (adapter.relinquish d.1 ch.data_bundle.payload_store_handle sid).1)
    /- Acknowledge Custody -/
    ({ status := c.1, ch := ch, store := c.2.2, payload := c.2.1, acptflags := 0,
       dacs_buffer := dacs_buffer },
      if payptr.cstrqst = true ∧ c.1 > 0 then some payptr else none)

/-- What `bplib_accept` leaves behind: the return value, the `channels` array,
the store state, the caller's buffer, `*acptflags` and the static payload buffer
of `update_dacs_payload`. -/
structure bplib_accept_result (σ : Type) where
  status : Int
  channels : List bp_channel_t
  store : σ
  payload : Option (List Nat)
  acptflags : Nat
  dacs_buffer : List Nat

/-- `bplib_accept` (lines 1500-1558).  `payload` is `none` for a `NULL` pointer,
`acptflags` the content of `*acptflags` before the call. -/
def bplib_accept {σ : Type} (codec : bp_codec) (layout : bp_layout) (overlay : bp_overlay)
    (adapter : bp_store_t σ) (st : σ) (tm : bp_time_t) (channels : List bp_channel_t)
    (channel : Int)
    (payload : Option (List Nat)) (dacs_buffer : List Nat) (size timeout : Int)
    (acptflags : Nat) : bplib_accept_result σ :=
  /- Check Parameters -/
  if channel < 0 ∨ channel ≥ BP_MAX_CHANNELS then
    { status := BP_PARMERR, channels := channels, store := st, payload := payload,
      acptflags := acptflags, dacs_buffer := dacs_buffer }
  else if (channels.getD channel.toNat default).channel_index ≠ channel then
    { status := BP_INVALIDCHANNEL, channels := channels, store := st, payload := payload,
      acptflags := acptflags, dacs_buffer := dacs_buffer }
  else
    match payload with
    | none =>
      { status := BP_PARMERR, channels := channels, store := st, payload := payload,
        acptflags := acptflags, dacs_buffer := dacs_buffer }
    | some buf =>
      let r := accept_channel codec layout overlay adapter st tm
        (channels.getD channel.toNat default) buf dacs_buffer size timeout
      { status := r.status, channels := channels.set channel.toNat r.ch, store := r.store,
        payload := some r.payload, acptflags := r.acptflags, dacs_buffer := r.dacs_buffer }

/-- `bplib_accept` (lines 1500-1551) up to the condition of "Acknowledge
Custody": the parameter checks, then `accept_payload` on the channel.  The
first component is what the call leaves behind when it ends before that
condition or the condition does not hold. -/
def bplib_accept_payload {σ : Type} (layout : bp_layout) (adapter : bp_store_t σ) (st : σ)
    (channels : List bp_channel_t) (channel : Int) (payload : Option (List Nat))
    (dacs_buffer : List Nat) (size timeout : Int) (acptflags : Nat) :
    bplib_accept_result σ × Option bp_payload_store_t :=
  /- Check Parameters -/
  if channel < 0 ∨ channel ≥ BP_MAX_CHANNELS then
    ({ status := BP_PARMERR, channels := channels, store := st, payload := payload,
       acptflags := acptflags, dacs_buffer := dacs_buffer }, none)
  else if (channels.getD channel.toNat default).channel_index ≠ channel then
    ({ status := BP_INVALIDCHANNEL, channels := channels, store := st, payload := payload,
       acptflags := acptflags, dacs_buffer := dacs_buffer }, none)
  else
    match payload with
    | none =>
      ({ status := BP_PARMERR, channels := channels, store := st, payload := payload,
         acptflags := acptflags, dacs_buffer := dacs_buffer }, none)
    | some buf =>
      let a := accept_payload layout adapter st (channels.getD channel.toNat default) buf
        dacs_buffer size timeout
      ({ status := a.1.status, channels := channels.set channel.toNat a.1.ch,
         store := a.1.store, payload := some a.1.payload, acptflags := a.1.acptflags,
         dacs_buffer := a.1.dacs_buffer }, a.2)

/-! ## A scripted storage service and a codec, for running the model -/

/-- A call made on the storage service. -/
inductive store_call where
  | create
  | destroy (handle : Int)
  | enqueue (handle : Int) (data1 : List Nat) (data1_size : Int) (data2 : List Nat)
      (data2_size : Int) (timeout : Int)
  | dequeue (handle : Int) (timeout : Int)
  | retrieve (handle : Int) (sid : bp_sid_t) (timeout : Int)
  | refresh (handle : Int) (data : bp_storebuf) (size : Int) (offset : Int) (sid : bp_sid_t)
      (timeout : Int)
  | relinquish (handle : Int) (sid : bp_sid_t)
deriving DecidableEq, Repr

/-- The state of the scripted storage service: the calls made so far, oldest
first, the number of handles created, and the answers it will give to the next
`enqueue`, `dequeue` and `retrieve` calls. -/
structure sim_store where
  calls : List store_call
  handles : Int
  enqueues : List Int
  dequeues : List (Int × bp_storebuf × Int × bp_sid_t)
  retrieves : List (Int × bp_storebuf × Int)
deriving DecidableEq, Repr

/-- The scripted storage service: every call is logged; `create` hands out
handles 0, 1, 2, ...; `enqueue`, `dequeue` and `retrieve` give the next scripted
answer, and when the script has run out `enqueue` succeeds while `dequeue` and
`retrieve` time out. -/
def sim_adapter : bp_store_t sim_store :=
  { create := fun st =>
      ({ st with calls := st.calls ++ [.create], handles := st.handles + 1 }, st.handles),
    destroy := fun st h => ({ st with calls := st.calls ++ [.destroy h] }, BP_SUCCESS),
    enqueue := fun st h d1 n1 d2 n2 t =>
      ({ st with calls := st.calls ++ [.enqueue h d1 n1 d2 n2 t],
                 enqueues := st.enqueues.tail },
        st.enqueues.headD BP_SUCCESS),
    dequeue := fun st h t =>
      ({ st with calls := st.calls ++ [.dequeue h t], dequeues := st.dequeues.tail },
        st.dequeues.headD (BP_TIMEOUT, default, 0, BP_SID_VACANT)),
    retrieve := fun st h sid t =>
      ({ st with calls := st.calls ++ [.retrieve h sid t], retrieves := st.retrieves.tail },
        st.retrieves.headD (BP_TIMEOUT, default, 0)),
    refresh := fun st h d n o sid t =>
      ({ st with calls := st.calls ++ [.refresh h d n o sid t] }, BP_SUCCESS),
    relinquish := fun st h sid =>
      ({ st with calls := st.calls ++ [.relinquish h sid] }, BP_SUCCESS) }

/-- The scripted store before any call, with the given answers. -/
def sim_store_init (enqueues : List Int) (dequeues : List (Int × bp_storebuf × Int × bp_sid_t))
    (retrieves : List (Int × bp_storebuf × Int)) : sim_store :=
  { calls := [], handles := 0, enqueues := enqueues, dequeues := dequeues,
    retrieves := retrieves }

/-- The bytes of the fixed-width SDNV of `value` in `width` bytes, most
significant first: seven value bits a byte, the top bit set on all but the
last. -/
def sdnv_bytes (value : Nat) : Nat → List Nat
  | 0 => []
  | w + 1 => ((value / 2 ^ (7 * w)) % 128 + (if w = 0 then 0 else 128)) :: sdnv_bytes value w

/-- The memory with `bytes` written from index `i` on. -/
def write_at (buf : List Nat) (i : Nat) (bytes : List Nat) : List Nat :=
  buf.take i ++ bytes ++ buf.drop (i + bytes.length)

/-- Modelled from the spec: `bplib_sdnv_write` of the missing `bplib_sdnv.c`,
"emit exactly W bytes; if the value requires more than 7·W bits, raise the
`value-overflow` flag without corrupting surrounding bytes; set the MSB on all
but the last byte"; a zero-width descriptor is a no-op. -/
def sdnv_write_model (buf : List Nat) (_size : Option Int) (sdnv : bp_sdnv_t) :
    List Nat × Nat :=
  (write_at buf sdnv.index (sdnv_bytes sdnv.value sdnv.width),
    if sdnv.value < 2 ^ (7 * sdnv.width) then 0 else 1)

/-- A codec for running the model: the SDNV writer of the spec; block writers
that leave the memory as it is and report the block sizes of the header layout
drawn at the top of bplib.c (primary 52, CTEB 12, BIB 8, payload prelude 4); an
ACS writer that puts the first custody ID and the fills, byte for byte, in the
payload buffer. -/
def sim_codec : bp_codec :=
  { bplib_blk_pri_write := fun b _ blk _ => (b, blk, 52),
    bplib_blk_cteb_write := fun b _ blk _ => (b, blk, 12),
    bplib_blk_bib_write := fun b _ blk _ => (b, blk, 8),
    bplib_blk_pay_write := fun b _ => (b, 4),
    bplib_sdnv_write := sdnv_write_model,
    bplib_blk_bib_update := fun b _ _ _ blk => (b, blk),
    bplib_blk_pay_update := fun b _ _ => b,
    bplib_rec_acs_write := fun _ _ _ first_cid fills num_fills =>
      (first_cid :: fills.take num_fills.toNat, num_fills + 1),
    sizeof_bp_time_t := 8,
    sizeof_bp_channel_t := 1024,
    time_modulus := UINT32_MOD }

/-! ## Runs of the accumulator -/

/-- Successive calls of `update_dacs_payload`, one for each custody ID of the
list, all for the custodian `(cstnode, cstserv)`: each call works on the bundle,
the store state and the payload buffer the call before it left. -/
def dacs_feed {σ : Type} (codec : bp_codec) (adapter : bp_store_t σ) (tm : bp_time_t)
    (cstnode cstserv : Nat) (delivered : Bool) (timeout : Int) :
    List Nat → dacs_result σ → dacs_result σ
  | [], r => r
  | cid :: cids, r =>
    dacs_feed codec adapter tm cstnode cstserv delivered timeout cids
      (update_dacs_payload codec adapter r.store r.buffer tm r.bundle cid cstnode cstserv
        delivered timeout)

/-- The `channels` array after `bplib_init` on the zeroed static memory. -/
def init_channels (N : Nat) : List bp_channel_t :=
  bplib_init (List.replicate BP_MAX_CHANNELS.toNat (zero_channel N))

/-- The first channel opened after `bplib_init`, for local endpoint `1.1` and
destination `2.1`, on the scripted store with no scripted answers. -/
def fresh_open (N : Nat) : List bp_channel_t × sim_store × Int :=
  bplib_open N sim_codec sim_adapter (sim_store_init [] [] []) (init_channels N) 1 1 2 1

/-- The accumulator of the freshly opened channel, before any call. -/
def fresh_dacs (N : Nat) : dacs_result sim_store :=
  { flags := 0,
    bundle := ((fresh_open N).1.getD 0 default).dacs_bundle,
    store := (fresh_open N).2.1,
    buffer := List.replicate BP_DACS_PAY_SIZE.toNat 0 }

/-- The accumulator of the freshly opened channel after the custody IDs `cids`
have been fed to it, in order, from the custodian `(10, 0)`. -/
def dacs_after (cids : List Nat) : dacs_result sim_store :=
  dacs_feed sim_codec sim_adapter ⟨0, 0⟩ 10 0 true 0 cids (fresh_dacs BP_ACTIVE_TABLE_SIZE)

/-- The even custody IDs `0, 2, ..., 2 * (n - 1)`. -/
def even_cids (n : Nat) : List Nat := (List.range n).map (fun k => 2 * k)

/-- The accumulator of the freshly opened channel after one custody ID from each
of the custodians `(1, 0)`, `(2, 0)`, `(3, 0)` and `(4, 0)`: its table is full. -/
def dacs_four : dacs_result sim_store :=
  let f := fun (r : dacs_result sim_store) (cstnode : Nat) =>
    update_dacs_payload sim_codec sim_adapter r.store r.buffer ⟨0, 0⟩ r.bundle 0 cstnode 0
      true 0
  f (f (f (f (fresh_dacs BP_ACTIVE_TABLE_SIZE) 1) 2) 3) 4

/-- The accumulator `r` holds a single entry, for the custodian
`(cstnode, cstserv)`: it is non-empty, its last custody ID is `c`, it has `k + 1`
fills and the last of them, `fills[k]`, is `v`. -/
def dacs_run_state {σ : Type} (r : dacs_result σ) (cstnode cstserv c : Nat) (k : Int)
    (v : Nat) : Prop :=
  r.bundle.num_entries = 1 ∧
  r.bundle.dacs_storage.length = BP_DACS_TABLE_SIZE.toNat ∧
  (dacs_get r.bundle.dacs_storage 0).cstnode = cstnode ∧
  (dacs_get r.bundle.dacs_storage 0).cstserv = cstserv ∧
  (dacs_get r.bundle.dacs_storage 0).num_cids ≠ 0 ∧
  (dacs_get r.bundle.dacs_storage 0).last_cid = c ∧
  (dacs_get r.bundle.dacs_storage 0).num_fills = k + 1 ∧
  (dacs_get r.bundle.dacs_storage 0).fills.length = BP_MAX_FILLS_PER_DACS.toNat ∧
  arr_get (dacs_get r.bundle.dacs_storage 0).fills k = v

instance {σ : Type} (r : dacs_result σ) (cstnode cstserv c : Nat) (k : Int) (v : Nat) :
    Decidable (dacs_run_state r cstnode cstserv c k v) := by
  unfold dacs_run_state
  infer_instance

/-! ## Runs of `bplib_load` -/

/-- A stored data bundle: a 128-byte header of zeros followed by the payload
"ping", 132 bytes in all, due for retransmission at `retxtime`. -/
def sample_record (retxtime : bp_time_t) : bp_storebuf :=
  { raw := [],
    ds := { retxtime := retxtime, cteboffset := 52, biboffset := 64, payoffset := 72,
            headersize := 76, bundlesize := 132,
            header := List.replicate BP_DATA_HDR_BUF_SIZE.toNat 0 },
    tail := [112, 105, 110, 103] }

/-- The answer of a queue that has nothing ready. -/
def nothing_ready : Int × bp_storebuf × Int × bp_sid_t := (BP_TIMEOUT, default, 0, BP_SID_VACANT)

/-- The scripted store of the retransmission run: the ACS queue is empty at
every load, the data queue hands out one bundle under the storage ID 7, and the
bundle can be retrieved afterwards with the retransmit time `110 s` that the
first load gave it. -/
def retx_store : sim_store :=
  sim_store_init []
    [nothing_ready, (BP_SUCCESS, sample_record ⟨0, 0⟩, 260, 7), nothing_ready]
    [(BP_SUCCESS, sample_record ⟨110, 0⟩, 260)]

/-- The active-table size of the runs below: a build with
`-DBP_ACTIVE_TABLE_SIZE=4` (the define is guarded by `#ifndef`), the table size
of the spec's wrap scenario. -/
def RUN_TABLE_SIZE : Nat := 4

/-- The first channel opened after `bplib_init`, on the store `st`. -/
def open_on (st : sim_store) : List bp_channel_t × sim_store × Int :=
  bplib_open RUN_TABLE_SIZE sim_codec sim_adapter st (init_channels RUN_TABLE_SIZE) 1 1 2 1

/-- A load at `sysnow` into a 256-byte buffer of zeros, on the channel and the
store that `prev` left. -/
def load_next (sysnow : bp_time_t) (prev : bp_channel_t × sim_store) :
    Option (load_result sim_store) :=
  load_channel RUN_TABLE_SIZE sim_codec sim_adapter prev.2 sysnow prev.1
    (List.replicate 256 0) 256 0

/-- The first load of the retransmission run, at `100 s`: it emits the bundle
for the first time. -/
def retx_first : Option (load_result sim_store) :=
  load_next ⟨100, 0⟩ (((open_on retx_store).1.getD 0 default), (open_on retx_store).2.1)

/-- The second load of the retransmission run, at `111 s`, past the retransmit
time: it emits the bundle again. -/
def retx_second : Option (load_result sim_store) :=
  retx_first.bind (fun r => load_next ⟨111, 0⟩ (r.ch, r.store))

/-- The channel after the first load of the retransmission run. -/
def retx_channel : bp_channel_t := (retx_first.map (fun r => r.ch)).getD default

/-- The store after the first load of the retransmission run. -/
def retx_state : sim_store := (retx_first.map (fun r => r.store)).getD (sim_store_init [] [] [])

/-- The channel of the retransmission run after its first load, once the ACS for
the custody ID 0 has arrived: `bplib_rec_acs_process` has vacated slot 0
(spec, section 4.C). -/
def acked_channel : bp_channel_t := set_active retx_channel 0 BP_SID_VACANT

/-- A scripted store whose ACS queue is empty, whose data queue hands out one
bundle under the storage ID 8 and whose `retrieve` fails. -/
def fresh_store : sim_store :=
  sim_store_init [] [nothing_ready, (BP_SUCCESS, sample_record ⟨0, 0⟩, 260, 8)] []

/-- A load at `105 s` on the acknowledged channel: the window `[0, 1)` holds no
bundle, a fresh bundle is dequeued. -/
def fresh_after_ack : Option (load_result sim_store) :=
  load_next ⟨105, 0⟩ (acked_channel, fresh_store)

/-- A load at `105 s` on the channel of the retransmission run after its first
load, on a store that has lost the bundle: `retrieve` fails, a fresh bundle is
dequeued. -/
def fresh_after_loss : Option (load_result sim_store) :=
  load_next ⟨105, 0⟩ (retx_channel, fresh_store)

/-! ## The custody window -/

/-- The window invariant of a channel whose active table has `N` slots:
`oldest_custody_id <= current_custody_id < 2 ^ 32`; every custody ID `c` among
the last `N` assigned (`c < current <= c + N`) whose slot `c mod N` is occupied
has `oldest_custody_id <= c`; and a slot that no custody ID has reached yet
(`current <= j < N`) is vacant. -/
def custody_inv (N : Nat) (ch : bp_channel_t) : Prop :=
  ch.data_bundle.oldest_custody_id ≤ ch.data_bundle.current_custody_id ∧
  ch.data_bundle.current_custody_id < UINT32_MOD ∧
  ch.data_bundle.active_table.length = N ∧
  0 < N ∧
  (∀ c : Nat, c < ch.data_bundle.current_custody_id →
    ch.data_bundle.current_custody_id ≤ c + N →
    ch.data_bundle.active_table.getD (c % N) 0 ≠ BP_SID_VACANT →
    ch.data_bundle.oldest_custody_id ≤ c) ∧
  (∀ j : Nat, ch.data_bundle.current_custody_id ≤ j → j < N →
    ch.data_bundle.active_table.getD j 0 = BP_SID_VACANT)

/-- A stored record of size zero. -/
def empty_record : bp_storebuf :=
  { raw := [],
    ds := { retxtime := ⟨0, 0⟩, cteboffset := 0, biboffset := 0, payoffset := 0,
            headersize := 0, bundlesize := 0, header := [] },
    tail := [] }

/-- A storage service whose first queue (handle 0, the data queue of the first
channel opened on it) always has an empty bundle ready under the storage ID 1,
whose other queues are empty, and which can retrieve no bundle again.  Its state
is the number of handles created. -/
def busy_adapter : bp_store_t Nat :=
  { create := fun st => (st + 1, (st : Int)),
    destroy := fun st _ => (st, BP_SUCCESS),
    enqueue := fun st _ _ _ _ _ _ => (st, BP_SUCCESS),
    dequeue := fun st h _ =>
      if h = 0 then (st, BP_SUCCESS, empty_record, 0, 1)
      else (st, BP_TIMEOUT, empty_record, 0, BP_SID_VACANT),
    retrieve := fun st _ _ _ => (st, BP_TIMEOUT, empty_record, 0),
    refresh := fun st _ _ _ _ _ _ => (st, BP_SUCCESS),
    relinquish := fun st _ _ => (st, BP_SUCCESS) }

/-- `n` successive `bplib_load` calls on a channel, each on the channel and the
store state that the call before it left; `none` when one of them does not
return. -/
def load_repeat {σ : Type} (N : Nat) (codec : bp_codec) (adapter : bp_store_t σ)
    (sysnow : bp_time_t) (bundle : List Nat) (size timeout : Int) :
    Nat → bp_channel_t × σ → Option (bp_channel_t × σ)
  | 0, x => some x
  | n + 1, x =>
    (load_channel N codec adapter x.2 sysnow x.1 bundle size timeout).bind
      (fun r => load_repeat N codec adapter sysnow bundle size timeout n (r.ch, r.store))

/-- The first channel opened after `bplib_init` on the storage service
`busy_adapter`, with the store state after the call. -/
def busy_open : bp_channel_t × Nat :=
  ((bplib_open RUN_TABLE_SIZE sim_codec busy_adapter 0 (init_channels RUN_TABLE_SIZE)
      1 1 2 1).1.getD 0 default,
    (bplib_open RUN_TABLE_SIZE sim_codec busy_adapter 0 (init_channels RUN_TABLE_SIZE)
      1 1 2 1).2.1)

/-- The four bytes of a `uint32_t`, least significant first. -/
def le32 (v : Nat) : List Nat :=
  [v % 256, v / 256 % 256, v / 65536 % 256, v / 16777216 % 256]

/-- The `uint32_t` in the first four bytes of `b`, least significant first. -/
def rd32 (b : List Nat) : Nat :=
  b.getD 0 0 + 256 * b.getD 1 0 + 65536 * b.getD 2 0 + 16777216 * b.getD 3 0

/-- The bytes of an SDNV descriptor: value, index, width. -/
def sdnv_words (d : bp_sdnv_t) : List Nat := le32 d.value ++ le32 d.index ++ le32 d.width

/-- The bytes of a `bp_data_store_t`. -/
def data_store_words (d : bp_data_store_t) : List Nat :=
  le32 d.retxtime.s ++ le32 d.retxtime.ns ++ le32 (to_uint32 d.cteboffset)
    ++ le32 (to_uint32 d.biboffset) ++ le32 (to_uint32 d.payoffset)
    ++ le32 (to_uint32 d.headersize) ++ le32 (to_uint32 d.bundlesize) ++ d.header

/-- A layout for running the model: 32-bit little-endian words without padding,
an SDNV descriptor being three `uint32_t` and `bp_time_t` two.  The memory
from `&ch->data_bundle` on starts with the seventeen descriptors of
`primary_block` (204 bytes, more than the 156 of a `bp_data_store_t`). -/
def sim_layout : bp_layout :=
  { sizeof_int := 4,
    sizeof_bp_ipn_t := 4,
    sizeof_bp_data_store_t := 156,
    sizeof_bp_payload_store_t := 16,
    prologsize := 28,
    data_bundle_bytes := fun b =>
      let p := b.primary_block
      ([p.pcf, p.blklen, p.dstnode, p.dstserv, p.srcnode, p.srcserv, p.rptnode, p.rptserv,
        p.cstnode, p.cstserv, p.createtms, p.createtmns, p.createseq, p.lifetime, p.dictlen,
        p.fragoffset, p.paylen].map sdnv_words).flatten,
    data_store_bytes := data_store_words,
    payload_store_bytes := fun p =>
      le32 (to_uint32 (of_bool p.cstrqst)) ++ le32 p.cstnode ++ le32 p.cstserv ++ le32 p.cid,
    payload_store_view := fun b =>
      { cstrqst := decide (rd32 b ≠ 0), cstnode := rd32 (b.drop 4), cstserv := rd32 (b.drop 8),
        cid := rd32 (b.drop 12) } }

/-! ## More runs of `bplib_load` -/

/-- An ACS bundle of five bytes, as the DACS queue hands it out. -/
def acs_record : bp_storebuf := { raw := [64, 1, 0, 1, 0], ds := default, tail := [] }

/-- The store of the retransmission run after its first load, with an ACS bundle
ready on the DACS queue under the storage ID 9. -/
def acs_store : sim_store := { retx_state with dequeues := [(BP_SUCCESS, acs_record, 5, 9)] }

/-- A load at `111 s` on the channel of the retransmission run after its first
load, when an ACS bundle is ready: the bundle in slot 0 is overdue. -/
def acs_load : Option (load_result sim_store) := load_next ⟨111, 0⟩ (retx_channel, acs_store)

/-- The first load of the retransmission run, into a buffer of 10 bytes: the
bundle dequeued has 132 bytes. -/
def small_load : Option (load_result sim_store) :=
  load_channel RUN_TABLE_SIZE sim_codec sim_adapter (open_on retx_store).2.1 ⟨100, 0⟩
    ((open_on retx_store).1.getD 0 default) (List.replicate 10 0) 10 0

/-- The answers of the queues to `n` loads that each find the DACS queue empty
and a bundle on the data queue, the `k`-th under the storage ID `first + k`. -/
def feed_dequeues (first : Nat) : Nat → List (Int × bp_storebuf × Int × bp_sid_t)
  | 0 => []
  | n + 1 => nothing_ready :: (BP_SUCCESS, sample_record ⟨0, 0⟩, 260, first)
      :: feed_dequeues (first + 1) n

/-- The scripted store of the wrap runs: `n` loads find the DACS queue empty and
a bundle on the data queue (storage IDs 11, 12, ...), later loads find both
queues empty, and every `retrieve` gives the bundle with the retransmit time
`110 s`. -/
def wrap_store (n : Nat) : sim_store :=
  sim_store_init [] (feed_dequeues 11 n ++ [nothing_ready, nothing_ready])
    (List.replicate 6 (BP_SUCCESS, sample_record ⟨110, 0⟩, 260))

/-- The value `v` behind an `int*`. -/
def int_val (v : Int) : bp_optval := { as_ipn := 0, as_int := v, as_time := ⟨0, 0⟩, as_uint32 := 0 }

/-- The first channel opened on `wrap_store n`, with the wrap response `wrap`
set by `bplib_setopt`, and the store after `bplib_open`. -/
def wrap_open (n : Nat) (wrap : Int) : bp_channel_t × sim_store :=
  (((bplib_setopt sim_codec sim_layout (open_on (wrap_store n)).1 0 .BP_OPT_WRAPRSP
      (some (int_val wrap)) 4).channels).getD 0 default,
    (open_on (wrap_store n)).2.1)

/-- The channel and the store after four loads at `100 s` on `wrap_open n wrap`:
the four slots of the table hold the storage IDs 11 to 14. -/
def wrap_full (n : Nat) (wrap : Int) : Option (bp_channel_t × sim_store) :=
  load_repeat RUN_TABLE_SIZE sim_codec sim_adapter ⟨100, 0⟩ (List.replicate 256 0) 256 0 4
    (wrap_open n wrap)

/-- The fifth load at `100 s` under `BP_WRAP_DROP`, into a buffer of `size`
bytes; the data queue holds a fifth bundle, under the storage ID 15. -/
def drop_fifth (size : Int) : Option (load_result sim_store) :=
  (wrap_full 5 BP_WRAP_DROP).bind (fun x =>
    load_channel RUN_TABLE_SIZE sim_codec sim_adapter x.2 ⟨100, 0⟩ x.1
      (List.replicate 256 0) size 0)

/-- The fifth load at `100 s` under `BP_WRAP_DROP` when an ACS bundle is ready on
the DACS queue, ahead of the fifth bundle on the data queue. -/
def drop_fifth_acs : Option (load_result sim_store) :=
  (wrap_full 5 BP_WRAP_DROP).bind (fun x =>
    load_channel RUN_TABLE_SIZE sim_codec sim_adapter
      { x.2 with dequeues := (BP_SUCCESS, acs_record, 5, 9) :: x.2.dequeues.tail } ⟨100, 0⟩ x.1
      (List.replicate 256 0) 256 0)

/-- Under `BP_WRAP_RESEND`, after the four loads at `100 s`: a fifth load at
`111 s`.  The bundle of custody ID 0 is overdue. -/
def resend_fifth : Option (load_result sim_store) :=
  (wrap_full 4 BP_WRAP_RESEND).bind (fun x => load_next ⟨111, 0⟩ x)

/-- Under `BP_WRAP_RESEND`, a sixth load at `112 s`, after `resend_fifth`.  The
bundle of custody ID 0 is still overdue. -/
def resend_sixth : Option (load_result sim_store) :=
  resend_fifth.bind (fun r => load_next ⟨112, 0⟩ (r.ch, r.store))

/-- The channel and the store after the four loads of `wrap_full 5 BP_WRAP_DROP`. -/
def drop_state : bp_channel_t × sim_store :=
  (wrap_full 5 BP_WRAP_DROP).getD (default, sim_store_init [] [] [])

/-- The flag `BP_FLAG_STOREFAIL` (`0x10`, bit 4) is set in `flags`. -/
def store_fail_set (flags : Nat) : Prop := flags.testBit 4 = true

/-! ## Fragments, in the words of the spec -/

/-- The number of fragments of a payload of `n` bytes cut into fragments of at
most `f` bytes: `n / f` rounded up. -/
def frag_count (n f : Nat) : Nat := (n + f - 1) / f

/-- The length of fragment `k`: the bytes `[k * f, min ((k + 1) * f, n))`. -/
def frag_len (n f k : Nat) : Nat := min f (n - k * f)

/-- The bundle `b` is the one of fragment `k` on the channel `ch`: its fragment
offset is `k * f`, its total application-data-unit length is `n`, its
`bundlesize` is its `headersize` plus the length of the fragment, and it is
stored on the channel's data queue. -/
def frag_ok (ch : bp_channel_t) (n f k : Nat) (b : bp_data_bundle_t) : Prop :=
  b.primary_block.fragoffset.value = k * f ∧
  b.primary_block.paylen.value = n ∧
  b.data_storage.bundlesize = b.data_storage.headersize + (frag_len n f k : Int) ∧
  b.data_storage.headersize = ch.data_bundle.data_storage.headersize ∧
  b.data_store_handle = ch.data_bundle.data_store_handle

/-- The store state after the enqueue of fragment `p.1`, with the bundle `p.2`
as the header record: the payload pointer is `payload + p.1 * f` and the payload
size the length of the fragment. -/
def frag_enqueue {σ : Type} (layout : bp_layout) (adapter : bp_store_t σ)
    (payload : List Nat) (n f : Nat) (timeout : Int) (st : σ)
    (p : Nat × bp_data_bundle_t) : σ :=
  (adapter.enqueue st p.2.data_store_handle (layout.data_bundle_bytes p.2)
    layout.sizeof_bp_data_store_t (payload.drop (p.1 * f)) (frag_len n f p.1) timeout).1

/-! ## Runs of `bplib_store` -/

/-- The `channels` array after `bplib_open` on the scripted store `st`. -/
def store_open (st : sim_store) : List bp_channel_t := (open_on st).1

/-- The `channels` array of `store_open` after `bplib_setopt` has set
allow-frag and the maximum fragment length 8 on channel 0. -/
def frag_channels (st : sim_store) : List bp_channel_t :=
  (bplib_setopt sim_codec sim_layout
    (bplib_setopt sim_codec sim_layout (store_open st) 0 .BP_OPT_ALLOWFRAG_D
      (some (int_val 1)) 4).channels
    0 .BP_OPT_FRAGMENTLEN (some (int_val 8)) 4).channels

/-- The sixteen bytes of `"0123456789ABCDEF"`. -/
def frag_payload : List Nat :=
  [48, 49, 50, 51, 52, 53, 54, 55, 56, 57, 65, 66, 67, 68, 69, 70]

/-- The payload `"hello"`. -/
def hello : List Nat := [104, 101, 108, 108, 111]

/-- A scripted store whose first `enqueue` times out. -/
def timeout_store : sim_store := sim_store_init [BP_TIMEOUT] [] []

/-- `bplib_store` of `"hello"` at `7 s` on channel 0 of `store_open`, whose
options are the defaults of `bplib_open` (allow-frag is not set), on the store
that `bplib_open` left. -/
def store_hello (st : sim_store) : Option (bplib_result sim_store) :=
  bplib_store sim_codec sim_layout sim_adapter (open_on st).2.1 ⟨7, 0⟩ (store_open st) 0
    (some hello) 5 0

/-- A second `bplib_store` of `"hello"`, at `9 s`, after `store_hello`; with
`frag = true`, allow-frag is set on the channel before the two calls. -/
def store_twice (frag : Bool) : Option (bplib_result sim_store) :=
  let chs := if frag = true then
    (bplib_setopt sim_codec sim_layout (store_open (sim_store_init [] [] [])) 0
      .BP_OPT_ALLOWFRAG_D (some (int_val 1)) 4).channels
    else store_open (sim_store_init [] [] [])
  (bplib_store sim_codec sim_layout sim_adapter (open_on (sim_store_init [] [] [])).2.1 ⟨7, 0⟩
    chs 0 (some hello) 5 0).bind
    (fun r => bplib_store sim_codec sim_layout sim_adapter r.store ⟨9, 0⟩ r.channels 0
      (some hello) 5 0)

/-! ## Scripted readers, for running `bplib_process` -/

/-- Modelled from the spec: the SDNV decoder of the missing `bplib_sdnv.c`, "read
up to W bytes, each contributing 7 value bits; the MSB is a continuation flag
(1 = more follow, 0 = last)": the value and the number of bytes read, from at
most `fuel` bytes of `b`. -/
def sdnv_decode : Nat → List Nat → Nat → Nat × Nat
  | 0, _, acc => (acc, 0)
  | _ + 1, [], acc => (acc, 0)
  | fuel + 1, x :: rest, acc =>
    if x < 128 then (acc * 128 + x, 1)
    else
      let r := sdnv_decode fuel rest (acc * 128 + x % 128)
      (r.1, r.2 + 1)

/-- Modelled from the spec: `bplib_sdnv_read` of the missing `bplib_sdnv.c`; it
leaves `BP_SUCCESS`, the value that `bplib_process` compares `flags` with, in
`*flags`. -/
def sdnv_read_model (b : List Nat) (size : Int) (_flags : Nat) : Int × Nat × Nat :=
  let r := sdnv_decode size.toNat b 0
  (r.2, r.1, BP_SUCCESS.toNat)

/-- Modelled from the spec: the slots of the custody IDs `cid, ..., cid + n - 1`
after `bplib_rec_acs_process` has gone over them: "for each present CID computes
`ati = cid mod N` and, if `active_table[ati]` is not vacant, calls
`relinquish(store_handle, active_table[ati])` and vacates the slot". -/
def acs_vacate {σ : Type} (N : Nat) (relinquish : σ → Int → bp_sid_t → σ × Int)
    (handle : Int) : Nat → Nat → List bp_sid_t → σ → List bp_sid_t × σ
  | 0, _, t, st => (t, st)
  | n + 1, cid, t, st =>
    if t.getD (cid % N) 0 ≠ BP_SID_VACANT then
      acs_vacate N relinquish handle n (cid + 1) (t.set (cid % N) BP_SID_VACANT)
        (relinquish st handle (t.getD (cid % N) 0)).1
    else acs_vacate N relinquish handle n (cid + 1) t st

/-- Modelled from the spec: the walk of `bplib_rec_acs_process` over the fills,
which "alternate missing and present run lengths starting from `first_cid`";
`present` tells which kind the next fill is. -/
def acs_walk {σ : Type} (N : Nat) (relinquish : σ → Int → bp_sid_t → σ × Int)
    (handle : Int) : List Nat → Bool → Nat → List bp_sid_t → σ → List bp_sid_t × σ
  | [], _, _, t, st => (t, st)
  | r :: rest, false, cid, t, st => acs_walk N relinquish handle rest true (cid + r) t st
  | r :: rest, true, cid, t, st =>
    let v := acs_vacate N relinquish handle r cid t st
    acs_walk N relinquish handle rest false (cid + r) v.1 v.2

/-- Modelled from the spec: `bplib_rec_acs_process` of the missing
`bplib_rec_acs.c`, for a record `[first_cid SDNV][num_fills SDNV][fill SDNV]...`
whose SDNVs take one byte each. -/
def acs_process_model {σ : Type} (buf : List Nat) (_size : Int) (_rec_status : Nat)
    (table : List bp_sid_t) (N : Nat) (relinquish : σ → Int → bp_sid_t → σ × Int)
    (handle : Int) (st : σ) : Int × List bp_sid_t × σ :=
  let w := acs_walk N relinquish handle ((buf.drop 2).take (buf.getD 1 0)) false
    (buf.getD 0 0) table st
  (BP_SUCCESS, w.1, w.2)

/-- A scripted reader: `bplib_blk_pri_read` answers `pri` for every buffer, the
CTEB and BIB readers answer the file's templates with 12 and 8 bytes read, the
integrity check passes, and the SDNV and ACS readers are those modelled from the
spec. -/
def sim_reader (pri : bp_blk_pri_t × Int) : bp_reader sim_store :=
  { bplib_blk_pri_read := fun _ _ => pri,
    bplib_blk_cteb_read := fun _ _ => (native_cteb_blk, 12),
    bplib_blk_bib_read := fun _ _ => (native_bib_blk, 8),
    bplib_sdnv_read := sdnv_read_model,
    bplib_blk_bib_verify := fun _ _ _ => 1,
    bplib_rec_acs_process := acs_process_model,
    bplib_sdnv_write_flags := fun b _ v => write_at b 0 [v % 128] }

/-- The primary block of an ACS bundle created at `100 s` with a lifetime of one
hour. -/
def acs_pri : bp_blk_pri_t :=
  { native_dacs_pri_blk with
    createtms := { native_dacs_pri_blk.createtms with value := 100 },
    lifetime := { native_dacs_pri_blk.lifetime with value := 3600 } }

/-- The primary block of an ACS bundle created at `100 s` with the lifetime
`4294967295` seconds, the largest that the 32 bits of the field hold. -/
def forever_pri : bp_blk_pri_t :=
  { acs_pri with lifetime := { acs_pri.lifetime with value := 4294967295 } }

/-- An ACS bundle that acknowledges the custody ID 0: a primary block of 52
bytes, then the payload block (type 1, flags 0, length 6) with the admin record
of type `0x40`, status 1, first custody ID 0 and the two fills 0 (missing) and 1
(present). -/
def acs_bundle : List Nat := List.replicate 52 0 ++ [1, 0, 6, 64, 1, 0, 2, 0, 1]

/-- `bplib_process` of `acs_bundle` at `105 s` on the channel of the
retransmission run after its first load (`oldest_custody_id = 0`,
`current_custody_id = 1`, storage ID 7 in slot 0). -/
def acs_processed : Option (proc_result sim_store) :=
  process_channel RUN_TABLE_SIZE sim_codec sim_layout (sim_reader (acs_pri, 52)) sim_adapter
    retx_state ⟨105, 0⟩ default 4 retx_channel acs_bundle (List.replicate 136 0) 61 0

/-! ## The round trip of `"hello"` from channel A to channel B -/

/-- The `bp_data_store_t` that the memory `b` is read as under `sim_layout`: the
inverse of `data_store_words`. -/
def data_store_view (b : List Nat) : bp_data_store_t :=
  { retxtime := ⟨rd32 b, rd32 (b.drop 4)⟩,
    cteboffset := rd32 (b.drop 8), biboffset := rd32 (b.drop 12),
    payoffset := rd32 (b.drop 16), headersize := rd32 (b.drop 20),
    bundlesize := rd32 (b.drop 24),
    header := (b.drop 28).take BP_DATA_HDR_BUF_SIZE.toNat }

/-- The object that a storage service keeps for an `enqueue` call, with its
size: the first `data1_size` bytes of `data1`, then the first `data2_size` bytes
of `data2`. -/
def stored_object : store_call → Option (bp_storebuf × Int)
  | .enqueue _ data1 data1_size data2 data2_size _ =>
    some ({ raw := data1.take data1_size.toNat ++ data2.take data2_size.toNat,
            ds := data_store_view (data1.take data1_size.toNat ++ data2.take data2_size.toNat),
            tail := (data1.take data1_size.toNat ++ data2.take data2_size.toNat).drop
              sim_layout.sizeof_bp_data_store_t.toNat },
      data1_size + data2_size)
  | _ => none

/-- The `channels` array of node A: channel 0 opened with the local endpoint
`1.1` and the destination `2.1`, then allow-frag and request-custody set to
false by `bplib_setopt`. -/
def trip_a_channels : List bp_channel_t :=
  (bplib_setopt sim_codec sim_layout
    (bplib_setopt sim_codec sim_layout (store_open (sim_store_init [] [] [])) 0
      .BP_OPT_ALLOWFRAG_D (some (int_val 0)) 4).channels
    0 .BP_OPT_CSTRQST_D (some (int_val 0)) 4).channels

/-- `bplib_store` of `"hello"` at `7 s` on channel 0 of node A. -/
def trip_a_stored : Option (bplib_result sim_store) :=
  bplib_store sim_codec sim_layout sim_adapter (open_on (sim_store_init [] [] [])).2.1 ⟨7, 0⟩
    trip_a_channels 0 (some hello) 5 0

/-- The `bplib_load` at `8 s` that follows on node A, into a 256-byte buffer of
zeros: the ACS queue is empty and the data queue hands out, under the storage
ID 1, the object that `bplib_store` has enqueued. -/
def trip_a_loaded : Option (bplib_load_result sim_store) :=
  trip_a_stored.bind (fun r =>
    (r.store.calls.getLast?.bind stored_object).bind (fun o =>
      bplib_load RUN_TABLE_SIZE sim_codec sim_adapter
        { r.store with dequeues := [nothing_ready, (BP_SUCCESS, o.1, o.2, 1)] } ⟨8, 0⟩
        r.channels 0 (some (List.replicate 256 0)) 256 0 0))

/-- The bytes X that the load on node A has put in the caller's buffer. -/
def trip_x : Option (List Nat) :=
  trip_a_loaded.bind (fun r => r.bundle.map (fun b => b.take r.status.toNat))

/-- Node B after `bplib_init` and `bplib_open` with the local endpoint `2.1` and
the destination `2.1`, on a storage service of its own. -/
def trip_b_open : List bp_channel_t × sim_store × Int :=
  bplib_open RUN_TABLE_SIZE sim_codec sim_adapter (sim_store_init [] [] [])
    (init_channels RUN_TABLE_SIZE) 2 1 2 1

/-- The primary block that node A has built for its data bundles. -/
def trip_pri : bp_blk_pri_t := (trip_a_channels.getD 0 default).data_bundle.primary_block

/-- `bplib_process` of X at `9 s` on channel 0 of node B, with a reader that
takes all of X for the primary block of node A. -/
def trip_b_processed : Option (bplib_process_result sim_store) :=
  trip_x.bind (fun x =>
    bplib_process RUN_TABLE_SIZE sim_codec sim_layout (sim_reader (trip_pri, x.length))
      sim_adapter trip_b_open.2.1 ⟨9, 0⟩ default 4 trip_b_open.1 0 (some x)
      (List.replicate 136 0) x.length 0 0)

/-- The `bplib_accept` that follows on node B, into a five-byte buffer of zeros:
what it leaves behind, no custody being due for acknowledgement. -/
def trip_b_accepted : Option (bplib_accept_result sim_store) :=
  trip_b_processed.map (fun r =>
    (bplib_accept_payload sim_layout sim_adapter r.store r.channels 0
      (some (List.replicate 5 0)) r.dacs_buffer 5 0 0).1)


/-! ## Time order, in the words of the claim -/

/-- The time `a` is later than the time `b`: lexicographic on seconds, then
nanoseconds. -/
def time_later (a b : bp_time_t) : Prop := b.s < a.s ∨ (a.s = b.s ∧ b.ns < a.ns)


/-! ## Endpoint IDs, in the words of the claims -/

/-- The endpoint IDs held in a primary block: node and service of the
destination, the source, the report-to endpoint and the custodian. -/
def pri_eids (p : bp_blk_pri_t) : List Nat :=
  [p.dstnode.value, p.dstserv.value, p.srcnode.value, p.srcserv.value, p.rptnode.value,
    p.rptserv.value, p.cstnode.value, p.cstserv.value]


/-! ## Runs of `bplib_getopt` and `bplib_accept` -/

/-- `bplib_getopt` of the option `opt` on the channel that `bplib_open` has just
opened, with `len = sizeof(int)` and the caller's `int` holding `v` before the
call. -/
def getopt_fresh (opt : bp_opt) (v : Int) : opt_result :=
  bplib_getopt sim_codec sim_layout (store_open (sim_store_init [] [] [])) 0 opt
    (some (int_val v)) 4

/-- A payload record as the payload queue hands it out: the
`bp_payload_store_t` with the custody-requested mark `cstrqst`, the custodian
`10.0` and the custody ID 3, followed by the payload bytes. -/
def payload_record (cstrqst : Bool) (payload : List Nat) : bp_storebuf :=
  { raw := sim_layout.payload_store_bytes
      { cstrqst := cstrqst, cstnode := 10, cstserv := 0, cid := 3 } ++ payload,
    ds := default, tail := [] }

/-- The store of a freshly opened channel whose payload queue hands out a
custody-requested record under the storage ID 21 with the first `n` bytes of
`"hello"` as payload. -/
def custody_queue (n : Nat) : sim_store :=
  { (open_on (sim_store_init [] [] [])).2.1 with
    dequeues := [(BP_SUCCESS, payload_record true (hello.take n), 16 + n, 21)] }

/-- `bplib_accept` on `custody_queue n` into an 8-byte buffer of zeros, on the
channel that `bplib_open` has just opened, up to the condition of "Acknowledge
Custody". -/
def accept_custody (n : Nat) : accept_result sim_store × Option bp_payload_store_t :=
  accept_payload sim_layout sim_adapter (custody_queue n)
    ((store_open (sim_store_init [] [] [])).getD 0 default) (List.replicate 8 0)
    (List.replicate 136 0) 8 0

/-- The store of a freshly opened channel whose payload queue holds `"hello"`
under the storage ID 31 and then `"hi"` under the storage ID 32. -/
def two_payloads : sim_store :=
  { (open_on (sim_store_init [] [] [])).2.1 with
    dequeues := [(BP_SUCCESS, payload_record false hello, 21, 31),
                 (BP_SUCCESS, payload_record false [104, 105], 18, 32)] }

/-- `bplib_accept` on `two_payloads` into a 3-byte buffer of zeros: the state in
which it returns, the records not being custody-requested. -/
def accept_small : accept_result sim_store :=
  (accept_payload sim_layout sim_adapter two_payloads
    ((store_open (sim_store_init [] [] [])).getD 0 default) (List.replicate 3 0)
    (List.replicate 136 0) 3 0).1

/-- The `bplib_accept` that follows `accept_small`, into an 8-byte buffer of
zeros. -/
def accept_again : accept_result sim_store :=
  (accept_payload sim_layout sim_adapter accept_small.store accept_small.ch
    (List.replicate 8 0) accept_small.dacs_buffer 8 0).1


/-! ## Delivery and rejection in `bplib_process`, in the words of the claims -/

/-- The payload record of a delivered bundle: the custody-requested mark is set
if and only if the primary block requests custody and a CTEB was present; the
custody ID and the custodian are those of the CTEB block. -/
def delivered_record (request_custody cteb_present : Bool) (cteb : bp_blk_cteb_t) :
    bp_payload_store_t :=
  { cstrqst := request_custody && cteb_present, cstnode := cteb.cstnode.value,
    cstserv := cteb.cstserv.value, cid := cteb.cid.value }

/-- A CTEB block of the custodian `10.0` with the custody ID 3. -/
def sample_cteb : bp_blk_cteb_t :=
  { native_cteb_blk with
    cid := { native_cteb_blk.cid with value := 3 },
    cstnode := { native_cteb_blk.cstnode with value := 10 } }

/-- The primary block of a data bundle for the endpoint `2.dstserv` that
requests custody, created at `100 s` with a lifetime of one hour. -/
def data_pri (dstserv : Nat) : bp_blk_pri_t :=
  { native_data_pri_blk with
    dstnode := { native_data_pri_blk.dstnode with value := 2 },
    dstserv := { native_data_pri_blk.dstserv with value := dstserv },
    createtms := { native_data_pri_blk.createtms with value := 100 },
    lifetime := { native_data_pri_blk.lifetime with value := 3600 } }

/-- A data bundle: a primary block of 52 bytes, a CTEB block (type `0xA`,
flags 0, length 12), then the payload block (type 1, flags 0, length 5) with
`"hello"`. -/
def data_bundle_bytes : List Nat :=
  List.replicate 52 0 ++ [10, 0, 12] ++ List.replicate 12 0 ++ [1, 0, 5] ++ hello

/-- The `channels` array of node B after `bplib_setopt` has cleared
process-admin-only on channel 0. -/
def deliver_channels : List bp_channel_t :=
  (bplib_setopt sim_codec sim_layout trip_b_open.1 0 .BP_OPT_PROCADMINONLY
    (some (int_val 0)) 4).channels

/-- A scripted reader that takes every buffer for the primary block `pri` of
52 bytes and every CTEB block for `sample_cteb`. -/
def deliver_reader (pri : bp_blk_pri_t) : bp_reader sim_store :=
  { sim_reader (pri, 52) with bplib_blk_cteb_read := fun _ _ => (sample_cteb, 12) }

/-- `bplib_process` of `data_bundle_bytes` at `105 s` on channel 0 of node B
(local endpoint `2.1`), the bundle being read as one for the endpoint
`2.dstserv`. -/
def deliver_run (dstserv : Nat) : Option (bplib_process_result sim_store) :=
  bplib_process RUN_TABLE_SIZE sim_codec sim_layout (deliver_reader (data_pri dstserv))
    sim_adapter trip_b_open.2.1 ⟨105, 0⟩ { (default : proc_stack) with flags := 1 } 4
    deliver_channels 0 (some data_bundle_bytes) (List.replicate 136 0) 75 0 0

/-- The state of `bplib_process` in `deliver_run 1` when the payload of the
payload block is reached. -/
def deliver_state : proc_state sim_store :=
  { ch := deliver_channels.getD 0 default, store := trip_b_open.2.1, procflags := 0,
    buffer := data_bundle_bytes, dacs_buffer := List.replicate 136 0, index := 70, flags := 1,
    bib_present := false, cteb_present := true, ctebblk := sample_cteb, bibblk := default }


/-- The data bundle of `data_bundle_bytes` with a payload block of length 0. -/
def empty_data_bundle : List Nat :=
  List.replicate 52 0 ++ [10, 0, 12] ++ List.replicate 12 0 ++ [1, 0, 0]

/-- `bplib_process` of `empty_data_bundle` at `105 s` on channel 0 of node B. -/
def deliver_empty : Option (bplib_process_result sim_store) :=
  bplib_process RUN_TABLE_SIZE sim_codec sim_layout (deliver_reader (data_pri 1))
    sim_adapter trip_b_open.2.1 ⟨105, 0⟩ { (default : proc_stack) with flags := 1 } 4
    deliver_channels 0 (some empty_data_bundle) (List.replicate 136 0) 70 0 0

/-- The `return` statements of `bplib_process` that reject a bundle for a
protocol error: primary block not parsed (line 1263), expired lifetime (line
1289), SDNV parse failure (line 1300), CTEB block not parsed (line 1450), BIB
block not parsed (line 1457), mismatched block length (line 1486), payload
block shorter than declared (line 1307), failed integrity check (line 1315),
administrative record shorter than two bytes (line 1327), unsupported or
unknown administrative record type (lines 1341-1352); `other` for every other
way the call ends. -/
inductive proc_exit where
  | primary_failed | expired | sdnv_failure | cteb_failed | bib_failed | length_mismatch
  | payload_short | integrity_failed | admin_short | admin_unsupported | admin_unknown | other
deriving DecidableEq, Repr

/-- The flag `BP_FLAG_INCOMPLETE` (`0x2`, bit 1) is set in `flags`. -/
def incomplete_set (flags : Nat) : Prop := flags.testBit 1 = true

/-- The way the payload block (lines 1304-1444) ends the call, with `s.index`
after the block length field. -/
def payload_exit {σ : Type} (reader : bp_reader σ) (priblk : bp_blk_pri_t) (size : Int)
    (blk_length : Nat) (s : proc_state σ) : proc_exit :=
  /- Verify Block Length -/
  if size - s.index < to_int blk_length then .payload_short
  /- Perform Integrity Check -/
  else if s.bib_present = true ∧
      reader.bplib_blk_bib_verify (s.buffer.drop s.index.toNat) blk_length s.bibblk ≤ 0 then
    .integrity_failed
  else if priblk.is_admin_rec = true then
    /- Check Record Length -/
    if blk_length < 2 then .admin_short
    /- Check Record Type -/
    else if arr_get s.buffer s.index = BP_PROTO_ACS_REC_TYPE then .other
    else if arr_get s.buffer s.index = BP_PROTO_CS_REC_TYPE then .admin_unsupported
    else if arr_get s.buffer s.index = BP_PROTO_STAT_REC_TYPE then .admin_unsupported
    else .admin_unknown
  else .other

/-- The way the block loop (lines 1291-1488) ends the call, run for at most
`fuel` blocks; `none` when a block is still due after them. -/
def blocks_exit {σ : Type} (reader : bp_reader σ) (priblk : bp_blk_pri_t) (size : Int) :
    Nat → proc_state σ → Option proc_exit
  | 0, s => if s.index < size then none else some .other
  | fuel + 1, s =>
    if s.index < size then
      /- Read Block Information -/
      let start_index := s.index
      let blk_type := arr_get s.buffer s.index
      let index := s.index + 1
      let r1 := reader.bplib_sdnv_read (s.buffer.drop index.toNat) (size - index) s.flags
      let flag_size := r1.1
      let blk_flags := r1.2.1
      let index := index + flag_size
      let r2 := reader.bplib_sdnv_read (s.buffer.drop index.toNat) (size - index) r1.2.2
      let blk_length := r2.2.1
      let index := index + r2.1
      let s := { s with index := index, flags := r2.2.2 }
      if s.flags ≠ BP_SUCCESS.toNat then some .sdnv_failure
      else
        let end_index := to_int (index + blk_length)
        /- Check Block Type -/
        if blk_type = BP_PROTO_PAY_BLK_TYPE then some (payload_exit reader priblk size blk_length s)
        else
          match process_other reader size start_index blk_type flag_size blk_flags blk_length
            s with
          | .inr _ =>
            some (if blk_type = BP_CTEB_BLK_TYPE then .cteb_failed
              else if blk_type = BP_BIB_BLK_TYPE then .bib_failed else .other)
          | .inl s =>
            /- Check End Index of Block -/
            if s.index ≠ end_index then some .length_mismatch
            else blocks_exit reader priblk size fuel s
    else some .other

/-- The way `bplib_process` ends the call from "Setup Bundle Parsing" on
(lines 1254-1492). -/
def process_exit {σ : Type} (codec : bp_codec) (reader : bp_reader σ) (tm : bp_time_t)
    (stack : proc_stack)
    (fuel : Nat) (ch : bp_channel_t) (st : σ) (bundle dacs_buffer : List Nat) (size : Int) :
    Option proc_exit :=
  let s : proc_state σ :=
    { ch := ch, store := st, procflags := 0, buffer := bundle, dacs_buffer := dacs_buffer,
      index := 0, flags := stack.flags, bib_present := false, cteb_present := false,
      ctebblk := stack.ctebblk, bibblk := stack.bibblk }
  let p := reader.bplib_blk_pri_read bundle size
  let priblk := p.1
  if p.2 ≤ 0 then some .primary_failed
  else
    let s := { s with index := p.2 }
    let s := if priblk.report_deletion = true
      then { s with procflags := s.procflags ||| BP_FLAG_REPORTDELETE } else s
    if ch.proc_admin_only = true ∧ priblk.is_admin_rec = false then some .other
    else if priblk.allow_frag = true ∨ priblk.dictlen.value ≠ 0 then some .other
    else
      /- Check Life Time -/
      let blktime : bp_time_t := ⟨priblk.createtms.value, priblk.createtmns.value⟩
      let expiretime := bplib_addtime codec.time_modulus blktime (to_int priblk.lifetime.value)
      if bplib_cmptime tm expiretime ≥ 0 then some .expired
      else blocks_exit reader priblk size fuel s

/-- An ACS bundle whose payload block declares 9 bytes and holds 2. -/
def short_bundle : List Nat := List.replicate 52 0 ++ [1, 0, 9, 64, 1]

/-- The bundle `short_bundle` with a block of the unassigned type 9 (flags 0,
length 0) before its payload block. -/
def skipped_bundle : List Nat := List.replicate 52 0 ++ [9, 0, 0, 1, 0, 9, 64, 1]

/-- `bplib_process` of `skipped_bundle` at `105 s` on the channel of the
retransmission run after its first load. -/
def skipped_run : Option (proc_result sim_store) :=
  process_channel RUN_TABLE_SIZE sim_codec sim_layout (sim_reader (acs_pri, 52)) sim_adapter
    retx_state ⟨105, 0⟩ default 4 retx_channel skipped_bundle (List.replicate 136 0) 60 0


/-- The time at which a bundle with the primary block `p` expires, as
`bplib_process` computes it (lines 1284-1286): `bplib_addtime` of the creation
time and the lifetime, which is passed as an `int`. -/
def bundle_expiry (modulus : Nat) (p : bp_blk_pri_t) : bp_time_t :=
  bplib_addtime modulus ⟨p.createtms.value, p.createtmns.value⟩ (to_int p.lifetime.value)

/-- The lifetime of a bundle with the primary block `p` has elapsed at the time
`tm`, in the words of the claim: `tm` is at or after the creation time plus the
lifetime, as `bplib_cmptime` compares two times. -/
def lifetime_elapsed (tm : bp_time_t) (p : bp_blk_pri_t) : Prop :=
  bplib_cmptime tm ⟨p.createtms.value + p.lifetime.value, p.createtmns.value⟩ ≥ 0

/-- None of the status codes that `bplib_process` passes on from its callees
(the CTEB and BIB readers, the integrity check, the ACS record processor and
`enqueue`) is `BP_EXPIRED`. -/
def callees_never_expired {σ : Type} (reader : bp_reader σ) (adapter : bp_store_t σ) : Prop :=
  (∀ b n, (reader.bplib_blk_cteb_read b n).2 ≠ BP_EXPIRED) ∧
  (∀ b n, (reader.bplib_blk_bib_read b n).2 ≠ BP_EXPIRED) ∧
  (∀ b n blk, reader.bplib_blk_bib_verify b n blk ≠ BP_EXPIRED) ∧
  (∀ b n rs t N rel h st, (reader.bplib_rec_acs_process b n rs t N rel h st).1 ≠ BP_EXPIRED) ∧
  (∀ st h d1 n1 d2 n2 t, (adapter.enqueue st h d1 n1 d2 n2 t).2 ≠ BP_EXPIRED)

/-- The scripted reader `sim_reader` for a storage service whose state is a
number. -/
def plain_reader (pri : bp_blk_pri_t × Int) : bp_reader Nat :=
  { bplib_blk_pri_read := fun _ _ => pri,
    bplib_blk_cteb_read := fun _ _ => (native_cteb_blk, 12),
    bplib_blk_bib_read := fun _ _ => (native_bib_blk, 8),
    bplib_sdnv_read := sdnv_read_model,
    bplib_blk_bib_verify := fun _ _ _ => 1,
    bplib_rec_acs_process := acs_process_model,
    bplib_sdnv_write_flags := fun b _ v => write_at b 0 [v % 128] }


/-! ## The accumulator table, in the words of the claims -/

/-- The accumulators that `update_dacs_payload` can leave behind.  They start
from an accumulator of a channel that `bplib_open` has just opened
(`num_entries = 0`, line 901; the table is the array of `BP_DACS_TABLE_SIZE`
entries, each with an array of `BP_MAX_FILLS_PER_DACS` fills, whatever they
hold) and go on by calls of `update_dacs_payload` with any storage service,
clock, custody ID and custodian. -/
inductive dacs_reachable (codec : bp_codec) : bp_dacs_bundle_t → Prop where
  | opened (bundle : bp_dacs_bundle_t) :
      bundle.num_entries = 0 →
      bundle.dacs_storage.length = BP_DACS_TABLE_SIZE.toNat →
      (∀ i : Int, 0 ≤ i → i < BP_DACS_TABLE_SIZE →
        (dacs_get bundle.dacs_storage i).fills.length = BP_MAX_FILLS_PER_DACS.toNat) →
      dacs_reachable codec bundle
  | update {σ : Type} (adapter : bp_store_t σ) (st : σ) (buffer : List Nat) (tm : bp_time_t)
      (bundle : bp_dacs_bundle_t) (cid cstnode cstserv : Nat) (delivered : Bool)
      (timeout : Int) :
      dacs_reachable codec bundle →
      dacs_reachable codec
        (update_dacs_payload codec adapter st buffer tm bundle cid cstnode cstserv delivered
          timeout).bundle

/-- The fill count of a table entry is odd and between 1 and
`BP_MAX_FILLS_PER_DACS - 1`. -/
def fills_ok (e : bp_dacs_store_t) : Prop :=
  e.num_fills % 2 = 1 ∧ 1 ≤ e.num_fills ∧ e.num_fills ≤ BP_MAX_FILLS_PER_DACS - 1

/-- The table invariant: between 0 and `BP_DACS_TABLE_SIZE` entries in use, the
arrays of their declared sizes, the fill count of every entry in use odd and in
range, and no two entries in use for the same custodian. -/
def dacs_inv (bundle : bp_dacs_bundle_t) : Prop :=
  0 ≤ bundle.num_entries ∧ bundle.num_entries ≤ BP_DACS_TABLE_SIZE ∧
  bundle.dacs_storage.length = BP_DACS_TABLE_SIZE.toNat ∧
  (∀ i : Int, 0 ≤ i → i < BP_DACS_TABLE_SIZE →
    (dacs_get bundle.dacs_storage i).fills.length = BP_MAX_FILLS_PER_DACS.toNat) ∧
  (∀ i : Int, 0 ≤ i → i < bundle.num_entries → fills_ok (dacs_get bundle.dacs_storage i)) ∧
  (∀ i j : Int, 0 ≤ i → i < j → j < bundle.num_entries →
    ¬ ((dacs_get bundle.dacs_storage i).cstnode = (dacs_get bundle.dacs_storage j).cstnode ∧
       (dacs_get bundle.dacs_storage i).cstserv = (dacs_get bundle.dacs_storage j).cstserv))


/-! ## Runs of `bplib_load` with the timeout zero, and after a retransmission -/

/-- The scripted store of the run with the timeout zero: the ACS queue is empty
at every load, the data queue hands out one bundle under the storage ID 7, and
the bundle can be retrieved afterwards with the retransmit time `100 s` that
the first load gave it. -/
def zero_timeout_store : sim_store :=
  sim_store_init []
    [nothing_ready, (BP_SUCCESS, sample_record ⟨0, 0⟩, 260, 7), nothing_ready]
    [(BP_SUCCESS, sample_record ⟨100, 0⟩, 260)]

/-- `bplib_setopt(0, BP_OPT_TIMEOUT, &v, sizeof(int))` with `v = 0` on the first
channel opened on `zero_timeout_store`. -/
def zero_timeout_setopt : opt_result :=
  bplib_setopt sim_codec sim_layout (open_on zero_timeout_store).1 0 .BP_OPT_TIMEOUT
    (some (int_val 0)) 4

/-- The first load of the run with the timeout zero, at `100 s`: it emits the
bundle for the first time. -/
def zero_timeout_first : Option (load_result sim_store) :=
  load_next ⟨100, 0⟩ (zero_timeout_setopt.channels.getD 0 default,
    (open_on zero_timeout_store).2.1)

/-- The second load of the run with the timeout zero, at the same `100 s`. -/
def zero_timeout_second : Option (load_result sim_store) :=
  zero_timeout_first.bind (fun r => load_next ⟨100, 0⟩ (r.ch, r.store))

/-- The scripted store of the runs after a retransmission: the data queue hands
out one bundle under the storage ID 7, which can be retrieved twice afterwards
with the retransmit time `110 s`; `third` is what the fourth `dequeue` call
answers, the one on the ACS queue in the third load. -/
def resend_store (third : Int × bp_storebuf × Int × bp_sid_t) : sim_store :=
  sim_store_init []
    [nothing_ready, (BP_SUCCESS, sample_record ⟨0, 0⟩, 260, 7), nothing_ready, third,
      (BP_SUCCESS, sample_record ⟨0, 0⟩, 260, 8)]
    [(BP_SUCCESS, sample_record ⟨110, 0⟩, 260), (BP_SUCCESS, sample_record ⟨110, 0⟩, 260)]

/-- The channel and the store after the first load on `resend_store third`, at
`100 s`. -/
def resend_first (third : Int × bp_storebuf × Int × bp_sid_t) : bp_channel_t × sim_store :=
  ((load_next ⟨100, 0⟩ (((open_on (resend_store third)).1.getD 0 default),
    (open_on (resend_store third)).2.1)).map (fun r => (r.ch, r.store))).getD
      (default, sim_store_init [] [] [])

/-- The second load on `resend_store third`, at `111 s`: it re-emits the bundle,
which is overdue. -/
def resend_second (third : Int × bp_storebuf × Int × bp_sid_t) :
    Option (load_result sim_store) :=
  load_next ⟨111, 0⟩ (resend_first third)

/-- The third load on `resend_store third`, at `112 s`. -/
def resend_third (third : Int × bp_storebuf × Int × bp_sid_t) :
    Option (load_result sim_store) :=
  (resend_second third).bind (fun r => load_next ⟨112, 0⟩ (r.ch, r.store))


/-! ## Runs of the options and of `bplib_store` with the fragment length zero -/

/-- `bplib_setopt(0, BP_OPT_FRAGMENTLEN, &v, sizeof(int))` with `v = 0`, on the
first channel opened on `st` after fragmentation has been allowed with
`BP_OPT_ALLOWFRAG_D`. -/
def frag_zero_setopt (st : sim_store) : opt_result :=
  bplib_setopt sim_codec sim_layout
    (bplib_setopt sim_codec sim_layout (store_open st) 0 .BP_OPT_ALLOWFRAG_D
      (some (int_val 1)) 4).channels
    0 .BP_OPT_FRAGMENTLEN (some (int_val 0)) 4

/-- `bplib_setopt` of the `int` option `opt` to `v` on the channel that
`bplib_open` has just opened, then `bplib_getopt` of the same option with the
caller's `int` holding `before`. -/
def set_then_get (opt : bp_opt) (v before : Int) : opt_result × opt_result :=
  let s := bplib_setopt sim_codec sim_layout (store_open (sim_store_init [] [] [])) 0 opt
    (some (int_val v)) 4
  (s, bplib_getopt sim_codec sim_layout s.channels 0 opt (some (int_val before)) 4)

/-- The options whose case in `getset_opt` tests the value behind `val` ahead of
`getset`. -/
def checked_opts : List bp_opt :=
  [.BP_OPT_CREATETIMESYS_D, .BP_OPT_CSTRQST_D, .BP_OPT_ALLOWFRAG_D, .BP_OPT_PROCADMINONLY,
    .BP_OPT_WRAPRSP]


/-! ## Runs of `bplib_process` on a bundle with bytes after its payload block -/

/-- A data bundle with three bytes after its payload block: a primary block of
52 bytes, a CTEB block (type `0xA`, flags 0, length 12), a BIB block (type
`0xD`, flags 0, length 8), the payload block (type 1, flags 0, length 5) with
`"hello"`, then `"!!!"`; 89 bytes in all. -/
def trailing_bundle : List Nat :=
  List.replicate 52 0 ++ [10, 0, 12] ++ List.replicate 12 0 ++ [13, 0, 8] ++
    List.replicate 8 0 ++ [1, 0, 5] ++ hello ++ [33, 33, 33]

/-- The reader of `deliver_reader` with an integrity check that passes if and
only if the `payload_size` bytes it is given are `"hello"`. -/
def crc_reader (pri : bp_blk_pri_t) : bp_reader sim_store :=
  { deliver_reader pri with
    bplib_blk_bib_verify := fun b n _ => if b.take n.toNat = hello then 1 else 0 }

/-- `bplib_process` of `trailing_bundle` at `105 s` on channel 0 of node B (local
endpoint `2.1`), the bundle being read as one for the endpoint `2.1`: it is
delivered. -/
def deliver_trailing : Option (bplib_process_result sim_store) :=
  bplib_process RUN_TABLE_SIZE sim_codec sim_layout (crc_reader (data_pri 1))
    sim_adapter trip_b_open.2.1 ⟨105, 0⟩ { (default : proc_stack) with flags := 1 } 4
    deliver_channels 0 (some trailing_bundle) (List.replicate 136 0) 89 0 0

/-- The `bplib_accept` that follows on node B, into a 16-byte buffer of zeros,
up to the condition of "Acknowledge Custody": the payload queue hands out,
under the storage ID 1, the object that `bplib_process` has enqueued. -/
def accept_trailing : Option (bplib_accept_result sim_store) :=
  deliver_trailing.bind (fun r =>
    (r.store.calls.getLast?.bind stored_object).map (fun o =>
      (bplib_accept_payload sim_layout sim_adapter
        { r.store with dequeues := [(BP_SUCCESS, o.1, o.2, 1)] } r.channels 0
        (some (List.replicate 16 0)) r.dacs_buffer 16 0 0).1))

/-- `bplib_process` of `trailing_bundle` at `105 s` on a channel of node A (local
endpoint `1.1`, destination `2.1`) that processes data bundles: the bundle, for
the endpoint `2.1`, is forwarded with custody. -/
def forward_trailing : Option (bplib_process_result sim_store) :=
  bplib_process RUN_TABLE_SIZE sim_codec sim_layout (crc_reader (data_pri 1))
    sim_adapter (open_on (sim_store_init [] [] [])).2.1 ⟨105, 0⟩
    { (default : proc_stack) with flags := 1 } 4
    (bplib_setopt sim_codec sim_layout (store_open (sim_store_init [] [] [])) 0
      .BP_OPT_PROCADMINONLY (some (int_val 0)) 4).channels
    0 (some trailing_bundle) (List.replicate 136 0) 89 0 0

/-- The queue, the payload bytes and the payload size of an `enqueue` call. -/
def enqueued_payload : store_call → Option (Int × List Nat × Int)
  | .enqueue handle _ _ data2 data2_size _ => some (handle, data2.take data2_size.toNat, data2_size)
  | _ => none

/-- The header record of an `enqueue` call: the first `data1_size` bytes at
`data1`. -/
def enqueued_record : store_call → Option (List Nat)
  | .enqueue _ data1 data1_size _ _ _ => some (data1.take data1_size.toNat)
  | _ => none

/-- `bplib_store` of the 16 bytes `"0123456789ABCDEF"` at `7 s` on channel 0 of
`frag_channels` (allow-frag set, maximum fragment length 8), on the store that
`bplib_open` left. -/
def frag_stored : Option (bplib_result sim_store) :=
  bplib_store sim_codec sim_layout sim_adapter (open_on (sim_store_init [] [] [])).2.1 ⟨7, 0⟩
    (frag_channels (sim_store_init [] [] [])) 0 (some frag_payload) 16 0


/-! ## The blocks before the payload block -/

/-- The state in which `bplib_process` enters its block loop (lines 1254-1267):
`*procflags` cleared, no BIB and no CTEB seen (`bib_present` and `cteb_present`
are `BP_FALSE`, line 1259), the index after the primary block, and the
report-deletion flag set when the primary block asks for it. -/
def process_start {σ : Type} (reader : bp_reader σ) (st : σ) (stack : proc_stack)
    (ch : bp_channel_t) (bundle dacs_buffer : List Nat) (size : Int) : proc_state σ :=
  let s : proc_state σ :=
    { ch := ch, store := st, procflags := 0, buffer := bundle, dacs_buffer := dacs_buffer,
      index := 0, flags := stack.flags, bib_present := false, cteb_present := false,
      ctebblk := stack.ctebblk, bibblk := stack.bibblk }
  let p := reader.bplib_blk_pri_read bundle size
  let s := { s with index := p.2 }
  if p.1.report_deletion = true
    then { s with procflags := s.procflags ||| BP_FLAG_REPORTDELETE } else s

/-- The blocks that the loop of `bplib_process` (lines 1292-1488) passes before
it meets a payload block, run for at most `fuel` blocks: for each of them the
block type and the arguments `&buffer[index]` and `size - index` with which a
block reader is called on it; then the length field of the payload block and
the state in which the payload block is met.  `none` when the loop ends in
another way. -/
def blocks_before_payload {σ : Type} (reader : bp_reader σ) (size : Int) :
    Nat → proc_state σ → Option (List (Nat × List Nat × Int) × Nat × proc_state σ)
  | 0, _ => none
  | fuel + 1, s =>
    if s.index < size then
      /- Read Block Information -/
      let start_index := s.index
      let blk_type := arr_get s.buffer s.index
      let index := s.index + 1
      let r1 := reader.bplib_sdnv_read (s.buffer.drop index.toNat) (size - index) s.flags
      let flag_size := r1.1
      let blk_flags := r1.2.1
      let index := index + flag_size
      let r2 := reader.bplib_sdnv_read (s.buffer.drop index.toNat) (size - index) r1.2.2
      let blk_length := r2.2.1
      let index := index + r2.1
      let s := { s with index := index, flags := r2.2.2 }
      if s.flags ≠ BP_SUCCESS.toNat then none
      else
        let end_index := to_int (index + blk_length)
        /- Check Block Type -/
        if blk_type = BP_PROTO_PAY_BLK_TYPE then some ([], blk_length, s)
        else
          match process_other reader size start_index blk_type flag_size blk_flags blk_length
            s with
          | .inr _ => none
          | .inl s2 =>
            /- Check End Index of Block -/
            if s2.index ≠ end_index then none
            else
              (blocks_before_payload reader size fuel s2).map
                (fun t => ((blk_type, s.buffer.drop s.index.toNat, size - s.index) :: t.1, t.2))
    else none

/-- A CTEB is present among the blocks `blocks` of a bundle. -/
def has_cteb (blocks : List (Nat × List Nat × Int)) : Bool :=
  blocks.any (fun b => decide (b.1 = BP_CTEB_BLK_TYPE))

/-- The CTEB among the blocks `blocks` of a bundle, as `bplib_blk_cteb_read`
reads it: the last block of type `BP_CTEB_BLK_TYPE`; `init`, the content of the
local `ctebblk` before the loop, when there is none. -/
def last_cteb {σ : Type} (reader : bp_reader σ) (init : bp_blk_cteb_t)
    (blocks : List (Nat × List Nat × Int)) : bp_blk_cteb_t :=
  blocks.foldl
    (fun acc b =>
      if b.1 = BP_CTEB_BLK_TYPE then (reader.bplib_blk_cteb_read b.2.1 b.2.2).1 else acc)
    init

/-- A data bundle without a CTEB block: a primary block of 52 bytes, then the
payload block (type 1, flags 0, length 5) with `"hello"`. -/
def plain_bundle_bytes : List Nat := List.replicate 52 0 ++ [1, 0, 5] ++ hello

/-- `bplib_process` of `plain_bundle_bytes` at `105 s` on channel 0 of node B,
the bundle being read as one for the endpoint `2.1` that requests custody. -/
def deliver_plain : Option (proc_result sim_store) :=
  process_channel RUN_TABLE_SIZE sim_codec sim_layout (deliver_reader (data_pri 1))
    sim_adapter trip_b_open.2.1 ⟨105, 0⟩ { (default : proc_stack) with flags := 1 } 4
    (deliver_channels.getD 0 default) plain_bundle_bytes (List.replicate 136 0) 60 0


/-! # Theorems -/

/-! ## Lemmas on the accumulator -/

theorem find_dacs_entry_none (storage : List bp_dacs_store_t) (cstnode cstserv : Nat) :
    ∀ (n : Nat) (i : Int),
      (∀ j : Int, i ≤ j → j < i + n →
        ¬ ((dacs_get storage j).cstnode = cstnode ∧ (dacs_get storage j).cstserv = cstserv)) →
      find_dacs_entry storage cstnode cstserv n i = BP_DACS_TABLE_SIZE := by
  intro n
  induction n with
  | zero => intro i _; rfl
  | succ n ih =>
    intro i h
    have h0 := h i (le_refl i) (by push_cast; omega)
    rw [find_dacs_entry, if_neg h0]
    apply ih
    intro j hj1 hj2
    exact h j (by omega) (by push_cast; omega)

theorem dacs_lookup_found (codec : bp_codec) (bundle : bp_dacs_bundle_t)
    (cstnode cstserv : Nat) (i : Int)
    (hi : find_dacs_entry bundle.dacs_storage cstnode cstserv bundle.num_entries.toNat 0 = i)
    (hne : i ≠ BP_DACS_TABLE_SIZE) :
    dacs_lookup codec bundle cstnode cstserv = (bundle, i, 0) := by
  simp only [dacs_lookup, hi, hne, if_false]

theorem dacs_get_set (storage : List bp_dacs_store_t) (i : Int) (e : bp_dacs_store_t)
    (h0 : 0 ≤ i) (hlen : i.toNat < storage.length) :
    dacs_get (dacs_set storage i e) i = e := by
  have h : ¬ i < 0 := by omega
  simp only [dacs_get, dacs_set, h, if_false]
  simp [List.getD_eq_getElem?_getD, List.getElem?_set, hlen]

theorem update_dacs_payload_found {σ : Type} (codec : bp_codec)
    (adapter : bp_store_t σ) (st : σ) (buffer : List Nat) (tm : bp_time_t)
    (bundle : bp_dacs_bundle_t) (cid cstnode cstserv : Nat) (delivered : Bool) (timeout : Int)
    (i : Int)
    (hi : find_dacs_entry bundle.dacs_storage cstnode cstserv bundle.num_entries.toNat 0 = i)
    (hne : i ≠ BP_DACS_TABLE_SIZE) :
    update_dacs_payload codec adapter st buffer tm bundle cid cstnode cstserv delivered timeout
      = dacs_populate codec adapter st buffer tm bundle i 0 cid delivered timeout := by
  simp only [update_dacs_payload, dacs_lookup_found codec bundle cstnode cstserv i hi hne,
    ne_eq, hne, not_false_eq_true, if_true]

theorem update_dacs_header_handle (codec : bp_codec) (tm : bp_time_t)
    (bundle : bp_dacs_bundle_t) (dacs : bp_dacs_store_t) (payload : List Nat)
    (payload_size : Int) :
    (update_dacs_header codec tm bundle dacs payload payload_size).1.dacs_store_handle
      = bundle.dacs_store_handle ∧
    (update_dacs_header codec tm bundle dacs payload payload_size).1.dacs_storage
      = bundle.dacs_storage ∧
    (update_dacs_header codec tm bundle dacs payload payload_size).1.num_entries
      = bundle.num_entries ∧
    (update_dacs_header codec tm bundle dacs payload payload_size).2.1.fills = dacs.fills ∧
    (update_dacs_header codec tm bundle dacs payload payload_size).2.1.cstnode = dacs.cstnode ∧
    (update_dacs_header codec tm bundle dacs payload payload_size).2.1.cstserv = dacs.cstserv := by
  simp [update_dacs_header]

theorem dacs_populate_flags {σ : Type} (codec : bp_codec)
    (adapter : bp_store_t σ) (st : σ) (buffer : List Nat) (tm : bp_time_t)
    (bundle : bp_dacs_bundle_t) (i : Int) (cid : Nat) (delivered : Bool) (timeout : Int) :
    (dacs_populate codec adapter st buffer tm bundle i 0 cid delivered timeout).flags
        = (dacs_update (dacs_get bundle.dacs_storage i) cid 0).2 ∨
    (dacs_populate codec adapter st buffer tm bundle i 0 cid delivered timeout).flags
        = (dacs_update (dacs_get bundle.dacs_storage i) cid 0).2 ||| BP_FLAG_UNABLETOSTORE := by
  simp only [dacs_populate]
  split
  · simp only [dacs_send]
    split
    · right; rfl
    · left; rfl
  · left; rfl

theorem dacs_update_flags (e : bp_dacs_store_t) (cid : Nat) :
    ((dacs_update e cid 0).2 = BP_FLAG_TOOMANYFILLS ∧
      (e.num_cids ≠ 0 ∧ e.last_cid < cid ∧ BP_MAX_FILLS_PER_DACS ≤ e.num_fills + 1)) ∨
    (((dacs_update e cid 0).2 = 0 ∨ (dacs_update e cid 0).2 = BP_FLAG_CIDWENTBACKWARDS ∨
        (dacs_update e cid 0).2 = BP_FLAG_FILLOVERFLOW) ∧
      ¬ (e.num_cids ≠ 0 ∧ e.last_cid < cid ∧ BP_MAX_FILLS_PER_DACS ≤ e.num_fills + 1)) := by
  simp only [dacs_update]
  by_cases h1 : e.num_cids = 0
  · right; simp [h1]
  · by_cases h2 : cid ≤ e.last_cid
    · right
      simp only [h1, if_false, h2, if_true, Nat.zero_or]
      refine ⟨by decide, ?_⟩
      intro h; omega
    · simp only [h1, if_false, h2, update_fill]
      by_cases h3 : e.num_fills - 1 + 2 < BP_MAX_FILLS_PER_DACS
      · right
        simp only [h3, if_true]
        refine ⟨?_, ?_⟩
        · split
          · left; rfl
          · split
            · left; rfl
            · right; right; simp
        · intro h; omega
      · left
        simp only [h3, if_false, Nat.zero_or, true_and]
        refine ⟨h1, by omega, by omega⟩

theorem dacs_set_length (storage : List bp_dacs_store_t) (i : Int) (e : bp_dacs_store_t) :
    (dacs_set storage i e).length = storage.length := by
  simp only [dacs_set]
  split <;> simp

theorem dacs_lookup_cases (codec : bp_codec) (bundle : bp_dacs_bundle_t)
    (cstnode cstserv : Nat) (hlen : bundle.dacs_storage.length = BP_DACS_TABLE_SIZE.toNat)
    (hnum : 0 ≤ bundle.num_entries) :
    ((dacs_lookup codec bundle cstnode cstserv).2.1 = BP_DACS_TABLE_SIZE ∧
      (dacs_lookup codec bundle cstnode cstserv).2.2 = BP_FLAG_TOOMANYSOURCES) ∨
    ((dacs_lookup codec bundle cstnode cstserv).2.1 ≠ BP_DACS_TABLE_SIZE ∧
      (dacs_lookup codec bundle cstnode cstserv).2.2 = 0 ∧
      (dacs_lookup codec bundle cstnode cstserv) = (bundle,
        find_dacs_entry bundle.dacs_storage cstnode cstserv bundle.num_entries.toNat 0, 0)) ∨
    ((dacs_lookup codec bundle cstnode cstserv).2.1 ≠ BP_DACS_TABLE_SIZE ∧
      (dacs_lookup codec bundle cstnode cstserv).2.2 = 0 ∧
      (dacs_get (dacs_lookup codec bundle cstnode cstserv).1.dacs_storage
        (dacs_lookup codec bundle cstnode cstserv).2.1).num_cids = 0) := by
  by_cases hf : find_dacs_entry bundle.dacs_storage cstnode cstserv bundle.num_entries.toNat 0
      = BP_DACS_TABLE_SIZE
  · by_cases hlt : bundle.num_entries < BP_DACS_TABLE_SIZE
    · right; right
      have hne : bundle.num_entries ≠ BP_DACS_TABLE_SIZE := ne_of_lt hlt
      have hl : bundle.num_entries.toNat < bundle.dacs_storage.length := by
        rw [hlen]; simp only [BP_DACS_TABLE_SIZE] at hlt ⊢; omega
      simp only [dacs_lookup, hf, if_true, hlt]
      refine ⟨hne, trivial, ?_⟩
      rw [dacs_get_set _ _ _ hnum (by simp only [initialize_dacs_header, dacs_set_length]; exact hl)]
      rw [dacs_get_set _ _ _ hnum hl]
      simp [initialize_dacs_header]
    · left
      simp only [dacs_lookup, hf, if_true, hlt, if_false, Nat.zero_or, and_self]
  · right; left
    simp only [dacs_lookup, hf, if_false, ne_eq, not_false_eq_true, and_self]

theorem find_dacs_entry_range (storage : List bp_dacs_store_t) (cstnode cstserv : Nat) :
    ∀ (n : Nat) (i : Int),
      find_dacs_entry storage cstnode cstserv n i = BP_DACS_TABLE_SIZE ∨
      (i ≤ find_dacs_entry storage cstnode cstserv n i ∧
        find_dacs_entry storage cstnode cstserv n i < i + n) := by
  intro n
  induction n with
  | zero => intro i; left; rfl
  | succ n ih =>
    intro i
    rw [find_dacs_entry]
    split
    · right; constructor
      · exact le_refl i
      · push_cast; omega
    · rcases ih (i + 1) with h | ⟨h1, h2⟩
      · left; exact h
      · right; constructor
        · omega
        · push_cast; omega

theorem update_fill_absorb (e : bp_dacs_store_t) (cid : Nat)
    (hgap : cid = e.last_cid + 1)
    (hrun : arr_get e.fills (e.num_fills - 1) < BP_MAX_FILL)
    (hroom : e.num_fills + 1 < BP_MAX_FILLS_PER_DACS) :
    update_fill e cid 0 =
      ({ e with last_cid := cid,
                fills := arr_set e.fills (e.num_fills - 1)
                  (arr_get e.fills (e.num_fills - 1) + 1) }, 0) := by
  have h1 : e.num_fills - 1 + 2 < BP_MAX_FILLS_PER_DACS := by omega
  have h2 : (cid - e.last_cid) % UINT32_MOD = 1 := by
    rw [hgap]; simp [UINT32_MOD]
  have h3 : (arr_get e.fills (e.num_fills - 1) + 1) % UINT32_MOD
      = arr_get e.fills (e.num_fills - 1) + 1 := by
    apply Nat.mod_eq_of_lt
    simp only [BP_MAX_FILL, UINT32_MOD] at hrun ⊢
    omega
  simp only [update_fill, h1, if_true, h2, h3]
  simp [UINT32_MOD, hrun]

theorem dacs_feed_append {σ : Type} (codec : bp_codec) (adapter : bp_store_t σ)
    (tm : bp_time_t) (cstnode cstserv : Nat) (delivered : Bool) (timeout : Int) :
    ∀ (a b : List Nat) (r : dacs_result σ),
      dacs_feed codec adapter tm cstnode cstserv delivered timeout (a ++ b) r =
      dacs_feed codec adapter tm cstnode cstserv delivered timeout b
        (dacs_feed codec adapter tm cstnode cstserv delivered timeout a r) := by
  intro a
  induction a with
  | nil => intro b r; rfl
  | cons x a ih => intro b r; simp only [List.cons_append, dacs_feed]; exact ih b _

theorem arr_get_set_eq (a : List Nat) (i : Int) (v : Nat) (h0 : 0 ≤ i)
    (hlen : i.toNat < a.length) : arr_get (arr_set a i v) i = v := by
  have h : ¬ i < 0 := by omega
  simp only [arr_get, arr_set, h, if_false]
  simp [List.getD_eq_getElem?_getD, List.getElem?_set, hlen]

theorem arr_get_set_ne (a : List Nat) (i j : Int) (v : Nat) (h0 : 0 ≤ i) (hj : 0 ≤ j)
    (hne : i ≠ j) : arr_get (arr_set a i v) j = arr_get a j := by
  have h : ¬ i < 0 := by omega
  have h' : ¬ j < 0 := by omega
  have hn : i.toNat ≠ j.toNat := by omega
  simp only [arr_get, arr_set, h, h', if_false]
  simp [List.getD_eq_getElem?_getD, List.getElem?_set, hn]

theorem arr_set_length (a : List Nat) (i : Int) (v : Nat) :
    (arr_set a i v).length = a.length := by
  simp only [arr_set]
  split <;> simp

theorem find_dacs_entry_first (storage : List bp_dacs_store_t) (cstnode cstserv : Nat)
    (n : Nat) (hn : 0 < n) (hcn : (dacs_get storage 0).cstnode = cstnode)
    (hcs : (dacs_get storage 0).cstserv = cstserv) :
    find_dacs_entry storage cstnode cstserv n 0 = 0 := by
  obtain ⟨m, rfl⟩ : ∃ m, n = m + 1 := ⟨n - 1, by omega⟩
  simp only [find_dacs_entry, hcn, hcs, and_self, if_true]

theorem update_dacs_payload_quiet {σ : Type} (codec : bp_codec)
    (adapter : bp_store_t σ) (st : σ) (buffer : List Nat) (tm : bp_time_t)
    (bundle : bp_dacs_bundle_t) (cid cstnode cstserv : Nat) (delivered : Bool) (timeout : Int)
    (i : Int)
    (hi : find_dacs_entry bundle.dacs_storage cstnode cstserv bundle.num_entries.toNat 0 = i)
    (hne : i ≠ BP_DACS_TABLE_SIZE)
    (hq : (dacs_update (dacs_get bundle.dacs_storage i) cid 0).2 = 0) :
    update_dacs_payload codec adapter st buffer tm bundle cid cstnode cstserv delivered timeout
      = { flags := 0,
          bundle :=
            { bundle with
              dacs_storage := dacs_set bundle.dacs_storage i
                (dacs_update (dacs_get bundle.dacs_storage i) cid 0).1 },
          store := st, buffer := buffer } := by
  rw [update_dacs_payload_found codec adapter st buffer tm bundle cid cstnode cstserv delivered
    timeout i hi hne]
  simp only [dacs_populate, hq, ne_eq, not_true_eq_false, if_false]

theorem update_fill_append (e : bp_dacs_store_t) (cid : Nat)
    (hlast : e.last_cid < cid) (hcid : cid < UINT32_MOD)
    (hgap0 : cid - e.last_cid - 1 ≠ 0)
    (hgap : cid - e.last_cid - 1 < BP_MAX_FILL)
    (hroom : e.num_fills + 1 < BP_MAX_FILLS_PER_DACS) :
    update_fill e cid 0 =
      ({ e with last_cid := cid,
                fills := arr_set (arr_set e.fills (e.num_fills - 1 + 1) (cid - e.last_cid - 1))
                  (e.num_fills - 1 + 2)
                  ((arr_get (arr_set e.fills (e.num_fills - 1 + 1) (cid - e.last_cid - 1))
                    (e.num_fills - 1 + 2) + 1) % UINT32_MOD),
                num_fills := e.num_fills + 2 }, 0) := by
  have h1 : e.num_fills - 1 + 2 < BP_MAX_FILLS_PER_DACS := by omega
  have h2 : (cid - e.last_cid) % UINT32_MOD = cid - e.last_cid :=
    Nat.mod_eq_of_lt (by omega)
  have h3 : (cid - e.last_cid + UINT32_MOD - 1) % UINT32_MOD = cid - e.last_cid - 1 := by
    have : cid - e.last_cid + UINT32_MOD - 1 = (cid - e.last_cid - 1) + UINT32_MOD := by
      simp only [UINT32_MOD] at hcid ⊢; omega
    rw [this, Nat.add_mod_right]
    exact Nat.mod_eq_of_lt (by omega)
  simp only [update_fill, h1, if_true, h2, h3, hgap0, false_and, if_false, hgap]

theorem run_state_absorb {σ : Type} (codec : bp_codec) (adapter : bp_store_t σ)
    (tm : bp_time_t) (cstnode cstserv : Nat) (delivered : Bool) (timeout : Int)
    (r : dacs_result σ) (c v : Nat) (k : Int) (hk : 0 ≤ k)
    (hk2 : k + 2 < BP_MAX_FILLS_PER_DACS)
    (h : dacs_run_state r cstnode cstserv c k v) (hv : v < BP_MAX_FILL) :
    dacs_run_state
      (update_dacs_payload codec adapter r.store r.buffer tm r.bundle (c + 1) cstnode cstserv
        delivered timeout) cstnode cstserv (c + 1) k (v + 1) := by
  obtain ⟨hn, hlen, hcn, hcs, hcids, hlast, hnf, hfl, hval⟩ := h
  have hfind : find_dacs_entry r.bundle.dacs_storage cstnode cstserv
      r.bundle.num_entries.toNat 0 = 0 :=
    find_dacs_entry_first _ _ _ _ (by rw [hn]; decide) hcn hcs
  have hidx : (dacs_get r.bundle.dacs_storage 0).num_fills - 1 = k := by omega
  have hu := update_fill_absorb (dacs_get r.bundle.dacs_storage 0) (c + 1)
    (by rw [hlast]) (by rw [hidx, hval]; exact hv) (by omega)
  rw [hidx, hval] at hu
  have hd : dacs_update (dacs_get r.bundle.dacs_storage 0) (c + 1) 0
      = update_fill (dacs_get r.bundle.dacs_storage 0) (c + 1) 0 := by
    have hle : ¬ c + 1 ≤ (dacs_get r.bundle.dacs_storage 0).last_cid := by omega
    simp only [dacs_update, hcids, if_false, hle]
  rw [hu] at hd
  rw [update_dacs_payload_quiet codec adapter r.store r.buffer tm r.bundle (c + 1) cstnode
    cstserv delivered timeout 0 hfind (by decide) (by rw [hd])]
  have hk64 : k.toNat < (dacs_get r.bundle.dacs_storage 0).fills.length := by
    rw [hfl]; simp only [BP_MAX_FILLS_PER_DACS] at hk2 ⊢; omega
  have h4 : (0 : Int).toNat < r.bundle.dacs_storage.length := by rw [hlen]; decide
  simp only [dacs_run_state, dacs_set_length, dacs_get_set _ _ _ (le_refl 0) h4, hd,
    arr_set_length, arr_get_set_eq _ _ _ hk hk64]
  exact ⟨hn, hlen, hcn, hcs, hcids, trivial, hnf, hfl, trivial⟩

theorem run_state_feed {σ : Type} (codec : bp_codec) (adapter : bp_store_t σ)
    (tm : bp_time_t) (cstnode cstserv : Nat) (delivered : Bool) (timeout : Int)
    (k : Int) (hk : 0 ≤ k) (hk2 : k + 2 < BP_MAX_FILLS_PER_DACS) :
    ∀ (n : Nat) (r : dacs_result σ) (c v : Nat),
      dacs_run_state r cstnode cstserv c k v → v + n ≤ BP_MAX_FILL →
      dacs_run_state
        (dacs_feed codec adapter tm cstnode cstserv delivered timeout (List.range' (c + 1) n) r)
        cstnode cstserv (c + n) k (v + n) := by
  intro n
  induction n with
  | zero => intro r c v h _; exact h
  | succ n ih =>
    intro r c v h hv
    have hstep := run_state_absorb codec adapter tm cstnode cstserv delivered timeout r c v k
      hk hk2 h (by omega)
    have := ih _ (c + 1) (v + 1) hstep (by omega)
    simp only [List.range'_succ, dacs_feed]
    have e1 : c + (n + 1) = c + 1 + n := by omega
    have e2 : v + (n + 1) = v + 1 + n := by omega
    rw [e1, e2]
    exact this

theorem run_state_backwards {σ : Type} (codec : bp_codec) (adapter : bp_store_t σ)
    (tm : bp_time_t) (cstnode cstserv : Nat) (delivered : Bool) (timeout : Int)
    (r : dacs_result σ) (c v cid : Nat) (k : Int) (hk : 0 < k)
    (h : dacs_run_state r cstnode cstserv c k v) (hcid : cid ≤ c) :
    dacs_run_state
      (update_dacs_payload codec adapter r.store r.buffer tm r.bundle cid cstnode cstserv
        delivered timeout) cstnode cstserv cid 0 0 ∧
    arr_get (dacs_get (update_dacs_payload codec adapter r.store r.buffer tm r.bundle cid
      cstnode cstserv delivered timeout).bundle.dacs_storage 0).fills k = v := by
  obtain ⟨hn, hlen, hcn, hcs, hcids, hlast, hnf, hfl, hval⟩ := h
  have hfind : find_dacs_entry r.bundle.dacs_storage cstnode cstserv
      r.bundle.num_entries.toNat 0 = 0 :=
    find_dacs_entry_first _ _ _ _ (by rw [hn]; decide) hcn hcs
  have hu : dacs_update (dacs_get r.bundle.dacs_storage 0) cid 0
      = (dacs_get r.bundle.dacs_storage 0, BP_FLAG_CIDWENTBACKWARDS) := by
    have hle : cid ≤ (dacs_get r.bundle.dacs_storage 0).last_cid := by omega
    simp only [dacs_update, hcids, if_false, hle, if_true, Nat.zero_or]
  have hnz : BP_FLAG_CIDWENTBACKWARDS ≠ 0 := by decide
  have h4 : (0 : Int).toNat < r.bundle.dacs_storage.length := by rw [hlen]; decide
  rw [update_dacs_payload_found codec adapter r.store r.buffer tm r.bundle cid cstnode cstserv
    delivered timeout 0 hfind (by decide)]
  simp only [dacs_populate, hu, ne_eq, hnz, not_false_eq_true, if_true, dacs_send]
  obtain ⟨_, hs, hne, hf, hc1, hc2⟩ := update_dacs_header_handle codec tm r.bundle
    (dacs_get r.bundle.dacs_storage 0)
    (codec.bplib_rec_acs_write r.buffer BP_DACS_PAY_SIZE delivered
      (dacs_get r.bundle.dacs_storage 0).first_cid (dacs_get r.bundle.dacs_storage 0).fills
      (dacs_get r.bundle.dacs_storage 0).num_fills).1
    (codec.bplib_rec_acs_write r.buffer BP_DACS_PAY_SIZE delivered
      (dacs_get r.bundle.dacs_storage 0).first_cid (dacs_get r.bundle.dacs_storage 0).fills
      (dacs_get r.bundle.dacs_storage 0).num_fills).2
  have h64 : (0 : Int).toNat < (dacs_get r.bundle.dacs_storage 0).fills.length := by
    rw [hfl]; decide
  simp only [dacs_run_state, dacs_set_length, hs, hne,
    dacs_get_set _ _ _ (le_refl 0) h4, initialize_dacs_payload, hf, hc1, hc2,
    arr_set_length, arr_get_set_eq _ _ _ (le_refl 0) h64,
    arr_get_set_ne _ 0 k 0 (le_refl 0) (le_of_lt hk) (ne_of_lt hk)]
  exact ⟨⟨hn, hlen, hcn, hcs, by decide, trivial, by decide, hfl, trivial⟩, hval⟩

theorem run_state_gap {σ : Type} (codec : bp_codec) (adapter : bp_store_t σ)
    (tm : bp_time_t) (cstnode cstserv : Nat) (delivered : Bool) (timeout : Int)
    (r : dacs_result σ) (c v w : Nat) (hc : c + 2 < UINT32_MOD)
    (h : dacs_run_state r cstnode cstserv c 0 v)
    (hw : arr_get (dacs_get r.bundle.dacs_storage 0).fills 2 = w) :
    dacs_run_state
      (update_dacs_payload codec adapter r.store r.buffer tm r.bundle (c + 2) cstnode cstserv
        delivered timeout) cstnode cstserv (c + 2) 2 ((w + 1) % UINT32_MOD) := by
  obtain ⟨hn, hlen, hcn, hcs, hcids, hlast, hnf, hfl, hval⟩ := h
  have hfind : find_dacs_entry r.bundle.dacs_storage cstnode cstserv
      r.bundle.num_entries.toNat 0 = 0 :=
    find_dacs_entry_first _ _ _ _ (by rw [hn]; decide) hcn hcs
  have hg : c + 2 - (dacs_get r.bundle.dacs_storage 0).last_cid - 1 = 1 := by omega
  have hu := update_fill_append (dacs_get r.bundle.dacs_storage 0) (c + 2)
    (by omega) hc (by rw [hg]; decide) (by rw [hg]; decide) (by rw [hnf]; decide)
  rw [hg, hnf] at hu
  have hd : dacs_update (dacs_get r.bundle.dacs_storage 0) (c + 2) 0
      = update_fill (dacs_get r.bundle.dacs_storage 0) (c + 2) 0 := by
    have hle : ¬ c + 2 ≤ (dacs_get r.bundle.dacs_storage 0).last_cid := by omega
    simp only [dacs_update, hcids, if_false, hle]
  rw [hu] at hd
  rw [update_dacs_payload_quiet codec adapter r.store r.buffer tm r.bundle (c + 2) cstnode
    cstserv delivered timeout 0 hfind (by decide) (by rw [hd])]
  have h4 : (0 : Int).toNat < r.bundle.dacs_storage.length := by rw [hlen]; decide
  have h2 : (2 : Int).toNat < (arr_set (dacs_get r.bundle.dacs_storage 0).fills
      (0 + 1 - 1 + 1) 1).length := by
    rw [arr_set_length, hfl]; decide
  have e1 : (0 : Int) + 1 - 1 + 2 = 2 := by decide
  have e2 : (0 : Int) + 1 - 1 + 1 = 1 := by decide
  have e3 : (0 : Int) + 1 + 2 = 2 + 1 := by decide
  simp only [dacs_run_state, dacs_set_length, dacs_get_set _ _ _ (le_refl 0) h4, hd,
    arr_set_length]
  rw [e1, e2, e3]
  rw [e2] at h2
  rw [arr_get_set_eq _ _ _ (by decide) h2,
    arr_get_set_ne _ 1 2 1 (by decide) (by decide) (by decide), hw]
  exact ⟨hn, hlen, hcn, hcs, hcids, trivial, rfl, hfl, rfl⟩

/-! ## C1-C6: the ACS accumulator -/

/-- C1: the run appended after a gap is the stale array cell plus one, not 1.  After
the custody IDs 1, 3, 2 the entry was re-initialised at 2 (`num_fills = 1`) with
`fills[2]` still 1 from the first ACS; custody ID 4 (gap 1, room in the array)
raises no flag and appends the runs 1 and 2. -/
theorem update_dacs_payload_appends_stale_run :
    (dacs_get (dacs_after [1, 3, 2]).bundle.dacs_storage 0).num_cids = 1 ∧
    (dacs_get (dacs_after [1, 3, 2]).bundle.dacs_storage 0).last_cid = 2 ∧
    (dacs_get (dacs_after [1, 3, 2]).bundle.dacs_storage 0).num_fills = 1 ∧
    (dacs_after [1, 3, 2, 4]).flags = 0 ∧
    (dacs_get (dacs_after [1, 3, 2, 4]).bundle.dacs_storage 0).num_fills = 3 ∧
    arr_get (dacs_get (dacs_after [1, 3, 2, 4]).bundle.dacs_storage 0).fills 1 = 1 ∧
    arr_get (dacs_get (dacs_after [1, 3, 2, 4]).bundle.dacs_storage 0).fills 2 = 2 := by
  decide

/-- C2 (as stated, refuted): after the custody IDs 3, 4, 5, 8, 9 the entry does not
hold the fill runs `[0, 3, 2, 2]` with `num_fills = 4`. -/
theorem dacs_scenario_not_as_stated :
    ¬ ((dacs_get (dacs_after [3, 4, 5, 8, 9]).bundle.dacs_storage 0).first_cid = 3 ∧
       (dacs_get (dacs_after [3, 4, 5, 8, 9]).bundle.dacs_storage 0).fills.take 4
          = [0, 3, 2, 2] ∧
       (dacs_get (dacs_after [3, 4, 5, 8, 9]).bundle.dacs_storage 0).num_fills = 4) := by
  decide

/-- C2 (amended): after the custody IDs 3, 4, 5, 8, 9 from the single custodian
`(10, 0)` on a freshly opened channel, the table has one entry, for `(10, 0)`,
with `first_cid = 3`, `last_cid = 9`, `num_fills = 3` and the fill runs
`[2, 2, 2]`: two custody IDs after the first, a gap of two, a run of two. -/
theorem dacs_scenario :
    (dacs_after [3, 4, 5, 8, 9]).bundle.num_entries = 1 ∧
    (dacs_get (dacs_after [3, 4, 5, 8, 9]).bundle.dacs_storage 0).cstnode = 10 ∧
    (dacs_get (dacs_after [3, 4, 5, 8, 9]).bundle.dacs_storage 0).cstserv = 0 ∧
    (dacs_get (dacs_after [3, 4, 5, 8, 9]).bundle.dacs_storage 0).first_cid = 3 ∧
    (dacs_get (dacs_after [3, 4, 5, 8, 9]).bundle.dacs_storage 0).last_cid = 9 ∧
    (dacs_get (dacs_after [3, 4, 5, 8, 9]).bundle.dacs_storage 0).num_fills = 3 ∧
    (dacs_get (dacs_after [3, 4, 5, 8, 9]).bundle.dacs_storage 0).fills.take 3 = [2, 2, 2] := by
  decide

/-- C3 (as stated, refuted): after the custody IDs 3, 4, 5 the custody ID 4 goes
backwards; the call returns `CID_WENT_BACKWARDS` and the run state of the entry
is not what it was: `first_cid` went from 3 to 4, `last_cid` from 5 to 4,
`fills[0]` from 2 to 0. -/
theorem cid_backwards_changes_run_state :
    (dacs_get (dacs_after [3, 4, 5]).bundle.dacs_storage 0).num_cids ≠ 0 ∧
    4 ≤ (dacs_get (dacs_after [3, 4, 5]).bundle.dacs_storage 0).last_cid ∧
    (dacs_after [3, 4, 5, 4]).flags = BP_FLAG_CIDWENTBACKWARDS ∧
    (dacs_get (dacs_after [3, 4, 5]).bundle.dacs_storage 0).first_cid = 3 ∧
    (dacs_get (dacs_after [3, 4, 5, 4]).bundle.dacs_storage 0).first_cid = 4 ∧
    (dacs_get (dacs_after [3, 4, 5]).bundle.dacs_storage 0).last_cid = 5 ∧
    (dacs_get (dacs_after [3, 4, 5, 4]).bundle.dacs_storage 0).last_cid = 4 ∧
    arr_get (dacs_get (dacs_after [3, 4, 5]).bundle.dacs_storage 0).fills 0 = 2 ∧
    arr_get (dacs_get (dacs_after [3, 4, 5, 4]).bundle.dacs_storage 0).fills 0 = 0 := by
  decide

/-- C3 (amended): for a non-empty entry of the custodian and `cid <= last_cid`, the
call returns `CID_WENT_BACKWARDS` (with `UNABLE_TO_STORE` when the enqueue fails),
enqueues once the ACS built from the run state before the call, and starts the
entry anew from `cid`: `first_cid = last_cid = cid`, `fills[0] = 0`,
`num_fills = 1`, `num_cids = 1`. -/
theorem update_dacs_payload_cid_backwards {σ : Type} (codec : bp_codec)
    (adapter : bp_store_t σ) (st : σ) (buffer : List Nat) (tm : bp_time_t)
    (bundle : bp_dacs_bundle_t) (cid cstnode cstserv : Nat) (delivered : Bool) (timeout : Int)
    (i : Int)
    (hi : find_dacs_entry bundle.dacs_storage cstnode cstserv bundle.num_entries.toNat 0 = i)
    (hne : i ≠ BP_DACS_TABLE_SIZE) (h0 : 0 ≤ i) (hlen : i.toNat < bundle.dacs_storage.length)
    (hcids : (dacs_get bundle.dacs_storage i).num_cids ≠ 0)
    (hback : cid ≤ (dacs_get bundle.dacs_storage i).last_cid) :
    let e := dacs_get bundle.dacs_storage i
    let acs := codec.bplib_rec_acs_write buffer BP_DACS_PAY_SIZE delivered e.first_cid e.fills
      e.num_fills
    let hdr := update_dacs_header codec tm bundle e acs.1 acs.2
    let en := adapter.enqueue st bundle.dacs_store_handle hdr.2.1.header BP_DACS_HDR_BUF_SIZE
      acs.1 acs.2 timeout
    let r := update_dacs_payload codec adapter st buffer tm bundle cid cstnode cstserv delivered
      timeout
    let e' := dacs_get r.bundle.dacs_storage i
    r.flags = (if en.2 ≠ BP_SUCCESS then BP_FLAG_CIDWENTBACKWARDS ||| BP_FLAG_UNABLETOSTORE
               else BP_FLAG_CIDWENTBACKWARDS) ∧
    r.store = en.1 ∧ e'.first_cid = cid ∧ e'.last_cid = cid ∧ e'.fills = arr_set e.fills 0 0 ∧
    e'.num_fills = 1 ∧ e'.num_cids = 1 := by
  intro e acs hdr en r e'
  have hr : r = dacs_send codec adapter st buffer tm bundle i e BP_FLAG_CIDWENTBACKWARDS cid
      delivered timeout := by
    show update_dacs_payload codec adapter st buffer tm bundle cid cstnode cstserv delivered
      timeout = _
    rw [update_dacs_payload_found codec adapter st buffer tm bundle cid cstnode cstserv delivered
      timeout i hi hne]
    have hu : dacs_update (dacs_get bundle.dacs_storage i) cid 0
        = (dacs_get bundle.dacs_storage i, BP_FLAG_CIDWENTBACKWARDS) := by
      simp only [dacs_update, hcids, if_false, hback, if_true, Nat.zero_or]
    have hnz : BP_FLAG_CIDWENTBACKWARDS ≠ 0 := by decide
    simp only [dacs_populate, hu, ne_eq, hnz, not_false_eq_true, if_true]
  obtain ⟨hh, hs, _, hf, _, _⟩ := update_dacs_header_handle codec tm bundle e acs.1 acs.2
  have he' : e' = initialize_dacs_payload hdr.2.1 cid := by
    show dacs_get r.bundle.dacs_storage i = _
    rw [hr]
    simp only [dacs_send]
    rw [dacs_get_set _ _ _ h0 (by rw [hs]; exact hlen)]
  refine ⟨?_, ?_, ?_, ?_, ?_, ?_, ?_⟩
  · rw [hr]; simp only [dacs_send]; rw [hh]
  · rw [hr]; simp only [dacs_send]; rw [hh]
  · rw [he']; rfl
  · rw [he']; rfl
  · rw [he']; simp only [initialize_dacs_payload]; rw [hf]
  · rw [he']; rfl
  · rw [he']; rfl

/-- C3 (amended), at the custody ID 4 after the custody IDs 3, 4, 5. -/
theorem update_dacs_payload_cid_backwards_witness :
    find_dacs_entry (dacs_after [3, 4, 5]).bundle.dacs_storage 10 0
      (dacs_after [3, 4, 5]).bundle.num_entries.toNat 0 = 0 ∧
    (dacs_get (dacs_after [3, 4, 5]).bundle.dacs_storage 0).num_cids ≠ 0 ∧
    4 ≤ (dacs_get (dacs_after [3, 4, 5]).bundle.dacs_storage 0).last_cid ∧
    (dacs_get (update_dacs_payload sim_codec sim_adapter (dacs_after [3, 4, 5]).store
      (dacs_after [3, 4, 5]).buffer ⟨0, 0⟩ (dacs_after [3, 4, 5]).bundle 4 10 0 true
      0).bundle.dacs_storage 0).first_cid = 4 :=
  ⟨by decide, by decide, by decide,
    (update_dacs_payload_cid_backwards sim_codec sim_adapter (dacs_after [3, 4, 5]).store
      (dacs_after [3, 4, 5]).buffer ⟨0, 0⟩ (dacs_after [3, 4, 5]).bundle 4 10 0 true 0 0
      (by decide) (by decide) (by decide) (by decide) (by decide) (by decide)).2.2.1⟩

/-- C4: a fill run above `0x3FFF` in a reachable accumulator state.  From a freshly
opened channel the custody IDs 0, 2, 3, ..., 16384 leave the fills
`[0, 1, 0x3FFF]`; the custody ID 0 goes backwards, the ACS is sent and the entry
starts anew with `num_fills = 1`, `fills[2]` still `0x3FFF`; the custody ID 2
then appends the runs 1 and `fills[2] + 1`: `num_fills = 3` and
`fills[2] = 0x4000`. -/
theorem dacs_fill_exceeds_max :
    (dacs_get (dacs_after ([0, 2] ++ List.range' 3 16382 ++ [0] ++ [2])).bundle.dacs_storage
      0).num_fills = 3 ∧
    arr_get (dacs_get (dacs_after ([0, 2] ++ List.range' 3 16382 ++ [0] ++
      [2])).bundle.dacs_storage 0).fills 2 = 0x4000 ∧
    BP_MAX_FILL < arr_get (dacs_get (dacs_after ([0, 2] ++ List.range' 3 16382 ++ [0] ++
      [2])).bundle.dacs_storage 0).fills 2 := by
  have h0 : dacs_run_state (dacs_after [0, 2]) 10 0 2 2 1 := by decide
  have h1 : dacs_run_state
      (dacs_feed sim_codec sim_adapter ⟨0, 0⟩ 10 0 true 0 (List.range' 3 16382)
        (dacs_after [0, 2])) 10 0 16384 2 16383 :=
    run_state_feed sim_codec sim_adapter ⟨0, 0⟩ 10 0 true 0 2 (by decide) (by decide)
      16382 (dacs_after [0, 2]) 2 1 h0 (by decide)
  have h2 := run_state_backwards sim_codec sim_adapter ⟨0, 0⟩ 10 0 true 0 _ 16384 16383 0 2
    (by decide) h1 (by decide)
  have h3 := run_state_gap sim_codec sim_adapter ⟨0, 0⟩ 10 0 true 0 _ 0 0 16383
    (by decide) h2.1 h2.2
  have hrun : dacs_after ([0, 2] ++ List.range' 3 16382 ++ [0] ++ [2]) =
      dacs_feed sim_codec sim_adapter ⟨0, 0⟩ 10 0 true 0 [2]
        (dacs_feed sim_codec sim_adapter ⟨0, 0⟩ 10 0 true 0 [0]
          (dacs_feed sim_codec sim_adapter ⟨0, 0⟩ 10 0 true 0 (List.range' 3 16382)
            (dacs_after [0, 2]))) := by
    simp only [dacs_after, dacs_feed_append]
  rw [hrun]
  have h3' : dacs_run_state
      (dacs_feed sim_codec sim_adapter ⟨0, 0⟩ 10 0 true 0 [2]
        (dacs_feed sim_codec sim_adapter ⟨0, 0⟩ 10 0 true 0 [0]
          (dacs_feed sim_codec sim_adapter ⟨0, 0⟩ 10 0 true 0 (List.range' 3 16382)
            (dacs_after [0, 2])))) 10 0 2 2 ((16383 + 1) % UINT32_MOD) := h3
  obtain ⟨_, _, _, _, _, _, hnf, _, hval⟩ := h3'
  refine ⟨hnf, ?_, ?_⟩
  · rw [hval]; decide
  · rw [hval]; decide

set_option maxRecDepth 100000 in
/-- C5 (as stated, refuted): after the custody IDs 0, 2, ..., 62 the entry has 63
fills, the last of them the run 1; the custody ID 63 directly follows
`last_cid = 62`, and the call raises `TOO_MANY_FILLS`. -/
theorem gap_zero_raises_too_many_fills :
    (dacs_get (dacs_after (even_cids 32)).bundle.dacs_storage 0).num_fills = 63 ∧
    (dacs_get (dacs_after (even_cids 32)).bundle.dacs_storage 0).last_cid = 62 ∧
    arr_get (dacs_get (dacs_after (even_cids 32)).bundle.dacs_storage 0).fills 62 = 1 ∧
    (dacs_after (even_cids 32 ++ [63])).flags = BP_FLAG_TOOMANYFILLS := by
  decide

/-- C5 (amended): `TOO_MANY_FILLS` is raised exactly when the entry the call works
on is non-empty, `cid > last_cid` and `num_fills + 1 >= BP_MAX_FILLS_PER_DACS`,
whatever the gap; while `num_fills + 1 < BP_MAX_FILLS_PER_DACS`, a `cid` that
directly follows `last_cid` with the last run below `0x3FFF` is absorbed: the
last run grows by one, no flag is raised and the store is not called. -/
theorem update_dacs_payload_too_many_fills {σ : Type} (codec : bp_codec)
    (adapter : bp_store_t σ) (st : σ) (buffer : List Nat) (tm : bp_time_t)
    (bundle : bp_dacs_bundle_t) (cid cstnode cstserv : Nat) (delivered : Bool) (timeout : Int)
    (hlen : bundle.dacs_storage.length = BP_DACS_TABLE_SIZE.toNat)
    (hnum : 0 ≤ bundle.num_entries) (hnum4 : bundle.num_entries ≤ BP_DACS_TABLE_SIZE) :
    let found := dacs_lookup codec bundle cstnode cstserv
    let e := dacs_get found.1.dacs_storage found.2.1
    let r := update_dacs_payload codec adapter st buffer tm bundle cid cstnode cstserv delivered
      timeout
    (r.flags &&& BP_FLAG_TOOMANYFILLS ≠ 0 ↔
      (found.2.1 ≠ BP_DACS_TABLE_SIZE ∧ e.num_cids ≠ 0 ∧ e.last_cid < cid ∧
        BP_MAX_FILLS_PER_DACS ≤ e.num_fills + 1)) ∧
    (found.2.1 ≠ BP_DACS_TABLE_SIZE → e.num_cids ≠ 0 → cid = e.last_cid + 1 →
      arr_get e.fills (e.num_fills - 1) < BP_MAX_FILL →
      e.num_fills + 1 < BP_MAX_FILLS_PER_DACS →
      r.flags = 0 ∧ r.store = st ∧
      dacs_get r.bundle.dacs_storage found.2.1 =
        { e with last_cid := cid,
                 fills := arr_set e.fills (e.num_fills - 1)
                   (arr_get e.fills (e.num_fills - 1) + 1) }) := by
  intro found e r
  have hr : r = if found.2.1 ≠ BP_DACS_TABLE_SIZE then
      dacs_populate codec adapter st buffer tm found.1 found.2.1 found.2.2 cid delivered timeout
      else { flags := found.2.2, bundle := found.1, store := st, buffer := buffer } := rfl
  constructor
  · rcases dacs_lookup_cases codec bundle cstnode cstserv hlen hnum with
      ⟨h1, h2⟩ | ⟨h1, h2, _⟩ | ⟨h1, h2, _⟩
    · have h1' : found.2.1 = BP_DACS_TABLE_SIZE := h1
      have h2' : found.2.2 = BP_FLAG_TOOMANYSOURCES := h2
      rw [hr]
      simp only [ne_eq, h1', not_true_eq_false, if_false, h2', false_and, iff_false,
        not_not]
      decide
    all_goals
      have h1' : found.2.1 ≠ BP_DACS_TABLE_SIZE := h1
      have h2' : found.2.2 = 0 := h2
      rw [hr]
      simp only [ne_eq, h1', not_false_eq_true, if_true, h2', true_and]
      rcases dacs_update_flags e cid with ⟨hu, hc⟩ | ⟨hu, hc⟩
      · rcases dacs_populate_flags codec adapter st buffer tm found.1 found.2.1 cid delivered
          timeout with hp | hp
        all_goals
          rw [hp]
          have hu' : (dacs_update (dacs_get found.1.dacs_storage found.2.1) cid 0).2
            = BP_FLAG_TOOMANYFILLS := hu
          rw [hu']
          constructor
          · intro _; exact hc
          · intro _; decide
      · rcases dacs_populate_flags codec adapter st buffer tm found.1 found.2.1 cid delivered
          timeout with hp | hp
        all_goals
          rw [hp]
          constructor
          · intro hb
            exfalso
            rcases hu with hu | hu | hu
            all_goals
              have hu' : (dacs_update (dacs_get found.1.dacs_storage found.2.1) cid 0).2 = _ := hu
              rw [hu'] at hb
              revert hb
              decide
          · intro h; exact absurd h hc
  · intro hfound hcids hgap hrun hroom
    rcases dacs_lookup_cases codec bundle cstnode cstserv hlen hnum with
      ⟨h1, _⟩ | ⟨_, _, h3⟩ | ⟨_, _, h3⟩
    · exact absurd h1 hfound
    · have hfd : found = (bundle, find_dacs_entry bundle.dacs_storage cstnode cstserv
          bundle.num_entries.toNat 0, 0) := h3
      have hi0 : 0 ≤ found.2.1 ∧ found.2.1.toNat < found.1.dacs_storage.length := by
        rw [hfd] at hfound ⊢
        simp only at hfound ⊢
        rcases find_dacs_entry_range bundle.dacs_storage cstnode cstserv
          bundle.num_entries.toNat 0 with h | ⟨ha, hb⟩
        · exact absurd h hfound
        · rw [hlen]
          simp only [BP_DACS_TABLE_SIZE] at hnum4 ⊢
          constructor <;> omega
      have hu : dacs_update e cid 0 =
          ({ e with last_cid := cid,
                    fills := arr_set e.fills (e.num_fills - 1)
                      (arr_get e.fills (e.num_fills - 1) + 1) }, 0) := by
        have hle : ¬ cid ≤ e.last_cid := by omega
        simp only [dacs_update, hcids, if_false, hle]
        exact update_fill_absorb e cid hgap hrun hroom
      have h22 : found.2.2 = 0 := by rw [hfd]
      rw [hr]
      simp only [ne_eq, hfound, not_false_eq_true, if_true, h22, dacs_populate]
      have hu' : dacs_update (dacs_get found.1.dacs_storage found.2.1) cid 0 = _ := hu
      rw [hu']
      simp only [not_true_eq_false, if_false, true_and]
      exact dacs_get_set _ _ _ hi0.1 hi0.2
    · exact absurd h3 hcids

/-- C5 (amended), at the custody ID 6 after the custody IDs 3, 4, 5: the last run
grows from 2 to 3 and no flag is raised. -/
theorem update_dacs_payload_too_many_fills_witness :
    (dacs_after [3, 4, 5]).bundle.dacs_storage.length = BP_DACS_TABLE_SIZE.toNat ∧
    (update_dacs_payload sim_codec sim_adapter (dacs_after [3, 4, 5]).store
      (dacs_after [3, 4, 5]).buffer ⟨0, 0⟩ (dacs_after [3, 4, 5]).bundle 6 10 0 true
      0).flags = 0 :=
  ⟨by decide,
    ((update_dacs_payload_too_many_fills sim_codec sim_adapter (dacs_after [3, 4, 5]).store
      (dacs_after [3, 4, 5]).buffer ⟨0, 0⟩ (dacs_after [3, 4, 5]).bundle 6 10 0 true 0
      (by decide) (by decide) (by decide)).2
      (by decide) (by decide) (by decide) (by decide) (by decide)).1⟩

/-- C6: a custodian that matches none of the `num_entries` entries of a full table
gets exactly the flag `TOO_MANY_SOURCES`; the accumulator, the store state (for
every storage service, so no call is made on it) and the payload buffer are as
before the call. -/
theorem update_dacs_payload_too_many_sources {σ : Type} (codec : bp_codec)
    (adapter : bp_store_t σ) (st : σ) (buffer : List Nat) (tm : bp_time_t)
    (bundle : bp_dacs_bundle_t) (cid cstnode cstserv : Nat) (delivered : Bool) (timeout : Int)
    (hfull : bundle.num_entries = BP_DACS_TABLE_SIZE)
    (hnone : ∀ i : Int, 0 ≤ i → i < bundle.num_entries →
      ¬ ((dacs_get bundle.dacs_storage i).cstnode = cstnode ∧
         (dacs_get bundle.dacs_storage i).cstserv = cstserv)) :
    (update_dacs_payload codec adapter st buffer tm bundle cid cstnode cstserv delivered
        timeout).flags = BP_FLAG_TOOMANYSOURCES ∧
    (update_dacs_payload codec adapter st buffer tm bundle cid cstnode cstserv delivered
        timeout).bundle = bundle ∧
    (update_dacs_payload codec adapter st buffer tm bundle cid cstnode cstserv delivered
        timeout).store = st ∧
    (update_dacs_payload codec adapter st buffer tm bundle cid cstnode cstserv delivered
        timeout).buffer = buffer := by
  have hf : find_dacs_entry bundle.dacs_storage cstnode cstserv bundle.num_entries.toNat 0
      = BP_DACS_TABLE_SIZE := by
    apply find_dacs_entry_none
    intro j h1 h2
    apply hnone j h1
    have : (0 : Int) ≤ bundle.num_entries := by rw [hfull]; decide
    omega
  have hl : dacs_lookup codec bundle cstnode cstserv
      = (bundle, BP_DACS_TABLE_SIZE, BP_FLAG_TOOMANYSOURCES) := by
    have hlt : ¬ bundle.num_entries < BP_DACS_TABLE_SIZE := by rw [hfull]; exact lt_irrefl _
    simp only [dacs_lookup, hf, if_true, hlt, if_false, Nat.zero_or]
  simp only [update_dacs_payload, hl, ne_eq, not_true_eq_false, if_false, and_self]

/-- C6, at a fifth custodian `(5, 0)` on the full table of `dacs_four`: the flag is
`TOO_MANY_SOURCES` and the scripted store has logged no call beyond the three
`create` calls of `bplib_open`. -/
theorem update_dacs_payload_too_many_sources_witness :
    dacs_four.bundle.num_entries = BP_DACS_TABLE_SIZE ∧
    (update_dacs_payload sim_codec sim_adapter dacs_four.store dacs_four.buffer ⟨0, 0⟩
      dacs_four.bundle 7 5 0 true 0).flags = BP_FLAG_TOOMANYSOURCES ∧
    (update_dacs_payload sim_codec sim_adapter dacs_four.store dacs_four.buffer ⟨0, 0⟩
      dacs_four.bundle 7 5 0 true 0).store.calls = [.create, .create, .create] := by
  have h := update_dacs_payload_too_many_sources sim_codec sim_adapter dacs_four.store
    dacs_four.buffer ⟨0, 0⟩ dacs_four.bundle 7 5 0 true 0 (by decide)
    (by
      intro i h0 h4
      have hn : dacs_four.bundle.num_entries = 4 := by decide
      rw [hn] at h4
      interval_cases i <;> decide)
  refine ⟨by decide, h.1, ?_⟩
  rw [h.2.2.1]
  decide

/-! ## Lemmas on `bplib_load` -/

theorem load_stored_ready {σ : Type} (N : Nat) (codec : bp_codec) (adapter : bp_store_t σ)
    (sysnow : bp_time_t) (timeout : Int) (fuel : Nat) (s : load_state σ)
    (h : s.load_bundle ≠ none) :
    load_stored N codec adapter sysnow timeout fuel s = some s := by
  cases fuel with
  | zero => simp only [load_stored, h, if_false]
  | succ n => simp only [load_stored, h, if_false]

theorem load_channel_retransmit {σ : Type} (N : Nat) (codec : bp_codec)
    (adapter : bp_store_t σ) (st : σ) (sysnow : bp_time_t) (ch : bp_channel_t)
    (bundle : List Nat) (size : Int) (timeout : Int)
    (hdacs : (adapter.dequeue st ch.dacs_bundle.dacs_store_handle timeout).2.1 ≠ BP_SUCCESS)
    (hwin : ch.data_bundle.oldest_custody_id < ch.data_bundle.current_custody_id)
    (hocc : ch.data_bundle.active_table.getD (ch.data_bundle.oldest_custody_id % N) 0
      ≠ BP_SID_VACANT)
    (hret : (adapter.retrieve (adapter.dequeue st ch.dacs_bundle.dacs_store_handle timeout).1
      ch.data_bundle.data_store_handle
      (ch.data_bundle.active_table.getD (ch.data_bundle.oldest_custody_id % N) 0)
      timeout).2.1 = BP_SUCCESS)
    (hdue : bplib_cmptime sysnow
      (adapter.retrieve (adapter.dequeue st ch.dacs_bundle.dacs_store_handle timeout).1
        ch.data_bundle.data_store_handle
        (ch.data_bundle.active_table.getD (ch.data_bundle.oldest_custody_id % N) 0)
        timeout).2.2.1.ds.retxtime ≥ 0)
    (hsize : ¬ size <
      (adapter.retrieve (adapter.dequeue st ch.dacs_bundle.dacs_store_handle timeout).1
        ch.data_bundle.data_store_handle
        (ch.data_bundle.active_table.getD (ch.data_bundle.oldest_custody_id % N) 0)
        timeout).2.2.1.ds.bundlesize) :
    load_channel N codec adapter st sysnow ch bundle size timeout =
      some
        (let sid := ch.data_bundle.active_table.getD (ch.data_bundle.oldest_custody_id % N) 0
         let r := adapter.retrieve (adapter.dequeue st ch.dacs_bundle.dacs_store_handle timeout).1
           ch.data_bundle.data_store_handle sid timeout
         let cid : bp_sdnv_t :=
           { ch.data_bundle.custody_block.cid with value := ch.data_bundle.current_custody_id }
         let mem := (codec.bplib_sdnv_write (r.2.2.1.ds.header ++ r.2.2.1.tail) none cid).1
         { status := r.2.2.1.ds.bundlesize,
           ch := { ch with data_bundle := { ch.data_bundle with
             active_table :=
               ch.data_bundle.active_table.set (ch.data_bundle.current_custody_id % N) sid,
             custody_block := { ch.data_bundle.custody_block with cid := cid },
             current_custody_id := (ch.data_bundle.current_custody_id + 1) % UINT32_MOD } },
           store := (adapter.relinquish r.1 ch.data_bundle.data_store_handle sid).1,
           bundle := mem.take r.2.2.1.ds.bundlesize.toNat ++
             bundle.drop r.2.2.1.ds.bundlesize.toNat,
           loadflags := 0 }) := by
  obtain ⟨m, hm⟩ : ∃ m, 2 * (ch.data_bundle.current_custody_id -
      ch.data_bundle.oldest_custody_id) = m + 1 :=
    ⟨2 * (ch.data_bundle.current_custody_id - ch.data_bundle.oldest_custody_id) - 1, by omega⟩
  simp only [load_channel, load_setup, hdacs, if_false, hm, load_timedout, hwin, and_self,
    if_true, hocc, hret, hdue, Option.some_bind]
  rw [load_stored_ready _ _ _ _ _ _ _ (by simp)]
  simp only [Option.map_some', load_transmit, hsize, if_false, if_true, set_active]

theorem getD_set (l : List Nat) (i j v : Nat) :
    (l.set i v).getD j 0 = if i = j ∧ i < l.length then v else l.getD j 0 := by
  simp only [List.getD_eq_getElem?_getD, List.getElem?_set]
  by_cases h : i = j
  · subst h
    by_cases hl : i < l.length
    · simp [hl]
    · simp [hl]
      have : l.length ≤ i := by omega
      simp [List.getElem?_eq_none this]
  · simp [h]

theorem mod_eq_of_window (N c d : Nat) (hcd : c < d) (hd : d ≤ c + N)
    (hmod : c % N = d % N) : d = c + N := by
  have h1 : (d - c) % N = 0 := Nat.sub_mod_eq_zero_of_mod_eq hmod.symm
  have h2 : N ∣ d - c := Nat.dvd_of_mod_eq_zero h1
  have h3 : N ≤ d - c := Nat.le_of_dvd (by omega) h2
  omega

theorem custody_inv_incr_oldest (N : Nat) (ch : bp_channel_t) (h : custody_inv N ch)
    (hwin : ch.data_bundle.oldest_custody_id < ch.data_bundle.current_custody_id)
    (hvac : ch.data_bundle.active_table.getD (ch.data_bundle.oldest_custody_id % N) 0
      = BP_SID_VACANT) :
    custody_inv N (incr_oldest ch) ∧
    (incr_oldest ch).data_bundle.oldest_custody_id = ch.data_bundle.oldest_custody_id + 1 := by
  obtain ⟨h1, h2, h3, h4, h5, h6⟩ := h
  have hmod : (ch.data_bundle.oldest_custody_id + 1) % UINT32_MOD
      = ch.data_bundle.oldest_custody_id + 1 := Nat.mod_eq_of_lt (by omega)
  refine ⟨⟨?_, h2, h3, h4, ?_, h6⟩, ?_⟩
  · simp only [incr_oldest, hmod]; omega
  · intro c hc1 hc2 hocc
    simp only [incr_oldest, hmod] at hc1 hc2 hocc ⊢
    have := h5 c hc1 hc2 hocc
    by_cases hco : c = ch.data_bundle.oldest_custody_id
    · subst hco; exact absurd hvac hocc
    · omega
  · simp only [incr_oldest, hmod]

theorem custody_inv_vacate (N : Nat) (ch : bp_channel_t) (ati : Nat)
    (h : custody_inv N ch) : custody_inv N (set_active ch ati BP_SID_VACANT) := by
  obtain ⟨h1, h2, h3, h4, h5, h6⟩ := h
  refine ⟨h1, h2, ?_, h4, ?_, ?_⟩
  · simp only [set_active, List.length_set]; exact h3
  · intro c hc1 hc2 hocc
    simp only [set_active, getD_set] at hc1 hc2 hocc
    apply h5 c hc1 hc2
    split at hocc
    · exact absurd rfl hocc
    · exact hocc
  · intro j hj1 hj2
    simp only [set_active, getD_set] at hj1 ⊢
    split
    · rfl
    · exact h6 j hj1 hj2

theorem load_timedout_inv {σ : Type} (N : Nat) (adapter : bp_store_t σ) (sysnow : bp_time_t)
    (timeout : Int) :
    ∀ (fuel : Nat) (s s' : load_state σ), custody_inv N s.ch →
      load_timedout N adapter sysnow timeout fuel s = some s' →
      custody_inv N s'.ch ∧
      s'.ch.data_bundle.current_custody_id = s.ch.data_bundle.current_custody_id ∧
      s.ch.data_bundle.oldest_custody_id ≤ s'.ch.data_bundle.oldest_custody_id := by
  intro fuel
  induction fuel with
  | zero =>
    intro s s' hinv h
    simp only [load_timedout] at h
    split at h
    · exact absurd h (by simp)
    · cases h; exact ⟨hinv, rfl, le_refl _⟩
  | succ n ih =>
    intro s s' hinv h
    simp only [load_timedout] at h
    split at h
    · rename_i hc
      split at h
      · rename_i hvac
        obtain ⟨hi, ho⟩ := custody_inv_incr_oldest N s.ch hinv hc.2 hvac
        obtain ⟨a, b, c⟩ := ih _ s' hi h
        refine ⟨a, ?_, ?_⟩
        · rw [b]; rfl
        · have : s.ch.data_bundle.oldest_custody_id + 1 ≤ s'.ch.data_bundle.oldest_custody_id := by
            rw [← ho]; exact c
          omega
      · split at h
        · split at h
          · cases h; exact ⟨hinv, rfl, le_refl _⟩
          · cases h; exact ⟨hinv, rfl, le_refl _⟩
        · obtain ⟨a, b, c⟩ := ih _ s' (custody_inv_vacate N s.ch _ hinv) h
          exact ⟨a, b, c⟩
    · cases h; exact ⟨hinv, rfl, le_refl _⟩

theorem custody_inv_drop (N : Nat) (ch : bp_channel_t) (h : custody_inv N ch)
    (hocc : ch.data_bundle.active_table.getD (ch.data_bundle.current_custody_id % N) 0
      ≠ BP_SID_VACANT) :
    custody_inv N
      (incr_oldest (set_active ch (ch.data_bundle.current_custody_id % N) BP_SID_VACANT)) ∧
    (incr_oldest (set_active ch (ch.data_bundle.current_custody_id % N)
      BP_SID_VACANT)).data_bundle.oldest_custody_id = ch.data_bundle.oldest_custody_id + 1 := by
  have hv := custody_inv_vacate N ch (ch.data_bundle.current_custody_id % N) h
  obtain ⟨h1, h2, h3, h4, h5, h6⟩ := h
  have hNle : N ≤ ch.data_bundle.current_custody_id := by
    by_contra hlt
    have hlt' : ch.data_bundle.current_custody_id < N := by omega
    have := h6 ch.data_bundle.current_custody_id (le_refl _) hlt'
    rw [Nat.mod_eq_of_lt hlt'] at hocc
    exact hocc this
  have hold : ch.data_bundle.oldest_custody_id ≤ ch.data_bundle.current_custody_id - N := by
    apply h5 (ch.data_bundle.current_custody_id - N) (by omega) (by omega)
    have : (ch.data_bundle.current_custody_id - N) % N = ch.data_bundle.current_custody_id % N := by
      conv_rhs => rw [← Nat.sub_add_cancel hNle]
      rw [Nat.add_mod_right]
    rw [this]; exact hocc
  have hsub : (ch.data_bundle.current_custody_id - N) % N
      = ch.data_bundle.current_custody_id % N := by
    conv_rhs => rw [← Nat.sub_add_cancel hNle]
    rw [Nat.add_mod_right]
  have hmod : (ch.data_bundle.oldest_custody_id + 1) % UINT32_MOD
      = ch.data_bundle.oldest_custody_id + 1 := Nat.mod_eq_of_lt (by omega)
  obtain ⟨_, _, v3, _, _, v6⟩ := hv
  refine ⟨⟨?_, h2, v3, h4, ?_, v6⟩, ?_⟩
  · simp only [incr_oldest, set_active, hmod]; omega
  · intro c hc1 hc2 hocc'
    simp only [incr_oldest, set_active, hmod, getD_set] at hc1 hc2 hocc' ⊢
    by_cases hcN : c = ch.data_bundle.current_custody_id - N
    · exfalso
      rw [hcN, hsub] at hocc'
      have hlt : ch.data_bundle.current_custody_id % N < ch.data_bundle.active_table.length := by
        rw [h3]; exact Nat.mod_lt _ h4
      simp only [hlt, and_self, if_true] at hocc'
      exact hocc' rfl
    · omega
  · simp only [incr_oldest, set_active, hmod]

theorem load_stored_inv {σ : Type} (N : Nat) (codec : bp_codec) (adapter : bp_store_t σ)
    (sysnow : bp_time_t) (timeout : Int) :
    ∀ (fuel : Nat) (s s' : load_state σ),
      load_stored N codec adapter sysnow timeout fuel s = some s' → custody_inv N s.ch →
      custody_inv N s'.ch ∧
      s'.ch.data_bundle.current_custody_id = s.ch.data_bundle.current_custody_id ∧
      s.ch.data_bundle.oldest_custody_id ≤ s'.ch.data_bundle.oldest_custody_id := by
  intro fuel
  induction fuel with
  | zero =>
    intro s s' h hinv
    simp only [load_stored] at h
    split at h
    · exact absurd h (by simp)
    · cases h; exact ⟨hinv, rfl, le_refl _⟩
  | succ n ih =>
    intro s s' h hinv
    simp only [load_stored] at h
    split at h
    · split at h
      · split at h
        · cases h; exact ⟨hinv, rfl, le_refl _⟩
        · split at h
          · cases h; exact ⟨hinv, rfl, le_refl _⟩
          · cases h; exact ⟨hinv, rfl, le_refl _⟩
      · rename_i hocc
        split at h
        · split at h
          · have hx := ih _ s' h hinv
            exact hx
          · have hx := ih _ s' h (custody_inv_vacate N s.ch _ hinv)
            exact hx
        · split at h
          · cases h; exact ⟨hinv, rfl, le_refl _⟩
          · obtain ⟨hi, ho⟩ := custody_inv_drop N s.ch hinv hocc
            obtain ⟨a, b, c⟩ := ih _ s' h hi
            refine ⟨a, ?_, ?_⟩
            · rw [b]; rfl
            · have : s.ch.data_bundle.oldest_custody_id + 1
                  ≤ s'.ch.data_bundle.oldest_custody_id := by
                rw [← ho]; exact c
              omega
    · cases h; exact ⟨hinv, rfl, le_refl _⟩

theorem custody_inv_assign (N : Nat) (ch : bp_channel_t) (sid : bp_sid_t) (cid : bp_sdnv_t)
    (h : custody_inv N ch) (hwrap : ch.data_bundle.current_custody_id + 1 < UINT32_MOD) :
    custody_inv N
      { ch with data_bundle := { ch.data_bundle with
          active_table :=
            ch.data_bundle.active_table.set (ch.data_bundle.current_custody_id % N) sid,
          custody_block := { ch.data_bundle.custody_block with cid := cid },
          current_custody_id := (ch.data_bundle.current_custody_id + 1) % UINT32_MOD } } := by
  obtain ⟨h1, h2, h3, h4, h5, h6⟩ := h
  have hmod : (ch.data_bundle.current_custody_id + 1) % UINT32_MOD
      = ch.data_bundle.current_custody_id + 1 := Nat.mod_eq_of_lt hwrap
  refine ⟨?_, ?_, ?_, h4, ?_, ?_⟩
  · simp only [hmod]; omega
  · simp only [hmod]; exact hwrap
  · simp only [List.length_set]; exact h3
  · intro c hc1 hc2 hocc
    simp only [hmod, getD_set] at hc1 hc2 hocc ⊢
    by_cases hcc : c = ch.data_bundle.current_custody_id
    · omega
    · have hne : ¬ (ch.data_bundle.current_custody_id % N = c % N ∧
          ch.data_bundle.current_custody_id % N < ch.data_bundle.active_table.length) := by
        rintro ⟨hm, _⟩
        have := mod_eq_of_window N c ch.data_bundle.current_custody_id (by omega) (by omega)
          hm.symm
        omega
      simp only [hne, if_false] at hocc
      exact h5 c (by omega) (by omega) hocc
  · intro j hj1 hj2
    simp only [hmod, getD_set] at hj1 ⊢
    have hlt : ch.data_bundle.current_custody_id < N := by omega
    have hne : ¬ (ch.data_bundle.current_custody_id % N = j ∧
        ch.data_bundle.current_custody_id % N < ch.data_bundle.active_table.length) := by
      rw [Nat.mod_eq_of_lt hlt]; omega
    simp only [hne, if_false]
    exact h6 j (by omega) hj2

theorem load_transmit_inv {σ : Type} (N : Nat) (codec : bp_codec) (adapter : bp_store_t σ)
    (bundle : List Nat) (size : Int) (s : load_state σ) (h : custody_inv N s.ch)
    (hwrap : s.ch.data_bundle.current_custody_id + 1 < UINT32_MOD) :
    custody_inv N (load_transmit N codec adapter bundle size s).1.ch ∧
    s.ch.data_bundle.current_custody_id
      ≤ (load_transmit N codec adapter bundle size s).1.ch.data_bundle.current_custody_id ∧
    (load_transmit N codec adapter bundle size s).1.ch.data_bundle.oldest_custody_id
      = s.ch.data_bundle.oldest_custody_id := by
  simp only [load_transmit]
  split
  · exact ⟨h, le_refl _, rfl⟩
  · split
    · exact ⟨h, le_refl _, rfl⟩
    · by_cases hc : s.load_custody = true
      · simp only [hc, if_true, set_active]
        refine ⟨custody_inv_assign N s.ch s.sid _ h hwrap, ?_, trivial⟩
        rw [Nat.mod_eq_of_lt hwrap]; omega
      · have hc' : s.load_custody = false := by simpa using hc
        simp only [hc', Bool.false_eq_true, if_false]
        exact ⟨h, le_refl _, trivial⟩

theorem load_setup_ch {σ : Type} (adapter : bp_store_t σ) (st : σ) (ch : bp_channel_t)
    (timeout : Int) : (load_setup adapter st ch timeout).ch = ch := by
  simp only [load_setup]; split <;> rfl

theorem load_timedout_frame {σ : Type} (N : Nat) (adapter : bp_store_t σ) (sysnow : bp_time_t)
    (timeout : Int) :
    ∀ (fuel : Nat) (s s' : load_state σ),
      load_timedout N adapter sysnow timeout fuel s = some s' →
      s.ch.data_bundle.current_custody_id < UINT32_MOD →
      s'.ch.data_bundle.current_custody_id = s.ch.data_bundle.current_custody_id ∧
      s'.ch.timeout = s.ch.timeout ∧
      s'.ch.data_bundle.data_store_handle = s.ch.data_bundle.data_store_handle ∧
      s'.ch.data_bundle.custody_block = s.ch.data_bundle.custody_block ∧
      s'.ch.data_bundle.active_table.length = s.ch.data_bundle.active_table.length ∧
      s.ch.data_bundle.oldest_custody_id ≤ s'.ch.data_bundle.oldest_custody_id ∧
      (s.ch.data_bundle.oldest_custody_id ≤ s.ch.data_bundle.current_custody_id →
        s'.ch.data_bundle.oldest_custody_id ≤ s.ch.data_bundle.current_custody_id) := by
  intro fuel
  induction fuel with
  | zero =>
    intro s s' h _
    simp only [load_timedout] at h
    split at h
    · exact absurd h (by simp)
    · cases h; exact ⟨rfl, rfl, rfl, rfl, rfl, le_refl _, fun x => x⟩
  | succ n ih =>
    intro s s' h hcur
    simp only [load_timedout] at h
    split at h
    · rename_i hc
      have hmod : (s.ch.data_bundle.oldest_custody_id + 1) % UINT32_MOD
          = s.ch.data_bundle.oldest_custody_id + 1 := Nat.mod_eq_of_lt (by omega)
      split at h
      · have hx := ih _ s' h hcur
        simp only [incr_oldest, hmod] at hx
        obtain ⟨a, b, c, d, e, f, g⟩ := hx
        exact ⟨a, b, c, d, e, by omega, fun _ => g (by omega)⟩
      · split at h
        · split at h
          · cases h; exact ⟨rfl, rfl, rfl, rfl, rfl, le_refl _, fun x => x⟩
          · cases h; exact ⟨rfl, rfl, rfl, rfl, rfl, le_refl _, fun x => x⟩
        · have hx := ih _ s' h hcur
          simp only [set_active, List.length_set] at hx
          exact hx
    · cases h; exact ⟨rfl, rfl, rfl, rfl, rfl, le_refl _, fun x => x⟩

theorem load_channel_fresh {σ : Type} (N : Nat) (codec : bp_codec)
    (adapter : bp_store_t σ) (st : σ) (sysnow : bp_time_t) (ch : bp_channel_t)
    (bundle : List Nat) (size : Int) (timeout : Int) (s1 : load_state σ)
    (hscan : load_timedout N adapter sysnow timeout
      (2 * (ch.data_bundle.current_custody_id - ch.data_bundle.oldest_custody_id))
      (load_setup adapter st ch timeout) = some s1)
    (hnone : s1.load_bundle = none)
    (hvac : s1.ch.data_bundle.active_table.getD (s1.ch.data_bundle.current_custody_id % N) 0
      = BP_SID_VACANT)
    (hdeq : (adapter.dequeue s1.store s1.ch.data_bundle.data_store_handle timeout).2.1
      = BP_SUCCESS)
    (hsize : ¬ size <
      (adapter.dequeue s1.store s1.ch.data_bundle.data_store_handle timeout).2.2.1.ds.bundlesize) :
    load_channel N codec adapter st sysnow ch bundle size timeout =
      some
        (let d := adapter.dequeue s1.store s1.ch.data_bundle.data_store_handle timeout
         let storebuf : bp_storebuf :=
           { d.2.2.1 with ds := { d.2.2.1.ds with
               retxtime := bplib_addtime codec.time_modulus sysnow s1.ch.timeout } }
         let f := adapter.refresh d.1 s1.ch.data_bundle.data_store_handle storebuf
           codec.sizeof_bp_time_t 0 d.2.2.2.2 timeout
         let cid : bp_sdnv_t :=
           { s1.ch.data_bundle.custody_block.cid with
             value := s1.ch.data_bundle.current_custody_id }
         let mem := (codec.bplib_sdnv_write (storebuf.ds.header ++ storebuf.tail) none cid).1
         { status := d.2.2.1.ds.bundlesize,
           ch := { s1.ch with data_bundle := { s1.ch.data_bundle with
             active_table :=
               s1.ch.data_bundle.active_table.set (s1.ch.data_bundle.current_custody_id % N)
                 d.2.2.2.2,
             custody_block := { s1.ch.data_bundle.custody_block with cid := cid },
             current_custody_id := (s1.ch.data_bundle.current_custody_id + 1) % UINT32_MOD } },
           store := (adapter.relinquish f.1 s1.ch.data_bundle.data_store_handle d.2.2.2.2).1,
           bundle := mem.take d.2.2.1.ds.bundlesize.toNat ++
             bundle.drop d.2.2.1.ds.bundlesize.toNat,
           loadflags := s1.loadflags }) := by
  simp only [load_channel, hscan, Option.some_bind, load_stored, hnone, if_true, hvac, hdeq,
    Option.map_some', load_transmit, hsize, if_false, set_active]

theorem load_timedout_total {σ : Type} (N : Nat) (adapter : bp_store_t σ) (sysnow : bp_time_t)
    (timeout : Int) (hN : 0 < N) :
    ∀ (fuel : Nat) (s : load_state σ),
      s.ch.data_bundle.active_table.length = N →
      s.ch.data_bundle.current_custody_id < UINT32_MOD →
      (2 * (s.ch.data_bundle.current_custody_id - s.ch.data_bundle.oldest_custody_id) ≤ fuel ∨
        (s.ch.data_bundle.active_table.getD (s.ch.data_bundle.oldest_custody_id % N) 0
            = BP_SID_VACANT ∧
          2 * (s.ch.data_bundle.current_custody_id - s.ch.data_bundle.oldest_custody_id)
            ≤ fuel + 1)) →
      ∃ s', load_timedout N adapter sysnow timeout fuel s = some s' := by
  intro fuel
  induction fuel with
  | zero =>
    intro s _ _ hm
    simp only [load_timedout]
    split
    · rename_i hc
      omega
    · exact ⟨s, rfl⟩
  | succ n ih =>
    intro s hlen hcur hm
    simp only [load_timedout]
    split
    · rename_i hc
      have hmod : (s.ch.data_bundle.oldest_custody_id + 1) % UINT32_MOD
          = s.ch.data_bundle.oldest_custody_id + 1 := Nat.mod_eq_of_lt (by omega)
      split
      · apply ih
        · exact hlen
        · exact hcur
        · left
          simp only [incr_oldest, hmod]
          omega
      · rename_i hocc
        split
        · split
          · exact ⟨_, rfl⟩
          · exact ⟨_, rfl⟩
        · apply ih
          · simp only [set_active, List.length_set]; exact hlen
          · exact hcur
          · right
            simp only [set_active, getD_set, hlen, Nat.mod_lt _ hN, and_self, if_true]
            rcases hm with h1 | h1
            · exact ⟨trivial, by omega⟩
            · exact absurd h1.1 hocc
    · exact ⟨s, rfl⟩

theorem load_stored_one {σ : Type} (N : Nat) (codec : bp_codec) (adapter : bp_store_t σ)
    (sysnow : bp_time_t) (timeout : Int) (s : load_state σ)
    (h : s.load_bundle ≠ none ∨
      s.ch.data_bundle.active_table.getD (s.ch.data_bundle.current_custody_id % N) 0
        = BP_SID_VACANT) :
    ∃ s', load_stored N codec adapter sysnow timeout 1 s = some s' := by
  simp only [load_stored]
  split
  · rename_i hnone
    rcases h with h | h
    · exact absurd hnone h
    · simp only [h, if_true]
      split
      · exact ⟨_, rfl⟩
      · split
        · exact ⟨_, rfl⟩
        · exact ⟨_, rfl⟩
  · exact ⟨s, rfl⟩

theorem load_stored_total {σ : Type} (N : Nat) (codec : bp_codec) (adapter : bp_store_t σ)
    (sysnow : bp_time_t) (timeout : Int) (s : load_state σ) (hN : 0 < N)
    (hlen : s.ch.data_bundle.active_table.length = N) :
    ∃ s', load_stored N codec adapter sysnow timeout 2 s = some s' := by
  have hvac : ∀ ch : bp_channel_t, ch.data_bundle.active_table.length = N →
      (set_active ch (ch.data_bundle.current_custody_id % N)
        BP_SID_VACANT).data_bundle.active_table.getD (ch.data_bundle.current_custody_id % N) 0
        = BP_SID_VACANT := by
    intro ch hl
    simp only [set_active, getD_set, hl, Nat.mod_lt _ hN, and_self, if_true]
  show ∃ s', load_stored N codec adapter sysnow timeout (1 + 1) s = some s'
  rw [load_stored]
  dsimp only
  split
  · split
    · split
      · exact ⟨_, rfl⟩
      · split
        · exact ⟨_, rfl⟩
        · exact ⟨_, rfl⟩
    · split
      · split
        · exact load_stored_one N codec adapter sysnow timeout _ (Or.inl (by simp))
        · exact load_stored_one N codec adapter sysnow timeout _ (Or.inr (hvac s.ch hlen))
      · split
        · exact ⟨_, rfl⟩
        · exact load_stored_one N codec adapter sysnow timeout _ (Or.inr (hvac s.ch hlen))
  · exact ⟨s, rfl⟩

theorem load_channel_total {σ : Type} (N : Nat) (codec : bp_codec) (adapter : bp_store_t σ)
    (st : σ) (sysnow : bp_time_t) (ch : bp_channel_t) (bundle : List Nat) (size : Int)
    (timeout : Int) (hN : 0 < N) (hlen : ch.data_bundle.active_table.length = N)
    (hcur : ch.data_bundle.current_custody_id < UINT32_MOD) :
    ∃ r, load_channel N codec adapter st sysnow ch bundle size timeout = some r := by
  obtain ⟨s1, h1⟩ := load_timedout_total N adapter sysnow timeout hN
    (2 * (ch.data_bundle.current_custody_id - ch.data_bundle.oldest_custody_id))
    (load_setup adapter st ch timeout) (by rw [load_setup_ch]; exact hlen)
    (by rw [load_setup_ch]; exact hcur) (by rw [load_setup_ch]; exact Or.inl (le_refl _))
  have hf := load_timedout_frame N adapter sysnow timeout _ _ s1 h1
    (by rw [load_setup_ch]; exact hcur)
  rw [load_setup_ch] at hf
  obtain ⟨s2, h2⟩ := load_stored_total N codec adapter sysnow timeout s1 hN
    (by rw [hf.2.2.2.2.1]; exact hlen)
  simp only [load_channel, h1, Option.some_bind, h2, Option.map_some']
  exact ⟨_, rfl⟩

/-- C8 (as stated, refuted): the first load puts the storage ID 7 in slot 0 only;
after the second load, which re-emits the bundle on timeout (no ACS has retired
it, nothing was evicted, the channel is open), the storage ID 7 is in slot 0 and
in slot 1. -/
theorem storage_id_in_two_slots :
    retx_first.map (fun r =>
      (r.ch.data_bundle.active_table.getD 0 0, r.ch.data_bundle.active_table.getD 1 0))
      = some (7, 0) ∧
    retx_second.map (fun r =>
      (r.status, r.ch.data_bundle.active_table.getD 0 0,
        r.ch.data_bundle.active_table.getD 1 0, r.ch.data_bundle.oldest_custody_id,
        r.ch.data_bundle.current_custody_id))
      = some (132, 7, 7, 0, 2) := by
  decide

/-- C8 (amended): a load that re-emits the head-of-window bundle on timeout writes
its storage ID into `active_table[c mod N]` for the current custody ID `c`,
leaves it in the head slot `active_table[oldest mod N]` when the two slots
differ, changes no other slot and does not move `oldest_custody_id`. -/
theorem bplib_load_retransmit_slots {σ : Type} (N : Nat) (codec : bp_codec)
    (adapter : bp_store_t σ) (st : σ) (sysnow : bp_time_t) (ch : bp_channel_t)
    (bundle : List Nat) (size : Int) (timeout : Int)
    (hN : 0 < N) (hlen : ch.data_bundle.active_table.length = N)
    (hdacs : (adapter.dequeue st ch.dacs_bundle.dacs_store_handle timeout).2.1 ≠ BP_SUCCESS)
    (hwin : ch.data_bundle.oldest_custody_id < ch.data_bundle.current_custody_id)
    (hocc : ch.data_bundle.active_table.getD (ch.data_bundle.oldest_custody_id % N) 0
      ≠ BP_SID_VACANT)
    (hret : (adapter.retrieve (adapter.dequeue st ch.dacs_bundle.dacs_store_handle timeout).1
      ch.data_bundle.data_store_handle
      (ch.data_bundle.active_table.getD (ch.data_bundle.oldest_custody_id % N) 0)
      timeout).2.1 = BP_SUCCESS)
    (hdue : bplib_cmptime sysnow
      (adapter.retrieve (adapter.dequeue st ch.dacs_bundle.dacs_store_handle timeout).1
        ch.data_bundle.data_store_handle
        (ch.data_bundle.active_table.getD (ch.data_bundle.oldest_custody_id % N) 0)
        timeout).2.2.1.ds.retxtime ≥ 0)
    (hsize : ¬ size <
      (adapter.retrieve (adapter.dequeue st ch.dacs_bundle.dacs_store_handle timeout).1
        ch.data_bundle.data_store_handle
        (ch.data_bundle.active_table.getD (ch.data_bundle.oldest_custody_id % N) 0)
        timeout).2.2.1.ds.bundlesize) :
    ∃ r, load_channel N codec adapter st sysnow ch bundle size timeout = some r ∧
      r.ch.data_bundle.active_table.getD (ch.data_bundle.current_custody_id % N) 0
        = ch.data_bundle.active_table.getD (ch.data_bundle.oldest_custody_id % N) 0 ∧
      (ch.data_bundle.oldest_custody_id % N ≠ ch.data_bundle.current_custody_id % N →
        r.ch.data_bundle.active_table.getD (ch.data_bundle.oldest_custody_id % N) 0
          = ch.data_bundle.active_table.getD (ch.data_bundle.oldest_custody_id % N) 0) ∧
      (∀ j, j ≠ ch.data_bundle.current_custody_id % N →
        r.ch.data_bundle.active_table.getD j 0 = ch.data_bundle.active_table.getD j 0) ∧
      r.ch.data_bundle.oldest_custody_id = ch.data_bundle.oldest_custody_id := by
  refine ⟨_, load_channel_retransmit N codec adapter st sysnow ch bundle size timeout hdacs hwin
    hocc hret hdue hsize, ?_, ?_, ?_, rfl⟩
  · simp only [getD_set, hlen, Nat.mod_lt _ hN, and_self, if_true]
  · intro hne
    simp only [getD_set, hne.symm, false_and, if_false]
  · intro j hj
    simp only [getD_set, hj.symm, false_and, if_false]

/-- C8 (amended), at the second load of the retransmission run. -/
theorem bplib_load_retransmit_slots_witness :
    retx_channel.data_bundle.oldest_custody_id < retx_channel.data_bundle.current_custody_id ∧
    ∃ r, load_channel RUN_TABLE_SIZE sim_codec sim_adapter retx_state ⟨111, 0⟩
        retx_channel (List.replicate 256 0) 256 0 = some r ∧
      r.ch.data_bundle.active_table.getD
          (retx_channel.data_bundle.current_custody_id % RUN_TABLE_SIZE) 0
        = retx_channel.data_bundle.active_table.getD
          (retx_channel.data_bundle.oldest_custody_id % RUN_TABLE_SIZE) 0 := by
  obtain ⟨r, h1, h2, _⟩ := bplib_load_retransmit_slots RUN_TABLE_SIZE sim_codec
    sim_adapter retx_state ⟨111, 0⟩ retx_channel (List.replicate 256 0) 256 0
    (by decide) (by decide) (by decide) (by decide) (by decide) (by decide) (by decide)
    (by decide)
  exact ⟨by decide, r, h1, h2⟩

/-- C9 (as stated, refuted): the first load writes the custody ID 0 and leaves
`current_custody_id = 1`; the second load, which re-emits the bundle on timeout,
writes the custody ID 1 and leaves `current_custody_id = 2`, and the first eight
bytes it emits differ from those of the first emission. -/
theorem retransmit_assigns_new_cid :
    retx_first.map (fun r =>
      (r.ch.data_bundle.current_custody_id, r.ch.data_bundle.custody_block.cid.value,
        r.bundle.take 8))
      = some (1, 0, [0, 0, 0, 0, 128, 128, 128, 0]) ∧
    retx_second.map (fun r =>
      (r.ch.data_bundle.current_custody_id, r.ch.data_bundle.custody_block.cid.value,
        r.bundle.take 8))
      = some (2, 1, [0, 0, 0, 0, 128, 128, 128, 1]) := by
  decide

/-- C9 (amended): a load that re-emits the head-of-window bundle on timeout assigns
it the current custody ID `c`: the bytes emitted are the stored header and
payload with the CTEB custody-ID descriptor written with the value `c`, the
return value is the record's `bundlesize`, and `current_custody_id` becomes
`(c + 1) mod 2 ^ 32`. -/
theorem bplib_load_retransmit_cid {σ : Type} (N : Nat) (codec : bp_codec)
    (adapter : bp_store_t σ) (st : σ) (sysnow : bp_time_t) (ch : bp_channel_t)
    (bundle : List Nat) (size : Int) (timeout : Int)
    (hdacs : (adapter.dequeue st ch.dacs_bundle.dacs_store_handle timeout).2.1 ≠ BP_SUCCESS)
    (hwin : ch.data_bundle.oldest_custody_id < ch.data_bundle.current_custody_id)
    (hocc : ch.data_bundle.active_table.getD (ch.data_bundle.oldest_custody_id % N) 0
      ≠ BP_SID_VACANT)
    (hret : (adapter.retrieve (adapter.dequeue st ch.dacs_bundle.dacs_store_handle timeout).1
      ch.data_bundle.data_store_handle
      (ch.data_bundle.active_table.getD (ch.data_bundle.oldest_custody_id % N) 0)
      timeout).2.1 = BP_SUCCESS)
    (hdue : bplib_cmptime sysnow
      (adapter.retrieve (adapter.dequeue st ch.dacs_bundle.dacs_store_handle timeout).1
        ch.data_bundle.data_store_handle
        (ch.data_bundle.active_table.getD (ch.data_bundle.oldest_custody_id % N) 0)
        timeout).2.2.1.ds.retxtime ≥ 0)
    (hsize : ¬ size <
      (adapter.retrieve (adapter.dequeue st ch.dacs_bundle.dacs_store_handle timeout).1
        ch.data_bundle.data_store_handle
        (ch.data_bundle.active_table.getD (ch.data_bundle.oldest_custody_id % N) 0)
        timeout).2.2.1.ds.bundlesize) :
    let rec_ := (adapter.retrieve (adapter.dequeue st ch.dacs_bundle.dacs_store_handle timeout).1
      ch.data_bundle.data_store_handle
      (ch.data_bundle.active_table.getD (ch.data_bundle.oldest_custody_id % N) 0)
      timeout).2.2.1
    let cid : bp_sdnv_t :=
      { ch.data_bundle.custody_block.cid with value := ch.data_bundle.current_custody_id }
    ∃ r, load_channel N codec adapter st sysnow ch bundle size timeout = some r ∧
      r.status = rec_.ds.bundlesize ∧
      r.ch.data_bundle.custody_block.cid.value = ch.data_bundle.current_custody_id ∧
      r.ch.data_bundle.current_custody_id
        = (ch.data_bundle.current_custody_id + 1) % UINT32_MOD ∧
      r.bundle = (codec.bplib_sdnv_write (rec_.ds.header ++ rec_.tail) none cid).1.take
          rec_.ds.bundlesize.toNat ++ bundle.drop rec_.ds.bundlesize.toNat ∧
      r.loadflags = 0 := by
  intro rec_ cid
  exact ⟨_, load_channel_retransmit N codec adapter st sysnow ch bundle size timeout hdacs hwin
    hocc hret hdue hsize, rfl, rfl, rfl, rfl, rfl⟩

/-- C9 (amended), at the second load of the retransmission run: the custody ID
written is the channel's `current_custody_id`, 1. -/
theorem bplib_load_retransmit_cid_witness :
    retx_channel.data_bundle.current_custody_id = 1 ∧
    ∃ r, load_channel RUN_TABLE_SIZE sim_codec sim_adapter retx_state ⟨111, 0⟩
        retx_channel (List.replicate 256 0) 256 0 = some r ∧
      r.ch.data_bundle.custody_block.cid.value = retx_channel.data_bundle.current_custody_id := by
  obtain ⟨r, h1, _, h3, _⟩ := bplib_load_retransmit_cid RUN_TABLE_SIZE sim_codec
    sim_adapter retx_state ⟨111, 0⟩ retx_channel (List.replicate 256 0) 256 0
    (by decide) (by decide) (by decide) (by decide) (by decide) (by decide)
  exact ⟨by decide, r, h1, h3⟩

theorem bplib_addtime_exact (modulus : Nat) (tm : bp_time_t) (sec : Int) (h0 : 0 ≤ sec)
    (hsum : (tm.s : Int) + sec < modulus) :
    bplib_addtime modulus tm sec = ⟨tm.s + sec.toNat, tm.ns⟩ := by
  unfold bplib_addtime
  have h1 : ((tm.s : Int) + sec) % (modulus : Int) = (tm.s : Int) + sec := by
    apply Int.emod_eq_of_lt
    · omega
    · exact hsum
  have h2 : ((tm.s : Int) + sec).toNat = tm.s + sec.toNat := by omega
  rw [h1, h2]

/-- C10 (as stated, refuted): in both runs the ACS queue is empty, the scan finds
no bundle to retransmit, slot `1 = current_custody_id mod N` is vacant, the
dequeue succeeds with the storage ID 8 and the buffer is large enough; the load
returns the bundle size 132, puts 8 in slot 1 and makes `current_custody_id` 2,
but `oldest_custody_id` goes from 0 to 1. -/
theorem fresh_load_moves_oldest :
    acked_channel.data_bundle.oldest_custody_id = 0 ∧
    acked_channel.data_bundle.current_custody_id = 1 ∧
    fresh_after_ack.map (fun r =>
      (r.status, r.ch.data_bundle.active_table.getD 1 0, r.ch.data_bundle.current_custody_id,
        r.ch.data_bundle.oldest_custody_id))
      = some (132, 8, 2, 1) ∧
    retx_channel.data_bundle.oldest_custody_id = 0 ∧
    retx_channel.data_bundle.current_custody_id = 1 ∧
    fresh_after_loss.map (fun r =>
      (r.status, r.ch.data_bundle.active_table.getD 1 0, r.ch.data_bundle.current_custody_id,
        r.ch.data_bundle.oldest_custody_id))
      = some (132, 8, 2, 1) := by
  decide

/-- C10 (amended): the scan for timed-out bundles returns, and when it ends with
nothing to send, the slot `active_table[c mod N]` of the current custody ID `c`
is vacant, the data-queue dequeue succeeds with the storage ID `s` and the
buffer is large enough, the load returns the record's `bundlesize`, sets
`active_table[c mod N] = s`, assigns the custody ID `c`, makes
`current_custody_id = (c + 1) mod 2 ^ 32`, refreshes the record in the store
with the `retxtime` that `bplib_addtime` makes of the current time and the
channel timeout, which is `now + timeout` seconds when the timeout is not
negative and the sum is within the range of the seconds field, and relinquishes
it; `oldest_custody_id` is where the scan left it, between its old value and
`c`, and unchanged when the window was empty. -/
theorem bplib_load_fresh_bundle {σ : Type} (N : Nat) (codec : bp_codec)
    (adapter : bp_store_t σ) (st : σ) (sysnow : bp_time_t) (ch : bp_channel_t)
    (bundle : List Nat) (size : Int) (timeout : Int)
    (hN : 0 < N) (hlen : ch.data_bundle.active_table.length = N)
    (hcur : ch.data_bundle.current_custody_id < UINT32_MOD)
    (hord : ch.data_bundle.oldest_custody_id ≤ ch.data_bundle.current_custody_id) :
    ∃ s1, load_timedout N adapter sysnow timeout
        (2 * (ch.data_bundle.current_custody_id - ch.data_bundle.oldest_custody_id))
        (load_setup adapter st ch timeout) = some s1 ∧
      (s1.load_bundle = none →
        s1.ch.data_bundle.active_table.getD (ch.data_bundle.current_custody_id % N) 0
          = BP_SID_VACANT →
        (adapter.dequeue s1.store ch.data_bundle.data_store_handle timeout).2.1 = BP_SUCCESS →
        ¬ size < (adapter.dequeue s1.store ch.data_bundle.data_store_handle
          timeout).2.2.1.ds.bundlesize →
        let d := adapter.dequeue s1.store ch.data_bundle.data_store_handle timeout
        let storebuf : bp_storebuf :=
          { d.2.2.1 with ds := { d.2.2.1.ds with
              retxtime := bplib_addtime codec.time_modulus sysnow ch.timeout } }
        ∃ r, load_channel N codec adapter st sysnow ch bundle size timeout = some r ∧
          r.status = d.2.2.1.ds.bundlesize ∧
          r.ch.data_bundle.active_table.getD (ch.data_bundle.current_custody_id % N) 0
            = d.2.2.2.2 ∧
          r.ch.data_bundle.custody_block.cid.value = ch.data_bundle.current_custody_id ∧
          r.ch.data_bundle.current_custody_id
            = (ch.data_bundle.current_custody_id + 1) % UINT32_MOD ∧
          r.store = (adapter.relinquish
            (adapter.refresh d.1 ch.data_bundle.data_store_handle storebuf
              codec.sizeof_bp_time_t 0 d.2.2.2.2 timeout).1
            ch.data_bundle.data_store_handle d.2.2.2.2).1 ∧
          r.ch.data_bundle.oldest_custody_id = s1.ch.data_bundle.oldest_custody_id ∧
          ch.data_bundle.oldest_custody_id ≤ r.ch.data_bundle.oldest_custody_id ∧
          r.ch.data_bundle.oldest_custody_id ≤ ch.data_bundle.current_custody_id ∧
          (ch.data_bundle.oldest_custody_id = ch.data_bundle.current_custody_id →
            r.ch.data_bundle.oldest_custody_id = ch.data_bundle.oldest_custody_id) ∧
          (0 ≤ ch.timeout → (sysnow.s : Int) + ch.timeout < codec.time_modulus →
            storebuf.ds.retxtime = ⟨sysnow.s + ch.timeout.toNat, sysnow.ns⟩)) := by
  obtain ⟨s1, hscan⟩ := load_timedout_total N adapter sysnow timeout hN
    (2 * (ch.data_bundle.current_custody_id - ch.data_bundle.oldest_custody_id))
    (load_setup adapter st ch timeout) (by rw [load_setup_ch]; exact hlen)
    (by rw [load_setup_ch]; exact hcur) (by rw [load_setup_ch]; exact Or.inl (le_refl _))
  refine ⟨s1, hscan, ?_⟩
  intro hnone hvac hdeq hsize d storebuf
  obtain ⟨f1, f2, f3, f4, f5, f6, f7⟩ := load_timedout_frame N adapter sysnow timeout _ _ s1
    hscan (by rw [load_setup_ch]; exact hcur)
  rw [load_setup_ch] at f1 f2 f3 f4 f5 f6 f7
  have hfresh := load_channel_fresh N codec adapter st sysnow ch bundle size timeout s1 hscan
    hnone (by rw [f1]; exact hvac) (by rw [f3]; exact hdeq) (by rw [f3]; exact hsize)
  rw [f1, f2, f3, f4] at hfresh
  refine ⟨_, hfresh, rfl, ?_, rfl, rfl, rfl, rfl, f6, f7 hord, ?_, ?_⟩
  · simp only [getD_set, f5, hlen, Nat.mod_lt _ hN, and_self, if_true]
  · intro heq
    have := f7 hord
    show s1.ch.data_bundle.oldest_custody_id = ch.data_bundle.oldest_custody_id
    omega
  · intro h0 hsum
    exact bplib_addtime_exact codec.time_modulus sysnow ch.timeout h0 hsum

/-- C10 (amended), at the load of `fresh_after_ack`: the scan moves
`oldest_custody_id` to 1 and ends with nothing to send, and the load puts the
storage ID 8 in slot 1. -/
theorem bplib_load_fresh_bundle_witness :
    acked_channel.data_bundle.oldest_custody_id ≤ acked_channel.data_bundle.current_custody_id ∧
    acked_channel.data_bundle.current_custody_id = 1 ∧
    ∃ r, load_channel RUN_TABLE_SIZE sim_codec sim_adapter fresh_store ⟨105, 0⟩ acked_channel
        (List.replicate 256 0) 256 0 = some r ∧
      r.ch.data_bundle.active_table.getD
        (acked_channel.data_bundle.current_custody_id % RUN_TABLE_SIZE) 0 = 8 ∧
      r.ch.data_bundle.oldest_custody_id = 1 := by
  obtain ⟨s1, hs1, himp⟩ := bplib_load_fresh_bundle RUN_TABLE_SIZE sim_codec sim_adapter
    fresh_store ⟨105, 0⟩ acked_channel (List.replicate 256 0) 256 0
    (by decide) (by decide) (by decide) (by decide)
  have hd : (load_timedout RUN_TABLE_SIZE sim_adapter ⟨105, 0⟩ 0
      (2 * (acked_channel.data_bundle.current_custody_id
        - acked_channel.data_bundle.oldest_custody_id))
      (load_setup sim_adapter fresh_store acked_channel 0)).map
      (fun s => (s.load_bundle,
        s.ch.data_bundle.active_table.getD
          (acked_channel.data_bundle.current_custody_id % RUN_TABLE_SIZE) 0,
        (sim_adapter.dequeue s.store acked_channel.data_bundle.data_store_handle 0).2.1,
        (sim_adapter.dequeue s.store acked_channel.data_bundle.data_store_handle
          0).2.2.1.ds.bundlesize,
        (sim_adapter.dequeue s.store acked_channel.data_bundle.data_store_handle 0).2.2.2.2,
        s.ch.data_bundle.oldest_custody_id))
      = some (none, 0, 1, 132, 8, 1) := by decide
  rw [hs1] at hd
  simp only [Option.map_some', Option.some.injEq, Prod.mk.injEq] at hd
  obtain ⟨e1, e2, e3, e4, e5, e6⟩ := hd
  obtain ⟨r, h1, _, h3, _, _, _, h7, _⟩ := himp e1 e2 e3 (by rw [e4]; decide)
  refine ⟨by decide, by decide, r, h1, ?_, ?_⟩
  · rw [h3]; exact e5
  · rw [h7]; exact e6

/-! ## C11-C15: `bplib_load` -/

theorem load_timedout_ready {σ : Type} (N : Nat) (adapter : bp_store_t σ) (sysnow : bp_time_t)
    (timeout : Int) (fuel : Nat) (s : load_state σ) (h : s.load_bundle ≠ none) :
    load_timedout N adapter sysnow timeout fuel s = some s := by
  cases fuel with
  | zero => simp only [load_timedout, h, false_and, if_false]
  | succ n => simp only [load_timedout, h, false_and, if_false]

/-- C11 (code evaluated at the failing input): the second load of the
retransmission run assigns the custody ID 1 to a stored bundle whose header is
all zeros and whose CTEB starts at offset 52.  The emitted bytes 4 to 7, the
block-length field of the primary block, are the SDNV of the custody ID, and the
emitted bytes 56 to 59, the custody-ID field of the CTEB, are as stored. -/
theorem bplib_load_cid_overwrites_primary_block :
    native_data_pri_blk.blklen.index = 4 ∧ native_data_pri_blk.blklen.width = 4 ∧
    native_cteb_blk.cid.index = 4 ∧ native_cteb_blk.cid.width = 4 ∧
    (sample_record ⟨110, 0⟩).ds.cteboffset = 52 ∧
    ((sample_record ⟨110, 0⟩).ds.header.drop 4).take 4 = [0, 0, 0, 0] ∧
    ((sample_record ⟨110, 0⟩).ds.header.drop 56).take 4 = [0, 0, 0, 0] ∧
    retx_second.map (fun r =>
      (r.status, r.ch.data_bundle.custody_block.cid.value, (r.bundle.drop 4).take 4,
        (r.bundle.drop 56).take 4))
      = some (132, 1, [128, 128, 128, 1], [0, 0, 0, 0]) := by
  decide

/-- C12: when the dequeue on the DACS queue succeeds and the caller's buffer is
at least as large as the record, `bplib_load` returns the record's length, sets
`*loadflags` to `BP_FLAG_ROUTENEEDED`, copies the record into the buffer, leaves
the whole channel (active table and both custody counters included) as it was,
and the only calls it makes on the storage service are that dequeue and the
relinquish of the record on the DACS queue. -/
theorem bplib_load_acs_ready {σ : Type} (N : Nat) (codec : bp_codec) (adapter : bp_store_t σ)
    (st : σ) (sysnow : bp_time_t) (ch : bp_channel_t) (bundle : List Nat) (size : Int)
    (timeout : Int)
    (hdacs : (adapter.dequeue st ch.dacs_bundle.dacs_store_handle timeout).2.1 = BP_SUCCESS)
    (hsize : ¬ size < (adapter.dequeue st ch.dacs_bundle.dacs_store_handle timeout).2.2.2.1) :
    let d := adapter.dequeue st ch.dacs_bundle.dacs_store_handle timeout
    ∃ r, load_channel N codec adapter st sysnow ch bundle size timeout = some r ∧
      r.status = d.2.2.2.1 ∧
      r.loadflags = BP_FLAG_ROUTENEEDED ∧
      r.ch = ch ∧
      r.store = (adapter.relinquish d.1 ch.dacs_bundle.dacs_store_handle d.2.2.2.2).1 ∧
      r.bundle = d.2.2.1.raw.take d.2.2.2.1.toNat ++ bundle.drop d.2.2.2.1.toNat := by
  intro d
  have hs : load_setup adapter st ch timeout =
      { ch := ch, store := d.1, loadflags := 0 ||| BP_FLAG_ROUTENEEDED,
        load_bundle := some d.2.2.1.raw, load_size := d.2.2.2.1,
        load_store := ch.dacs_bundle.dacs_store_handle, load_custody := false,
        sid := d.2.2.2.2, status := BP_SUCCESS } := by
    simp only [load_setup, hdacs, if_true, d]
  have h1 := load_timedout_ready N adapter sysnow timeout
    (2 * (ch.data_bundle.current_custody_id - ch.data_bundle.oldest_custody_id))
    (load_setup adapter st ch timeout) (by rw [hs]; simp)
  have h2 := load_stored_ready N codec adapter sysnow timeout 2
    (load_setup adapter st ch timeout) (by rw [hs]; simp)
  simp only [load_channel, h1, Option.some_bind, h2, Option.map_some']
  refine ⟨_, rfl, ?_⟩
  simp only [hs, load_transmit, hsize, if_false, Bool.false_eq_true]
  exact ⟨trivial, by decide, trivial, trivial, trivial⟩

/-- C12, at the load of `acs_load`: the bundle in slot 0 is overdue, and the load
emits the five bytes of the ACS bundle. -/
theorem bplib_load_acs_ready_witness :
    (sim_adapter.dequeue acs_store retx_channel.dacs_bundle.dacs_store_handle 0).2.1
      = BP_SUCCESS ∧
    ∃ r, load_channel RUN_TABLE_SIZE sim_codec sim_adapter acs_store ⟨111, 0⟩ retx_channel
        (List.replicate 256 0) 256 0 = some r ∧
      r.status = 5 ∧ r.loadflags = BP_FLAG_ROUTENEEDED ∧ r.ch = retx_channel := by
  obtain ⟨r, h1, h2, h3, h4, _⟩ := bplib_load_acs_ready RUN_TABLE_SIZE sim_codec sim_adapter
    acs_store ⟨111, 0⟩ retx_channel (List.replicate 256 0) 256 0 (by decide) (by decide)
  exact ⟨by decide, r, h1, by rw [h2]; decide, h3, h4⟩

theorem load_timedout_slots {σ : Type} (N : Nat) (adapter : bp_store_t σ) (sysnow : bp_time_t)
    (timeout : Int) :
    ∀ (fuel : Nat) (s s' : load_state σ),
      load_timedout N adapter sysnow timeout fuel s = some s' →
      ∀ j, s'.ch.data_bundle.active_table.getD j 0 = s.ch.data_bundle.active_table.getD j 0 ∨
        s'.ch.data_bundle.active_table.getD j 0 = BP_SID_VACANT := by
  intro fuel
  induction fuel with
  | zero =>
    intro s s' h j
    simp only [load_timedout] at h
    split at h
    · exact absurd h (by simp)
    · cases h; exact Or.inl rfl
  | succ n ih =>
    intro s s' h j
    simp only [load_timedout] at h
    split at h
    · split at h
      · have hx := ih _ s' h j
        exact hx
      · split at h
        · split at h
          · cases h; exact Or.inl rfl
          · cases h; exact Or.inl rfl
        · have hx := ih _ s' h j
          simp only [set_active, getD_set] at hx
          split at hx
          · rcases hx with e | e
            · exact Or.inr e
            · exact Or.inr e
          · exact hx
    · cases h; exact Or.inl rfl

theorem load_stored_frame {σ : Type} (N : Nat) (codec : bp_codec) (adapter : bp_store_t σ)
    (sysnow : bp_time_t) (timeout : Int) :
    ∀ (fuel : Nat) (s s' : load_state σ),
      load_stored N codec adapter sysnow timeout fuel s = some s' →
      s'.ch.data_bundle.current_custody_id = s.ch.data_bundle.current_custody_id ∧
      ∀ j, s'.ch.data_bundle.active_table.getD j 0 = s.ch.data_bundle.active_table.getD j 0 ∨
        s'.ch.data_bundle.active_table.getD j 0 = BP_SID_VACANT := by
  intro fuel
  induction fuel with
  | zero =>
    intro s s' h
    simp only [load_stored] at h
    split at h
    · exact absurd h (by simp)
    · cases h; exact ⟨rfl, fun _ => Or.inl rfl⟩
  | succ n ih =>
    intro s s' h
    simp only [load_stored] at h
    have hvac : ∀ (t : load_state σ) (ati : Nat),
        t.ch.data_bundle.current_custody_id = s.ch.data_bundle.current_custody_id →
        (∀ j, t.ch.data_bundle.active_table.getD j 0
            = (s.ch.data_bundle.active_table.set ati BP_SID_VACANT).getD j 0) →
        load_stored N codec adapter sysnow timeout n t = some s' →
        s'.ch.data_bundle.current_custody_id = s.ch.data_bundle.current_custody_id ∧
        ∀ j, s'.ch.data_bundle.active_table.getD j 0 = s.ch.data_bundle.active_table.getD j 0 ∨
          s'.ch.data_bundle.active_table.getD j 0 = BP_SID_VACANT := by
      intro t ati hc ht hl
      have hx := ih t s' hl
      refine ⟨hx.1.trans hc, fun j => ?_⟩
      rcases hx.2 j with e | e
      · rw [e, ht j, getD_set]
        split
        · exact Or.inr rfl
        · exact Or.inl rfl
      · exact Or.inr e
    split at h
    · split at h
      · split at h
        · cases h; exact ⟨rfl, fun _ => Or.inl rfl⟩
        · split at h
          · cases h; exact ⟨rfl, fun _ => Or.inl rfl⟩
          · cases h; exact ⟨rfl, fun _ => Or.inl rfl⟩
      · split at h
        · split at h
          · have hx := ih _ s' h
            exact hx
          · refine hvac _ (s.ch.data_bundle.current_custody_id % N) ?_ ?_ h
            · rfl
            · intro j; rfl
        · split at h
          · cases h; exact ⟨rfl, fun _ => Or.inl rfl⟩
          · refine hvac _ (s.ch.data_bundle.current_custody_id % N) ?_ ?_ h
            · rfl
            · intro j; rfl
    · cases h; exact ⟨rfl, fun _ => Or.inl rfl⟩

/-- C13 (as stated, refuted): the first load of the retransmission run into a
buffer of 10 bytes selects the freshly dequeued bundle of 132 bytes under the
storage ID 7; it returns `BP_BUNDLETOOLARGE`, assigns no custody ID and leaves
the buffer alone, and its last call on the storage service is `relinquish` for
the storage ID 7 on the data queue. -/
theorem too_large_bundle_is_relinquished :
    small_load.map (fun r =>
      (r.status, r.ch.data_bundle.current_custody_id, r.ch.data_bundle.active_table, r.bundle,
        r.store.calls.drop 3 |>.map (fun c => decide (c = .relinquish 0 7))))
      = some (BP_BUNDLETOOLARGE, 0, [0, 0, 0, 0], List.replicate 10 0,
          [false, false, false, true]) := by
  decide

/-- C13 (amended): the two selection loops of `bplib_load` return, in a state
`s2` whose `current_custody_id` is the one before the call and whose active
table differs from the one before the call only in slots that were vacated; and
when a bundle was selected (`s2.load_bundle` is not `NULL`) whose size exceeds
the caller's buffer, the load returns `BP_BUNDLETOOLARGE`, leaves the channel as
the loops left it (no custody ID is assigned), leaves the caller's buffer and
`*loadflags` alone, and calls `relinquish` once, for the selected bundle's
storage ID on its queue. -/
theorem bplib_load_bundle_too_large {σ : Type} (N : Nat) (codec : bp_codec)
    (adapter : bp_store_t σ) (st : σ) (sysnow : bp_time_t) (ch : bp_channel_t)
    (bundle : List Nat) (size : Int) (timeout : Int)
    (hN : 0 < N) (hlen : ch.data_bundle.active_table.length = N)
    (hcur : ch.data_bundle.current_custody_id < UINT32_MOD) :
    ∃ s2, (load_timedout N adapter sysnow timeout
        (2 * (ch.data_bundle.current_custody_id - ch.data_bundle.oldest_custody_id))
        (load_setup adapter st ch timeout)).bind
          (fun s1 => load_stored N codec adapter sysnow timeout 2 s1) = some s2 ∧
      s2.ch.data_bundle.current_custody_id = ch.data_bundle.current_custody_id ∧
      (∀ j, s2.ch.data_bundle.active_table.getD j 0 = ch.data_bundle.active_table.getD j 0 ∨
        s2.ch.data_bundle.active_table.getD j 0 = BP_SID_VACANT) ∧
      (s2.load_bundle ≠ none → size < s2.load_size →
        ∃ r, load_channel N codec adapter st sysnow ch bundle size timeout = some r ∧
          r.status = BP_BUNDLETOOLARGE ∧
          r.ch = s2.ch ∧
          r.bundle = bundle ∧
          r.loadflags = s2.loadflags ∧
          r.store = (adapter.relinquish s2.store s2.load_store s2.sid).1) := by
  obtain ⟨s1, h1⟩ := load_timedout_total N adapter sysnow timeout hN
    (2 * (ch.data_bundle.current_custody_id - ch.data_bundle.oldest_custody_id))
    (load_setup adapter st ch timeout) (by rw [load_setup_ch]; exact hlen)
    (by rw [load_setup_ch]; exact hcur) (by rw [load_setup_ch]; exact Or.inl (le_refl _))
  have hf := load_timedout_frame N adapter sysnow timeout _ _ s1 h1
    (by rw [load_setup_ch]; exact hcur)
  have hsl := load_timedout_slots N adapter sysnow timeout _ _ s1 h1
  rw [load_setup_ch] at hf hsl
  obtain ⟨s2, h2⟩ := load_stored_total N codec adapter sysnow timeout s1 hN
    (by rw [hf.2.2.2.2.1]; exact hlen)
  have hg := load_stored_frame N codec adapter sysnow timeout 2 s1 s2 h2
  refine ⟨s2, by simp only [h1, Option.some_bind, h2], hg.1.trans hf.1, ?_, ?_⟩
  · intro j
    rcases hg.2 j with e | e
    · rcases hsl j with e' | e'
      · exact Or.inl (e.trans e')
      · exact Or.inr (e.trans e')
    · exact Or.inr e
  · intro hsel hbig
    simp only [load_channel, h1, Option.some_bind, h2, Option.map_some']
    refine ⟨_, rfl, ?_⟩
    cases hb : s2.load_bundle with
    | none => exact absurd hb hsel
    | some b =>
      simp only [load_transmit, hb, hbig, if_true, bplog]
      exact ⟨trivial, trivial, trivial, trivial, trivial⟩

/-- C13 (amended), at the load of `small_load`: the bundle selected is the one
dequeued under the storage ID 7, and the load relinquishes it. -/
theorem bplib_load_bundle_too_large_witness :
    0 < RUN_TABLE_SIZE ∧
    ∃ r, small_load = some r ∧ r.status = BP_BUNDLETOOLARGE ∧
      r.ch.data_bundle.current_custody_id = 0 ∧
      r.store.calls.getLast? = some (.relinquish 0 7) := by
  obtain ⟨s2, h2, hc, _, himp⟩ := bplib_load_bundle_too_large RUN_TABLE_SIZE sim_codec
    sim_adapter (open_on retx_store).2.1 ⟨100, 0⟩ ((open_on retx_store).1.getD 0 default)
    (List.replicate 10 0) 10 0 (by decide) (by decide) (by decide)
  have hd : ((load_timedout RUN_TABLE_SIZE sim_adapter ⟨100, 0⟩ 0
      (2 * (((open_on retx_store).1.getD 0 default).data_bundle.current_custody_id
        - ((open_on retx_store).1.getD 0 default).data_bundle.oldest_custody_id))
      (load_setup sim_adapter (open_on retx_store).2.1
        ((open_on retx_store).1.getD 0 default) 0)).bind
        (fun s1 => load_stored RUN_TABLE_SIZE sim_codec sim_adapter ⟨100, 0⟩ 0 2 s1)).map
      (fun s => (s.load_bundle.isSome, s.load_size, s.load_store, s.sid,
        (sim_adapter.relinquish s.store s.load_store s.sid).1.calls.getLast?))
      = some (true, 132, 0, 7, some (.relinquish 0 7)) := by decide
  rw [h2] at hd
  simp only [Option.map_some', Option.some.injEq, Prod.mk.injEq] at hd
  obtain ⟨e1, e2, e3, e4, e5⟩ := hd
  obtain ⟨r, hr, hs, hch, _, _, hst⟩ := himp
    (by intro hn; rw [hn] at e1; exact absurd e1 (by decide)) (by rw [e2]; decide)
  refine ⟨by decide, r, hr, hs, by rw [hch, hc]; decide, ?_⟩
  rw [hst]; exact e5

theorem load_timedout_fail_step {σ : Type} (N : Nat) (adapter : bp_store_t σ)
    (sysnow : bp_time_t) (timeout : Int) (fuel : Nat) (s : load_state σ)
    (hnone : s.load_bundle = none)
    (hwin : s.ch.data_bundle.oldest_custody_id < s.ch.data_bundle.current_custody_id)
    (hocc : s.ch.data_bundle.active_table.getD (s.ch.data_bundle.oldest_custody_id % N) 0
      ≠ BP_SID_VACANT)
    (hret : (adapter.retrieve s.store s.ch.data_bundle.data_store_handle
      (s.ch.data_bundle.active_table.getD (s.ch.data_bundle.oldest_custody_id % N) 0)
      timeout).2.1 ≠ BP_SUCCESS) :
    load_timedout N adapter sysnow timeout (fuel + 1) s =
      load_timedout N adapter sysnow timeout fuel
        { s with
          store := (adapter.relinquish
            (adapter.retrieve s.store s.ch.data_bundle.data_store_handle
              (s.ch.data_bundle.active_table.getD (s.ch.data_bundle.oldest_custody_id % N) 0)
              timeout).1 s.ch.data_bundle.data_store_handle
            (s.ch.data_bundle.active_table.getD (s.ch.data_bundle.oldest_custody_id % N) 0)).1,
          sid := s.ch.data_bundle.active_table.getD (s.ch.data_bundle.oldest_custody_id % N) 0,
          ch := set_active s.ch (s.ch.data_bundle.oldest_custody_id % N) BP_SID_VACANT,
          loadflags := s.loadflags ||| BP_FLAG_STOREFAIL } := by
  rw [load_timedout]
  simp only [hnone, hwin, and_self, if_true, hocc, if_false, hret]

theorem load_stored_fail_step {σ : Type} (N : Nat) (codec : bp_codec) (adapter : bp_store_t σ)
    (sysnow : bp_time_t) (timeout : Int) (fuel : Nat) (s : load_state σ)
    (hnone : s.load_bundle = none)
    (hocc : s.ch.data_bundle.active_table.getD (s.ch.data_bundle.current_custody_id % N) 0
      ≠ BP_SID_VACANT)
    (hwrap : s.ch.wrap_response = BP_WRAP_RESEND)
    (hret : (adapter.retrieve s.store s.ch.data_bundle.data_store_handle
      (s.ch.data_bundle.active_table.getD (s.ch.data_bundle.current_custody_id % N) 0)
      timeout).2.1 ≠ BP_SUCCESS) :
    load_stored N codec adapter sysnow timeout (fuel + 1) s =
      load_stored N codec adapter sysnow timeout fuel
        { s with
          store := (adapter.relinquish
            (adapter.retrieve s.store s.ch.data_bundle.data_store_handle
              (s.ch.data_bundle.active_table.getD (s.ch.data_bundle.current_custody_id % N) 0)
              timeout).1 s.ch.data_bundle.data_store_handle
            (s.ch.data_bundle.active_table.getD (s.ch.data_bundle.current_custody_id % N) 0)).1,
          sid := s.ch.data_bundle.active_table.getD (s.ch.data_bundle.current_custody_id % N) 0,
          ch := set_active s.ch (s.ch.data_bundle.current_custody_id % N) BP_SID_VACANT,
          loadflags := s.loadflags ||| BP_FLAG_STOREFAIL } := by
  rw [load_stored]
  simp only [hnone, if_true, hocc, if_false, hwrap, hret]

theorem load_stored_drop_step {σ : Type} (N : Nat) (codec : bp_codec) (adapter : bp_store_t σ)
    (sysnow : bp_time_t) (timeout : Int) (fuel : Nat) (s : load_state σ)
    (hnone : s.load_bundle = none)
    (hocc : s.ch.data_bundle.active_table.getD (s.ch.data_bundle.current_custody_id % N) 0
      ≠ BP_SID_VACANT)
    (h1 : s.ch.wrap_response ≠ BP_WRAP_RESEND) (h2 : s.ch.wrap_response ≠ BP_WRAP_BLOCK) :
    load_stored N codec adapter sysnow timeout (fuel + 1) s =
      load_stored N codec adapter sysnow timeout fuel
        { s with
          store := (adapter.relinquish s.store s.ch.data_bundle.data_store_handle
            (s.ch.data_bundle.active_table.getD (s.ch.data_bundle.current_custody_id % N) 0)).1,
          sid := s.ch.data_bundle.active_table.getD (s.ch.data_bundle.current_custody_id % N) 0,
          ch := incr_oldest
            (set_active s.ch (s.ch.data_bundle.current_custody_id % N) BP_SID_VACANT) } := by
  rw [load_stored]
  simp only [hnone, if_true, hocc, if_false, h1, h2]

theorem load_stored_fresh_step {σ : Type} (N : Nat) (codec : bp_codec) (adapter : bp_store_t σ)
    (sysnow : bp_time_t) (timeout : Int) (fuel : Nat) (s : load_state σ)
    (hnone : s.load_bundle = none)
    (hvac : s.ch.data_bundle.active_table.getD (s.ch.data_bundle.current_custody_id % N) 0
      = BP_SID_VACANT)
    (hdeq : (adapter.dequeue s.store s.ch.data_bundle.data_store_handle timeout).2.1
      = BP_SUCCESS) :
    load_stored N codec adapter sysnow timeout (fuel + 1) s =
      some
        (let d := adapter.dequeue s.store s.ch.data_bundle.data_store_handle timeout
         let storebuf : bp_storebuf :=
           { d.2.2.1 with ds := { d.2.2.1.ds with
               retxtime := bplib_addtime codec.time_modulus sysnow s.ch.timeout } }
         { s with
           store := (adapter.refresh d.1 s.ch.data_bundle.data_store_handle storebuf
             codec.sizeof_bp_time_t 0 d.2.2.2.2 timeout).1,
           sid := d.2.2.2.2,
           load_bundle := some (storebuf.ds.header ++ storebuf.tail),
           load_size := storebuf.ds.bundlesize,
           load_store := s.ch.data_bundle.data_store_handle,
           load_custody := true }) := by
  rw [load_stored]
  simp only [hnone, if_true, hvac, hdeq]

theorem load_timedout_notdue {σ : Type} (N : Nat) (adapter : bp_store_t σ)
    (sysnow : bp_time_t) (timeout : Int) (fuel : Nat) (s : load_state σ)
    (hnone : s.load_bundle = none)
    (hwin : s.ch.data_bundle.oldest_custody_id < s.ch.data_bundle.current_custody_id)
    (hocc : s.ch.data_bundle.active_table.getD (s.ch.data_bundle.oldest_custody_id % N) 0
      ≠ BP_SID_VACANT)
    (hret : (adapter.retrieve s.store s.ch.data_bundle.data_store_handle
      (s.ch.data_bundle.active_table.getD (s.ch.data_bundle.oldest_custody_id % N) 0)
      timeout).2.1 = BP_SUCCESS)
    (hdue : ¬ bplib_cmptime sysnow
      (adapter.retrieve s.store s.ch.data_bundle.data_store_handle
        (s.ch.data_bundle.active_table.getD (s.ch.data_bundle.oldest_custody_id % N) 0)
        timeout).2.2.1.ds.retxtime ≥ 0) :
    load_timedout N adapter sysnow timeout (fuel + 1) s =
      some { s with
        store := (adapter.retrieve s.store s.ch.data_bundle.data_store_handle
          (s.ch.data_bundle.active_table.getD (s.ch.data_bundle.oldest_custody_id % N) 0)
          timeout).1,
        sid := s.ch.data_bundle.active_table.getD (s.ch.data_bundle.oldest_custody_id % N) 0 } := by
  rw [load_timedout]
  simp only [hnone, hwin, and_self, if_true, hocc, if_false, hret, hdue]

theorem load_channel_drop {σ : Type} (N : Nat) (codec : bp_codec)
    (adapter : bp_store_t σ) (st : σ) (sysnow : bp_time_t) (ch : bp_channel_t)
    (timeout : Int)
    (hN : 0 < N) (hlen : ch.data_bundle.active_table.length = N)
    (hdrop : ch.wrap_response = BP_WRAP_DROP)
    (hfull : ch.data_bundle.current_custody_id = ch.data_bundle.oldest_custody_id + N)
    (hocc : ch.data_bundle.active_table.getD (ch.data_bundle.current_custody_id % N) 0
      ≠ BP_SID_VACANT)
    (hdacs : (adapter.dequeue st ch.dacs_bundle.dacs_store_handle timeout).2.1 ≠ BP_SUCCESS)
    (hret : (adapter.retrieve (adapter.dequeue st ch.dacs_bundle.dacs_store_handle timeout).1
      ch.data_bundle.data_store_handle
      (ch.data_bundle.active_table.getD (ch.data_bundle.current_custody_id % N) 0)
      timeout).2.1 = BP_SUCCESS)
    (hdue : ¬ bplib_cmptime sysnow
      (adapter.retrieve (adapter.dequeue st ch.dacs_bundle.dacs_store_handle timeout).1
        ch.data_bundle.data_store_handle
        (ch.data_bundle.active_table.getD (ch.data_bundle.current_custody_id % N) 0)
        timeout).2.2.1.ds.retxtime ≥ 0)
    (hdeq : (adapter.dequeue
      (adapter.relinquish
        (adapter.retrieve (adapter.dequeue st ch.dacs_bundle.dacs_store_handle timeout).1
          ch.data_bundle.data_store_handle
          (ch.data_bundle.active_table.getD (ch.data_bundle.current_custody_id % N) 0)
          timeout).1 ch.data_bundle.data_store_handle
        (ch.data_bundle.active_table.getD (ch.data_bundle.current_custody_id % N) 0)).1
      ch.data_bundle.data_store_handle timeout).2.1 = BP_SUCCESS) :
    let old := ch.data_bundle.active_table.getD (ch.data_bundle.current_custody_id % N) 0
    let q := adapter.relinquish
      (adapter.retrieve (adapter.dequeue st ch.dacs_bundle.dacs_store_handle timeout).1
        ch.data_bundle.data_store_handle old timeout).1 ch.data_bundle.data_store_handle old
    let d := adapter.dequeue q.1 ch.data_bundle.data_store_handle timeout
    let storebuf : bp_storebuf :=
      { d.2.2.1 with ds := { d.2.2.1.ds with
          retxtime := bplib_addtime codec.time_modulus sysnow ch.timeout } }
    (load_timedout N adapter sysnow timeout
      (2 * (ch.data_bundle.current_custody_id - ch.data_bundle.oldest_custody_id))
      (load_setup adapter st ch timeout)).bind
        (fun s1 => load_stored N codec adapter sysnow timeout 2 s1) =
      some
        { ch := incr_oldest
            (set_active ch (ch.data_bundle.current_custody_id % N) BP_SID_VACANT),
          store := (adapter.refresh d.1 ch.data_bundle.data_store_handle storebuf
            codec.sizeof_bp_time_t 0 d.2.2.2.2 timeout).1,
          loadflags := 0,
          load_bundle := some (storebuf.ds.header ++ storebuf.tail),
          load_size := storebuf.ds.bundlesize,
          load_store := ch.data_bundle.data_store_handle,
          load_custody := true,
          sid := d.2.2.2.2,
          status := BP_SUCCESS } := by
  intro old q d storebuf
  have hwin : ch.data_bundle.oldest_custody_id < ch.data_bundle.current_custody_id := by omega
  have hslot : ch.data_bundle.oldest_custody_id % N = ch.data_bundle.current_custody_id % N := by
    rw [hfull, Nat.add_mod_right]
  obtain ⟨m, hm⟩ : ∃ m, 2 * (ch.data_bundle.current_custody_id -
      ch.data_bundle.oldest_custody_id) = m + 1 :=
    ⟨2 * (ch.data_bundle.current_custody_id - ch.data_bundle.oldest_custody_id) - 1, by omega⟩
  have h1 : ch.wrap_response ≠ BP_WRAP_RESEND := by rw [hdrop]; decide
  have h2 : ch.wrap_response ≠ BP_WRAP_BLOCK := by rw [hdrop]; decide
  have hs0 : load_setup adapter st ch timeout =
      { ch := ch, store := (adapter.dequeue st ch.dacs_bundle.dacs_store_handle timeout).1,
        loadflags := 0, load_bundle := none, load_size := 0, load_store := 0,
        load_custody := false,
        sid := (adapter.dequeue st ch.dacs_bundle.dacs_store_handle timeout).2.2.2.2,
        status := BP_SUCCESS } := by
    simp only [load_setup, hdacs, if_false]
  rw [hs0, hm, load_timedout_notdue N adapter sysnow timeout m _ rfl hwin
    (by rw [hslot]; exact hocc) (by rw [hslot]; exact hret) (by rw [hslot]; exact hdue)]
  simp only [Option.some_bind, hslot]
  show load_stored N codec adapter sysnow timeout (1 + 1) _ = _
  rw [load_stored_drop_step N codec adapter sysnow timeout 1 _ rfl hocc h1 h2]
  show load_stored N codec adapter sysnow timeout (0 + 1) _ = _
  rw [load_stored_fresh_step N codec adapter sysnow timeout 0 _ rfl
    (by simp only [incr_oldest, set_active, getD_set, hlen, Nat.mod_lt _ hN, and_self, if_true])
    hdeq]
  rfl

/-- C14 (as stated, refuted): under `BP_WRAP_DROP`, with a table of 4 slots that
holds four unacknowledged bundles (`oldest_custody_id = 0`,
`current_custody_id = 4`), the head bundle retrievable and not yet due and a
fifth bundle on the data queue, a fifth load into a buffer of 10 bytes emits
nothing and leaves `current_custody_id = 4`, with `oldest_custody_id = 1` and
slot 0 vacant; and a fifth load that finds an ACS bundle ready emits the ACS
bundle and leaves the table and both counters as they were. -/
theorem wrap_drop_needs_room_and_no_acs :
    (wrap_full 5 BP_WRAP_DROP).map (fun x =>
      (x.1.wrap_response, x.1.data_bundle.active_table, x.1.data_bundle.oldest_custody_id,
        x.1.data_bundle.current_custody_id)) = some (BP_WRAP_DROP, [11, 12, 13, 14], 0, 4) ∧
    (drop_fifth 10).map (fun r =>
      (r.status, r.ch.data_bundle.active_table, r.ch.data_bundle.oldest_custody_id,
        r.ch.data_bundle.current_custody_id)) = some (BP_BUNDLETOOLARGE, [0, 12, 13, 14], 1, 4) ∧
    drop_fifth_acs.map (fun r =>
      (r.status, r.ch.data_bundle.active_table, r.ch.data_bundle.oldest_custody_id,
        r.ch.data_bundle.current_custody_id, r.bundle.take 5))
      = some (5, [11, 12, 13, 14], 0, 4, [64, 1, 0, 1, 0]) := by
  refine ⟨?_, ?_, ?_⟩
  · decide
  · decide
  · decide

/-- C14 (amended): under `BP_WRAP_DROP`, when no ACS bundle is ready,
`current_custody_id - oldest_custody_id = N` with the slot
`active_table[current_custody_id mod N]` occupied, the head bundle is
retrievable and not yet due, the data queue holds another bundle and the
caller's buffer is large enough for it, `bplib_load` calls `relinquish` on the
occupant of that slot, dequeues and refreshes the new bundle, emits it with the
custody ID `c = current_custody_id`, stores its storage ID in that slot and
changes no other slot, makes `oldest_custody_id` one more and
`current_custody_id` `(c + 1) mod 2 ^ 32`, and returns the bundle's size. -/
theorem bplib_load_wrap_drop {σ : Type} (N : Nat) (codec : bp_codec)
    (adapter : bp_store_t σ) (st : σ) (sysnow : bp_time_t) (ch : bp_channel_t)
    (bundle : List Nat) (size : Int) (timeout : Int)
    (hN : 0 < N) (hlen : ch.data_bundle.active_table.length = N)
    (hcur : ch.data_bundle.current_custody_id < UINT32_MOD)
    (hdrop : ch.wrap_response = BP_WRAP_DROP)
    (hfull : ch.data_bundle.current_custody_id = ch.data_bundle.oldest_custody_id + N)
    (hocc : ch.data_bundle.active_table.getD (ch.data_bundle.current_custody_id % N) 0
      ≠ BP_SID_VACANT)
    (hdacs : (adapter.dequeue st ch.dacs_bundle.dacs_store_handle timeout).2.1 ≠ BP_SUCCESS)
    (hret : (adapter.retrieve (adapter.dequeue st ch.dacs_bundle.dacs_store_handle timeout).1
      ch.data_bundle.data_store_handle
      (ch.data_bundle.active_table.getD (ch.data_bundle.current_custody_id % N) 0)
      timeout).2.1 = BP_SUCCESS)
    (hdue : ¬ bplib_cmptime sysnow
      (adapter.retrieve (adapter.dequeue st ch.dacs_bundle.dacs_store_handle timeout).1
        ch.data_bundle.data_store_handle
        (ch.data_bundle.active_table.getD (ch.data_bundle.current_custody_id % N) 0)
        timeout).2.2.1.ds.retxtime ≥ 0)
    (hdeq : (adapter.dequeue
      (adapter.relinquish
        (adapter.retrieve (adapter.dequeue st ch.dacs_bundle.dacs_store_handle timeout).1
          ch.data_bundle.data_store_handle
          (ch.data_bundle.active_table.getD (ch.data_bundle.current_custody_id % N) 0)
          timeout).1 ch.data_bundle.data_store_handle
        (ch.data_bundle.active_table.getD (ch.data_bundle.current_custody_id % N) 0)).1
      ch.data_bundle.data_store_handle timeout).2.1 = BP_SUCCESS)
    (hsize : ¬ size < (adapter.dequeue
      (adapter.relinquish
        (adapter.retrieve (adapter.dequeue st ch.dacs_bundle.dacs_store_handle timeout).1
          ch.data_bundle.data_store_handle
          (ch.data_bundle.active_table.getD (ch.data_bundle.current_custody_id % N) 0)
          timeout).1 ch.data_bundle.data_store_handle
        (ch.data_bundle.active_table.getD (ch.data_bundle.current_custody_id % N) 0)).1
      ch.data_bundle.data_store_handle timeout).2.2.1.ds.bundlesize) :
    let old := ch.data_bundle.active_table.getD (ch.data_bundle.current_custody_id % N) 0
    let q := adapter.relinquish
      (adapter.retrieve (adapter.dequeue st ch.dacs_bundle.dacs_store_handle timeout).1
        ch.data_bundle.data_store_handle old timeout).1 ch.data_bundle.data_store_handle old
    let d := adapter.dequeue q.1 ch.data_bundle.data_store_handle timeout
    let storebuf : bp_storebuf :=
      { d.2.2.1 with ds := { d.2.2.1.ds with
          retxtime := bplib_addtime codec.time_modulus sysnow ch.timeout } }
    let cid : bp_sdnv_t :=
      { ch.data_bundle.custody_block.cid with value := ch.data_bundle.current_custody_id }
    ∃ r, load_channel N codec adapter st sysnow ch bundle size timeout = some r ∧
      r.status = d.2.2.1.ds.bundlesize ∧
      r.store = (adapter.relinquish
        (adapter.refresh d.1 ch.data_bundle.data_store_handle storebuf codec.sizeof_bp_time_t 0
          d.2.2.2.2 timeout).1 ch.data_bundle.data_store_handle d.2.2.2.2).1 ∧
      r.bundle = (codec.bplib_sdnv_write (storebuf.ds.header ++ storebuf.tail) none cid).1.take
          d.2.2.1.ds.bundlesize.toNat ++ bundle.drop d.2.2.1.ds.bundlesize.toNat ∧
      r.ch.data_bundle.custody_block.cid.value = ch.data_bundle.current_custody_id ∧
      r.ch.data_bundle.active_table.getD (ch.data_bundle.current_custody_id % N) 0
        = d.2.2.2.2 ∧
      (∀ j, j ≠ ch.data_bundle.current_custody_id % N →
        r.ch.data_bundle.active_table.getD j 0 = ch.data_bundle.active_table.getD j 0) ∧
      r.ch.data_bundle.oldest_custody_id = ch.data_bundle.oldest_custody_id + 1 ∧
      r.ch.data_bundle.current_custody_id
        = (ch.data_bundle.current_custody_id + 1) % UINT32_MOD := by
  intro old q d storebuf cid
  have hsel := load_channel_drop N codec adapter st sysnow ch timeout hN hlen
    hdrop hfull hocc hdacs hret hdue hdeq
  have hmod : (ch.data_bundle.oldest_custody_id + 1) % UINT32_MOD
      = ch.data_bundle.oldest_custody_id + 1 := Nat.mod_eq_of_lt (by omega)
  have hlt : ch.data_bundle.current_custody_id % N < ch.data_bundle.active_table.length := by
    rw [hlen]; exact Nat.mod_lt _ hN
  have hch : load_channel N codec adapter st sysnow ch bundle size timeout =
      ((load_timedout N adapter sysnow timeout
        (2 * (ch.data_bundle.current_custody_id - ch.data_bundle.oldest_custody_id))
        (load_setup adapter st ch timeout)).bind
          (fun s1 => load_stored N codec adapter sysnow timeout 2 s1)).map
        (fun s2 =>
          let t := load_transmit N codec adapter bundle size s2
          { status := t.1.status, ch := t.1.ch, store := t.1.store, bundle := t.2,
            loadflags := t.1.loadflags }) := by
    simp only [load_channel, Option.map_eq_map, Option.map_bind']
  rw [hch, hsel]
  simp only [Option.map_some', load_transmit, hsize, if_false, if_true, incr_oldest, set_active,
    hmod]
  refine ⟨_, rfl, rfl, rfl, rfl, rfl, ?_, ?_, rfl, rfl⟩
  · simp only [getD_set, List.length_set, hlt, and_self, if_true]
  · intro j hj
    simp only [getD_set, hj.symm, false_and, if_false]

/-- C14 (amended), at the fifth load of the wrap run with a table of 4 slots: the
new bundle is emitted with the custody ID 4 and the storage ID 15 goes into
slot 0; `oldest_custody_id` becomes 1 and `current_custody_id` 5. -/
theorem bplib_load_wrap_drop_witness :
    drop_state.1.wrap_response = BP_WRAP_DROP ∧
    drop_state.1.data_bundle.oldest_custody_id = 0 ∧
    drop_state.1.data_bundle.current_custody_id = 4 ∧
    ∃ r, load_channel RUN_TABLE_SIZE sim_codec sim_adapter drop_state.2 ⟨100, 0⟩ drop_state.1
        (List.replicate 256 0) 256 0 = some r ∧
      r.ch.data_bundle.custody_block.cid.value = 4 ∧
      r.ch.data_bundle.active_table.getD
        (drop_state.1.data_bundle.current_custody_id % RUN_TABLE_SIZE) 0 = 15 ∧
      r.ch.data_bundle.oldest_custody_id = 1 ∧
      r.ch.data_bundle.current_custody_id = 5 := by
  have hc : drop_state.1.data_bundle.current_custody_id = 4 := by decide
  have ho : drop_state.1.data_bundle.oldest_custody_id = 0 := by decide
  obtain ⟨r, h1, _, _, _, h5, h6, _, h8, h9⟩ := bplib_load_wrap_drop RUN_TABLE_SIZE sim_codec
    sim_adapter drop_state.2 ⟨100, 0⟩ drop_state.1 (List.replicate 256 0) 256 0
    (by decide) (by decide) (by decide) (by decide) (by decide) (by decide) (by decide)
    (by decide) (by decide) (by decide) (by decide)
  refine ⟨by decide, ho, hc, r, h1, by rw [h5, hc], ?_, by rw [h8, ho], by rw [h9, hc]; decide⟩
  rw [h6]
  decide

theorem store_fail_set_or (a : Nat) : store_fail_set (a ||| BP_FLAG_STOREFAIL) := by
  have h : BP_FLAG_STOREFAIL.testBit 4 = true := by decide
  simp only [store_fail_set, Nat.testBit_or, h, Bool.or_true]

theorem store_fail_set_mono (a b : Nat) (h : store_fail_set a) : store_fail_set (a ||| b) := by
  simp only [store_fail_set] at h ⊢
  simp only [Nat.testBit_or, h, Bool.true_or]

theorem load_timedout_flag {σ : Type} (N : Nat) (adapter : bp_store_t σ) (sysnow : bp_time_t)
    (timeout : Int) :
    ∀ (fuel : Nat) (s s' : load_state σ),
      load_timedout N adapter sysnow timeout fuel s = some s' →
      store_fail_set s.loadflags → store_fail_set s'.loadflags := by
  intro fuel
  induction fuel with
  | zero =>
    intro s s' h hf
    simp only [load_timedout] at h
    split at h
    · exact absurd h (by simp)
    · cases h; exact hf
  | succ n ih =>
    intro s s' h hf
    simp only [load_timedout] at h
    split at h
    · split at h
      · have hx := ih _ s' h hf
        exact hx
      · split at h
        · split at h
          · cases h; exact hf
          · cases h; exact hf
        · have hx := ih _ s' h (store_fail_set_mono _ _ hf)
          exact hx
    · cases h; exact hf

theorem load_stored_flag {σ : Type} (N : Nat) (codec : bp_codec) (adapter : bp_store_t σ)
    (sysnow : bp_time_t) (timeout : Int) :
    ∀ (fuel : Nat) (s s' : load_state σ),
      load_stored N codec adapter sysnow timeout fuel s = some s' →
      store_fail_set s.loadflags → store_fail_set s'.loadflags := by
  intro fuel
  induction fuel with
  | zero =>
    intro s s' h hf
    simp only [load_stored] at h
    split at h
    · exact absurd h (by simp)
    · cases h; exact hf
  | succ n ih =>
    intro s s' h hf
    simp only [load_stored] at h
    split at h
    · split at h
      · split at h
        · cases h; exact hf
        · split at h
          · cases h; exact hf
          · cases h; exact store_fail_set_mono _ _ hf
      · split at h
        · split at h
          · have hx := ih _ s' h hf
            exact hx
          · have hx := ih _ s' h (store_fail_set_mono _ _ hf)
            exact hx
        · split at h
          · cases h; exact hf
          · have hx := ih _ s' h hf
            exact hx
    · cases h; exact hf

theorem load_transmit_flags {σ : Type} (N : Nat) (codec : bp_codec) (adapter : bp_store_t σ)
    (bundle : List Nat) (size : Int) (s : load_state σ) :
    (load_transmit N codec adapter bundle size s).1.loadflags = s.loadflags := by
  simp only [load_transmit]
  split
  · rfl
  · split
    · rfl
    · rfl

theorem load_stored_slot {σ : Type} (N : Nat) (codec : bp_codec) (adapter : bp_store_t σ)
    (sysnow : bp_time_t) (timeout : Int) :
    ∀ (fuel : Nat) (s s' : load_state σ),
      load_stored N codec adapter sysnow timeout fuel s = some s' →
      (s.load_bundle = none ∨
        s.ch.data_bundle.active_table.getD (s.ch.data_bundle.current_custody_id % N) 0
          = s.sid) →
      s'.load_bundle ≠ none →
      s'.ch.data_bundle.active_table.getD (s'.ch.data_bundle.current_custody_id % N) 0
          = BP_SID_VACANT ∨
        s'.ch.data_bundle.active_table.getD (s'.ch.data_bundle.current_custody_id % N) 0
          = s'.sid := by
  intro fuel
  induction fuel with
  | zero =>
    intro s s' h hs hsel
    simp only [load_stored] at h
    split at h
    · exact absurd h (by simp)
    · rename_i hb
      cases h
      rcases hs with e | e
      · exact absurd e hb
      · exact Or.inr e
  | succ n ih =>
    intro s s' h hs hsel
    simp only [load_stored] at h
    split at h
    · rename_i hnone
      split at h
      · rename_i hvac
        split at h
        · cases h; exact Or.inl hvac
        · split at h
          · cases h; exact absurd hnone hsel
          · cases h; exact absurd hnone hsel
      · split at h
        · split at h
          · have hx := ih _ s' h (Or.inr rfl) hsel
            exact hx
          · have hx := ih _ s' h (Or.inl hnone) hsel
            exact hx
        · split at h
          · cases h; exact absurd hnone hsel
          · have hx := ih _ s' h (Or.inl hnone) hsel
            exact hx
    · rename_i hb
      cases h
      rcases hs with e | e
      · exact absurd e hb
      · exact Or.inr e

/-- C15 (code evaluated at the failing input): under `BP_WRAP_RESEND`, with a
table of 4 slots that holds the storage IDs 11 to 14 and
`current_custody_id = 5` after the fifth load, the sixth load re-emits the overdue bundle 11 and writes its storage ID
into slot `5 mod 4 = 1`, which held the storage ID 12; the calls it makes on the
storage service are a dequeue on the DACS queue, the retrieve of 11 and the
relinquish of 11: none for 12. -/
theorem retransmit_overwrites_occupied_slot :
    resend_fifth.map (fun r =>
      (r.ch.data_bundle.active_table, r.ch.data_bundle.current_custody_id,
        r.store.calls.length)) = some ([11, 12, 13, 14], 5, 25) ∧
    resend_sixth.map (fun r =>
      (r.status, r.ch.data_bundle.active_table, r.store.calls.drop 25))
      = some (132, [11, 11, 13, 14],
          [.dequeue 2 0, .retrieve 0 11 0, .relinquish 0 11]) := by
  refine ⟨?_, ?_⟩
  · decide
  · decide

/-- The part of C15 that `bplib_load` meets: whenever `retrieve` fails for the
storage ID held in an active-table slot, in the retransmit scan or in the `BP_WRAP_RESEND`
branch, the next state of the loop has `relinquish` called for that storage ID
after the `retrieve`, the slot vacant and `BP_FLAG_STOREFAIL` or-ed into
`*loadflags`; the `BP_WRAP_DROP` branch calls `relinquish` for the occupant of
the slot it vacates; once set, `BP_FLAG_STOREFAIL` stays set through both loops
and the transmit step; and when the second loop selects a bundle, the slot
`active_table[current_custody_id mod N]` that the transmit step writes is vacant
or holds the selected bundle's storage ID. -/
theorem bplib_load_retrieve_failure {σ : Type} (N : Nat) (codec : bp_codec)
    (adapter : bp_store_t σ) (sysnow : bp_time_t) (timeout : Int) :
    (∀ (fuel : Nat) (s : load_state σ), s.load_bundle = none →
      s.ch.data_bundle.oldest_custody_id < s.ch.data_bundle.current_custody_id →
      s.ch.data_bundle.active_table.getD (s.ch.data_bundle.oldest_custody_id % N) 0
        ≠ BP_SID_VACANT →
      (adapter.retrieve s.store s.ch.data_bundle.data_store_handle
        (s.ch.data_bundle.active_table.getD (s.ch.data_bundle.oldest_custody_id % N) 0)
        timeout).2.1 ≠ BP_SUCCESS →
      load_timedout N adapter sysnow timeout (fuel + 1) s =
        load_timedout N adapter sysnow timeout fuel
          { s with
            store := (adapter.relinquish
              (adapter.retrieve s.store s.ch.data_bundle.data_store_handle
                (s.ch.data_bundle.active_table.getD (s.ch.data_bundle.oldest_custody_id % N) 0)
                timeout).1 s.ch.data_bundle.data_store_handle
              (s.ch.data_bundle.active_table.getD
                (s.ch.data_bundle.oldest_custody_id % N) 0)).1,
            sid := s.ch.data_bundle.active_table.getD (s.ch.data_bundle.oldest_custody_id % N) 0,
            ch := set_active s.ch (s.ch.data_bundle.oldest_custody_id % N) BP_SID_VACANT,
            loadflags := s.loadflags ||| BP_FLAG_STOREFAIL }) ∧
    (∀ (fuel : Nat) (s : load_state σ), s.load_bundle = none →
      s.ch.data_bundle.active_table.getD (s.ch.data_bundle.current_custody_id % N) 0
        ≠ BP_SID_VACANT →
      s.ch.wrap_response = BP_WRAP_RESEND →
      (adapter.retrieve s.store s.ch.data_bundle.data_store_handle
        (s.ch.data_bundle.active_table.getD (s.ch.data_bundle.current_custody_id % N) 0)
        timeout).2.1 ≠ BP_SUCCESS →
      load_stored N codec adapter sysnow timeout (fuel + 1) s =
        load_stored N codec adapter sysnow timeout fuel
          { s with
            store := (adapter.relinquish
              (adapter.retrieve s.store s.ch.data_bundle.data_store_handle
                (s.ch.data_bundle.active_table.getD (s.ch.data_bundle.current_custody_id % N) 0)
                timeout).1 s.ch.data_bundle.data_store_handle
              (s.ch.data_bundle.active_table.getD
                (s.ch.data_bundle.current_custody_id % N) 0)).1,
            sid := s.ch.data_bundle.active_table.getD (s.ch.data_bundle.current_custody_id % N) 0,
            ch := set_active s.ch (s.ch.data_bundle.current_custody_id % N) BP_SID_VACANT,
            loadflags := s.loadflags ||| BP_FLAG_STOREFAIL }) ∧
    (∀ (fuel : Nat) (s : load_state σ), s.load_bundle = none →
      s.ch.data_bundle.active_table.getD (s.ch.data_bundle.current_custody_id % N) 0
        ≠ BP_SID_VACANT →
      s.ch.wrap_response ≠ BP_WRAP_RESEND → s.ch.wrap_response ≠ BP_WRAP_BLOCK →
      load_stored N codec adapter sysnow timeout (fuel + 1) s =
        load_stored N codec adapter sysnow timeout fuel
          { s with
            store := (adapter.relinquish s.store s.ch.data_bundle.data_store_handle
              (s.ch.data_bundle.active_table.getD
                (s.ch.data_bundle.current_custody_id % N) 0)).1,
            sid := s.ch.data_bundle.active_table.getD (s.ch.data_bundle.current_custody_id % N) 0,
            ch := incr_oldest
              (set_active s.ch (s.ch.data_bundle.current_custody_id % N) BP_SID_VACANT) }) ∧
    (∀ (a : Nat), store_fail_set (a ||| BP_FLAG_STOREFAIL)) ∧
    (∀ (fuel : Nat) (s s' : load_state σ),
      load_timedout N adapter sysnow timeout fuel s = some s' →
      store_fail_set s.loadflags → store_fail_set s'.loadflags) ∧
    (∀ (fuel : Nat) (s s' : load_state σ),
      load_stored N codec adapter sysnow timeout fuel s = some s' →
      store_fail_set s.loadflags → store_fail_set s'.loadflags) ∧
    (∀ (bundle : List Nat) (size : Int) (s : load_state σ),
      (load_transmit N codec adapter bundle size s).1.loadflags = s.loadflags) ∧
    (∀ (fuel : Nat) (s s' : load_state σ), s.load_bundle = none →
      load_stored N codec adapter sysnow timeout fuel s = some s' →
      s'.load_bundle ≠ none →
      s'.ch.data_bundle.active_table.getD (s'.ch.data_bundle.current_custody_id % N) 0
          = BP_SID_VACANT ∨
        s'.ch.data_bundle.active_table.getD (s'.ch.data_bundle.current_custody_id % N) 0
          = s'.sid) :=
  ⟨fun fuel s => load_timedout_fail_step N adapter sysnow timeout fuel s,
    fun fuel s => load_stored_fail_step N codec adapter sysnow timeout fuel s,
    fun fuel s => load_stored_drop_step N codec adapter sysnow timeout fuel s,
    store_fail_set_or,
    load_timedout_flag N adapter sysnow timeout,
    load_stored_flag N codec adapter sysnow timeout,
    load_transmit_flags N codec adapter,
    fun fuel s s' hn h hsel =>
      load_stored_slot N codec adapter sysnow timeout fuel s s' h (Or.inl hn) hsel⟩

/-- The part of C15 that `bplib_load` meets, at the scan of `fresh_after_loss`:
the `retrieve` of the storage ID 7 in slot 0 fails; after the scan the last call on the storage
service is the relinquish of 7 on the data queue, slot 0 is vacant and
`*loadflags` is `BP_FLAG_STOREFAIL`. -/
theorem bplib_load_retrieve_failure_witness :
    (load_setup sim_adapter fresh_store retx_channel 0).load_bundle = none ∧
    retx_channel.data_bundle.active_table.getD 0 0 = 7 ∧
    (load_timedout RUN_TABLE_SIZE sim_adapter ⟨105, 0⟩ 0 2
      (load_setup sim_adapter fresh_store retx_channel 0)).map
      (fun t => (t.ch.data_bundle.active_table.getD 0 0, t.loadflags,
        t.store.calls.getLast?)) = some (BP_SID_VACANT, BP_FLAG_STOREFAIL,
          some (.relinquish 0 7)) := by
  refine ⟨by decide, by decide, ?_⟩
  rw [(bplib_load_retrieve_failure RUN_TABLE_SIZE sim_codec sim_adapter ⟨105, 0⟩ 0).1 1
    (load_setup sim_adapter fresh_store retx_channel 0) (by decide) (by decide) (by decide)
    (by decide)]
  decide

/-! ## C18-C20: `bplib_store` -/

theorem frag_lt_iff (n f j : Nat) (hf : 1 ≤ f) (hn : 0 < n) :
    j < frag_count n f ↔ j * f < n := by
  unfold frag_count
  rw [Nat.lt_iff_add_one_le, Nat.le_div_iff_mul_le (by omega), Nat.add_mul, Nat.one_mul]
  omega

theorem to_uint32_cast (x : Nat) (h : x < 2 ^ 31) : to_uint32 (x : Int) = x := by
  unfold to_uint32 UINT32_MOD
  have h2 : ((x : Int)) % ((2 ^ 32 : Nat) : Int) = x := by
    apply Int.emod_eq_of_lt
    · exact Int.natCast_nonneg x
    · have : x < 2 ^ 32 := by omega
      exact_mod_cast this
  rw [h2]
  exact Int.toNat_natCast x

theorem update_data_header_frag (codec : bp_codec) (tm : bp_time_t) (b : bp_data_bundle_t)
    (p : List Nat) (sz off total : Int) (h : b.primary_block.allow_frag = true) :
    (update_data_header codec tm b p sz off total).1.primary_block.fragoffset.value
      = to_uint32 off ∧
    (update_data_header codec tm b p sz off total).1.primary_block.paylen.value
      = to_uint32 total ∧
    (update_data_header codec tm b p sz off total).1.primary_block.allow_frag = true ∧
    (update_data_header codec tm b p sz off total).1.data_storage.bundlesize
      = b.data_storage.bundlesize ∧
    (update_data_header codec tm b p sz off total).1.data_storage.headersize
      = b.data_storage.headersize ∧
    (update_data_header codec tm b p sz off total).1.data_store_handle
      = b.data_store_handle := by
  cases hc : b.creation_time_sys <;> simp [update_data_header, h, hc]

theorem frag_size_cast (n f j : Nat) :
    (if (f : Int) < (n : Int) - ((j * f : Nat) : Int) then (f : Int)
      else (n : Int) - ((j * f : Nat) : Int)) = ((frag_len n f j : Nat) : Int) ∨
    n < j * f := by
  unfold frag_len
  by_cases h : n < j * f
  · exact Or.inr h
  · left
    split
    · rw [min_eq_left (by omega)]
    · rw [min_eq_right (by omega)]
      omega

theorem store_fragments_spec {σ : Type} (codec : bp_codec) (layout : bp_layout)
    (adapter : bp_store_t σ) (tm : bp_time_t) (payload : List Nat) (n f : Nat)
    (timeout : Int) (ch0 : bp_channel_t) (hf : 1 ≤ f) (hn : 0 < n) (hint : n < 2 ^ 31) :
    ∀ (fuel j : Nat) (ch : bp_channel_t) (st : σ),
      frag_count n f ≤ fuel + j → j ≤ frag_count n f →
      ch.data_bundle.primary_block.allow_frag = true →
      ch.fragment_maxlength = f →
      ch.data_bundle.data_storage.headersize = ch0.data_bundle.data_storage.headersize →
      ch.data_bundle.data_store_handle = ch0.data_bundle.data_store_handle →
      ∃ (bs : List bp_data_bundle_t) (r : bp_channel_t × σ),
        store_fragments codec layout adapter tm payload (n : Int) timeout fuel ch st
          ((min (j * f) n : Nat) : Int) = some r ∧
        List.Forall₂ (frag_ok ch0 n f) (List.range' j (frag_count n f - j)) bs ∧
        r.2 = ((List.range' j (frag_count n f - j)).zip bs).foldl
          (frag_enqueue layout adapter payload n f timeout) st := by
  intro fuel
  induction fuel with
  | zero =>
    intro j ch st h1 h2 _ _ _ _
    have hj : j = frag_count n f := by omega
    have hge : ¬ j * f < n := by rw [← frag_lt_iff n f j hf hn]; omega
    have hmin : min (j * f) n = n := min_eq_right (by omega)
    refine ⟨[], (ch, st), ?_, ?_, ?_⟩
    · simp only [store_fragments, hmin, lt_irrefl, if_false]
    · rw [hj, Nat.sub_self]; exact List.Forall₂.nil
    · rw [hj, Nat.sub_self]; rfl
  | succ k ih =>
    intro j ch st h1 h2 ha hfm hh hd
    by_cases hlt : j * f < n
    · have hjm : j < frag_count n f := (frag_lt_iff n f j hf hn).mpr hlt
      have hmin : min (j * f) n = j * f := min_eq_left (by omega)
      have hcond : ((j * f : Nat) : Int) < (n : Int) := by exact_mod_cast hlt
      have hsz := (frag_size_cast n f j).resolve_right (by omega)
      have hlen : frag_len n f j = min f (n - j * f) := rfl
      have hoff : ((j * f : Nat) : Int) + ((frag_len n f j : Nat) : Int)
          = ((min ((j + 1) * f) n : Nat) : Int) := by
        have : j * f + frag_len n f j = min ((j + 1) * f) n := by
          rw [hlen, Nat.add_mul, Nat.one_mul]; omega
        exact_mod_cast this
      have hu := update_data_header_frag codec tm
        (set_bundlesize ch.data_bundle ((frag_len n f j : Nat) : Int))
        (payload.drop (j * f)) ((frag_len n f j : Nat) : Int) ((j * f : Nat) : Int) (n : Int) ha
      obtain ⟨u1, u2, u3, u4, u5, u6⟩ := hu
      obtain ⟨bs, r, hr, hall, hst⟩ := ih (j + 1)
        { ch with data_bundle := (update_data_header codec tm
            (set_bundlesize ch.data_bundle ((frag_len n f j : Nat) : Int))
            (payload.drop (j * f)) ((frag_len n f j : Nat) : Int) ((j * f : Nat) : Int)
            (n : Int)).1 }
        (adapter.enqueue st
          (update_data_header codec tm
            (set_bundlesize ch.data_bundle ((frag_len n f j : Nat) : Int))
            (payload.drop (j * f)) ((frag_len n f j : Nat) : Int) ((j * f : Nat) : Int)
            (n : Int)).1.data_store_handle
          (layout.data_bundle_bytes (update_data_header codec tm
            (set_bundlesize ch.data_bundle ((frag_len n f j : Nat) : Int))
            (payload.drop (j * f)) ((frag_len n f j : Nat) : Int) ((j * f : Nat) : Int)
            (n : Int)).1)
          layout.sizeof_bp_data_store_t (payload.drop (j * f)) ((frag_len n f j : Nat) : Int)
          timeout).1
        (by omega) (by omega) u3 hfm (by rw [u5]; exact hh) (by rw [u6]; exact hd)
      have hrange : frag_count n f - j = (frag_count n f - (j + 1)) + 1 := by omega
      refine ⟨(update_data_header codec tm
          (set_bundlesize ch.data_bundle ((frag_len n f j : Nat) : Int))
          (payload.drop (j * f)) ((frag_len n f j : Nat) : Int) ((j * f : Nat) : Int)
          (n : Int)).1 :: bs, r, ?_, ?_, ?_⟩
      · rw [store_fragments]
        simp only [hmin, hcond, if_true, hfm, hsz, Int.toNat_natCast, hoff]
        rw [hfm] at hr
        exact hr
      · rw [hrange, List.range'_succ]
        refine List.Forall₂.cons ⟨?_, ?_, ?_, ?_, ?_⟩ hall
        · rw [u1]; exact to_uint32_cast _ (by omega)
        · rw [u2]; exact to_uint32_cast _ hint
        · rw [u4, u5]; rfl
        · rw [u5]; exact hh
        · rw [u6]; exact hd
      · rw [hrange, List.range'_succ, List.zip_cons_cons, List.foldl_cons]
        exact hst
    · have hj : j = frag_count n f := by
        have := (frag_lt_iff n f j hf hn).not.mpr hlt
        omega
      have hmin : min (j * f) n = n := min_eq_right (by omega)
      refine ⟨[], (ch, st), ?_, ?_, ?_⟩
      · simp only [store_fragments, hmin, lt_irrefl, if_false]
      · rw [hj, Nat.sub_self]; exact List.Forall₂.nil
      · rw [hj, Nat.sub_self]; rfl

theorem frag_concat (payload : List Nat) (n f : Nat) (hf : 1 ≤ f) (hn : 0 < n) :
    ∀ (d j : Nat), j + d = frag_count n f →
      ((List.range' j d).map
        (fun k => (payload.drop (k * f)).take (frag_len n f k))).flatten
        = (payload.drop (j * f)).take (n - j * f) := by
  intro d
  induction d with
  | zero =>
    intro j hj
    have hge : ¬ j * f < n := by rw [← frag_lt_iff n f j hf hn]; omega
    have h0 : n - j * f = 0 := by omega
    rw [h0]
    rfl
  | succ d ih =>
    intro j hj
    have hlt : j * f < n := (frag_lt_iff n f j hf hn).mp (by omega)
    rw [List.range'_succ, List.map_cons, List.flatten_cons, ih (j + 1) (by omega)]
    have hmul : (j + 1) * f = j * f + f := by rw [Nat.add_mul, Nat.one_mul]
    unfold frag_len
    by_cases hc : f ≤ n - j * f
    · rw [min_eq_left hc, hmul]
      have hsplit : n - j * f = f + (n - (j * f + f)) := by omega
      rw [hsplit, List.take_add, List.drop_drop]
    · rw [min_eq_right (by omega)]
      have h0 : n - (j + 1) * f = 0 := by rw [hmul]; omega
      rw [h0, List.take_zero, List.append_nil]

/-- What the loop of `bplib_store` does for an open channel with allow-frag set
and `fragment_maxlength = f >= 1` and a payload of `n` bytes with
`0 < n <= bundle_maxlength` (`n` an `int`): the call returns `BP_SUCCESS` after
`frag_count n f` enqueues on the data queue, made in order; the `k`-th is made
with the payload pointer `payload + k * f` and the payload size `frag_len n f k`,
and is handed the memory from `&ch->data_bundle` on, the channel's bundle
`bs[k]` then holding the fragment offset `k * f`, the total length `n` and a
`bundlesize` of `headersize` plus the length of the fragment. -/
theorem bplib_store_fragments {σ : Type} (codec : bp_codec) (layout : bp_layout)
    (adapter : bp_store_t σ) (st : σ) (tm : bp_time_t) (channels : List bp_channel_t)
    (channel : Int) (payload : List Nat) (n f : Nat) (timeout : Int)
    (hc1 : 0 ≤ channel) (hc2 : channel < BP_MAX_CHANNELS)
    (hopen : (channels.getD channel.toNat default).channel_index = channel)
    (hfrag : (channels.getD channel.toNat default).data_bundle.primary_block.allow_frag = true)
    (hfm : (channels.getD channel.toNat default).fragment_maxlength = f)
    (hf : 1 ≤ f) (hn : 0 < n)
    (hmax : (n : Int) ≤ (channels.getD channel.toNat default).bundle_maxlength)
    (hint : n < 2 ^ 31) :
    ∃ (r : bplib_result σ) (bs : List bp_data_bundle_t),
      bplib_store codec layout adapter st tm channels channel (some payload) n timeout
        = some r ∧
      r.status = BP_SUCCESS ∧
      List.Forall₂ (frag_ok (channels.getD channel.toNat default) n f)
        (List.range (frag_count n f)) bs ∧
      r.store = ((List.range (frag_count n f)).zip bs).foldl
        (frag_enqueue layout adapter payload n f timeout) st ∧
      ((List.range (frag_count n f)).map
        (fun k => (payload.drop (k * f)).take (frag_len n f k))).flatten = payload.take n := by
  obtain ⟨bs, x, hx, hall, hst⟩ := store_fragments_spec codec layout adapter tm payload n f
    timeout (channels.getD channel.toNat default) hf hn hint n 0
    (channels.getD channel.toNat default) st
    (by
      have : frag_count n f ≤ n := by
        unfold frag_count
        rw [Nat.div_le_iff_le_mul_add_pred (by omega)]
        have : n ≤ f * n := Nat.le_mul_of_pos_left n (by omega)
        omega
      omega)
    (Nat.zero_le _) hfrag hfm rfl rfl
  have h1 : ¬ (channel < 0 ∨ channel ≥ BP_MAX_CHANNELS) := by omega
  have h2 : ¬ ((n : Int) > (channels.getD channel.toNat default).bundle_maxlength) := by omega
  have h0 : ((min (0 * f) n : Nat) : Int) = 0 := by simp
  rw [h0] at hx
  rw [Nat.sub_zero, ← List.range_eq_range'] at hall hst
  have hc := frag_concat payload n f hf hn (frag_count n f) 0 (by omega)
  rw [← List.range_eq_range', Nat.zero_mul, List.drop_zero, Nat.sub_zero] at hc
  have hs : bplib_store codec layout adapter st tm channels channel (some payload) n timeout
      = some { status := BP_SUCCESS,
               channels := channels.set channel.toNat (incr_createseq x.1),
               store := x.2 } := by
    simp only [bplib_store, h1, if_false, hopen, ne_eq, not_true_eq_false, h2, store_channel,
      hfrag, if_true, Int.toNat_natCast, hx, Option.map_some']
  exact ⟨_, bs, hs, rfl, hall, hst, hc⟩

set_option maxRecDepth 100000 in
/-- C18 (code evaluated at the failing input): allow-frag set, maximum fragment
length 8, the 16 bytes `"0123456789ABCDEF"`.  `bplib_store` returns
`BP_SUCCESS` after two `enqueue` calls on the data queue, with the payload bytes
`"01234567"` and `"89ABCDEF"`.  The header record of each call is the first
`sizeof(bp_data_store_t)` = 156 bytes at `&ch->data_bundle`, where the primary
block lies, not `ch->data_bundle.data_storage`: the two records are equal byte
for byte, and read as a `bp_data_store_t`, as `bplib_load` reads a dequeued
object, each has the `headersize` 4 and the `bundlesize` 2, while the channel's
`data_storage` holds the `bundlesize` 12 = 4 + 8 and its primary block the
fragment offset 8 and the total length 16. -/
theorem bplib_store_enqueues_primary_block :
    frag_stored.map (fun r => r.status) = some BP_SUCCESS ∧
    frag_stored.map (fun r => (r.store.calls.drop 3).map enqueued_payload)
      = some [some (0, [48, 49, 50, 51, 52, 53, 54, 55], 8),
              some (0, [56, 57, 65, 66, 67, 68, 69, 70], 8)] ∧
    frag_stored.map (fun r =>
      (r.store.calls.drop 3).map (fun c => (enqueued_record c).map List.length))
      = some [some 156, some 156] ∧
    frag_stored.map (fun r =>
      decide (enqueued_record (r.store.calls.getD 3 .create)
        = enqueued_record (r.store.calls.getD 4 .create))) = some true ∧
    frag_stored.map (fun r => (r.store.calls.drop 3).map (fun c =>
      (stored_object c).map (fun o => (o.1.ds.headersize, o.1.ds.bundlesize))))
      = some [some (4, 2), some (4, 2)] ∧
    frag_stored.map (fun r =>
      ((r.channels.getD 0 default).data_bundle.data_storage.headersize,
        (r.channels.getD 0 default).data_bundle.data_storage.bundlesize,
        (r.channels.getD 0 default).data_bundle.primary_block.fragoffset.value,
        (r.channels.getD 0 default).data_bundle.primary_block.paylen.value))
      = some (4, 12, 8, 16) := by
  refine ⟨?_, ?_, ?_, ?_, ?_, ?_⟩
  · decide
  · decide
  · decide
  · decide
  · decide
  · decide

/-- C19 (code evaluated at the failing input): on a channel with the options of
`bplib_open` (allow-frag not set, use-system-time set), the second `bplib_store`
of `"hello"`, made at `9 s` when the channel's creation sequence is 1, returns
`BP_SUCCESS` and leaves the header as `bplib_open` built it: the creation time,
the creation nanoseconds and the creation sequence fields (bytes 40 to 51) are
zeros, and `update_data_header` has returned `BP_UNSUPPORTED` without writing.
With allow-frag set, the same two calls leave the SDNVs of 9, 0 and 1 there. -/
theorem bplib_store_skips_header_update :
    ((store_open (sim_store_init [] [] [])).getD 0 default).data_bundle.primary_block.allow_frag
      = false ∧
    ((store_open (sim_store_init [] [] [])).getD 0 default).data_bundle.creation_time_sys
      = true ∧
    (update_data_header sim_codec ⟨9, 0⟩
      ((store_open (sim_store_init [] [] [])).getD 0 default).data_bundle hello 5 0 5)
      = (((store_open (sim_store_init [] [] [])).getD 0 default).data_bundle, BP_UNSUPPORTED) ∧
    (store_twice false).map (fun r =>
      (r.status, (r.channels.getD 0 default).data_bundle.primary_block.createseq.value,
        ((r.channels.getD 0 default).data_bundle.data_storage.header.drop 40).take 12))
      = some (BP_SUCCESS, 2, [0, 0, 0, 0, 0, 0, 0, 0, 0, 0, 0, 0]) ∧
    (store_twice true).map (fun r =>
      (r.status, (r.channels.getD 0 default).data_bundle.primary_block.createseq.value,
        ((r.channels.getD 0 default).data_bundle.data_storage.header.drop 40).take 12))
      = some (BP_SUCCESS, 2, [128, 128, 128, 9, 128, 128, 128, 0, 128, 128, 128, 1]) := by
  refine ⟨by decide, by decide, by decide, by decide, by decide⟩

/-- C20 (code evaluated at the failing input): on a store whose `enqueue` times
out, `bplib_store` of `"hello"` makes the one `enqueue` call, returns
`BP_SUCCESS` and increments the channel's creation sequence from 0 to 1. -/
theorem bplib_store_ignores_enqueue_status :
    (sim_adapter.enqueue (open_on timeout_store).2.1 0 [] 0 [] 0 0).2 = BP_TIMEOUT ∧
    ((store_open timeout_store).getD 0 default).data_bundle.primary_block.createseq.value = 0 ∧
    (store_hello timeout_store).map (fun r =>
      (r.status, (r.channels.getD 0 default).data_bundle.primary_block.createseq.value,
        r.store.calls.length, r.store.enqueues))
      = some (BP_SUCCESS, 1, 4, []) := by
  refine ⟨by decide, by decide, by decide⟩

/-! ## C16-C17: `bplib_process` -/

theorem update_data_header_window (codec : bp_codec) (tm : bp_time_t) (b : bp_data_bundle_t)
    (p : List Nat) (sz off total : Int) :
    (update_data_header codec tm b p sz off total).1.oldest_custody_id = b.oldest_custody_id ∧
    (update_data_header codec tm b p sz off total).1.current_custody_id
      = b.current_custody_id := by
  simp only [update_data_header]
  split
  · exact ⟨rfl, rfl⟩
  · exact ⟨rfl, rfl⟩

theorem process_admin_window {σ : Type} (N : Nat) (reader : bp_reader σ)
    (adapter : bp_store_t σ) (size : Int) (s : proc_state σ) :
    (process_admin N reader adapter size s).1.ch.data_bundle.oldest_custody_id
      = s.ch.data_bundle.oldest_custody_id ∧
    (process_admin N reader adapter size s).1.ch.data_bundle.current_custody_id
      = s.ch.data_bundle.current_custody_id := by
  simp only [process_admin]
  repeat' split
  all_goals exact ⟨rfl, rfl⟩

theorem process_forward_window {σ : Type} (codec : bp_codec) (layout : bp_layout)
    (adapter : bp_store_t σ) (tm : bp_time_t) (stack : proc_stack) (priblk : bp_blk_pri_t)
    (size timeout : Int) (s : proc_state σ) :
    (process_forward codec layout adapter tm stack priblk size timeout
      s).1.ch.data_bundle.oldest_custody_id = s.ch.data_bundle.oldest_custody_id ∧
    (process_forward codec layout adapter tm stack priblk size timeout
      s).1.ch.data_bundle.current_custody_id = s.ch.data_bundle.current_custody_id := by
  simp only [process_forward]
  repeat' split
  all_goals first
    | exact ⟨rfl, rfl⟩
    | exact update_data_header_window codec tm s.ch.data_bundle _ _ _ _

theorem process_payload_window {σ : Type} (N : Nat) (codec : bp_codec) (layout : bp_layout)
    (reader : bp_reader σ) (adapter : bp_store_t σ) (tm : bp_time_t) (stack : proc_stack)
    (priblk : bp_blk_pri_t) (size timeout : Int) (blk_length : Nat) (s : proc_state σ) :
    (process_payload N codec layout reader adapter tm stack priblk size timeout blk_length
      s).ch.data_bundle.oldest_custody_id = s.ch.data_bundle.oldest_custody_id ∧
    (process_payload N codec layout reader adapter tm stack priblk size timeout blk_length
      s).ch.data_bundle.current_custody_id = s.ch.data_bundle.current_custody_id := by
  simp only [process_payload, proc_return, process_deliver]
  repeat' split
  all_goals first
    | exact ⟨rfl, rfl⟩
    | exact process_admin_window N reader adapter size s
    | exact process_forward_window codec layout adapter tm stack priblk size timeout s

theorem process_other_window {σ : Type} (reader : bp_reader σ) (size start_index : Int)
    (blk_type : Nat) (flag_size : Int) (blk_flags blk_length : Nat) (s : proc_state σ) :
    (∀ s', process_other reader size start_index blk_type flag_size blk_flags blk_length s
        = .inl s' →
      s'.ch.data_bundle.oldest_custody_id = s.ch.data_bundle.oldest_custody_id ∧
      s'.ch.data_bundle.current_custody_id = s.ch.data_bundle.current_custody_id) ∧
    (∀ r, process_other reader size start_index blk_type flag_size blk_flags blk_length s
        = .inr r →
      r.ch.data_bundle.oldest_custody_id = s.ch.data_bundle.oldest_custody_id ∧
      r.ch.data_bundle.current_custody_id = s.ch.data_bundle.current_custody_id) := by
  constructor
  · intro s' h
    simp only [process_other, proc_return] at h
    repeat' split at h
    all_goals first
      | (cases h; done)
      | (cases h; exact ⟨rfl, rfl⟩)
  · intro r h
    simp only [process_other, proc_return] at h
    repeat' split at h
    all_goals first
      | (cases h; done)
      | (cases h; exact ⟨rfl, rfl⟩)

theorem process_blocks_window {σ : Type} (N : Nat) (codec : bp_codec) (layout : bp_layout)
    (reader : bp_reader σ) (adapter : bp_store_t σ) (tm : bp_time_t) (stack : proc_stack)
    (priblk : bp_blk_pri_t) (size timeout : Int) :
    ∀ (fuel : Nat) (s : proc_state σ) (r : proc_result σ),
      process_blocks N codec layout reader adapter tm stack priblk size timeout fuel s
        = some r →
      r.ch.data_bundle.oldest_custody_id = s.ch.data_bundle.oldest_custody_id ∧
      r.ch.data_bundle.current_custody_id = s.ch.data_bundle.current_custody_id := by
  intro fuel
  induction fuel with
  | zero =>
    intro s r h
    simp only [process_blocks] at h
    split at h
    · exact absurd h (by simp)
    · cases h; exact ⟨rfl, rfl⟩
  | succ n ih =>
    intro s r h
    rw [process_blocks] at h
    dsimp only at h
    split at h
    · split at h
      · cases h; exact ⟨rfl, rfl⟩
      · split at h
        · have h2 := Option.some.inj h
          rw [← h2]
          exact process_payload_window N codec layout reader adapter tm stack priblk size
            timeout _ _
        · split at h
          · rename_i r' heq
            have h2 := Option.some.inj h
            rw [h2] at heq
            have hr := (process_other_window reader size _ _ _ _ _ _).2 r heq
            exact hr
          · rename_i s' heq
            have hs' := (process_other_window reader size _ _ _ _ _ _).1 s' heq
            split at h
            · have h2 := Option.some.inj h
              rw [← h2]
              exact hs'
            · have hx := ih s' r h
              exact ⟨hx.1.trans hs'.1, hx.2.trans hs'.2⟩
    · cases h; exact ⟨rfl, rfl⟩

theorem process_channel_window {σ : Type} (N : Nat) (codec : bp_codec) (layout : bp_layout)
    (reader : bp_reader σ) (adapter : bp_store_t σ) (st : σ) (tm : bp_time_t)
    (stack : proc_stack) (fuel : Nat) (ch : bp_channel_t) (bundle dacs_buffer : List Nat)
    (size timeout : Int) (r : proc_result σ)
    (h : process_channel N codec layout reader adapter st tm stack fuel ch bundle dacs_buffer
      size timeout = some r) :
    r.ch.data_bundle.oldest_custody_id = ch.data_bundle.oldest_custody_id ∧
    r.ch.data_bundle.current_custody_id = ch.data_bundle.current_custody_id := by
  simp only [process_channel] at h
  split at h
  · cases h; exact ⟨rfl, rfl⟩
  · split at h
    · cases h; split <;> exact ⟨rfl, rfl⟩
    · split at h
      · cases h; split <;> exact ⟨rfl, rfl⟩
      · split at h
        · cases h; split <;> exact ⟨rfl, rfl⟩
        · have hx := process_blocks_window N codec layout reader adapter tm stack _ size
            timeout fuel _ r h
          refine ⟨hx.1.trans ?_, hx.2.trans ?_⟩
          · split <;> rfl
          · split <;> rfl



theorem accept_channel_copy {σ : Type} (codec : bp_codec) (layout : bp_layout)
    (overlay : bp_overlay) (adapter : bp_store_t σ) (st : σ) (tm : bp_time_t)
    (ch : bp_channel_t) (payload dacs_buffer : List Nat) (size timeout : Int) :
    (accept_channel codec layout overlay adapter st tm ch payload dacs_buffer size
      timeout).status
      = (accept_payload layout adapter st ch payload dacs_buffer size timeout).1.status ∧
    (accept_channel codec layout overlay adapter st tm ch payload dacs_buffer size
      timeout).payload
      = (accept_payload layout adapter st ch payload dacs_buffer size timeout).1.payload ∧
    ((accept_payload layout adapter st ch payload dacs_buffer size timeout).2 = none →
      accept_channel codec layout overlay adapter st tm ch payload dacs_buffer size timeout
        = (accept_payload layout adapter st ch payload dacs_buffer size timeout).1) := by
  unfold accept_channel accept_payload
  dsimp only
  repeat' split
  all_goals first
    | exact ⟨rfl, rfl, fun _ => rfl⟩
    | exact ⟨rfl, rfl, fun h => absurd h (by simp)⟩

theorem bplib_accept_copy {σ : Type} (codec : bp_codec) (layout : bp_layout)
    (overlay : bp_overlay) (adapter : bp_store_t σ) (st : σ) (tm : bp_time_t)
    (channels : List bp_channel_t) (channel : Int) (payload : Option (List Nat))
    (dacs_buffer : List Nat) (size timeout : Int) (acptflags : Nat) :
    (bplib_accept codec layout overlay adapter st tm channels channel payload dacs_buffer size
      timeout acptflags).status
      = (bplib_accept_payload layout adapter st channels channel payload dacs_buffer size
          timeout acptflags).1.status ∧
    (bplib_accept codec layout overlay adapter st tm channels channel payload dacs_buffer size
      timeout acptflags).payload
      = (bplib_accept_payload layout adapter st channels channel payload dacs_buffer size
          timeout acptflags).1.payload ∧
    ((bplib_accept_payload layout adapter st channels channel payload dacs_buffer size
        timeout acptflags).2 = none →
      bplib_accept codec layout overlay adapter st tm channels channel payload dacs_buffer size
        timeout acptflags
        = (bplib_accept_payload layout adapter st channels channel payload dacs_buffer size
            timeout acptflags).1) := by
  unfold bplib_accept bplib_accept_payload
  split
  · exact ⟨rfl, rfl, fun _ => rfl⟩
  · split
    · exact ⟨rfl, rfl, fun _ => rfl⟩
    · cases payload with
      | none => exact ⟨rfl, rfl, fun _ => rfl⟩
      | some buf =>
        obtain ⟨c1, c2, c3⟩ := accept_channel_copy codec layout overlay adapter st tm
          (channels.getD channel.toNat default) buf dacs_buffer size timeout
        dsimp only
        refine ⟨c1, by rw [c2], fun h => ?_⟩
        rw [c3 h]

theorem load_channel_vacant_head {σ : Type} (N : Nat) (codec : bp_codec)
    (adapter : bp_store_t σ) (st : σ) (sysnow : bp_time_t) (ch : bp_channel_t)
    (bundle : List Nat) (size timeout : Int) (hinv : custody_inv N ch)
    (hwin : ch.data_bundle.oldest_custody_id < ch.data_bundle.current_custody_id)
    (hwrap : ch.data_bundle.current_custody_id + 1 < UINT32_MOD)
    (hvac : ch.data_bundle.active_table.getD (ch.data_bundle.oldest_custody_id % N) 0
      = BP_SID_VACANT)
    (hdacs : (adapter.dequeue st ch.dacs_bundle.dacs_store_handle timeout).2.1 ≠ BP_SUCCESS) :
    ∃ r, load_channel N codec adapter st sysnow ch bundle size timeout = some r ∧
      ch.data_bundle.oldest_custody_id + 1 ≤ r.ch.data_bundle.oldest_custody_id := by
  obtain ⟨r, hr⟩ := load_channel_total N codec adapter st sysnow ch bundle size timeout
    hinv.2.2.2.1 hinv.2.2.1 hinv.2.1
  refine ⟨r, hr, ?_⟩
  have hs0 : load_setup adapter st ch timeout
      = { ch := ch, store := (adapter.dequeue st ch.dacs_bundle.dacs_store_handle timeout).1,
          loadflags := 0, load_bundle := none, load_size := 0, load_store := 0,
          load_custody := false,
          sid := (adapter.dequeue st ch.dacs_bundle.dacs_store_handle timeout).2.2.2.2,
          status := BP_SUCCESS } := by
    simp only [load_setup, hdacs, if_false]
  obtain ⟨k, hk⟩ : ∃ k, 2 * (ch.data_bundle.current_custody_id
      - ch.data_bundle.oldest_custody_id) = k + 1 := ⟨_, (Nat.succ_pred_eq_of_pos (by omega)).symm⟩
  simp only [load_channel] at hr
  rw [hk, hs0, load_timedout] at hr
  simp only [true_and, hwin, if_true, hvac] at hr
  obtain ⟨i1, i2⟩ := custody_inv_incr_oldest N ch hinv hwin hvac
  cases h1 : load_timedout N adapter sysnow timeout k
      { ch := incr_oldest ch,
        store := (adapter.dequeue st ch.dacs_bundle.dacs_store_handle timeout).1,
        loadflags := 0, load_bundle := none, load_size := 0, load_store := 0,
        load_custody := false, sid := BP_SID_VACANT, status := BP_SUCCESS } with
  | none => rw [h1] at hr; simp at hr
  | some s1 =>
    rw [h1] at hr
    simp only [Option.some_bind] at hr
    obtain ⟨a1, b1, c1⟩ := load_timedout_inv N adapter sysnow timeout _ _ s1 i1 h1
    have b1' : s1.ch.data_bundle.current_custody_id = ch.data_bundle.current_custody_id :=
      b1
    have c1' : ch.data_bundle.oldest_custody_id + 1 ≤ s1.ch.data_bundle.oldest_custody_id := by
      rw [← i2]; exact c1
    cases h2 : load_stored N codec adapter sysnow timeout 2 s1 with
    | none => rw [h2] at hr; simp at hr
    | some s2 =>
      rw [h2] at hr
      simp only [Option.map_some', Option.some.injEq] at hr
      obtain ⟨a2, b2, c2⟩ := load_stored_inv N codec adapter sysnow timeout 2 s1 s2 h2 a1
      obtain ⟨a3, b3, c3⟩ := load_transmit_inv N codec adapter bundle size s2 a2
        (by rw [b2, b1']; exact hwrap)
      rw [← hr]
      show ch.data_bundle.oldest_custody_id + 1
        ≤ (load_transmit N codec adapter bundle size s2).1.ch.data_bundle.oldest_custody_id
      rw [c3]; omega

/-- C16 (as stated, refuted): on the channel of the retransmission run after its
first load (`oldest_custody_id = 0`, `current_custody_id = 1`, storage ID 7 in
slot 0), `bplib_process` of the ACS bundle that acknowledges the custody ID 0
returns `BP_SUCCESS` with slot 0 vacated, and `oldest_custody_id` is still 0,
not 1. -/
theorem process_leaves_oldest_custody_id :
    retx_channel.data_bundle.oldest_custody_id = 0 ∧
    retx_channel.data_bundle.current_custody_id = 1 ∧
    retx_channel.data_bundle.active_table = [7, 0, 0, 0] ∧
    acs_processed.map (fun r => (r.status, r.ch.data_bundle.active_table,
      r.ch.data_bundle.oldest_custody_id, r.ch.data_bundle.current_custody_id))
      = some (BP_SUCCESS, [0, 0, 0, 0], 0, 1) := by
  refine ⟨?_, ?_, ?_, ?_⟩
  · decide
  · decide
  · decide
  · decide

/-- C16 (amended): `bplib_process` returns with `oldest_custody_id` and
`current_custody_id` as they were, whatever bundle it has consumed; when the
slot of the oldest outstanding custody ID is vacant afterwards (the ACS has
acknowledged it), it is the next `bplib_load` with no ACS bundle ready that
returns with `oldest_custody_id` advanced past that custody ID. -/
theorem bplib_process_leaves_advance_to_load {σ : Type} (N : Nat) (codec : bp_codec)
    (layout : bp_layout) (reader : bp_reader σ) (adapter : bp_store_t σ) (st : σ)
    (tm : bp_time_t) (stack : proc_stack) (fuel : Nat) (ch : bp_channel_t)
    (bundle dacs_buffer : List Nat) (size timeout : Int) (r : proc_result σ)
    (st2 : σ) (sysnow : bp_time_t) (out : List Nat) (size2 timeout2 : Int)
    (hp : process_channel N codec layout reader adapter st tm stack fuel ch bundle dacs_buffer
      size timeout = some r)
    (hinv : custody_inv N r.ch)
    (hwin : ch.data_bundle.oldest_custody_id < ch.data_bundle.current_custody_id)
    (hwrap : ch.data_bundle.current_custody_id + 1 < UINT32_MOD)
    (hvac : r.ch.data_bundle.active_table.getD (ch.data_bundle.oldest_custody_id % N) 0
      = BP_SID_VACANT)
    (hdacs : (adapter.dequeue st2 r.ch.dacs_bundle.dacs_store_handle timeout2).2.1
      ≠ BP_SUCCESS) :
    r.ch.data_bundle.oldest_custody_id = ch.data_bundle.oldest_custody_id ∧
    r.ch.data_bundle.current_custody_id = ch.data_bundle.current_custody_id ∧
    ∃ r2, load_channel N codec adapter st2 sysnow r.ch out size2 timeout2 = some r2 ∧
      ch.data_bundle.oldest_custody_id + 1 ≤ r2.ch.data_bundle.oldest_custody_id := by
  obtain ⟨ho, hc⟩ := process_channel_window N codec layout reader adapter st tm stack fuel ch
    bundle dacs_buffer size timeout r hp
  refine ⟨ho, hc, ?_⟩
  rw [← ho]
  exact load_channel_vacant_head N codec adapter st2 sysnow r.ch out size2 timeout2 hinv
    (by rw [ho, hc]; exact hwin) (by rw [hc]; exact hwrap) (by rw [ho]; exact hvac) hdacs

/-- C16 (amended), at the ACS bundle for the custody ID 0 on the channel of the
retransmission run: the load at `106 s` that follows returns with
`oldest_custody_id = 1`. -/
theorem bplib_process_leaves_advance_to_load_witness :
    ∃ r, acs_processed = some r ∧
      r.ch.data_bundle.oldest_custody_id = retx_channel.data_bundle.oldest_custody_id ∧
      r.ch.data_bundle.current_custody_id = retx_channel.data_bundle.current_custody_id ∧
      ∃ r2, load_channel RUN_TABLE_SIZE sim_codec sim_adapter fresh_store ⟨106, 0⟩ r.ch
          (List.replicate 256 0) 256 0 = some r2 ∧
        retx_channel.data_bundle.oldest_custody_id + 1
          ≤ r2.ch.data_bundle.oldest_custody_id := by
  obtain ⟨r, h⟩ : ∃ r, acs_processed = some r := Option.isSome_iff_exists.mp (by decide)
  have ht : acs_processed.map (fun r => (r.ch.data_bundle.active_table,
      r.ch.data_bundle.oldest_custody_id, r.ch.data_bundle.current_custody_id))
      = some ([0, 0, 0, 0], 0, 1) := by decide
  rw [h] at ht
  simp only [Option.map_some', Option.some.injEq, Prod.mk.injEq] at ht
  obtain ⟨t1, t2, t3⟩ := ht
  refine ⟨r, h, ?_⟩
  exact bplib_process_leaves_advance_to_load RUN_TABLE_SIZE sim_codec sim_layout
    (sim_reader (acs_pri, 52)) sim_adapter retx_state ⟨105, 0⟩ default 4 retx_channel
    acs_bundle (List.replicate 136 0) 61 0 r fresh_store ⟨106, 0⟩ (List.replicate 256 0) 256 0
    h
    (by
      refine ⟨by rw [t2, t3]; decide, by rw [t3]; decide, by rw [t1]; rfl, by decide, ?_, ?_⟩
      · intro c _ _ hocc
        rw [t1] at hocc
        exact absurd (by
          have hlt : c % RUN_TABLE_SIZE < 4 := Nat.mod_lt _ (by decide)
          interval_cases (c % RUN_TABLE_SIZE) <;> rfl) hocc
      · intro j _ hj
        rw [t1]
        have hj' : j < 4 := hj
        interval_cases j <;> rfl)
    (by decide) (by decide)
    (by rw [t1]; decide)
    (by
      show (fresh_store.dequeues.headD (BP_TIMEOUT, default, 0, BP_SID_VACANT)).1
        ≠ BP_SUCCESS
      decide)



/-- C17 (as stated, refuted): node A (local `1.1`, destination `2.1`, allow-frag and
request-custody set to false) stores `"hello"` and loads the bytes X; node B
(local `2.1`, destination `2.1`, no option changed, so `proc_admin_only` is true
as `bplib_open` has set it) processes X with a reader that takes X for the
primary block of node A.  `bplib_process` returns `BP_IGNORE` without a call on
the storage service after the three `create` calls of `bplib_open`, and the
`bplib_accept` that follows returns `BP_TIMEOUT` with the caller's buffer as it
was, not `"hello"`. -/
theorem round_trip_ignored_by_admin_only_channel :
    (trip_b_open.1.getD 0 default).proc_admin_only = true ∧
    trip_pri.is_admin_rec = false ∧
    trip_a_stored.map (fun r => r.status) = some BP_SUCCESS ∧
    trip_a_loaded.map (fun r => r.status) = some 2 ∧
    trip_x = some [8, 0] ∧
    trip_b_processed.map (fun r => (r.status, r.store.calls))
      = some (BP_IGNORE, [.create, .create, .create]) ∧
    trip_b_accepted.map (fun r => (r.status, r.payload, r.store.calls.drop 3))
      = some (BP_TIMEOUT, some [0, 0, 0, 0, 0], [.dequeue 1 0]) := by
  refine ⟨?_, ?_, ?_, ?_, ?_, ?_, ?_⟩
  · decide
  · decide
  · decide
  · decide
  · decide
  · decide
  · decide

theorem process_channel_ignore {σ : Type} (N : Nat) (codec : bp_codec) (layout : bp_layout)
    (reader : bp_reader σ) (adapter : bp_store_t σ) (st : σ) (tm : bp_time_t)
    (stack : proc_stack) (fuel : Nat) (ch : bp_channel_t) (bundle dacs_buffer : List Nat)
    (size timeout : Int) (hadm : ch.proc_admin_only = true)
    (hread : 0 < (reader.bplib_blk_pri_read bundle size).2)
    (hrec : (reader.bplib_blk_pri_read bundle size).1.is_admin_rec = false) :
    ∃ r, process_channel N codec layout reader adapter st tm stack fuel ch bundle dacs_buffer
        size timeout = some r ∧
      r.status = BP_IGNORE ∧ r.ch = ch ∧ r.store = st ∧ r.dacs_buffer = dacs_buffer ∧
      r.bundle = bundle := by
  by_cases hd : (reader.bplib_blk_pri_read bundle size).1.report_deletion = true
  · simp only [process_channel, not_le.mpr hread, if_false, hadm, hrec, and_self, if_true, hd]
    exact ⟨_, rfl, rfl, rfl, rfl, rfl, rfl⟩
  · simp only [process_channel, not_le.mpr hread, if_false, hadm, hrec, and_self, if_true, hd]
    exact ⟨_, rfl, rfl, rfl, rfl, rfl, rfl⟩

theorem accept_channel_empty {σ : Type} (codec : bp_codec) (layout : bp_layout)
    (overlay : bp_overlay) (adapter : bp_store_t σ) (st : σ) (tm : bp_time_t)
    (ch : bp_channel_t) (payload dacs_buffer : List Nat) (size timeout : Int)
    (hempty : (adapter.dequeue st ch.data_bundle.payload_store_handle timeout).2.1
      ≠ BP_SUCCESS) :
    (accept_channel codec layout overlay adapter st tm ch payload dacs_buffer size
      timeout).status
      = (adapter.dequeue st ch.data_bundle.payload_store_handle timeout).2.1 ∧
    (accept_channel codec layout overlay adapter st tm ch payload dacs_buffer size
      timeout).payload = payload := by
  simp only [accept_channel, hempty, ne_eq, not_false_eq_true, if_true, and_self]

/-- C17 (amended): on a channel whose `proc_admin_only` is true, as `bplib_open`
leaves it, `bplib_process` of a bundle whose primary block is read as one that is
not an administrative record returns `BP_IGNORE`, with the channel, the store
state (no call is made on the storage service, so nothing is enqueued on the
DACS queue or the payload queue) and the DACS payload buffer as they were; the
`bplib_accept` that follows, whose `dequeue` on the payload queue does not
succeed, returns the status of that `dequeue` and leaves the caller's buffer as
it was. -/
theorem bplib_process_ignores_data_bundle {σ : Type} (N : Nat) (codec : bp_codec)
    (layout : bp_layout) (overlay : bp_overlay) (reader : bp_reader σ) (adapter : bp_store_t σ)
    (st : σ)
    (tm : bp_time_t) (stack : proc_stack) (fuel : Nat) (ch : bp_channel_t)
    (bundle dacs_buffer : List Nat) (size timeout : Int)
    (tm2 : bp_time_t) (payload : List Nat) (size2 timeout2 : Int)
    (hadm : ch.proc_admin_only = true)
    (hread : 0 < (reader.bplib_blk_pri_read bundle size).2)
    (hrec : (reader.bplib_blk_pri_read bundle size).1.is_admin_rec = false)
    (hempty : (adapter.dequeue st ch.data_bundle.payload_store_handle timeout2).2.1
      ≠ BP_SUCCESS) :
    ∃ r, process_channel N codec layout reader adapter st tm stack fuel ch bundle dacs_buffer
        size timeout = some r ∧
      r.status = BP_IGNORE ∧ r.ch = ch ∧ r.store = st ∧ r.dacs_buffer = dacs_buffer ∧
      r.bundle = bundle ∧
      (accept_channel codec layout overlay adapter r.store tm2 r.ch payload r.dacs_buffer
        size2 timeout2).status
        = (adapter.dequeue st ch.data_bundle.payload_store_handle timeout2).2.1 ∧
      (accept_channel codec layout overlay adapter r.store tm2 r.ch payload r.dacs_buffer
        size2 timeout2).payload = payload := by
  obtain ⟨r, hp, h1, h2, h3, h4, h5⟩ := process_channel_ignore N codec layout reader adapter st
    tm stack fuel ch bundle dacs_buffer size timeout hadm hread hrec
  refine ⟨r, hp, h1, h2, h3, h4, h5, ?_⟩
  rw [h2, h3]
  exact accept_channel_empty codec layout overlay adapter st tm2 ch payload r.dacs_buffer size2
    timeout2 hempty

/-- C17 (amended), at node B as opened, the bytes `[8, 0]` that node A has
loaded and a reader that takes them for the primary block of node A. -/
theorem bplib_process_ignores_data_bundle_witness :
    ∃ r, process_channel RUN_TABLE_SIZE sim_codec sim_layout (sim_reader (trip_pri, 2))
        sim_adapter trip_b_open.2.1 ⟨9, 0⟩ default 4 (trip_b_open.1.getD 0 default) [8, 0]
        (List.replicate 136 0) 2 0 = some r ∧
      r.status = BP_IGNORE ∧ r.ch = trip_b_open.1.getD 0 default ∧
      r.store = trip_b_open.2.1 ∧ r.dacs_buffer = List.replicate 136 0 ∧ r.bundle = [8, 0] ∧
      (accept_payload sim_layout sim_adapter r.store r.ch (List.replicate 5 0) r.dacs_buffer
        5 0).1.status
        = (sim_adapter.dequeue trip_b_open.2.1
            (trip_b_open.1.getD 0 default).data_bundle.payload_store_handle 0).2.1 ∧
      (accept_payload sim_layout sim_adapter r.store r.ch (List.replicate 5 0) r.dacs_buffer
        5 0).1.payload = List.replicate 5 0 := by
  obtain ⟨r, h1, h2, h3, h4, h5, h6, h7, h8⟩ :=
    bplib_process_ignores_data_bundle RUN_TABLE_SIZE sim_codec sim_layout
      ⟨fun _ => default, fun c _ => c⟩ (sim_reader (trip_pri, 2)) sim_adapter trip_b_open.2.1
      ⟨9, 0⟩ default 4 (trip_b_open.1.getD 0 default) [8, 0] (List.replicate 136 0) 2 0 ⟨10, 0⟩
      (List.replicate 5 0) 5 0 (by decide) (by decide) (by decide) (by decide)
  have hc := accept_channel_copy sim_codec sim_layout ⟨fun _ => default, fun c _ => c⟩
    sim_adapter r.store ⟨10, 0⟩ r.ch (List.replicate 5 0) r.dacs_buffer 5 0
  exact ⟨r, h1, h2, h3, h4, h5, h6, hc.1.symm.trans h7, hc.2.1.symm.trans h8⟩

/-! ## C21: parameter checks -/

/-- C21: for `bplib_store`, `bplib_load`, `bplib_process`, `bplib_accept`,
`bplib_getopt` and `bplib_setopt`: a channel handle outside
`[0, BP_MAX_CHANNELS)` returns `BP_PARMERR`; an in-range handle whose slot does
not hold that index (`bplib_init` and `bplib_close` leave `BP_EMPTY` there)
returns `BP_INVALIDCHANNEL`; on an open channel a `NULL` buffer or value pointer
returns `BP_PARMERR`, and so does `bplib_store` with
`size > bundle_maxlength`.  In each case the `channels` array, the store state
(no function of the storage service is called), the caller's memory and the
flags are returned as they were. -/
theorem bplib_parameter_errors {σ : Type} (N : Nat) (codec : bp_codec) (layout : bp_layout)
    (overlay : bp_overlay) (reader : bp_reader σ) (adapter : bp_store_t σ) (st : σ)
    (tm : bp_time_t)
    (stack : proc_stack) (fuel : Nat) (channels : List bp_channel_t) (channel : Int)
    (buf : Option (List Nat)) (p : List Nat) (dacs_buffer : List Nat) (size timeout : Int)
    (flags : Nat) (opt : bp_opt) (val : Option bp_optval) (len : Int) :
    (channel < 0 ∨ channel ≥ BP_MAX_CHANNELS →
      bplib_store codec layout adapter st tm channels channel buf size timeout
        = some { status := BP_PARMERR, channels := channels, store := st } ∧
      bplib_load N codec adapter st tm channels channel buf size timeout flags
        = some { status := BP_PARMERR, channels := channels, store := st, bundle := buf,
                 loadflags := flags } ∧
      bplib_process N codec layout reader adapter st tm stack fuel channels channel buf
        dacs_buffer size timeout flags
        = some { status := BP_PARMERR, channels := channels, store := st, procflags := flags,
                 bundle := buf, dacs_buffer := dacs_buffer } ∧
      bplib_accept codec layout overlay adapter st tm channels channel buf dacs_buffer size
        timeout flags
        = { status := BP_PARMERR, channels := channels, store := st, payload := buf,
            acptflags := flags, dacs_buffer := dacs_buffer } ∧
      bplib_getopt codec layout channels channel opt val len
        = { status := BP_PARMERR, channels := channels, val := val } ∧
      bplib_setopt codec layout channels channel opt val len
        = { status := BP_PARMERR, channels := channels, val := val }) ∧
    (0 ≤ channel → channel < BP_MAX_CHANNELS →
      (channels.getD channel.toNat default).channel_index ≠ channel →
      bplib_store codec layout adapter st tm channels channel buf size timeout
        = some { status := BP_INVALIDCHANNEL, channels := channels, store := st } ∧
      bplib_load N codec adapter st tm channels channel buf size timeout flags
        = some { status := BP_INVALIDCHANNEL, channels := channels, store := st, bundle := buf,
                 loadflags := flags } ∧
      bplib_process N codec layout reader adapter st tm stack fuel channels channel buf
        dacs_buffer size timeout flags
        = some { status := BP_INVALIDCHANNEL, channels := channels, store := st,
                 procflags := flags, bundle := buf, dacs_buffer := dacs_buffer } ∧
      bplib_accept codec layout overlay adapter st tm channels channel buf dacs_buffer size
        timeout flags
        = { status := BP_INVALIDCHANNEL, channels := channels, store := st, payload := buf,
            acptflags := flags, dacs_buffer := dacs_buffer } ∧
      bplib_getopt codec layout channels channel opt val len
        = { status := BP_INVALIDCHANNEL, channels := channels, val := val } ∧
      bplib_setopt codec layout channels channel opt val len
        = { status := BP_INVALIDCHANNEL, channels := channels, val := val }) ∧
    (0 ≤ channel → channel < BP_MAX_CHANNELS →
      (channels.getD channel.toNat default).channel_index = channel →
      bplib_store codec layout adapter st tm channels channel none size timeout
        = some { status := BP_PARMERR, channels := channels, store := st } ∧
      bplib_load N codec adapter st tm channels channel none size timeout flags
        = some { status := BP_PARMERR, channels := channels, store := st, bundle := none,
                 loadflags := flags } ∧
      bplib_process N codec layout reader adapter st tm stack fuel channels channel none
        dacs_buffer size timeout flags
        = some { status := BP_PARMERR, channels := channels, store := st, procflags := flags,
                 bundle := none, dacs_buffer := dacs_buffer } ∧
      bplib_accept codec layout overlay adapter st tm channels channel none dacs_buffer size
        timeout flags
        = { status := BP_PARMERR, channels := channels, store := st, payload := none,
            acptflags := flags, dacs_buffer := dacs_buffer } ∧
      bplib_getopt codec layout channels channel opt none len
        = { status := BP_PARMERR, channels := channels, val := none } ∧
      bplib_setopt codec layout channels channel opt none len
        = { status := BP_PARMERR, channels := channels, val := none } ∧
      (size > (channels.getD channel.toNat default).bundle_maxlength →
        bplib_store codec layout adapter st tm channels channel (some p) size timeout
          = some { status := BP_PARMERR, channels := channels, store := st })) ∧
    (0 ≤ channel → channel < BP_MAX_CHANNELS → channels.length = BP_MAX_CHANNELS.toNat →
      ((bplib_init channels).getD channel.toNat default).channel_index = BP_EMPTY ∧
      ((bplib_close adapter st channels channel).1.getD channel.toNat default).channel_index
        = BP_EMPTY ∧
      BP_EMPTY ≠ channel) := by
  refine ⟨?_, ?_, ?_, ?_⟩
  · intro h
    simp only [bplib_store, bplib_load, bplib_process, bplib_accept, bplib_getopt, bplib_setopt,
      bplib_getset, h, if_true, and_self]
  · intro h1 h2 h3
    have h : ¬ (channel < 0 ∨ channel ≥ BP_MAX_CHANNELS) := by omega
    simp only [bplib_store, bplib_load, bplib_process, bplib_accept, bplib_getopt, bplib_setopt,
      bplib_getset, h, if_false, h3, ne_eq, not_false_eq_true, if_true, and_self]
  · intro h1 h2 h3
    have h : ¬ (channel < 0 ∨ channel ≥ BP_MAX_CHANNELS) := by omega
    simp only [bplib_store, bplib_load, bplib_process, bplib_accept, bplib_getopt, bplib_setopt,
      bplib_getset, h, if_false, h3, ne_eq, not_true_eq_false, if_true, and_self, true_and]
    intro h4
    simp only [h4, if_true]
  · intro h1 h2 h3
    have hlt : channel.toNat < channels.length := by
      rw [h3]; unfold BP_MAX_CHANNELS at h2 ⊢; omega
    refine ⟨?_, ?_, ?_⟩
    · simp only [bplib_init, List.getD_eq_getElem?_getD, List.getElem?_map]
      rw [List.getElem?_eq_getElem hlt]
      rfl
    · have h : channel ≥ 0 ∧ channel < BP_MAX_CHANNELS := ⟨h1, h2⟩
      simp only [bplib_close, h, and_self, if_true, List.getD_eq_getElem?_getD]
      rw [List.getElem?_set_self hlt]
      rfl
    · unfold BP_EMPTY; omega

/-! ## C29: `bplib_cmptime` -/

theorem bplib_cmptime_cases (a b : bp_time_t) :
    (bplib_cmptime a b = 1 ∧ time_later a b) ∨
    (bplib_cmptime a b = -1 ∧ time_later b a) ∨
    (bplib_cmptime a b = 0 ∧ a.s = b.s ∧ a.ns = b.ns) := by
  unfold bplib_cmptime time_later
  by_cases h1 : a.s > b.s
  · left; rw [if_pos h1]; exact ⟨rfl, Or.inl h1⟩
  · rw [if_neg h1]
    by_cases h2 : a.s < b.s
    · right; left; rw [if_pos h2]; exact ⟨rfl, Or.inl h2⟩
    · rw [if_neg h2]
      have hs : a.s = b.s := by omega
      by_cases h3 : a.ns > b.ns
      · left; rw [if_pos h3]; exact ⟨rfl, Or.inr ⟨hs, h3⟩⟩
      · rw [if_neg h3]
        by_cases h4 : a.ns < b.ns
        · right; left; rw [if_pos h4]; exact ⟨rfl, Or.inr ⟨hs.symm, h4⟩⟩
        · right; right; rw [if_neg h4]; exact ⟨rfl, hs, by omega⟩

/-- C29: `bplib_cmptime a b` is 0 exactly when the seconds and the nanoseconds
of `a` and `b` are equal, 1 exactly when `a` is later than `b` and -1 exactly
when `a` is earlier; `bplib_cmptime a b = - bplib_cmptime b a`, and the order
`bplib_cmptime a b <= 0` is total and transitive. -/
theorem bplib_cmptime_three_way (a b c : bp_time_t) :
    (bplib_cmptime a b = 0 ↔ a.s = b.s ∧ a.ns = b.ns) ∧
    (bplib_cmptime a b = 1 ↔ time_later a b) ∧
    (bplib_cmptime a b = -1 ↔ time_later b a) ∧
    bplib_cmptime a b = - bplib_cmptime b a ∧
    (bplib_cmptime a b ≤ 0 ∨ bplib_cmptime b a ≤ 0) ∧
    (bplib_cmptime a b ≤ 0 → bplib_cmptime b c ≤ 0 → bplib_cmptime a c ≤ 0) := by
  have hab := bplib_cmptime_cases a b
  have hba := bplib_cmptime_cases b a
  have hbc := bplib_cmptime_cases b c
  have hac := bplib_cmptime_cases a c
  unfold time_later at hab hba hbc hac
  unfold time_later
  refine ⟨?_, ?_, ?_, ?_, ?_, ?_⟩ <;> omega

/-! ## C22-C23: `bplib_open` and the options -/

theorem open_loop_cases {σ : Type} (N : Nat) (codec : bp_codec) (adapter : bp_store_t σ)
    (st : σ) (channels : List bp_channel_t) (ln ls dn ds : Nat) :
    ∀ (n i0 : Nat),
      ((∀ j, i0 ≤ j → j < i0 + n → (channels.getD j default).channel_index ≠ BP_EMPTY) ∧
        open_loop N codec adapter ln ls dn ds n i0 channels st
          = (channels, st, BP_CHANNELSFULL)) ∨
      (∃ k, i0 ≤ k ∧ k < i0 + n ∧ (channels.getD k default).channel_index = BP_EMPTY ∧
        (∀ j, i0 ≤ j → j < k → (channels.getD j default).channel_index ≠ BP_EMPTY) ∧
        open_loop N codec adapter ln ls dn ds n i0 channels st
          = (channels.set k
              (open_channel N codec adapter st (channels.getD k default) k ln ls dn ds).1,
            (open_channel N codec adapter st (channels.getD k default) k ln ls dn ds).2,
            (k : Int))) := by
  intro n
  induction n with
  | zero =>
    intro i0
    left
    exact ⟨fun j h1 h2 => absurd h2 (by omega), rfl⟩
  | succ n ih =>
    intro i0
    by_cases h : (channels.getD i0 default).channel_index = BP_EMPTY
    · right
      refine ⟨i0, le_refl _, by omega, h, fun j h1 h2 => absurd h2 (by omega), ?_⟩
      simp only [open_loop, h, if_true]
    · rcases ih (i0 + 1) with ⟨hall, heq⟩ | ⟨k, hk1, hk2, hk3, hk4, heq⟩
      · left
        refine ⟨?_, ?_⟩
        · intro j h1 h2
          by_cases hj : j = i0
          · rw [hj]; exact h
          · exact hall j (by omega) (by omega)
        · simp only [open_loop, h, if_false]
          exact heq
      · right
        refine ⟨k, by omega, by omega, hk3, ?_, ?_⟩
        · intro j h1 h2
          by_cases hj : j = i0
          · rw [hj]; exact h
          · exact hk4 j (by omega) h2
        · simp only [open_loop, h, if_false]
          exact heq

theorem open_channel_fields {σ : Type} (N : Nat) (codec : bp_codec) (adapter : bp_store_t σ)
    (st : σ) (ch : bp_channel_t) (i : Int) (ln ls dn ds : Nat)
    (hpri : ∀ b n blk u, pri_eids (codec.bplib_blk_pri_write b n blk u).2.1 = pri_eids blk) :
    (open_channel N codec adapter st ch i ln ls dn ds).1.channel_index = i ∧
    (open_channel N codec adapter st ch i ln ls dn ds).1.data_bundle.current_custody_id = 0 ∧
    (open_channel N codec adapter st ch i ln ls dn ds).1.data_bundle.oldest_custody_id = 0 ∧
    pri_eids (open_channel N codec adapter st ch i ln ls dn ds).1.data_bundle.primary_block
      = [dn, ds, ln, ls, ln, ls, ln, ls] ∧
    (open_channel N codec adapter st ch i ln ls dn ds).2
      = (adapter.create (adapter.create (adapter.create st).1).1).1 := by
  refine ⟨rfl, rfl, rfl, ?_, rfl⟩
  simp only [open_channel, initialize_data_header, at_offset]
  rw [hpri]
  rfl

/-- C22: on a `channels` array of `BP_MAX_CHANNELS` slots, with a primary block
writer that leaves the endpoint IDs of the block it is handed as they are:
`bplib_open` returns the smallest index `i` whose slot is empty; that slot then
holds `channel_index = i`, `current_custody_id = oldest_custody_id = 0`, the
local endpoint as source, report-to and custodian and the given destination,
the other slots are as they were, and the store state is the one after three
`create` calls.  It returns `BP_CHANNELSFULL` if and only if no slot is empty,
and then the `channels` array and the store state are as they were. -/
theorem bplib_open_first_empty_slot {σ : Type} (N : Nat) (codec : bp_codec)
    (adapter : bp_store_t σ) (st : σ) (channels : List bp_channel_t) (ln ls dn ds : Nat)
    (hlen : channels.length = BP_MAX_CHANNELS.toNat)
    (hpri : ∀ b n blk u, pri_eids (codec.bplib_blk_pri_write b n blk u).2.1 = pri_eids blk) :
    (∀ i : Nat, i < BP_MAX_CHANNELS.toNat →
      (channels.getD i default).channel_index = BP_EMPTY →
      (∀ j, j < i → (channels.getD j default).channel_index ≠ BP_EMPTY) →
      (bplib_open N codec adapter st channels ln ls dn ds).2.2 = i ∧
      ((bplib_open N codec adapter st channels ln ls dn ds).1.getD i default).channel_index
        = i ∧
      ((bplib_open N codec adapter st channels ln ls dn ds).1.getD i
        default).data_bundle.current_custody_id = 0 ∧
      ((bplib_open N codec adapter st channels ln ls dn ds).1.getD i
        default).data_bundle.oldest_custody_id = 0 ∧
      pri_eids ((bplib_open N codec adapter st channels ln ls dn ds).1.getD i
        default).data_bundle.primary_block = [dn, ds, ln, ls, ln, ls, ln, ls] ∧
      (∀ j, j ≠ i → (bplib_open N codec adapter st channels ln ls dn ds).1.getD j default
        = channels.getD j default) ∧
      (bplib_open N codec adapter st channels ln ls dn ds).2.1
        = (adapter.create (adapter.create (adapter.create st).1).1).1) ∧
    ((bplib_open N codec adapter st channels ln ls dn ds).2.2 = BP_CHANNELSFULL ↔
      ∀ j, j < BP_MAX_CHANNELS.toNat → (channels.getD j default).channel_index ≠ BP_EMPTY) ∧
    ((∀ j, j < BP_MAX_CHANNELS.toNat → (channels.getD j default).channel_index ≠ BP_EMPTY) →
      (bplib_open N codec adapter st channels ln ls dn ds).1 = channels ∧
      (bplib_open N codec adapter st channels ln ls dn ds).2.1 = st) := by
  have hc := open_loop_cases N codec adapter st channels ln ls dn ds BP_MAX_CHANNELS.toNat 0
  simp only [Nat.zero_add, Nat.zero_le, true_implies, true_and] at hc
  refine ⟨?_, ?_, ?_⟩
  · intro i hi hempty hfirst
    rcases hc with ⟨hall, _⟩ | ⟨k, hk2, hk3, hk4, heq⟩
    · exact absurd hempty (hall i hi)
    · have hki : k = i := by
        rcases Nat.lt_trichotomy k i with h | h | h
        · exact absurd hk3 (hfirst k h)
        · exact h
        · exact absurd hempty (hk4 i h)
      subst hki
      have hf := open_channel_fields N codec adapter st (channels.getD k default) k ln ls dn ds
        hpri
      have hget : (channels.set k
          (open_channel N codec adapter st (channels.getD k default) k ln ls dn ds).1).getD k
          default = (open_channel N codec adapter st (channels.getD k default) k ln ls dn ds).1 := by
        rw [List.getD_eq_getElem?_getD, List.getElem?_set_self (by rw [hlen]; exact hi)]
        rfl
      simp only [bplib_open, heq, hget]
      refine ⟨trivial, hf.1, hf.2.1, hf.2.2.1, hf.2.2.2.1, ?_, hf.2.2.2.2⟩
      intro j hj
      rw [List.getD_eq_getElem?_getD, List.getElem?_set_ne (Ne.symm hj),
        ← List.getD_eq_getElem?_getD]
  · constructor
    · intro hfull
      rcases hc with ⟨hall, _⟩ | ⟨k, hk2, hk3, hk4, heq⟩
      · exact hall
      · simp only [bplib_open, heq] at hfull
        unfold BP_CHANNELSFULL at hfull
        omega
    · intro hall
      rcases hc with ⟨_, heq⟩ | ⟨k, hk2, hk3, hk4, heq⟩
      · simp only [bplib_open, heq]
      · exact absurd hk3 (hall k hk2)
  · intro hall
    rcases hc with ⟨_, heq⟩ | ⟨k, hk2, hk3, hk4, heq⟩
    · simp only [bplib_open, heq, and_self]
    · exact absurd hk3 (hall k hk2)

/-- C22, at the first `bplib_open` after `bplib_init` with the local endpoint
`1.1` and the destination `2.1`: slot 0 is the smallest empty slot and the call
returns 0. -/
theorem bplib_open_first_empty_slot_witness :
    (init_channels RUN_TABLE_SIZE).length = BP_MAX_CHANNELS.toNat ∧
    ((init_channels RUN_TABLE_SIZE).getD 0 default).channel_index = BP_EMPTY ∧
    (open_on (sim_store_init [] [] [])).2.2 = (0 : Nat) ∧
    pri_eids ((open_on (sim_store_init [] [] [])).1.getD 0 default).data_bundle.primary_block
      = [2, 1, 1, 1, 1, 1, 1, 1] :=
  have h := (bplib_open_first_empty_slot RUN_TABLE_SIZE sim_codec sim_adapter
    (sim_store_init [] [] []) (init_channels RUN_TABLE_SIZE) 1 1 2 1 (by decide)
    (fun _ _ _ _ => rfl)).1 0 (by decide) (by decide) (fun j hj => absurd hj (by omega))
  ⟨by decide, by decide, h.1, h.2.2.2.2.1⟩

/-- C23 (code evaluated at the failing input): on the channel that `bplib_open`
has just opened, `bplib_getopt` of the process-admin-only option with the
caller's `int` holding 5 returns `BP_PARMERR` and leaves the 5 there, and so
does `bplib_getopt` of the wrap response; with the `int` holding 0 before the
call they report 1 (true) and `BP_WRAP_RESEND`.  The timeout, the maximum bundle
length, the maximum fragment length, the ACS rate and the payload CRC type are
reported as 10, 4096, 4096, 1000 and `BP_DEFAULT_PAY_CRC` whatever the `int`
holds, and the version of the primary block is `BP_DEFAULT_BP_VERSION`. -/
theorem bplib_getopt_checks_output_value :
    ((getopt_fresh .BP_OPT_PROCADMINONLY 5).status,
      (getopt_fresh .BP_OPT_PROCADMINONLY 5).val.map (fun v => v.as_int))
      = (BP_PARMERR, some 5) ∧
    ((getopt_fresh .BP_OPT_WRAPRSP 5).status,
      (getopt_fresh .BP_OPT_WRAPRSP 5).val.map (fun v => v.as_int)) = (BP_PARMERR, some 5) ∧
    ((getopt_fresh .BP_OPT_PROCADMINONLY 0).status,
      (getopt_fresh .BP_OPT_PROCADMINONLY 0).val.map (fun v => v.as_int))
      = (BP_SUCCESS, some 1) ∧
    ((getopt_fresh .BP_OPT_WRAPRSP 0).status,
      (getopt_fresh .BP_OPT_WRAPRSP 0).val.map (fun v => v.as_int))
      = (BP_SUCCESS, some BP_WRAP_RESEND) ∧
    [bp_opt.BP_OPT_TIMEOUT, .BP_OPT_BUNDLELEN, .BP_OPT_FRAGMENTLEN, .BP_OPT_ACSRATE,
      .BP_OPT_PAYCRC_D].map
      (fun o => ((getopt_fresh o 5).status, (getopt_fresh o 5).val.map (fun v => v.as_int)))
      = [(BP_SUCCESS, some 10), (BP_SUCCESS, some 4096), (BP_SUCCESS, some 4096),
          (BP_SUCCESS, some 1000), (BP_SUCCESS, some (BP_DEFAULT_PAY_CRC : Int))] ∧
    ((store_open (sim_store_init [] [] [])).getD 0 default).data_bundle.primary_block.version
      = BP_DEFAULT_BP_VERSION := by
  refine ⟨?_, ?_, ?_, ?_, ?_, ?_⟩
  · decide
  · decide
  · decide
  · decide
  · decide
  · decide

/-! ## C24-C25: `bplib_accept` -/

theorem accept_channel_custody {σ : Type} (codec : bp_codec) (layout : bp_layout)
    (overlay : bp_overlay) (adapter : bp_store_t σ) (st : σ) (tm : bp_time_t)
    (ch : bp_channel_t) (payload dacs_buffer : List Nat) (size timeout : Int)
    (hd : (adapter.dequeue st ch.data_bundle.payload_store_handle timeout).2.1 = BP_SUCCESS)
    (hlen : ¬ (adapter.dequeue st ch.data_bundle.payload_store_handle timeout).2.2.2.1
      < layout.sizeof_bp_payload_store_t)
    (hfit : ¬ size < (adapter.dequeue st ch.data_bundle.payload_store_handle timeout).2.2.2.1
      - layout.sizeof_bp_payload_store_t)
    (hpos : 0 < (adapter.dequeue st ch.data_bundle.payload_store_handle timeout).2.2.2.1
      - layout.sizeof_bp_payload_store_t)
    (hcst : (layout.payload_store_view
      (adapter.dequeue st ch.data_bundle.payload_store_handle timeout).2.2.1.raw).cstrqst
      = true) :
    accept_channel codec layout overlay adapter st tm ch payload dacs_buffer size timeout
      = { status := (adapter.dequeue st ch.data_bundle.payload_store_handle timeout).2.2.2.1
            - layout.sizeof_bp_payload_store_t,
          ch := overlay.channel_of_dacs ch
            (update_dacs_payload codec adapter
              (adapter.relinquish (adapter.dequeue st ch.data_bundle.payload_store_handle
                timeout).1 ch.data_bundle.payload_store_handle
                (adapter.dequeue st ch.data_bundle.payload_store_handle timeout).2.2.2.2).1
              dacs_buffer tm (overlay.channel_as_dacs ch)
              (layout.payload_store_view
                (adapter.dequeue st ch.data_bundle.payload_store_handle timeout).2.2.1.raw).cid
              (layout.payload_store_view
                (adapter.dequeue st ch.data_bundle.payload_store_handle
                  timeout).2.2.1.raw).cstnode
              (layout.payload_store_view
                (adapter.dequeue st ch.data_bundle.payload_store_handle
                  timeout).2.2.1.raw).cstserv true timeout).bundle,
          store := (update_dacs_payload codec adapter
              (adapter.relinquish (adapter.dequeue st ch.data_bundle.payload_store_handle
                timeout).1 ch.data_bundle.payload_store_handle
                (adapter.dequeue st ch.data_bundle.payload_store_handle timeout).2.2.2.2).1
              dacs_buffer tm (overlay.channel_as_dacs ch)
              (layout.payload_store_view
                (adapter.dequeue st ch.data_bundle.payload_store_handle timeout).2.2.1.raw).cid
              (layout.payload_store_view
                (adapter.dequeue st ch.data_bundle.payload_store_handle
                  timeout).2.2.1.raw).cstnode
              (layout.payload_store_view
                (adapter.dequeue st ch.data_bundle.payload_store_handle
                  timeout).2.2.1.raw).cstserv true timeout).store,
          payload :=
            ((adapter.dequeue st ch.data_bundle.payload_store_handle timeout).2.2.1.raw.drop
              layout.sizeof_bp_payload_store_t.toNat).take
              ((adapter.dequeue st ch.data_bundle.payload_store_handle timeout).2.2.2.1
                - layout.sizeof_bp_payload_store_t).toNat
              ++ payload.drop
                ((adapter.dequeue st ch.data_bundle.payload_store_handle timeout).2.2.2.1
                  - layout.sizeof_bp_payload_store_t).toNat,
          acptflags := 0 ||| (update_dacs_payload codec adapter
              (adapter.relinquish (adapter.dequeue st ch.data_bundle.payload_store_handle
                timeout).1 ch.data_bundle.payload_store_handle
                (adapter.dequeue st ch.data_bundle.payload_store_handle timeout).2.2.2.2).1
              dacs_buffer tm (overlay.channel_as_dacs ch)
              (layout.payload_store_view
                (adapter.dequeue st ch.data_bundle.payload_store_handle timeout).2.2.1.raw).cid
              (layout.payload_store_view
                (adapter.dequeue st ch.data_bundle.payload_store_handle
                  timeout).2.2.1.raw).cstnode
              (layout.payload_store_view
                (adapter.dequeue st ch.data_bundle.payload_store_handle
                  timeout).2.2.1.raw).cstserv true timeout).flags,
          dacs_buffer := (update_dacs_payload codec adapter
              (adapter.relinquish (adapter.dequeue st ch.data_bundle.payload_store_handle
                timeout).1 ch.data_bundle.payload_store_handle
                (adapter.dequeue st ch.data_bundle.payload_store_handle timeout).2.2.2.2).1
              dacs_buffer tm (overlay.channel_as_dacs ch)
              (layout.payload_store_view
                (adapter.dequeue st ch.data_bundle.payload_store_handle timeout).2.2.1.raw).cid
              (layout.payload_store_view
                (adapter.dequeue st ch.data_bundle.payload_store_handle
                  timeout).2.2.1.raw).cstnode
              (layout.payload_store_view
                (adapter.dequeue st ch.data_bundle.payload_store_handle
                  timeout).2.2.1.raw).cstserv true timeout).buffer } := by
  simp only [accept_channel, hd, ne_eq, not_true_eq_false, if_false, hlen, hfit, hcst, gt_iff_lt,
    hpos, and_self, if_true]

/-- C24 (code evaluated at the failing input): the payload queue hands out a
custody-requested record (custodian `10.0`, custody ID 3) with a payload of zero
bytes.  `bplib_accept` copies the 0 bytes, relinquishes the record and returns
0, and the condition `payptr->cstrqst && (status > 0)` of line 1551 does not
hold: whatever lies under the channel pointer, `update_dacs_payload` is not
called, `dequeue` and `relinquish` are the only calls on the storage service,
the channel is as it was and `*acptflags` is 0.  With one byte of payload the
call returns 1 and the condition holds, for the record's custodian and custody
ID. -/
theorem bplib_accept_skips_ack_of_empty_payload (codec : bp_codec) (overlay : bp_overlay)
    (tm : bp_time_t) :
    (accept_custody 0).2 = none ∧
    (accept_channel codec sim_layout overlay sim_adapter (custody_queue 0) tm
      ((store_open (sim_store_init [] [] [])).getD 0 default) (List.replicate 8 0)
      (List.replicate 136 0) 8 0).status = 0 ∧
    (accept_channel codec sim_layout overlay sim_adapter (custody_queue 0) tm
      ((store_open (sim_store_init [] [] [])).getD 0 default) (List.replicate 8 0)
      (List.replicate 136 0) 8 0).store.calls.drop 3 = [.dequeue 1 0, .relinquish 1 21] ∧
    (accept_channel codec sim_layout overlay sim_adapter (custody_queue 0) tm
      ((store_open (sim_store_init [] [] [])).getD 0 default) (List.replicate 8 0)
      (List.replicate 136 0) 8 0).ch = (store_open (sim_store_init [] [] [])).getD 0 default ∧
    (accept_channel codec sim_layout overlay sim_adapter (custody_queue 0) tm
      ((store_open (sim_store_init [] [] [])).getD 0 default) (List.replicate 8 0)
      (List.replicate 136 0) 8 0).acptflags = 0 ∧
    (accept_custody 1).1.status = 1 ∧
    (accept_custody 1).1.store.calls.drop 3 = [.dequeue 1 0, .relinquish 1 21] ∧
    (accept_custody 1).2.map (fun p => (p.cstrqst, p.cstnode, p.cstserv, p.cid))
      = some (true, 10, 0, 3) := by
  have h0 : (accept_custody 0).2 = none := by decide
  have e := (accept_channel_copy codec sim_layout overlay sim_adapter (custody_queue 0) tm
    ((store_open (sim_store_init [] [] [])).getD 0 default) (List.replicate 8 0)
    (List.replicate 136 0) 8 0).2.2 h0
  rw [e]
  refine ⟨h0, ?_, ?_, ?_, ?_, ?_, ?_, ?_⟩
  · show (accept_custody 0).1.status = 0
    decide
  · show (accept_custody 0).1.store.calls.drop 3 = _
    decide
  · show (accept_custody 0).1.ch = _
    decide
  · show (accept_custody 0).1.acptflags = 0
    decide
  · decide
  · decide
  · decide

/-- C25 (as stated, refuted): the payload queue of a freshly opened channel
holds `"hello"` and then `"hi"`.  `bplib_accept` into a 3-byte buffer returns
`BP_PAYLOADTOOLARGE`, copies nothing and makes the one `dequeue` call; the
`bplib_accept` into an 8-byte buffer that follows returns 2 with the bytes of
`"hi"`, not `"hello"`. -/
theorem too_large_payload_is_not_requeued :
    (accept_small.status, accept_small.payload, accept_small.store.calls.drop 3)
      = (BP_PAYLOADTOOLARGE, [0, 0, 0], [.dequeue 1 0]) ∧
    (accept_again.status, accept_again.payload, accept_again.store.calls.drop 4)
      = (2, [104, 105, 0, 0, 0, 0, 0, 0], [.dequeue 1 0, .relinquish 1 32]) := by
  refine ⟨?_, ?_⟩
  · decide
  · decide

/-- C25 (amended): when `bplib_accept` dequeues a payload record whose payload
is larger than the caller's buffer, it returns `BP_PAYLOADTOOLARGE`, leaves the
caller's buffer, the channel with its ACS accumulator and the DACS payload
buffer as they were, sets `*acptflags` to 0, and the `dequeue` is its only call
on the storage service (no `relinquish`); a following `bplib_accept` is the call
on the store state that this `dequeue` left. -/
theorem bplib_accept_payload_too_large {σ : Type} (codec : bp_codec) (layout : bp_layout)
    (overlay : bp_overlay) (adapter : bp_store_t σ) (st : σ) (tm : bp_time_t)
    (ch : bp_channel_t) (payload dacs_buffer : List Nat) (size timeout : Int)
    (tm2 : bp_time_t) (payload2 : List Nat) (size2 timeout2 : Int)
    (hd : (adapter.dequeue st ch.data_bundle.payload_store_handle timeout).2.1 = BP_SUCCESS)
    (hlen : ¬ (adapter.dequeue st ch.data_bundle.payload_store_handle timeout).2.2.2.1
      < layout.sizeof_bp_payload_store_t)
    (hbig : size < (adapter.dequeue st ch.data_bundle.payload_store_handle timeout).2.2.2.1
      - layout.sizeof_bp_payload_store_t) :
    (accept_channel codec layout overlay adapter st tm ch payload dacs_buffer size
      timeout).status = BP_PAYLOADTOOLARGE ∧
    (accept_channel codec layout overlay adapter st tm ch payload dacs_buffer size
      timeout).payload = payload ∧
    (accept_channel codec layout overlay adapter st tm ch payload dacs_buffer size
      timeout).ch = ch ∧
    (accept_channel codec layout overlay adapter st tm ch payload dacs_buffer size
      timeout).store = (adapter.dequeue st ch.data_bundle.payload_store_handle timeout).1 ∧
    (accept_channel codec layout overlay adapter st tm ch payload dacs_buffer size
      timeout).acptflags = 0 ∧
    (accept_channel codec layout overlay adapter st tm ch payload dacs_buffer size
      timeout).dacs_buffer = dacs_buffer ∧
    accept_channel codec layout overlay adapter
      (accept_channel codec layout overlay adapter st tm ch payload dacs_buffer size
        timeout).store tm2
      (accept_channel codec layout overlay adapter st tm ch payload dacs_buffer size
        timeout).ch payload2
      (accept_channel codec layout overlay adapter st tm ch payload dacs_buffer size
        timeout).dacs_buffer size2 timeout2
      = accept_channel codec layout overlay adapter
          (adapter.dequeue st ch.data_bundle.payload_store_handle timeout).1 tm2 ch payload2
          dacs_buffer size2 timeout2 := by
  have hneg : ¬ BP_PAYLOADTOOLARGE > 0 := by decide
  have h : accept_channel codec layout overlay adapter st tm ch payload dacs_buffer size
      timeout
      = { status := BP_PAYLOADTOOLARGE, ch := ch,
          store := (adapter.dequeue st ch.data_bundle.payload_store_handle timeout).1,
          payload := payload, acptflags := 0, dacs_buffer := dacs_buffer } := by
    simp only [accept_channel, hd, ne_eq, not_true_eq_false, if_false, hlen, hbig, if_true,
      hneg, and_false]
  rw [h]
  exact ⟨rfl, rfl, rfl, rfl, rfl, rfl, rfl⟩

/-- C25 (amended), at the `bplib_accept` of `accept_small`: the record `"hello"`
of 5 bytes does not fit the 3-byte buffer. -/
theorem bplib_accept_payload_too_large_witness :
    accept_small.status = BP_PAYLOADTOOLARGE ∧
    accept_small.payload = List.replicate 3 0 ∧
    accept_small.ch = (store_open (sim_store_init [] [] [])).getD 0 default ∧
    accept_small.store = (sim_adapter.dequeue two_payloads
      ((store_open (sim_store_init [] [] [])).getD 0 default).data_bundle.payload_store_handle
      0).1 := by
  have h := bplib_accept_payload_too_large sim_codec sim_layout
    ⟨fun _ => default, fun c _ => c⟩ sim_adapter two_payloads ⟨9, 0⟩
    ((store_open (sim_store_init [] [] [])).getD 0 default) (List.replicate 3 0)
    (List.replicate 136 0) 3 0 ⟨10, 0⟩ (List.replicate 8 0) 8 0 (by decide) (by decide)
    (by decide)
  have e := (accept_channel_copy sim_codec sim_layout ⟨fun _ => default, fun c _ => c⟩
    sim_adapter two_payloads ⟨9, 0⟩ ((store_open (sim_store_init [] [] [])).getD 0 default)
    (List.replicate 3 0) (List.replicate 136 0) 3 0).2.2 (by decide)
  rw [e] at h
  exact ⟨h.1, h.2.1, h.2.2.1, h.2.2.2.1⟩

/-! ## C26-C28: delivery and rejection in `bplib_process` -/

theorem process_deliver_record {σ : Type} (layout : bp_layout) (adapter : bp_store_t σ)
    (priblk : bp_blk_pri_t) (size timeout : Int) (s : proc_state σ) :
    (process_deliver layout adapter priblk size timeout s).1.ch.data_bundle.payload_storage
      = delivered_record priblk.request_custody s.cteb_present s.ctebblk ∧
    (process_deliver layout adapter priblk size timeout s).1.store
      = (adapter.enqueue s.store s.ch.data_bundle.payload_store_handle
          (layout.payload_store_bytes
            (delivered_record priblk.request_custody s.cteb_present s.ctebblk))
          layout.sizeof_bp_payload_store_t (s.buffer.drop s.index.toNat) (size - s.index)
          timeout).1 ∧
    (process_deliver layout adapter priblk size timeout s).2
      = (adapter.enqueue s.store s.ch.data_bundle.payload_store_handle
          (layout.payload_store_bytes
            (delivered_record priblk.request_custody s.cteb_present s.ctebblk))
          layout.sizeof_bp_payload_store_t (s.buffer.drop s.index.toNat) (size - s.index)
          timeout).2 := by
  cases hr : priblk.request_custody <;> cases hc : s.cteb_present <;>
    simp [process_deliver, delivered_record, hr, hc]

theorem integrity_cond (b : Bool) (v : Int) :
    (b = true ∧ (if b = true then v else 1) ≤ 0) ↔ (b = true ∧ v ≤ 0) := by
  cases b <;> simp

theorem process_other_cteb {σ : Type} (reader : bp_reader σ) (size start_index : Int)
    (blk_type : Nat) (flag_size : Int) (blk_flags blk_length : Nat) (s : proc_state σ) :
    ∀ s2, process_other reader size start_index blk_type flag_size blk_flags blk_length s
        = .inl s2 →
      s2.ch = s.ch ∧ s2.store = s.store ∧
      s2.cteb_present = (s.cteb_present || decide (blk_type = BP_CTEB_BLK_TYPE)) ∧
      s2.ctebblk = (if blk_type = BP_CTEB_BLK_TYPE
        then (reader.bplib_blk_cteb_read (s.buffer.drop s.index.toNat) (size - s.index)).1
        else s.ctebblk) := by
  intro s2 h
  unfold process_other at h
  dsimp only at h
  by_cases h1 : blk_type = BP_CTEB_BLK_TYPE
  · rw [if_pos h1] at h
    rw [if_pos h1, decide_eq_true h1, Bool.or_true]
    split at h
    · cases h
    · cases h
      exact ⟨rfl, rfl, rfl, rfl⟩
  · rw [if_neg h1] at h
    rw [if_neg h1, decide_eq_false h1, Bool.or_false]
    by_cases h2 : blk_type = BP_BIB_BLK_TYPE
    · rw [if_pos h2] at h
      split at h
      · cases h
      · cases h
        exact ⟨rfl, rfl, rfl, rfl⟩
    · rw [if_neg h2] at h
      repeat' split at h
      all_goals first
        | (cases h; done)
        | (cases h; exact ⟨rfl, rfl, rfl, rfl⟩)

theorem blocks_before_payload_state {σ : Type} (reader : bp_reader σ) (size : Int) :
    ∀ (fuel : Nat) (s : proc_state σ) (t : List (Nat × List Nat × Int) × Nat × proc_state σ),
      blocks_before_payload reader size fuel s = some t →
      t.2.2.ch = s.ch ∧ t.2.2.store = s.store ∧
      t.2.2.cteb_present = (s.cteb_present || has_cteb t.1) ∧
      t.2.2.ctebblk = last_cteb reader s.ctebblk t.1 := by
  intro fuel
  induction fuel with
  | zero => intro s t h; exact absurd h (by simp [blocks_before_payload])
  | succ n ih =>
    intro s t h
    rw [blocks_before_payload] at h
    dsimp only at h
    split at h
    · split at h
      · exact absurd h (by simp)
      · split at h
        · cases h
          exact ⟨rfl, rfl, (Bool.or_false _).symm, rfl⟩
        · generalize hpo : process_other reader size _ _ _ _ _ _ = po at h
          cases po with
          | inr r2 => exact absurd h (by simp)
          | inl s2 =>
            dsimp only at h
            obtain ⟨f1, f2, f3, f4⟩ := process_other_cteb reader size _ _ _ _ _ _ s2 hpo
            split at h
            · exact absurd h (by simp)
            · generalize hb : blocks_before_payload reader size n s2 = b at h
              cases b with
              | none => exact absurd h (by simp)
              | some t2 =>
                obtain ⟨g1, g2, g3, g4⟩ := ih s2 t2 hb
                simp only [Option.map_some', Option.some.injEq] at h
                rw [← h]
                refine ⟨g1.trans f1, g2.trans f2, ?_, ?_⟩
                · show t2.2.2.cteb_present = (s.cteb_present || has_cteb (_ :: t2.1))
                  rw [g3, f3]
                  simp only [has_cteb, List.any_cons, Bool.or_assoc]
                · show t2.2.2.ctebblk = last_cteb reader s.ctebblk (_ :: t2.1)
                  rw [g4, f4]
                  simp only [last_cteb, List.foldl_cons]
    · exact absurd h (by simp)

theorem blocks_before_payload_run {σ : Type} (N : Nat) (codec : bp_codec) (layout : bp_layout)
    (reader : bp_reader σ) (adapter : bp_store_t σ) (tm : bp_time_t) (stack : proc_stack)
    (priblk : bp_blk_pri_t) (size timeout : Int) :
    ∀ (fuel : Nat) (s : proc_state σ) (t : List (Nat × List Nat × Int) × Nat × proc_state σ),
      blocks_before_payload reader size fuel s = some t →
      process_blocks N codec layout reader adapter tm stack priblk size timeout fuel s
        = some (process_payload N codec layout reader adapter tm stack priblk size timeout
            t.2.1 t.2.2) := by
  intro fuel
  induction fuel with
  | zero => intro s t h; exact absurd h (by simp [blocks_before_payload])
  | succ n ih =>
    intro s t h
    rw [blocks_before_payload] at h
    rw [process_blocks]
    dsimp only at h ⊢
    split at h
    · rename_i hlt
      rw [if_pos hlt]
      split at h
      · exact absurd h (by simp)
      · rename_i hfl
        rw [if_neg hfl]
        split at h
        · rename_i hpay
          rw [if_pos hpay]
          cases h
          rfl
        · rename_i hpay
          rw [if_neg hpay]
          generalize hpo : process_other reader size _ _ _ _ _ _ = po at h
          cases po with
          | inr r2 => exact absurd h (by simp)
          | inl s2 =>
            dsimp only at h ⊢
            split at h
            · exact absurd h (by simp)
            · rename_i hmis
              rw [if_neg hmis]
              generalize hb : blocks_before_payload reader size n s2 = b at h
              cases b with
              | none => exact absurd h (by simp)
              | some t2 =>
                simp only [Option.map_some', Option.some.injEq] at h
                rw [← h]
                exact ih s2 t2 hb
    · exact absurd h (by simp)

theorem process_channel_start {σ : Type} (N : Nat) (codec : bp_codec) (layout : bp_layout)
    (reader : bp_reader σ) (adapter : bp_store_t σ) (st : σ) (tm : bp_time_t)
    (stack : proc_stack) (fuel : Nat) (ch : bp_channel_t) (bundle dacs_buffer : List Nat)
    (size timeout : Int)
    (hparse : 0 < (reader.bplib_blk_pri_read bundle size).2)
    (hproc : ¬ (ch.proc_admin_only = true ∧
      (reader.bplib_blk_pri_read bundle size).1.is_admin_rec = false))
    (hsup : ¬ ((reader.bplib_blk_pri_read bundle size).1.allow_frag = true ∨
      (reader.bplib_blk_pri_read bundle size).1.dictlen.value ≠ 0))
    (hlive : bplib_cmptime tm
      (bundle_expiry codec.time_modulus (reader.bplib_blk_pri_read bundle size).1) < 0) :
    process_channel N codec layout reader adapter st tm stack fuel ch bundle dacs_buffer size
      timeout
      = process_blocks N codec layout reader adapter tm stack
          (reader.bplib_blk_pri_read bundle size).1 size timeout fuel
          (process_start reader st stack ch bundle dacs_buffer size) := by
  have hp : ¬ (reader.bplib_blk_pri_read bundle size).2 ≤ 0 := not_le.mpr hparse
  have hexp : ¬ bplib_cmptime tm
      (bplib_addtime codec.time_modulus
        ⟨(reader.bplib_blk_pri_read bundle size).1.createtms.value,
          (reader.bplib_blk_pri_read bundle size).1.createtmns.value⟩
        (to_int (reader.bplib_blk_pri_read bundle size).1.lifetime.value)) ≥ 0 :=
    not_le.mpr hlive
  unfold process_channel process_start
  dsimp only
  rw [if_neg hp, if_neg hproc, if_neg hsup, if_neg hexp]

theorem process_start_frame {σ : Type} (reader : bp_reader σ) (st : σ) (stack : proc_stack)
    (ch : bp_channel_t) (bundle dacs_buffer : List Nat) (size : Int) :
    (process_start reader st stack ch bundle dacs_buffer size).ch = ch ∧
    (process_start reader st stack ch bundle dacs_buffer size).store = st ∧
    (process_start reader st stack ch bundle dacs_buffer size).cteb_present = false ∧
    (process_start reader st stack ch bundle dacs_buffer size).ctebblk = stack.ctebblk := by
  unfold process_start
  dsimp only
  split <;> exact ⟨rfl, rfl, rfl, rfl⟩

theorem process_payload_delivers {σ : Type} (N : Nat) (codec : bp_codec)
    (layout : bp_layout) (reader : bp_reader σ) (adapter : bp_store_t σ) (tm : bp_time_t)
    (stack : proc_stack) (priblk : bp_blk_pri_t) (size timeout : Int) (blk_length : Nat)
    (s : proc_state σ)
    (hlen : ¬ size - s.index < to_int blk_length)
    (hint : ¬ (s.bib_present = true ∧
      reader.bplib_blk_bib_verify (s.buffer.drop s.index.toNat) blk_length s.bibblk ≤ 0))
    (hadm : priblk.is_admin_rec = false)
    (hnode : priblk.dstnode.value = s.ch.data_bundle.primary_block.srcnode.value) :
    (priblk.dstserv.value = s.ch.data_bundle.primary_block.srcserv.value →
      (process_payload N codec layout reader adapter tm stack priblk size timeout blk_length
        s).store
        = (adapter.enqueue s.store s.ch.data_bundle.payload_store_handle
            (layout.payload_store_bytes
              (delivered_record priblk.request_custody s.cteb_present s.ctebblk))
            layout.sizeof_bp_payload_store_t (s.buffer.drop s.index.toNat) (size - s.index)
            timeout).1 ∧
      (process_payload N codec layout reader adapter tm stack priblk size timeout blk_length
        s).status
        = (if (adapter.enqueue s.store s.ch.data_bundle.payload_store_handle
            (layout.payload_store_bytes
              (delivered_record priblk.request_custody s.cteb_present s.ctebblk))
            layout.sizeof_bp_payload_store_t (s.buffer.drop s.index.toNat) (size - s.index)
            timeout).2 ≤ 0
          then (adapter.enqueue s.store s.ch.data_bundle.payload_store_handle
            (layout.payload_store_bytes
              (delivered_record priblk.request_custody s.cteb_present s.ctebblk))
            layout.sizeof_bp_payload_store_t (s.buffer.drop s.index.toNat) (size - s.index)
            timeout).2
          else BP_SUCCESS)) ∧
    (priblk.dstserv.value ≠ s.ch.data_bundle.primary_block.srcserv.value →
      (process_payload N codec layout reader adapter tm stack priblk size timeout blk_length
        s).status = BP_WRONGCHANNEL ∧
      (process_payload N codec layout reader adapter tm stack priblk size timeout blk_length
        s).store = s.store ∧
      (process_payload N codec layout reader adapter tm stack priblk size timeout blk_length
        s).ch = s.ch) := by
  have hint2 := (not_congr (integrity_cond s.bib_present
    (reader.bplib_blk_bib_verify (s.buffer.drop s.index.toNat) blk_length s.bibblk))).mpr hint
  refine ⟨?_, ?_⟩
  · intro hserv
    obtain ⟨_, h2, h3⟩ := process_deliver_record layout adapter priblk size timeout s
    have hp : process_payload N codec layout reader adapter tm stack priblk size timeout
        blk_length s
        = proc_return (process_deliver layout adapter priblk size timeout s).1
            (if (process_deliver layout adapter priblk size timeout s).2 ≤ 0
              then (process_deliver layout adapter priblk size timeout s).2 else BP_SUCCESS) := by
      simp only [process_payload, hlen, if_false, hint2, hadm, Bool.false_eq_true, hnode, ne_eq,
        not_true_eq_false, hserv]
    rw [hp]
    refine ⟨h2, ?_⟩
    show (if (process_deliver layout adapter priblk size timeout s).2 ≤ 0
      then (process_deliver layout adapter priblk size timeout s).2 else BP_SUCCESS) = _
    rw [h3]
  · intro hserv
    have hp : process_payload N codec layout reader adapter tm stack priblk size timeout
        blk_length s = proc_return s BP_WRONGCHANNEL := by
      simp only [process_payload, hlen, if_false, hint2, hadm, Bool.false_eq_true, hnode, ne_eq,
        not_true_eq_false, hserv, not_false_eq_true, if_true, bplog]
      rfl
    rw [hp]
    exact ⟨rfl, rfl, rfl⟩

/-- C26: on a channel that processes data bundles, for a bundle that is not an
administrative record, whose primary block parses, that uses no unsupported
feature and whose lifetime has not elapsed, whose blocks before the payload
block are `t.1`, whose payload block is long enough and passes the integrity
check, and whose destination node is the channel's local node: if the
destination service is the local service, `bplib_process` returns after one
`enqueue` on the payload queue, of the payload record `delivered_record` marked
custody-requested if and only if the primary block requests custody and a CTEB
is among the blocks, with the custody ID and the custodian of that CTEB,
followed by the payload bytes, and its status is `BP_SUCCESS` or the
non-positive status of the `enqueue`; if the service differs, it returns
`BP_WRONGCHANNEL` with the channel and the store state as they were. -/
theorem bplib_process_delivers_payload {σ : Type} (N : Nat) (codec : bp_codec)
    (layout : bp_layout) (reader : bp_reader σ) (adapter : bp_store_t σ) (st : σ)
    (tm : bp_time_t) (stack : proc_stack) (fuel : Nat) (ch : bp_channel_t)
    (bundle dacs_buffer : List Nat) (size timeout : Int)
    (t : List (Nat × List Nat × Int) × Nat × proc_state σ)
    (hparse : 0 < (reader.bplib_blk_pri_read bundle size).2)
    (hopen : ch.proc_admin_only = false)
    (hsup : ¬ ((reader.bplib_blk_pri_read bundle size).1.allow_frag = true ∨
      (reader.bplib_blk_pri_read bundle size).1.dictlen.value ≠ 0))
    (hlive : bplib_cmptime tm
      (bundle_expiry codec.time_modulus (reader.bplib_blk_pri_read bundle size).1) < 0)
    (hblocks : blocks_before_payload reader size fuel
      (process_start reader st stack ch bundle dacs_buffer size) = some t)
    (hlen : ¬ size - t.2.2.index < to_int t.2.1)
    (hint : ¬ (t.2.2.bib_present = true ∧
      reader.bplib_blk_bib_verify (t.2.2.buffer.drop t.2.2.index.toNat) t.2.1 t.2.2.bibblk
        ≤ 0))
    (hadm : (reader.bplib_blk_pri_read bundle size).1.is_admin_rec = false)
    (hnode : (reader.bplib_blk_pri_read bundle size).1.dstnode.value
      = ch.data_bundle.primary_block.srcnode.value) :
    ((reader.bplib_blk_pri_read bundle size).1.dstserv.value
        = ch.data_bundle.primary_block.srcserv.value →
      ∃ r, process_channel N codec layout reader adapter st tm stack fuel ch bundle dacs_buffer
          size timeout = some r ∧
        r.store = (adapter.enqueue st ch.data_bundle.payload_store_handle
            (layout.payload_store_bytes
              (delivered_record (reader.bplib_blk_pri_read bundle size).1.request_custody
                (has_cteb t.1) (last_cteb reader stack.ctebblk t.1)))
            layout.sizeof_bp_payload_store_t (t.2.2.buffer.drop t.2.2.index.toNat)
            (size - t.2.2.index) timeout).1 ∧
        r.status = (if (adapter.enqueue st ch.data_bundle.payload_store_handle
            (layout.payload_store_bytes
              (delivered_record (reader.bplib_blk_pri_read bundle size).1.request_custody
                (has_cteb t.1) (last_cteb reader stack.ctebblk t.1)))
            layout.sizeof_bp_payload_store_t (t.2.2.buffer.drop t.2.2.index.toNat)
            (size - t.2.2.index) timeout).2 ≤ 0
          then (adapter.enqueue st ch.data_bundle.payload_store_handle
            (layout.payload_store_bytes
              (delivered_record (reader.bplib_blk_pri_read bundle size).1.request_custody
                (has_cteb t.1) (last_cteb reader stack.ctebblk t.1)))
            layout.sizeof_bp_payload_store_t (t.2.2.buffer.drop t.2.2.index.toNat)
            (size - t.2.2.index) timeout).2
          else BP_SUCCESS)) ∧
    ((reader.bplib_blk_pri_read bundle size).1.dstserv.value
        ≠ ch.data_bundle.primary_block.srcserv.value →
      ∃ r, process_channel N codec layout reader adapter st tm stack fuel ch bundle dacs_buffer
          size timeout = some r ∧
        r.status = BP_WRONGCHANNEL ∧ r.store = st ∧ r.ch = ch) := by
  obtain ⟨s1, s2, s3, s4⟩ := process_start_frame reader st stack ch bundle dacs_buffer size
  obtain ⟨b1, b2, b3, b4⟩ := blocks_before_payload_state reader size fuel _ t hblocks
  rw [s1] at b1
  rw [s2] at b2
  rw [s3, Bool.false_or] at b3
  rw [s4] at b4
  have hrun : process_channel N codec layout reader adapter st tm stack fuel ch bundle
      dacs_buffer size timeout
      = some (process_payload N codec layout reader adapter tm stack
          (reader.bplib_blk_pri_read bundle size).1 size timeout t.2.1 t.2.2) := by
    rw [process_channel_start N codec layout reader adapter st tm stack fuel ch bundle
      dacs_buffer size timeout hparse (by rw [hopen]; simp) hsup hlive]
    exact blocks_before_payload_run N codec layout reader adapter tm stack _ size timeout fuel
      _ t hblocks
  obtain ⟨d1, d2⟩ := process_payload_delivers N codec layout reader adapter tm stack
    (reader.bplib_blk_pri_read bundle size).1 size timeout t.2.1 t.2.2 hlen hint hadm
    (by rw [b1]; exact hnode)
  rw [b1, b2, b3, b4] at d1
  rw [b1, b2] at d2
  exact ⟨fun h => ⟨_, hrun, d1 h⟩, fun h => ⟨_, hrun, d2 h⟩⟩

/-- C26, at `data_bundle_bytes` on channel 0 of node B (local endpoint `2.1`):
the bundle requests custody and its CTEB names the custodian `10.0` and the
custody ID 3; the call enqueues the record marked custody-requested with
`"hello"` on the payload queue.  The same bundle without its CTEB block is
enqueued with a record that is not marked, and read as a bundle for the
service 7 it is refused with `BP_WRONGCHANNEL` and nothing is enqueued. -/
theorem bplib_process_delivers_payload_witness :
    (∃ r, process_channel RUN_TABLE_SIZE sim_codec sim_layout (deliver_reader (data_pri 1))
        sim_adapter trip_b_open.2.1 ⟨105, 0⟩ { (default : proc_stack) with flags := 1 } 4
        (deliver_channels.getD 0 default) data_bundle_bytes (List.replicate 136 0) 75 0
        = some r ∧
      r.status = BP_SUCCESS ∧
      r.store.calls.drop 3
        = [.enqueue 1 [1, 0, 0, 0, 10, 0, 0, 0, 0, 0, 0, 0, 3, 0, 0, 0] 16 hello 5 0]) ∧
    deliver_plain.map (fun r => (r.status, r.store.calls.drop 3))
      = some (BP_SUCCESS,
          [.enqueue 1 [0, 0, 0, 0, 0, 0, 0, 0, 0, 0, 0, 0, 0, 0, 0, 0] 16 hello 5 0]) ∧
    (deliver_run 7).map (fun r => (r.status, r.store.calls.drop 3))
      = some (BP_WRONGCHANNEL, []) := by
  refine ⟨?_, ?_, ?_⟩
  · obtain ⟨r, hr, h1, h2⟩ := (bplib_process_delivers_payload RUN_TABLE_SIZE sim_codec sim_layout
      (deliver_reader (data_pri 1)) sim_adapter trip_b_open.2.1 ⟨105, 0⟩
      { (default : proc_stack) with flags := 1 } 4 (deliver_channels.getD 0 default)
      data_bundle_bytes (List.replicate 136 0) 75 0
      ([(10, data_bundle_bytes.drop 55, 20)], 5, deliver_state)
      (by decide) (by decide) (by decide) (by decide) (by rfl) (by decide) (by decide)
      (by decide) (by decide)).1 (by decide)
    refine ⟨r, hr, ?_, ?_⟩
    · rw [h2]
      decide
    · rw [h1]
      decide
  · decide
  · decide

theorem process_other_frame {σ : Type} (reader : bp_reader σ) (size start_index : Int)
    (blk_type : Nat) (flag_size : Int) (blk_flags blk_length : Nat) (s : proc_state σ) :
    ∀ s2, process_other reader size start_index blk_type flag_size blk_flags blk_length s
        = .inl s2 →
      s2.ch = s.ch ∧ s2.store = s.store ∧ s2.dacs_buffer = s.dacs_buffer := by
  intro s2 h
  simp only [process_other, proc_return] at h
  repeat' split at h
  all_goals first
    | (cases h; done)
    | (cases h; exact ⟨rfl, rfl, rfl⟩)

theorem process_admin_other {σ : Type} (N : Nat) (reader : bp_reader σ)
    (adapter : bp_store_t σ) (size : Int) (s : proc_state σ)
    (h : arr_get s.buffer s.index ≠ BP_PROTO_ACS_REC_TYPE) :
    (process_admin N reader adapter size s).1 = { s with index := s.index + 2 } ∧
    ((process_admin N reader adapter size s).2 = BP_UNSUPPORTED ∨
      (process_admin N reader adapter size s).2 = BP_UNKNOWNREC) := by
  simp only [process_admin, h, if_false]
  split
  · exact ⟨rfl, Or.inl rfl⟩
  · split
    · exact ⟨rfl, Or.inl rfl⟩
    · exact ⟨rfl, Or.inr rfl⟩

theorem incomplete_set_or (a : Nat) : incomplete_set (a ||| BP_FLAG_INCOMPLETE) := by
  have h : BP_FLAG_INCOMPLETE.testBit 1 = true := by decide
  simp only [incomplete_set, Nat.testBit_or, h, Bool.or_true]

theorem incomplete_set_mono (a b : Nat) (h : incomplete_set a) : incomplete_set (a ||| b) := by
  simp only [incomplete_set] at h ⊢
  simp only [Nat.testBit_or, h, Bool.true_or]

theorem process_other_buffer {σ : Type} (reader : bp_reader σ) (size start_index : Int)
    (blk_type : Nat) (flag_size : Int) (blk_flags blk_length : Nat) (s : proc_state σ) :
    ∀ s2, process_other reader size start_index blk_type flag_size blk_flags blk_length s
        = .inl s2 →
      ¬ incomplete_set s2.procflags →
      s2.buffer = s.buffer ∧ ¬ incomplete_set s.procflags := by
  intro s2 h
  simp only [process_other, proc_return] at h
  repeat' split at h
  all_goals first
    | (cases h; done)
    | (cases h; exact fun hn => ⟨rfl, hn⟩)
    | (cases h; exact fun hn => absurd (incomplete_set_or _) hn)
    | (cases h; exact fun hn => absurd (incomplete_set_mono _ _ (incomplete_set_or _)) hn)
    | (cases h
       exact fun hn => absurd
         (incomplete_set_mono _ _ (incomplete_set_mono _ _ (incomplete_set_or _))) hn)

theorem process_other_failed {σ : Type} (reader : bp_reader σ) (size start_index : Int)
    (blk_type : Nat) (flag_size : Int) (blk_flags blk_length : Nat) (s : proc_state σ)
    (ht : blk_type = BP_CTEB_BLK_TYPE ∨ blk_type = BP_BIB_BLK_TYPE) :
    ∀ r, process_other reader size start_index blk_type flag_size blk_flags blk_length s
        = .inr r →
      r.status ≤ 0 ∧ r.ch = s.ch ∧ r.store = s.store ∧ r.dacs_buffer = s.dacs_buffer ∧
      r.bundle = s.buffer ∧ r.procflags = s.procflags := by
  intro r h
  unfold process_other at h
  dsimp only at h
  by_cases h1 : blk_type = BP_CTEB_BLK_TYPE
  · rw [if_pos h1] at h
    split at h
    · rename_i hle
      cases h
      exact ⟨hle, rfl, rfl, rfl, rfl, rfl⟩
    · cases h
  · rw [if_neg h1] at h
    have h2 : blk_type = BP_BIB_BLK_TYPE := ht.resolve_left h1
    rw [if_pos h2] at h
    split at h
    · rename_i hle
      cases h
      exact ⟨hle, rfl, rfl, rfl, rfl, rfl⟩
    · cases h

theorem payload_exit_frame {σ : Type} (N : Nat) (codec : bp_codec) (layout : bp_layout)
    (reader : bp_reader σ) (adapter : bp_store_t σ) (tm : bp_time_t) (stack : proc_stack)
    (priblk : bp_blk_pri_t) (size timeout : Int) (blk_length : Nat) (s : proc_state σ)
    (hne : payload_exit reader priblk size blk_length s ≠ .other) :
    (process_payload N codec layout reader adapter tm stack priblk size timeout blk_length
      s).status ≤ 0 ∧
    (process_payload N codec layout reader adapter tm stack priblk size timeout blk_length
      s).ch = s.ch ∧
    (process_payload N codec layout reader adapter tm stack priblk size timeout blk_length
      s).store = s.store ∧
    (process_payload N codec layout reader adapter tm stack priblk size timeout blk_length
      s).dacs_buffer = s.dacs_buffer ∧
    (process_payload N codec layout reader adapter tm stack priblk size timeout blk_length
      s).bundle = s.buffer ∧
    (process_payload N codec layout reader adapter tm stack priblk size timeout blk_length
      s).procflags = s.procflags := by
  unfold payload_exit at hne
  unfold process_payload
  dsimp only
  by_cases h1 : size - s.index < to_int blk_length
  · rw [if_pos h1]
    refine ⟨?_, rfl, rfl, rfl, rfl, rfl⟩
    show BP_BUNDLEPARSEERR ≤ 0
    decide
  · rw [if_neg h1] at hne
    rw [if_neg h1]
    by_cases h2 : s.bib_present = true ∧
        reader.bplib_blk_bib_verify (s.buffer.drop s.index.toNat) blk_length s.bibblk ≤ 0
    · have h2b := (integrity_cond s.bib_present
        (reader.bplib_blk_bib_verify (s.buffer.drop s.index.toNat) blk_length s.bibblk)).mpr h2
      rw [if_pos h2b]
      refine ⟨?_, rfl, rfl, rfl, rfl, rfl⟩
      exact h2b.2
    · rw [if_neg h2] at hne
      have h2b := (not_congr (integrity_cond s.bib_present
        (reader.bplib_blk_bib_verify (s.buffer.drop s.index.toNat) blk_length s.bibblk))).mpr h2
      rw [if_neg h2b]
      by_cases h3 : priblk.is_admin_rec = true
      · rw [if_pos h3] at hne
        rw [if_pos h3]
        by_cases h4 : blk_length < 2
        · rw [if_pos h4]
          refine ⟨?_, rfl, rfl, rfl, rfl, rfl⟩
          show BP_BUNDLEPARSEERR ≤ 0
          decide
        · rw [if_neg h4] at hne
          rw [if_neg h4]
          by_cases h5 : arr_get s.buffer s.index = BP_PROTO_ACS_REC_TYPE
          · rw [if_pos h5] at hne
            exact absurd rfl hne
          · obtain ⟨ha1, ha2⟩ := process_admin_other N reader adapter size s h5
            rw [ha1]
            refine ⟨?_, rfl, rfl, rfl, rfl, rfl⟩
            show (if (process_admin N reader adapter size s).2 ≤ 0
              then (process_admin N reader adapter size s).2 else BP_SUCCESS) ≤ 0
            rcases ha2 with ha2 | ha2
            · rw [ha2]; decide
            · rw [ha2]; decide
      · rw [if_neg h3] at hne
        exact absurd rfl hne

theorem blocks_exit_frame {σ : Type} (N : Nat) (codec : bp_codec) (layout : bp_layout)
    (reader : bp_reader σ) (adapter : bp_store_t σ) (tm : bp_time_t) (stack : proc_stack)
    (priblk : bp_blk_pri_t) (size timeout : Int) :
    ∀ (fuel : Nat) (s : proc_state σ) (e : proc_exit),
      blocks_exit reader priblk size fuel s = some e → e ≠ .other →
      ∃ r, process_blocks N codec layout reader adapter tm stack priblk size timeout fuel s
          = some r ∧
        r.status ≤ 0 ∧ r.ch = s.ch ∧ r.store = s.store ∧ r.dacs_buffer = s.dacs_buffer ∧
        (¬ incomplete_set r.procflags →
          r.bundle = s.buffer ∧ ¬ incomplete_set s.procflags) := by
  intro fuel
  induction fuel with
  | zero =>
    intro s e h hne
    simp only [blocks_exit] at h
    split at h
    · exact absurd h (by simp)
    · exact absurd (Option.some.inj h).symm hne
  | succ n ih =>
    intro s e h hne
    rw [blocks_exit] at h
    rw [process_blocks]
    dsimp only at h ⊢
    split at h
    · rename_i hlt
      rw [if_pos hlt]
      split at h
      · rename_i hfl
        rw [if_pos hfl]
        exact ⟨_, rfl, (by decide : BP_BUNDLEPARSEERR ≤ 0), rfl, rfl, rfl,
          fun hn => ⟨rfl, hn⟩⟩
      · rename_i hfl
        rw [if_neg hfl]
        split at h
        · rename_i hpay
          rw [if_pos hpay]
          have he := Option.some.inj h
          rw [← he] at hne
          obtain ⟨p1, p2, p3, p4, p5, p6⟩ := payload_exit_frame N codec layout reader adapter tm
            stack priblk size timeout _ _ hne
          exact ⟨_, rfl, p1, p2, p3, p4, fun hn => ⟨p5, by rw [p6] at hn; exact hn⟩⟩
        · rename_i hpay
          rw [if_neg hpay]
          generalize hpo : process_other reader size _ _ _ _ _ _ = po at h
          cases po with
          | inr r2 =>
            dsimp only at h ⊢
            have he := Option.some.inj h
            have ht : arr_get s.buffer s.index = BP_CTEB_BLK_TYPE ∨
                arr_get s.buffer s.index = BP_BIB_BLK_TYPE := by
              by_cases c1 : arr_get s.buffer s.index = BP_CTEB_BLK_TYPE
              · exact Or.inl c1
              · rw [if_neg c1] at he
                by_cases c2 : arr_get s.buffer s.index = BP_BIB_BLK_TYPE
                · exact Or.inr c2
                · rw [if_neg c2] at he
                  exact absurd he.symm hne
            obtain ⟨q1, q2, q3, q4, q5, q6⟩ := process_other_failed reader size _ _ _ _ _ _ ht
              r2 hpo
            exact ⟨_, rfl, q1, q2, q3, q4, fun hn => ⟨q5, by rw [q6] at hn; exact hn⟩⟩
          | inl s2 =>
            dsimp only at h ⊢
            have hf := process_other_frame reader size _ _ _ _ _ _ s2 hpo
            have hb := process_other_buffer reader size _ _ _ _ _ _ s2 hpo
            split at h
            · rename_i hmis
              rw [if_pos hmis]
              exact ⟨_, rfl, (by decide : BP_BUNDLEPARSEERR ≤ 0), hf.1, hf.2.1, hf.2.2,
                fun hn => hb hn⟩
            · rename_i hmis
              rw [if_neg hmis]
              obtain ⟨r, hr, h1, h2, h3, h4, h5⟩ := ih s2 e h hne
              refine ⟨r, hr, h1, h2.trans hf.1, h3.trans hf.2.1, h4.trans hf.2.2, ?_⟩
              intro hn
              obtain ⟨k1, k2⟩ := h5 hn
              obtain ⟨k3, k4⟩ := hb k2
              exact ⟨k1.trans k3, k4⟩
    · exact absurd (Option.some.inj h).symm hne

/-- C28 (as stated, refuted): `skipped_bundle` has a block of an unassigned type
before a payload block that declares 9 bytes and holds 2.  `bplib_process`
skips the first block, writing its block flags with the forwarded-unprocessed
bit over the caller's bundle at the start of the block (line 1477), then
rejects the bundle at the payload block with `BP_BUNDLEPARSEERR`: the channel
and the store are as they were, `*procflags` is `BP_FLAG_INCOMPLETE`, and byte
52 of the caller's bundle has changed from 9 to 32. -/
theorem rejected_bundle_is_rewritten :
    process_exit sim_codec (sim_reader (acs_pri, 52)) ⟨105, 0⟩ default 4 retx_channel
      retx_state skipped_bundle (List.replicate 136 0) 60 = some .payload_short ∧
    skipped_run.map (fun r => (r.status, r.procflags, r.bundle.drop 52))
      = some (BP_BUNDLEPARSEERR, BP_FLAG_INCOMPLETE, [32, 0, 0, 1, 0, 9, 64, 1]) ∧
    skipped_bundle.drop 52 = [9, 0, 0, 1, 0, 9, 64, 1] ∧
    skipped_run.map (fun r => r.ch) = some retx_channel ∧
    skipped_run.map (fun r => r.store) = some retx_state := by
  refine ⟨?_, ?_, ?_, ?_, ?_⟩
  · decide
  · decide
  · decide
  · decide
  · decide

/-- C28 (amended): whenever `bplib_process` ends at one of the `return`
statements for a protocol error (primary, CTEB or BIB block not parsed, expired
lifetime, SDNV parse failure, mismatched block length, payload block shorter
than declared, failed integrity check, administrative record shorter than two
bytes, unsupported or unknown administrative record type), it returns a
non-positive status with the channel (active table, custody counters, ACS
accumulator, outbound header and templates), the store state (no function of
the storage service is called) and the DACS payload buffer as they were before
the call; and the caller's bundle is as it was unless `BP_FLAG_INCOMPLETE` is set
in `*procflags`, that is unless a block that is not recognised was skipped
before the error. -/
theorem bplib_process_protocol_error_keeps_state {σ : Type} (N : Nat) (codec : bp_codec)
    (layout : bp_layout) (reader : bp_reader σ) (adapter : bp_store_t σ) (st : σ)
    (tm : bp_time_t) (stack : proc_stack) (fuel : Nat) (ch : bp_channel_t)
    (bundle dacs_buffer : List Nat) (size timeout : Int) (e : proc_exit)
    (he : process_exit codec reader tm stack fuel ch st bundle dacs_buffer size = some e)
    (hne : e ≠ .other) :
    ∃ r, process_channel N codec layout reader adapter st tm stack fuel ch bundle dacs_buffer
        size timeout = some r ∧
      r.status ≤ 0 ∧ r.ch = ch ∧ r.store = st ∧ r.dacs_buffer = dacs_buffer ∧
      (¬ incomplete_set r.procflags → r.bundle = bundle) := by
  simp only [process_exit] at he
  simp only [process_channel]
  split at he
  · rename_i hp
    rw [if_pos hp]
    exact ⟨_, rfl, hp, rfl, rfl, rfl, fun _ => rfl⟩
  · rename_i hp
    rw [if_neg hp]
    split at he
    · exact absurd (Option.some.inj he).symm hne
    · rename_i hadm
      rw [if_neg hadm]
      split at he
      · exact absurd (Option.some.inj he).symm hne
      · rename_i hun
        rw [if_neg hun]
        split at he
        · rename_i hexp
          rw [if_pos hexp]
          refine ⟨_, rfl, (by decide : BP_EXPIRED ≤ 0), ?_, ?_, ?_, fun _ => ?_⟩
          · split <;> rfl
          · split <;> rfl
          · split <;> rfl
          · show (if _ then _ else _ : proc_state σ).buffer = bundle
            split <;> rfl
        · rename_i hexp
          rw [if_neg hexp]
          obtain ⟨r, hr, h1, h2, h3, h4, h5⟩ := blocks_exit_frame N codec layout reader adapter tm
            stack _ size timeout fuel _ e he hne
          refine ⟨r, hr, h1, h2.trans ?_, h3.trans ?_, h4.trans ?_, fun hn => (h5 hn).1.trans ?_⟩
          · split <;> rfl
          · split <;> rfl
          · split <;> rfl
          · split <;> rfl

/-- C28 (amended), at `short_bundle` on the channel of the retransmission run:
the payload block declares 9 bytes and 2 are left; the call returns
`BP_BUNDLEPARSEERR`, the channel and the store are as they were, and so is the
caller's bundle, no block having been skipped. -/
theorem bplib_process_protocol_error_keeps_state_witness :
    process_exit sim_codec (sim_reader (acs_pri, 52)) ⟨105, 0⟩ default 4 retx_channel
      retx_state short_bundle (List.replicate 136 0) 57 = some .payload_short ∧
    ∃ r, process_channel RUN_TABLE_SIZE sim_codec sim_layout (sim_reader (acs_pri, 52))
        sim_adapter retx_state ⟨105, 0⟩ default 4 retx_channel short_bundle
        (List.replicate 136 0) 57 0 = some r ∧
      r.status ≤ 0 ∧ r.ch = retx_channel ∧ r.store = retx_state ∧
      r.dacs_buffer = List.replicate 136 0 ∧ r.bundle = short_bundle := by
  obtain ⟨r, hr, h1, h2, h3, h4, h5⟩ :=
    bplib_process_protocol_error_keeps_state RUN_TABLE_SIZE sim_codec sim_layout
      (sim_reader (acs_pri, 52)) sim_adapter retx_state ⟨105, 0⟩ default 4 retx_channel
      short_bundle (List.replicate 136 0) 57 0 .payload_short (by decide) (by decide)
  have hf : (process_channel RUN_TABLE_SIZE sim_codec sim_layout (sim_reader (acs_pri, 52))
      sim_adapter retx_state ⟨105, 0⟩ default 4 retx_channel short_bundle
      (List.replicate 136 0) 57 0).map (fun r => r.procflags) = some 0 := by decide
  rw [hr] at hf
  have hz : r.procflags = 0 := Option.some.inj hf
  refine ⟨by decide, r, hr, h1, h2, h3, h4, h5 ?_⟩
  rw [hz]
  unfold incomplete_set
  decide

theorem status_clamp (x : Int) (h : x ≠ BP_EXPIRED) :
    (if x ≤ 0 then x else BP_SUCCESS) ≠ BP_EXPIRED := by
  split
  · exact h
  · decide

theorem process_admin_status {σ : Type} (N : Nat) (reader : bp_reader σ)
    (adapter : bp_store_t σ) (size : Int) (s : proc_state σ)
    (h : callees_never_expired reader adapter) :
    (process_admin N reader adapter size s).2 ≠ BP_EXPIRED := by
  simp only [process_admin]
  split
  · exact h.2.2.2.1 _ _ _ _ _ _ _ _
  · split
    · dsimp only; decide
    · split
      · dsimp only; decide
      · dsimp only; decide

theorem process_forward_status {σ : Type} (codec : bp_codec) (layout : bp_layout)
    (reader : bp_reader σ) (adapter : bp_store_t σ) (tm : bp_time_t) (stack : proc_stack)
    (priblk : bp_blk_pri_t) (size timeout : Int) (s : proc_state σ)
    (h : callees_never_expired reader adapter) :
    (process_forward codec layout adapter tm stack priblk size timeout s).2 ≠ BP_EXPIRED := by
  simp only [process_forward]
  repeat' split
  all_goals first
    | exact h.2.2.2.2 _ _ _ _ _ _ _
    | (dsimp only [bplog]; decide)

theorem process_deliver_status {σ : Type} (layout : bp_layout) (reader : bp_reader σ)
    (adapter : bp_store_t σ) (priblk : bp_blk_pri_t) (size timeout : Int) (s : proc_state σ)
    (h : callees_never_expired reader adapter) :
    (process_deliver layout adapter priblk size timeout s).2 ≠ BP_EXPIRED := by
  rw [(process_deliver_record layout adapter priblk size timeout s).2.2]
  exact h.2.2.2.2 _ _ _ _ _ _ _

theorem process_payload_status {σ : Type} (N : Nat) (codec : bp_codec) (layout : bp_layout)
    (reader : bp_reader σ) (adapter : bp_store_t σ) (tm : bp_time_t) (stack : proc_stack)
    (priblk : bp_blk_pri_t) (size timeout : Int) (blk_length : Nat) (s : proc_state σ)
    (h : callees_never_expired reader adapter) :
    (process_payload N codec layout reader adapter tm stack priblk size timeout blk_length
      s).status ≠ BP_EXPIRED := by
  unfold process_payload
  dsimp only
  by_cases h1 : size - s.index < to_int blk_length
  · rw [if_pos h1]
    show BP_BUNDLEPARSEERR ≠ BP_EXPIRED
    decide
  · rw [if_neg h1]
    by_cases h2 : s.bib_present = true ∧
        reader.bplib_blk_bib_verify (s.buffer.drop s.index.toNat) blk_length s.bibblk ≤ 0
    · have h2b := (integrity_cond s.bib_present
        (reader.bplib_blk_bib_verify (s.buffer.drop s.index.toNat) blk_length s.bibblk)).mpr h2
      rw [if_pos h2b]
      show (if s.bib_present = true
        then reader.bplib_blk_bib_verify (s.buffer.drop s.index.toNat) blk_length s.bibblk
        else 1) ≠ BP_EXPIRED
      rw [if_pos h2.1]
      exact h.2.2.1 _ _ _
    · have h2b := (not_congr (integrity_cond s.bib_present
        (reader.bplib_blk_bib_verify (s.buffer.drop s.index.toNat) blk_length s.bibblk))).mpr h2
      rw [if_neg h2b]
      by_cases h3 : priblk.is_admin_rec = true
      · rw [if_pos h3]
        by_cases h4 : blk_length < 2
        · rw [if_pos h4]
          show BP_BUNDLEPARSEERR ≠ BP_EXPIRED
          decide
        · rw [if_neg h4]
          exact status_clamp _ (process_admin_status N reader adapter size s h)
      · rw [if_neg h3]
        apply status_clamp
        by_cases h5 : priblk.dstnode.value ≠ s.ch.data_bundle.primary_block.srcnode.value
        · rw [if_pos h5]
          exact process_forward_status codec layout reader adapter tm stack priblk size timeout
            s h
        · rw [if_neg h5]
          by_cases h6 : priblk.dstserv.value ≠ s.ch.data_bundle.primary_block.srcserv.value
          · rw [if_pos h6]
            show BP_WRONGCHANNEL ≠ BP_EXPIRED
            decide
          · rw [if_neg h6]
            exact process_deliver_status layout reader adapter priblk size timeout s h

theorem process_other_status {σ : Type} (reader : bp_reader σ) (adapter : bp_store_t σ)
    (size start_index : Int) (blk_type : Nat) (flag_size : Int) (blk_flags blk_length : Nat)
    (s : proc_state σ) (h : callees_never_expired reader adapter) :
    ∀ r, process_other reader size start_index blk_type flag_size blk_flags blk_length s
        = .inr r → r.status ≠ BP_EXPIRED := by
  intro r hr
  simp only [process_other, proc_return] at hr
  repeat' split at hr
  all_goals first
    | (cases hr; done)
    | (cases hr; exact h.1 _ _)
    | (cases hr; exact h.2.1 _ _)
    | (cases hr; dsimp only; decide)

theorem process_blocks_status {σ : Type} (N : Nat) (codec : bp_codec) (layout : bp_layout)
    (reader : bp_reader σ) (adapter : bp_store_t σ) (tm : bp_time_t) (stack : proc_stack)
    (priblk : bp_blk_pri_t) (size timeout : Int) (h : callees_never_expired reader adapter) :
    ∀ (fuel : Nat) (s : proc_state σ) (r : proc_result σ),
      process_blocks N codec layout reader adapter tm stack priblk size timeout fuel s
        = some r → r.status ≠ BP_EXPIRED := by
  intro fuel
  induction fuel with
  | zero =>
    intro s r hr
    simp only [process_blocks] at hr
    split at hr
    · exact absurd hr (by simp)
    · rw [← Option.some.inj hr]
      show BP_SUCCESS ≠ BP_EXPIRED
      decide
  | succ n ih =>
    intro s r hr
    rw [process_blocks] at hr
    dsimp only at hr
    split at hr
    · split at hr
      · rw [← Option.some.inj hr]
        show BP_BUNDLEPARSEERR ≠ BP_EXPIRED
        decide
      · split at hr
        · rw [← Option.some.inj hr]
          exact process_payload_status N codec layout reader adapter tm stack priblk size
            timeout _ _ h
        · generalize hpo : process_other reader size _ _ _ _ _ _ = po at hr
          cases po with
          | inr r2 =>
            dsimp only at hr
            rw [← Option.some.inj hr]
            exact process_other_status reader adapter size _ _ _ _ _ _ h r2 hpo
          | inl s2 =>
            dsimp only at hr
            split at hr
            · rw [← Option.some.inj hr]
              show BP_BUNDLEPARSEERR ≠ BP_EXPIRED
              decide
            · exact ih s2 r hr
    · rw [← Option.some.inj hr]
      show BP_SUCCESS ≠ BP_EXPIRED
      decide

theorem process_channel_expiry {σ : Type} (N : Nat) (codec : bp_codec) (layout : bp_layout)
    (reader : bp_reader σ) (adapter : bp_store_t σ) (st : σ) (tm : bp_time_t)
    (stack : proc_stack) (fuel : Nat) (ch : bp_channel_t) (bundle dacs_buffer : List Nat)
    (size timeout : Int)
    (hparse : 0 < (reader.bplib_blk_pri_read bundle size).2) :
    (bplib_cmptime tm
        (bundle_expiry codec.time_modulus (reader.bplib_blk_pri_read bundle size).1) ≥ 0 →
      ∃ r, process_channel N codec layout reader adapter st tm stack fuel ch bundle dacs_buffer
          size timeout = some r ∧
        r.status ≤ 0 ∧ r.ch = ch ∧ r.store = st ∧ r.dacs_buffer = dacs_buffer ∧
        (¬ (ch.proc_admin_only = true ∧
            (reader.bplib_blk_pri_read bundle size).1.is_admin_rec = false) →
          ¬ ((reader.bplib_blk_pri_read bundle size).1.allow_frag = true ∨
            (reader.bplib_blk_pri_read bundle size).1.dictlen.value ≠ 0) →
          r.status = BP_EXPIRED)) ∧
    (bplib_cmptime tm
        (bundle_expiry codec.time_modulus (reader.bplib_blk_pri_read bundle size).1) < 0 →
      callees_never_expired reader adapter →
      ∀ r, process_channel N codec layout reader adapter st tm stack fuel ch bundle dacs_buffer
          size timeout = some r → r.status ≠ BP_EXPIRED) := by
  have hp : ¬ (reader.bplib_blk_pri_read bundle size).2 ≤ 0 := not_le.mpr hparse
  unfold bundle_expiry
  refine ⟨?_, ?_⟩
  · intro hexp
    simp only [process_channel, hp, if_false]
    by_cases hadm : ch.proc_admin_only = true ∧
        (reader.bplib_blk_pri_read bundle size).1.is_admin_rec = false
    · rw [if_pos hadm]
      refine ⟨_, rfl, (by decide : BP_IGNORE ≤ 0), ?_, ?_, ?_, fun h => absurd hadm h⟩
      · split <;> rfl
      · split <;> rfl
      · split <;> rfl
    · rw [if_neg hadm]
      by_cases hun : (reader.bplib_blk_pri_read bundle size).1.allow_frag = true ∨
          (reader.bplib_blk_pri_read bundle size).1.dictlen.value ≠ 0
      · rw [if_pos hun]
        refine ⟨_, rfl, (by decide : BP_UNSUPPORTED ≤ 0), ?_, ?_, ?_, fun _ h => absurd hun h⟩
        · split <;> rfl
        · split <;> rfl
        · split <;> rfl
      · rw [if_neg hun, if_pos hexp]
        refine ⟨_, rfl, (by decide : BP_EXPIRED ≤ 0), ?_, ?_, ?_, fun _ _ => rfl⟩
        · split <;> rfl
        · split <;> rfl
        · split <;> rfl
  · intro hnot hcal r hr
    have hexp : ¬ bplib_cmptime tm
        (bplib_addtime codec.time_modulus
          ⟨(reader.bplib_blk_pri_read bundle size).1.createtms.value,
          (reader.bplib_blk_pri_read bundle size).1.createtmns.value⟩
          (to_int (reader.bplib_blk_pri_read bundle size).1.lifetime.value)) ≥ 0 :=
      not_le.mpr hnot
    simp only [process_channel, hp, if_false] at hr
    by_cases hadm : ch.proc_admin_only = true ∧
        (reader.bplib_blk_pri_read bundle size).1.is_admin_rec = false
    · rw [if_pos hadm] at hr
      rw [← Option.some.inj hr]
      show BP_IGNORE ≠ BP_EXPIRED
      decide
    · rw [if_neg hadm] at hr
      by_cases hun : (reader.bplib_blk_pri_read bundle size).1.allow_frag = true ∨
          (reader.bplib_blk_pri_read bundle size).1.dictlen.value ≠ 0
      · rw [if_pos hun] at hr
        rw [← Option.some.inj hr]
        show BP_UNSUPPORTED ≠ BP_EXPIRED
        decide
      · rw [if_neg hun, if_neg hexp] at hr
        exact process_blocks_status N codec layout reader adapter tm stack _ size timeout hcal
          fuel _ r hr

theorem bundle_expiry_exact (modulus : Nat) (p : bp_blk_pri_t)
    (hlife : p.lifetime.value < 2 ^ 31 ∨ modulus = 2 ^ 32)
    (hsum : p.createtms.value + p.lifetime.value < modulus) :
    bundle_expiry modulus p
      = ⟨p.createtms.value + p.lifetime.value, p.createtmns.value⟩ := by
  unfold bundle_expiry bplib_addtime to_int
  have h3 : (((p.createtms.value : Int)
      + (((p.lifetime.value : Int) + 2 ^ 31) % 2 ^ 32 - 2 ^ 31)) % (modulus : Int)).toNat
      = p.createtms.value + p.lifetime.value := by
    rcases hlife with hl | hm
    · have h1 : ((p.lifetime.value : Int) + 2 ^ 31) % 2 ^ 32
          = (p.lifetime.value : Int) + 2 ^ 31 := by
        apply Int.emod_eq_of_lt
        · omega
        · omega
      have h2 : ((p.createtms.value : Int) + (p.lifetime.value : Int)) % (modulus : Int)
          = (p.createtms.value : Int) + (p.lifetime.value : Int) := by
        apply Int.emod_eq_of_lt
        · omega
        · omega
      rw [h1, add_sub_cancel_right, h2]
      omega
    · subst hm
      omega
  rw [h3]

/-- C27 (as stated, refuted): an ACS bundle created at `100 s` with the lifetime
`4294967295` seconds is processed at `105 s`, long before the creation time plus
the lifetime.  `bplib_addtime` takes the lifetime as the `int` -1 and sets the
expiry to `99 s`, and `bplib_process` returns `BP_EXPIRED`. -/
theorem max_lifetime_expires_at_once :
    ¬ lifetime_elapsed ⟨105, 0⟩ forever_pri ∧
    bundle_expiry sim_codec.time_modulus forever_pri = ⟨99, 0⟩ ∧
    (process_channel RUN_TABLE_SIZE sim_codec sim_layout (plain_reader (forever_pri, 52))
      busy_adapter busy_open.2 ⟨105, 0⟩ default 4 busy_open.1 acs_bundle
      (List.replicate 136 0) 61 0).map (fun r => r.status) = some BP_EXPIRED := by
  refine ⟨?_, ?_, ?_⟩
  · unfold lifetime_elapsed
    decide
  · decide
  · decide

/-- C27 (amended): for a bundle whose primary block parses, with a creation time
plus lifetime within the range of the seconds field of `bp_time_t`, and with a
lifetime below `2 ^ 31` seconds unless that field has 32 bits: when the
lifetime has elapsed (`now >= creation
time + lifetime` under `bplib_cmptime`), `bplib_process` returns a non-positive
status, which is `BP_EXPIRED` when the bundle passes the admin-only check and
uses no unsupported feature, with the channel and the store state as they were
(nothing is enqueued or retired); when the lifetime has not elapsed and no
callee hands `BP_EXPIRED` up, the call does not return `BP_EXPIRED`. -/
theorem bplib_process_expired {σ : Type} (N : Nat) (codec : bp_codec) (layout : bp_layout)
    (reader : bp_reader σ) (adapter : bp_store_t σ) (st : σ) (tm : bp_time_t)
    (stack : proc_stack) (fuel : Nat) (ch : bp_channel_t) (bundle dacs_buffer : List Nat)
    (size timeout : Int)
    (hparse : 0 < (reader.bplib_blk_pri_read bundle size).2)
    (hlife : (reader.bplib_blk_pri_read bundle size).1.lifetime.value < 2 ^ 31 ∨
      codec.time_modulus = 2 ^ 32)
    (hsum : (reader.bplib_blk_pri_read bundle size).1.createtms.value
      + (reader.bplib_blk_pri_read bundle size).1.lifetime.value < codec.time_modulus) :
    (lifetime_elapsed tm (reader.bplib_blk_pri_read bundle size).1 →
      ∃ r, process_channel N codec layout reader adapter st tm stack fuel ch bundle dacs_buffer
          size timeout = some r ∧
        r.status ≤ 0 ∧ r.ch = ch ∧ r.store = st ∧ r.dacs_buffer = dacs_buffer ∧
        (¬ (ch.proc_admin_only = true ∧
            (reader.bplib_blk_pri_read bundle size).1.is_admin_rec = false) →
          ¬ ((reader.bplib_blk_pri_read bundle size).1.allow_frag = true ∨
            (reader.bplib_blk_pri_read bundle size).1.dictlen.value ≠ 0) →
          r.status = BP_EXPIRED)) ∧
    (¬ lifetime_elapsed tm (reader.bplib_blk_pri_read bundle size).1 →
      callees_never_expired reader adapter →
      ∀ r, process_channel N codec layout reader adapter st tm stack fuel ch bundle dacs_buffer
          size timeout = some r → r.status ≠ BP_EXPIRED) := by
  have hx := process_channel_expiry N codec layout reader adapter st tm stack fuel ch bundle
    dacs_buffer size timeout hparse
  rw [bundle_expiry_exact codec.time_modulus _ hlife hsum] at hx
  refine ⟨fun h => hx.1 h, fun h => hx.2 (not_le.mp h)⟩

theorem plain_callees_never_expired (pri : bp_blk_pri_t × Int) :
    callees_never_expired (plain_reader pri) busy_adapter := by
  refine ⟨?_, ?_, ?_, ?_, ?_⟩
  · intro b n
    show (12 : Int) ≠ BP_EXPIRED
    decide
  · intro b n
    show (8 : Int) ≠ BP_EXPIRED
    decide
  · intro b n blk
    show (1 : Int) ≠ BP_EXPIRED
    decide
  · intro b n rs t N rel h st
    show BP_SUCCESS ≠ BP_EXPIRED
    decide
  · intro st h d1 n1 d2 n2 t
    show BP_SUCCESS ≠ BP_EXPIRED
    decide

/-- C27 (amended), at the ACS bundle created at `100 s` with a lifetime of one
hour, on a freshly opened channel: processed at `3700 s` it is refused with
`BP_EXPIRED` and the channel and the store are as they were; processed at
`105 s` the call does not return `BP_EXPIRED`. -/
theorem bplib_process_expired_witness :
    sim_codec.time_modulus = 2 ^ 32 ∧
    acs_pri.createtms.value + acs_pri.lifetime.value < sim_codec.time_modulus ∧
    lifetime_elapsed ⟨3700, 0⟩ acs_pri ∧
    ¬ lifetime_elapsed ⟨105, 0⟩ acs_pri ∧
    (∃ r, process_channel RUN_TABLE_SIZE sim_codec sim_layout (plain_reader (acs_pri, 52))
        busy_adapter busy_open.2 ⟨3700, 0⟩ default 4 busy_open.1 acs_bundle
        (List.replicate 136 0) 61 0 = some r ∧
      r.status = BP_EXPIRED ∧ r.ch = busy_open.1 ∧ r.store = busy_open.2) ∧
    ∀ r, process_channel RUN_TABLE_SIZE sim_codec sim_layout (plain_reader (acs_pri, 52))
        busy_adapter busy_open.2 ⟨105, 0⟩ default 4 busy_open.1 acs_bundle
        (List.replicate 136 0) 61 0 = some r → r.status ≠ BP_EXPIRED := by
  have e1 : lifetime_elapsed ⟨3700, 0⟩ acs_pri := by unfold lifetime_elapsed; decide
  have e2 : ¬ lifetime_elapsed ⟨105, 0⟩ acs_pri := by unfold lifetime_elapsed; decide
  refine ⟨by decide, by decide, e1, e2, ?_, ?_⟩
  · obtain ⟨r, hr, _, h2, h3, _, h5⟩ := (bplib_process_expired RUN_TABLE_SIZE sim_codec
      sim_layout (plain_reader (acs_pri, 52)) busy_adapter busy_open.2 ⟨3700, 0⟩ default 4
      busy_open.1 acs_bundle (List.replicate 136 0) 61 0 (by decide) (Or.inr (by decide))
      (by decide)).1 e1
    exact ⟨r, hr, h5 (by decide) (by decide), h2, h3⟩
  · exact (bplib_process_expired RUN_TABLE_SIZE sim_codec sim_layout
      (plain_reader (acs_pri, 52)) busy_adapter busy_open.2 ⟨105, 0⟩ default 4 busy_open.1
      acs_bundle (List.replicate 136 0) 61 0 (by decide) (Or.inr (by decide))
      (by decide)).2 e2
      (plain_callees_never_expired (acs_pri, 52))

/-- The record that `accept_custody 0` dequeues is one that `bplib_process`
enqueues: a bundle that requests custody, carries a CTEB and has a payload block
of length 0 is delivered as the 16 bytes of the payload record with no payload
byte. -/
theorem process_enqueues_empty_payload :
    deliver_empty.map (fun r => (r.status, r.store.calls.drop 3))
      = some (BP_SUCCESS, [.enqueue 1 (payload_record true []).raw 16 [] 0 0]) := by
  decide

/-! ## Lemmas on the accumulator table -/

theorem initialize_dacs_header_frame (codec : bp_codec) (bundle : bp_dacs_bundle_t)
    (ds : bp_dacs_store_t) (dstnode dstserv : Nat) :
    (initialize_dacs_header codec bundle ds dstnode dstserv).1.dacs_storage
      = bundle.dacs_storage ∧
    (initialize_dacs_header codec bundle ds dstnode dstserv).1.num_entries
      = bundle.num_entries ∧
    (initialize_dacs_header codec bundle ds dstnode dstserv).1.dacs_store_handle
      = bundle.dacs_store_handle ∧
    (initialize_dacs_header codec bundle ds dstnode dstserv).2.1.cstnode = ds.cstnode ∧
    (initialize_dacs_header codec bundle ds dstnode dstserv).2.1.cstserv = ds.cstserv ∧
    (initialize_dacs_header codec bundle ds dstnode dstserv).2.1.num_cids = ds.num_cids ∧
    (initialize_dacs_header codec bundle ds dstnode dstserv).2.1.fills = ds.fills ∧
    (initialize_dacs_header codec bundle ds dstnode dstserv).2.1.num_fills = ds.num_fills :=
  ⟨rfl, rfl, rfl, rfl, rfl, rfl, rfl, rfl⟩

theorem dacs_get_set_ne (storage : List bp_dacs_store_t) (i j : Int) (e : bp_dacs_store_t)
    (h0 : 0 ≤ i) (hj : 0 ≤ j) (hne : i ≠ j) :
    dacs_get (dacs_set storage i e) j = dacs_get storage j := by
  have hn : i.toNat ≠ j.toNat := by omega
  simp only [dacs_get, dacs_set, not_lt.mpr h0, not_lt.mpr hj, if_false,
    List.getD_eq_getElem?_getD, List.getElem?_set_ne hn]

theorem find_dacs_entry_hit (storage : List bp_dacs_store_t) (cstnode cstserv : Nat) :
    ∀ (n : Nat) (i : Int),
      find_dacs_entry storage cstnode cstserv n i = BP_DACS_TABLE_SIZE ∨
      (i ≤ find_dacs_entry storage cstnode cstserv n i ∧
        find_dacs_entry storage cstnode cstserv n i < i + n ∧
        (dacs_get storage (find_dacs_entry storage cstnode cstserv n i)).cstnode = cstnode ∧
        (dacs_get storage (find_dacs_entry storage cstnode cstserv n i)).cstserv = cstserv) := by
  intro n
  induction n with
  | zero => intro i; left; rfl
  | succ n ih =>
    intro i
    by_cases h : (dacs_get storage i).cstnode = cstnode ∧ (dacs_get storage i).cstserv = cstserv
    · right
      simp only [find_dacs_entry, h, and_self, if_true]
      refine ⟨le_refl _, ?_, trivial⟩
      push_cast; omega
    · simp only [find_dacs_entry, h, if_false]
      rcases ih (i + 1) with h1 | ⟨h1, h2, h3⟩
      · left; exact h1
      · right
        refine ⟨by omega, ?_, h3⟩
        push_cast; omega

theorem find_dacs_entry_miss (storage : List bp_dacs_store_t) (cstnode cstserv : Nat) :
    ∀ (n : Nat) (i : Int),
      find_dacs_entry storage cstnode cstserv n i = BP_DACS_TABLE_SIZE →
      i + n ≤ BP_DACS_TABLE_SIZE →
      ∀ j : Int, i ≤ j → j < i + n →
        ¬ ((dacs_get storage j).cstnode = cstnode ∧ (dacs_get storage j).cstserv = cstserv) := by
  intro n
  induction n with
  | zero => intro i _ _ j h1 h2; exfalso; simp at h2; omega
  | succ n ih =>
    intro i hf hle j h1 h2
    by_cases h : (dacs_get storage i).cstnode = cstnode ∧ (dacs_get storage i).cstserv = cstserv
    · exfalso
      simp only [find_dacs_entry, h, and_self, if_true] at hf
      push_cast at hle
      omega
    · simp only [find_dacs_entry, h, if_false] at hf
      by_cases hji : j = i
      · rw [hji]; exact h
      · push_cast at hle h2
        exact ih (i + 1) hf (by omega) j (by omega) (by omega)

theorem dacs_lookup_flags (codec : bp_codec) (bundle : bp_dacs_bundle_t)
    (cstnode cstserv : Nat) :
    ((dacs_lookup codec bundle cstnode cstserv).2.1 = BP_DACS_TABLE_SIZE ∧
      (dacs_lookup codec bundle cstnode cstserv).2.2 = BP_FLAG_TOOMANYSOURCES) ∨
    ((dacs_lookup codec bundle cstnode cstserv).2.1 ≠ BP_DACS_TABLE_SIZE ∧
      (dacs_lookup codec bundle cstnode cstserv).2.2 = 0) := by
  by_cases hf : find_dacs_entry bundle.dacs_storage cstnode cstserv bundle.num_entries.toNat 0
      = BP_DACS_TABLE_SIZE
  · by_cases hn : bundle.num_entries < BP_DACS_TABLE_SIZE
    · right
      simp only [dacs_lookup, hf, if_true, hn]
      exact ⟨ne_of_lt hn, trivial⟩
    · left
      simp only [dacs_lookup, hf, if_true, hn, if_false, Nat.zero_or, and_self]
  · right
    simp only [dacs_lookup, hf, if_false]
    exact ⟨hf, trivial⟩

theorem dacs_lookup_handle (codec : bp_codec) (bundle : bp_dacs_bundle_t)
    (cstnode cstserv : Nat) :
    (dacs_lookup codec bundle cstnode cstserv).1.dacs_store_handle
      = bundle.dacs_store_handle := by
  simp only [dacs_lookup]
  split
  · split
    · rfl
    · rfl
  · rfl

theorem dacs_lookup_rate (codec : bp_codec) (bundle : bp_dacs_bundle_t)
    (cstnode cstserv : Nat) (rate : Int) :
    dacs_lookup codec { bundle with rate_ms := rate } cstnode cstserv =
      ({ (dacs_lookup codec bundle cstnode cstserv).1 with rate_ms := rate },
        (dacs_lookup codec bundle cstnode cstserv).2.1,
        (dacs_lookup codec bundle cstnode cstserv).2.2) := by
  simp only [dacs_lookup]
  split
  · split
    · rfl
    · rfl
  · rfl

theorem dacs_populate_rate {σ : Type} (codec : bp_codec) (adapter : bp_store_t σ) (st : σ)
    (buffer : List Nat) (tm : bp_time_t) (bundle : bp_dacs_bundle_t) (dacs_entry : Int)
    (flags : Nat) (cid : Nat) (delivered : Bool) (timeout : Int) (rate : Int) :
    dacs_populate codec adapter st buffer tm { bundle with rate_ms := rate } dacs_entry flags
        cid delivered timeout =
      { dacs_populate codec adapter st buffer tm bundle dacs_entry flags cid delivered
          timeout with
        bundle := { (dacs_populate codec adapter st buffer tm bundle dacs_entry flags cid
          delivered timeout).bundle with rate_ms := rate } } := by
  simp only [dacs_populate]
  split
  · rfl
  · rfl

theorem dacs_send_store {σ : Type} (codec : bp_codec) (adapter : bp_store_t σ) (st : σ)
    (buffer : List Nat) (tm : bp_time_t) (bundle : bp_dacs_bundle_t) (dacs_entry : Int)
    (ds : bp_dacs_store_t) (flags : Nat) (cid : Nat) (delivered : Bool) (timeout : Int) :
    let acs := codec.bplib_rec_acs_write buffer BP_DACS_PAY_SIZE delivered ds.first_cid ds.fills
      ds.num_fills
    let hdr := update_dacs_header codec tm bundle ds acs.1 acs.2
    let en := adapter.enqueue st bundle.dacs_store_handle hdr.2.1.header BP_DACS_HDR_BUF_SIZE
      acs.1 acs.2 timeout
    (dacs_send codec adapter st buffer tm bundle dacs_entry ds flags cid delivered
      timeout).store = en.1 ∧
    ((dacs_send codec adapter st buffer tm bundle dacs_entry ds flags cid delivered
        timeout).flags = flags ∨
      (dacs_send codec adapter st buffer tm bundle dacs_entry ds flags cid delivered
        timeout).flags = flags ||| BP_FLAG_UNABLETOSTORE) := by
  intro acs hdr en
  obtain ⟨hh, _⟩ := update_dacs_header_handle codec tm bundle ds acs.1 acs.2
  constructor
  · simp only [dacs_send]; rw [hh]
  · simp only [dacs_send]
    split
    · right; rfl
    · left; rfl

theorem update_dacs_payload_rate {σ : Type} (codec : bp_codec) (adapter : bp_store_t σ) (st : σ)
    (buffer : List Nat) (tm : bp_time_t) (bundle : bp_dacs_bundle_t)
    (cid cstnode cstserv : Nat) (delivered : Bool) (timeout : Int) (rate : Int) :
    update_dacs_payload codec adapter st buffer tm { bundle with rate_ms := rate } cid
        cstnode cstserv delivered timeout =
      { update_dacs_payload codec adapter st buffer tm bundle cid cstnode cstserv delivered
          timeout with
        bundle := { (update_dacs_payload codec adapter st buffer tm bundle cid cstnode cstserv
          delivered timeout).bundle with rate_ms := rate } } := by
  simp only [update_dacs_payload, dacs_lookup_rate]
  split
  · exact dacs_populate_rate codec adapter st buffer tm _ _ _ cid delivered timeout rate
  · rfl

/-! ## C32: when `update_dacs_payload` sends -/

/-- C32: `update_dacs_payload` calls `enqueue` once, on the DACS queue and with the
ACS built from the entry as the fill update left it, when the call raised
`CID_WENT_BACKWARDS`, `FILL_OVERFLOW` or `TOO_MANY_FILLS`, and then an entry of
the custodian was found or made; when none of the three was raised the store
state is as before the call, for every storage service, so no call is made on
it.  The flags, the store state, the payload buffer and the accumulator are the
same for every `rate_ms`. -/
theorem update_dacs_payload_enqueues_on_flag {σ : Type} (codec : bp_codec)
    (adapter : bp_store_t σ) (st : σ) (buffer : List Nat) (tm : bp_time_t)
    (bundle : bp_dacs_bundle_t) (cid cstnode cstserv : Nat) (delivered : Bool)
    (timeout : Int) :
    let found := dacs_lookup codec bundle cstnode cstserv
    let e := (dacs_update (dacs_get found.1.dacs_storage found.2.1) cid 0).1
    let acs := codec.bplib_rec_acs_write buffer BP_DACS_PAY_SIZE delivered e.first_cid e.fills
      e.num_fills
    let hdr := update_dacs_header codec tm found.1 e acs.1 acs.2
    let en := adapter.enqueue st bundle.dacs_store_handle hdr.2.1.header BP_DACS_HDR_BUF_SIZE
      acs.1 acs.2 timeout
    let r := update_dacs_payload codec adapter st buffer tm bundle cid cstnode cstserv delivered
      timeout
    (r.flags &&& (BP_FLAG_CIDWENTBACKWARDS ||| BP_FLAG_FILLOVERFLOW ||| BP_FLAG_TOOMANYFILLS)
        ≠ 0 → found.2.1 ≠ BP_DACS_TABLE_SIZE ∧ r.store = en.1) ∧
    (r.flags &&& (BP_FLAG_CIDWENTBACKWARDS ||| BP_FLAG_FILLOVERFLOW ||| BP_FLAG_TOOMANYFILLS)
        = 0 → r.store = st) ∧
    (∀ rate : Int,
      (update_dacs_payload codec adapter st buffer tm { bundle with rate_ms := rate } cid
        cstnode cstserv delivered timeout).flags = r.flags ∧
      (update_dacs_payload codec adapter st buffer tm { bundle with rate_ms := rate } cid
        cstnode cstserv delivered timeout).store = r.store ∧
      (update_dacs_payload codec adapter st buffer tm { bundle with rate_ms := rate } cid
        cstnode cstserv delivered timeout).buffer = r.buffer ∧
      (update_dacs_payload codec adapter st buffer tm { bundle with rate_ms := rate } cid
        cstnode cstserv delivered timeout).bundle = { r.bundle with rate_ms := rate }) := by
  intro found e acs hdr en r
  have hr : r = if found.2.1 ≠ BP_DACS_TABLE_SIZE then
      dacs_populate codec adapter st buffer tm found.1 found.2.1 found.2.2 cid delivered timeout
      else { flags := found.2.2, bundle := found.1, store := st, buffer := buffer } := rfl
  have hcases : (r.flags &&& (BP_FLAG_CIDWENTBACKWARDS ||| BP_FLAG_FILLOVERFLOW |||
        BP_FLAG_TOOMANYFILLS) = 0 ∧ r.store = st) ∨
      (r.flags &&& (BP_FLAG_CIDWENTBACKWARDS ||| BP_FLAG_FILLOVERFLOW |||
        BP_FLAG_TOOMANYFILLS) ≠ 0 ∧ found.2.1 ≠ BP_DACS_TABLE_SIZE ∧ r.store = en.1) := by
    rcases dacs_lookup_flags codec bundle cstnode cstserv with ⟨h1, h2⟩ | ⟨h1, h2⟩
    · left
      have h1' : found.2.1 = BP_DACS_TABLE_SIZE := h1
      have h2' : found.2.2 = BP_FLAG_TOOMANYSOURCES := h2
      rw [hr]
      simp only [ne_eq, h1', not_true_eq_false, if_false, h2', and_true]
      decide
    · have h1' : found.2.1 ≠ BP_DACS_TABLE_SIZE := h1
      have h2' : found.2.2 = 0 := h2
      have hr2 : r = dacs_populate codec adapter st buffer tm found.1 found.2.1 0 cid delivered
          timeout := by
        rw [hr, h2']; simp only [ne_eq, h1', not_false_eq_true, if_true]
      by_cases hq : (dacs_update (dacs_get found.1.dacs_storage found.2.1) cid 0).2 = 0
      · left
        rw [hr2]
        simp only [dacs_populate, hq, ne_eq, not_true_eq_false, if_false, and_true]
        decide
      · right
        have hs : r = dacs_send codec adapter st buffer tm found.1 found.2.1 e
            (dacs_update (dacs_get found.1.dacs_storage found.2.1) cid 0).2 cid delivered
            timeout := by
          rw [hr2]
          simp only [dacs_populate, ne_eq, hq, not_false_eq_true, if_true]
        obtain ⟨hst, hfl⟩ := dacs_send_store codec adapter st buffer tm found.1 found.2.1 e
          (dacs_update (dacs_get found.1.dacs_storage found.2.1) cid 0).2 cid delivered timeout
        have hh := dacs_lookup_handle codec bundle cstnode cstserv
        refine ⟨?_, h1', ?_⟩
        · rw [hs]
          have hv : (dacs_update (dacs_get found.1.dacs_storage found.2.1) cid 0).2
                = BP_FLAG_TOOMANYFILLS ∨
              (dacs_update (dacs_get found.1.dacs_storage found.2.1) cid 0).2
                = BP_FLAG_CIDWENTBACKWARDS ∨
              (dacs_update (dacs_get found.1.dacs_storage found.2.1) cid 0).2
                = BP_FLAG_FILLOVERFLOW := by
            rcases dacs_update_flags (dacs_get found.1.dacs_storage found.2.1) cid with
              ⟨hu, _⟩ | ⟨hu | hu | hu, _⟩
            · left; exact hu
            · exact absurd hu hq
            · right; left; exact hu
            · right; right; exact hu
          rcases hfl with hfl | hfl
          all_goals
            rw [hfl]
            rcases hv with hv | hv | hv
            all_goals
              rw [hv]
              decide
        · rw [hs, hst]
          show (adapter.enqueue st found.1.dacs_store_handle _ _ _ _ _).1 = _
          rw [hh]
  refine ⟨?_, ?_, ?_⟩
  · intro h
    rcases hcases with ⟨h0, _⟩ | ⟨_, h1, h2⟩
    · exact absurd h0 h
    · exact ⟨h1, h2⟩
  · intro h
    rcases hcases with ⟨_, h1⟩ | ⟨h0, _, _⟩
    · exact h1
    · exact absurd h h0
  · intro rate
    have hrr := update_dacs_payload_rate codec adapter st buffer tm bundle cid cstnode cstserv
      delivered timeout rate
    rw [hrr]
    exact ⟨rfl, rfl, rfl, rfl⟩

/-- C32, at the custody ID 6 after the custody IDs 3, 4, 5 (absorbed, no flag, the
store state unchanged); the custody ID 4 after them goes backwards and the
scripted store logs one `enqueue` after the three `create` calls of
`bplib_open`. -/
theorem update_dacs_payload_enqueues_on_flag_witness :
    (update_dacs_payload sim_codec sim_adapter (dacs_after [3, 4, 5]).store
      (dacs_after [3, 4, 5]).buffer ⟨0, 0⟩ (dacs_after [3, 4, 5]).bundle 6 10 0 true 0).flags
      &&& (BP_FLAG_CIDWENTBACKWARDS ||| BP_FLAG_FILLOVERFLOW ||| BP_FLAG_TOOMANYFILLS) = 0 ∧
    (update_dacs_payload sim_codec sim_adapter (dacs_after [3, 4, 5]).store
      (dacs_after [3, 4, 5]).buffer ⟨0, 0⟩ (dacs_after [3, 4, 5]).bundle 6 10 0 true 0).store
      = (dacs_after [3, 4, 5]).store ∧
    (dacs_after [3, 4, 5]).store.calls = [.create, .create, .create] ∧
    (dacs_after [3, 4, 5, 4]).flags = BP_FLAG_CIDWENTBACKWARDS ∧
    (dacs_after [3, 4, 5, 4]).store.calls =
      [.create, .create, .create,
        .enqueue 2 ((dacs_get (dacs_after [3, 4, 5, 4]).bundle.dacs_storage 0).header) 128
          [3, 2] 2 0] :=
  ⟨by decide,
    (update_dacs_payload_enqueues_on_flag sim_codec sim_adapter (dacs_after [3, 4, 5]).store
      (dacs_after [3, 4, 5]).buffer ⟨0, 0⟩ (dacs_after [3, 4, 5]).bundle 6 10 0 true 0).2.1
      (by decide),
    by decide, by decide, by decide⟩

/-! ## Lemmas on the invariant of the accumulator table -/

theorem dacs_update_frame (e : bp_dacs_store_t) (cid flags : Nat) :
    (dacs_update e cid flags).1.cstnode = e.cstnode ∧
    (dacs_update e cid flags).1.cstserv = e.cstserv ∧
    (dacs_update e cid flags).1.fills.length = e.fills.length := by
  unfold dacs_update
  split
  · exact ⟨rfl, rfl, arr_set_length e.fills 0 0⟩
  · split
    · exact ⟨rfl, rfl, rfl⟩
    · unfold update_fill
      dsimp only
      repeat' split
      all_goals first
        | exact ⟨rfl, rfl, rfl⟩
        | exact ⟨rfl, rfl, arr_set_length _ _ _⟩
        | exact ⟨rfl, rfl, by rw [arr_set_length, arr_set_length]⟩

theorem dacs_update_ok (e : bp_dacs_store_t) (cid flags : Nat)
    (h : e.num_cids = 0 ∨ fills_ok e) : fills_ok (dacs_update e cid flags).1 := by
  unfold dacs_update
  split
  · show fills_ok (initialize_dacs_payload e cid)
    simp only [fills_ok, initialize_dacs_payload, BP_MAX_FILLS_PER_DACS]
    omega
  · rename_i hc
    have hok : fills_ok e := h.resolve_left hc
    split
    · exact hok
    · unfold update_fill
      dsimp only
      obtain ⟨h1, h2, h3⟩ := hok
      simp only [BP_MAX_FILLS_PER_DACS] at h3
      repeat' split
      all_goals
        simp only [fills_ok, BP_MAX_FILLS_PER_DACS] at *
        omega

theorem dacs_send_shape {σ : Type} (codec : bp_codec) (adapter : bp_store_t σ) (st : σ)
    (buffer : List Nat) (tm : bp_time_t) (bundle : bp_dacs_bundle_t) (k : Int)
    (ds : bp_dacs_store_t) (flags : Nat) (cid : Nat) (delivered : Bool) (timeout : Int) :
    ∃ e : bp_dacs_store_t,
      (dacs_send codec adapter st buffer tm bundle k ds flags cid delivered
        timeout).bundle.dacs_storage = dacs_set bundle.dacs_storage k e ∧
      (dacs_send codec adapter st buffer tm bundle k ds flags cid delivered
        timeout).bundle.num_entries = bundle.num_entries ∧
      e.cstnode = ds.cstnode ∧ e.cstserv = ds.cstserv ∧ e.fills.length = ds.fills.length ∧
      fills_ok e := by
  obtain ⟨_, hs, hn, hf, hcn, hcs⟩ := update_dacs_header_handle codec tm bundle ds
    (codec.bplib_rec_acs_write buffer BP_DACS_PAY_SIZE delivered ds.first_cid ds.fills
      ds.num_fills).1
    (codec.bplib_rec_acs_write buffer BP_DACS_PAY_SIZE delivered ds.first_cid ds.fills
      ds.num_fills).2
  refine ⟨initialize_dacs_payload (update_dacs_header codec tm bundle ds
    (codec.bplib_rec_acs_write buffer BP_DACS_PAY_SIZE delivered ds.first_cid ds.fills
      ds.num_fills).1
    (codec.bplib_rec_acs_write buffer BP_DACS_PAY_SIZE delivered ds.first_cid ds.fills
      ds.num_fills).2).2.1 cid, ?_, ?_, ?_, ?_, ?_, ?_⟩
  · simp only [dacs_send]; rw [hs]
  · simp only [dacs_send]; rw [hn]
  · exact hcn
  · exact hcs
  · simp only [initialize_dacs_payload, arr_set_length]; rw [hf]
  · simp only [fills_ok, initialize_dacs_payload, BP_MAX_FILLS_PER_DACS]
    omega

theorem dacs_populate_shape {σ : Type} (codec : bp_codec) (adapter : bp_store_t σ) (st : σ)
    (buffer : List Nat) (tm : bp_time_t) (bundle : bp_dacs_bundle_t) (k : Int)
    (flags : Nat) (cid : Nat) (delivered : Bool) (timeout : Int)
    (h : (dacs_get bundle.dacs_storage k).num_cids = 0 ∨
      fills_ok (dacs_get bundle.dacs_storage k)) :
    ∃ e : bp_dacs_store_t,
      (dacs_populate codec adapter st buffer tm bundle k flags cid delivered
        timeout).bundle.dacs_storage = dacs_set bundle.dacs_storage k e ∧
      (dacs_populate codec adapter st buffer tm bundle k flags cid delivered
        timeout).bundle.num_entries = bundle.num_entries ∧
      e.cstnode = (dacs_get bundle.dacs_storage k).cstnode ∧
      e.cstserv = (dacs_get bundle.dacs_storage k).cstserv ∧
      e.fills.length = (dacs_get bundle.dacs_storage k).fills.length ∧
      fills_ok e := by
  obtain ⟨f1, f2, f3⟩ := dacs_update_frame (dacs_get bundle.dacs_storage k) cid flags
  unfold dacs_populate
  dsimp only
  split
  · obtain ⟨e, h1, h2, h3, h4, h5, h6⟩ := dacs_send_shape codec adapter st buffer tm bundle k
      (dacs_update (dacs_get bundle.dacs_storage k) cid flags).1
      (dacs_update (dacs_get bundle.dacs_storage k) cid flags).2 cid delivered timeout
    exact ⟨e, h1, h2, h3.trans f1, h4.trans f2, h5.trans f3, h6⟩
  · exact ⟨_, rfl, rfl, f1, f2, f3, dacs_update_ok _ cid flags h⟩

theorem dacs_set_set (storage : List bp_dacs_store_t) (k : Int) (a b : bp_dacs_store_t) :
    dacs_set (dacs_set storage k a) k b = dacs_set storage k b := by
  unfold dacs_set
  split
  · rfl
  · exact List.set_set _ _ _ _

theorem dacs_inv_set (bundle bundle' : bp_dacs_bundle_t) (k : Int) (e : bp_dacs_store_t)
    (hinv : dacs_inv bundle)
    (hs : bundle'.dacs_storage = dacs_set bundle.dacs_storage k e)
    (hk0 : 0 ≤ k) (hkn : k < bundle'.num_entries)
    (hn4 : bundle'.num_entries ≤ BP_DACS_TABLE_SIZE)
    (hnn : bundle'.num_entries = bundle.num_entries ∨
      (bundle'.num_entries = bundle.num_entries + 1 ∧ k = bundle.num_entries))
    (hok : fills_ok e) (hlen : e.fills.length = BP_MAX_FILLS_PER_DACS.toNat)
    (hd : ∀ j : Int, 0 ≤ j → j < bundle'.num_entries → j ≠ k →
      ¬ ((dacs_get bundle.dacs_storage j).cstnode = e.cstnode ∧
         (dacs_get bundle.dacs_storage j).cstserv = e.cstserv)) :
    dacs_inv bundle' := by
  obtain ⟨h0, h4, hl, hfl, hfo, hdi⟩ := hinv
  have hk4 : k.toNat < bundle.dacs_storage.length := by
    rw [hl]; simp only [BP_DACS_TABLE_SIZE] at hn4 ⊢; omega
  have hget : ∀ j : Int, 0 ≤ j →
      dacs_get bundle'.dacs_storage j = if j = k then e else dacs_get bundle.dacs_storage j := by
    intro j hj
    rw [hs]
    by_cases hjk : j = k
    · rw [if_pos hjk, hjk]; exact dacs_get_set _ _ _ hk0 hk4
    · rw [if_neg hjk]; exact dacs_get_set_ne _ _ _ _ hk0 hj (Ne.symm hjk)
  have hold : ∀ j : Int, j < bundle'.num_entries → j ≠ k → j < bundle.num_entries := by
    intro j hj hjk
    rcases hnn with h | ⟨h1, h2⟩
    · omega
    · omega
  refine ⟨by omega, hn4, ?_, ?_, ?_, ?_⟩
  · rw [hs, dacs_set_length]; exact hl
  · intro i hi0 hi4
    rw [hget i hi0]
    by_cases hik : i = k
    · rw [if_pos hik]; exact hlen
    · rw [if_neg hik]; exact hfl i hi0 hi4
  · intro i hi0 hin
    rw [hget i hi0]
    by_cases hik : i = k
    · rw [if_pos hik]; exact hok
    · rw [if_neg hik]; exact hfo i hi0 (hold i hin hik)
  · intro i j hi0 hij hjn
    rw [hget i hi0, hget j (by omega)]
    by_cases hik : i = k
    · have hjk : j ≠ k := by omega
      rw [if_pos hik, if_neg hjk]
      intro hc
      exact hd j (by omega) hjn hjk ⟨hc.1.symm, hc.2.symm⟩
    · rw [if_neg hik]
      by_cases hjk : j = k
      · rw [if_pos hjk]
        exact hd i hi0 (by omega) hik
      · rw [if_neg hjk]
        exact hdi i j hi0 hij (hold j hjn hjk)

theorem dacs_lookup_made (codec : bp_codec) (bundle : bp_dacs_bundle_t)
    (cstnode cstserv : Nat)
    (hf : find_dacs_entry bundle.dacs_storage cstnode cstserv bundle.num_entries.toNat 0
      = BP_DACS_TABLE_SIZE)
    (hn : bundle.num_entries < BP_DACS_TABLE_SIZE) (h0 : 0 ≤ bundle.num_entries)
    (hl : bundle.dacs_storage.length = BP_DACS_TABLE_SIZE.toNat) :
    ∃ e0 : bp_dacs_store_t,
      (dacs_lookup codec bundle cstnode cstserv).1.dacs_storage
        = dacs_set bundle.dacs_storage bundle.num_entries e0 ∧
      (dacs_lookup codec bundle cstnode cstserv).1.num_entries = bundle.num_entries + 1 ∧
      (dacs_lookup codec bundle cstnode cstserv).2.1 = bundle.num_entries ∧
      e0.cstnode = cstnode ∧ e0.cstserv = cstserv ∧ e0.num_cids = 0 ∧
      e0.fills.length = (dacs_get bundle.dacs_storage bundle.num_entries).fills.length := by
  have hk : bundle.num_entries.toNat < bundle.dacs_storage.length := by
    rw [hl]; simp only [BP_DACS_TABLE_SIZE] at hn ⊢; omega
  simp only [dacs_lookup, hf, if_true, hn]
  obtain ⟨f1, _, _, f4, f5, f6, f7, _⟩ := initialize_dacs_header_frame codec
    { bundle with
      dacs_storage := dacs_set bundle.dacs_storage bundle.num_entries
        { dacs_get bundle.dacs_storage bundle.num_entries with
          cstnode := cstnode, cstserv := cstserv, num_cids := 0 },
      num_entries := bundle.num_entries + 1 }
    (dacs_get (dacs_set bundle.dacs_storage bundle.num_entries
        { dacs_get bundle.dacs_storage bundle.num_entries with
          cstnode := cstnode, cstserv := cstserv, num_cids := 0 }) bundle.num_entries)
    cstnode cstserv
  have hg := dacs_get_set bundle.dacs_storage bundle.num_entries
    { dacs_get bundle.dacs_storage bundle.num_entries with
      cstnode := cstnode, cstserv := cstserv, num_cids := 0 } h0 hk
  refine ⟨_, ?_, rfl, trivial, f4.trans (by rw [hg]), f5.trans (by rw [hg]),
    f6.trans (by rw [hg]), ?_⟩
  · rw [f1]
    dsimp only
    rw [dacs_set_set]
  · rw [f7, hg]

theorem update_dacs_payload_inv {σ : Type} (codec : bp_codec) (adapter : bp_store_t σ) (st : σ)
    (buffer : List Nat) (tm : bp_time_t) (bundle : bp_dacs_bundle_t)
    (cid cstnode cstserv : Nat) (delivered : Bool) (timeout : Int) (hinv : dacs_inv bundle) :
    dacs_inv (update_dacs_payload codec adapter st buffer tm bundle cid cstnode cstserv
      delivered timeout).bundle := by
  have hinv' := hinv
  obtain ⟨h0, h4, hl, hfl, hfo, hdi⟩ := hinv'
  by_cases hf : find_dacs_entry bundle.dacs_storage cstnode cstserv bundle.num_entries.toNat 0
      = BP_DACS_TABLE_SIZE
  · by_cases hn : bundle.num_entries < BP_DACS_TABLE_SIZE
    · obtain ⟨e0, m1, m2, m3, m4, m5, m6, m7⟩ :=
        dacs_lookup_made codec bundle cstnode cstserv hf hn h0 hl
      have hk : bundle.num_entries.toNat < bundle.dacs_storage.length := by
        rw [hl]; simp only [BP_DACS_TABLE_SIZE] at hn ⊢; omega
      have hne : (dacs_lookup codec bundle cstnode cstserv).2.1 ≠ BP_DACS_TABLE_SIZE := by
        rw [m3]; exact ne_of_lt hn
      have hg : dacs_get (dacs_lookup codec bundle cstnode cstserv).1.dacs_storage
          bundle.num_entries = e0 := by
        rw [m1]; exact dacs_get_set _ _ _ h0 hk
      obtain ⟨e, p1, p2, p3, p4, p5, p6⟩ := dacs_populate_shape codec adapter st buffer tm
        (dacs_lookup codec bundle cstnode cstserv).1 bundle.num_entries
        (dacs_lookup codec bundle cstnode cstserv).2.2 cid delivered timeout
        (by rw [hg]; left; exact m6)
      rw [hg] at p3 p4 p5
      have hr : update_dacs_payload codec adapter st buffer tm bundle cid cstnode cstserv
          delivered timeout = dacs_populate codec adapter st buffer tm
            (dacs_lookup codec bundle cstnode cstserv).1 bundle.num_entries
            (dacs_lookup codec bundle cstnode cstserv).2.2 cid delivered timeout := by
        unfold update_dacs_payload
        dsimp only
        rw [if_pos hne, m3]
      rw [hr]
      apply dacs_inv_set bundle _ bundle.num_entries e hinv
      · rw [p1, m1]; exact dacs_set_set _ _ _ _
      · exact h0
      · rw [p2, m2]; omega
      · rw [p2, m2]; simp only [BP_DACS_TABLE_SIZE] at hn ⊢; omega
      · right; rw [p2, m2]; exact ⟨rfl, rfl⟩
      · exact p6
      · rw [p5, m7]
        exact hfl bundle.num_entries h0 hn
      · intro j hj0 hjn hjk
        rw [p2, m2] at hjn
        rw [p3, p4, m4, m5]
        apply find_dacs_entry_miss bundle.dacs_storage cstnode cstserv bundle.num_entries.toNat
          0 hf
        · simp only [BP_DACS_TABLE_SIZE] at hn ⊢; omega
        · omega
        · omega
    · have hl2 : dacs_lookup codec bundle cstnode cstserv
          = (bundle, BP_DACS_TABLE_SIZE, BP_FLAG_TOOMANYSOURCES) := by
        simp only [dacs_lookup, hf, if_true, hn, if_false, Nat.zero_or]
      simp only [update_dacs_payload, hl2, ne_eq, not_true_eq_false, if_false]
      exact hinv
  · rcases find_dacs_entry_hit bundle.dacs_storage cstnode cstserv bundle.num_entries.toNat 0
      with h | ⟨h1, h2, h3, h5⟩
    · exact absurd h hf
    · have hkn : find_dacs_entry bundle.dacs_storage cstnode cstserv
          bundle.num_entries.toNat 0 < bundle.num_entries := by omega
      rw [update_dacs_payload_found codec adapter st buffer tm bundle cid cstnode cstserv
        delivered timeout _ rfl hf]
      obtain ⟨e, p1, p2, p3, p4, p5, p6⟩ := dacs_populate_shape codec adapter st buffer tm
        bundle (find_dacs_entry bundle.dacs_storage cstnode cstserv bundle.num_entries.toNat 0)
        0 cid delivered timeout (Or.inr (hfo _ h1 hkn))
      apply dacs_inv_set bundle _ _ e hinv p1 h1
      · rw [p2]; exact hkn
      · rw [p2]; exact h4
      · left; exact p2
      · exact p6
      · rw [p5]; exact hfl _ h1 (by omega)
      · intro j hj0 hjn hjk
        rw [p2] at hjn
        rw [p3, p4]
        rcases lt_or_gt_of_ne hjk with hlt | hgt
        · exact hdi j _ hj0 hlt hkn
        · intro hc
          exact hdi _ j h1 hgt hjn ⟨hc.1.symm, hc.2.symm⟩

theorem dacs_reachable_inv (codec : bp_codec) (bundle : bp_dacs_bundle_t)
    (h : dacs_reachable codec bundle) : dacs_inv bundle := by
  induction h with
  | opened bundle hn hl hf =>
    refine ⟨by omega, by rw [hn]; decide, hl, hf, ?_, ?_⟩
    · intro i hi0 hin; omega
    · intro i j hi0 hij hjn; omega
  | update adapter st buffer tm bundle cid cstnode cstserv delivered timeout _ ih =>
    exact update_dacs_payload_inv codec adapter st buffer tm bundle cid cstnode cstserv
      delivered timeout ih

theorem fresh_dacs_reachable :
    dacs_reachable sim_codec (fresh_dacs BP_ACTIVE_TABLE_SIZE).bundle := by
  apply dacs_reachable.opened
  · decide
  · decide
  · intro i h0 h4
    simp only [BP_DACS_TABLE_SIZE] at h4
    interval_cases i <;> decide

theorem dacs_four_reachable : dacs_reachable sim_codec dacs_four.bundle :=
  dacs_reachable.update sim_adapter _ _ _ _ 0 4 0 true 0
    (dacs_reachable.update sim_adapter _ _ _ _ 0 3 0 true 0
      (dacs_reachable.update sim_adapter _ _ _ _ 0 2 0 true 0
        (dacs_reachable.update sim_adapter _ _ _ _ 0 1 0 true 0 fresh_dacs_reachable)))

/-! ## C35: the invariant of the accumulator table -/

/-- C35: in every accumulator reachable through `update_dacs_payload` from a
channel just opened, `0 <= num_entries <= BP_DACS_TABLE_SIZE`; every entry in
use has an odd `num_fills` with `1 <= num_fills <= BP_MAX_FILLS_PER_DACS - 1`,
so that `fill_index = num_fills - 1` is an index of the `fills` array and so are
`fill_index + 1` and `fill_index + 2` under the guard
`fill_index + 2 < BP_MAX_FILLS_PER_DACS` of the fill update; and no two
entries in use are for the same custodian. -/
theorem dacs_table_invariant (codec : bp_codec) (bundle : bp_dacs_bundle_t)
    (h : dacs_reachable codec bundle) :
    0 ≤ bundle.num_entries ∧ bundle.num_entries ≤ BP_DACS_TABLE_SIZE ∧
    (∀ i : Int, 0 ≤ i → i < bundle.num_entries →
      (dacs_get bundle.dacs_storage i).num_fills % 2 = 1 ∧
      1 ≤ (dacs_get bundle.dacs_storage i).num_fills ∧
      (dacs_get bundle.dacs_storage i).num_fills ≤ BP_MAX_FILLS_PER_DACS - 1 ∧
      0 ≤ (dacs_get bundle.dacs_storage i).num_fills - 1 ∧
      ((dacs_get bundle.dacs_storage i).num_fills - 1).toNat
        < (dacs_get bundle.dacs_storage i).fills.length ∧
      ((dacs_get bundle.dacs_storage i).num_fills - 1 + 2 < BP_MAX_FILLS_PER_DACS →
        ((dacs_get bundle.dacs_storage i).num_fills - 1 + 1).toNat
          < (dacs_get bundle.dacs_storage i).fills.length ∧
        ((dacs_get bundle.dacs_storage i).num_fills - 1 + 2).toNat
          < (dacs_get bundle.dacs_storage i).fills.length)) ∧
    (∀ i j : Int, 0 ≤ i → i < j → j < bundle.num_entries →
      ¬ ((dacs_get bundle.dacs_storage i).cstnode = (dacs_get bundle.dacs_storage j).cstnode ∧
         (dacs_get bundle.dacs_storage i).cstserv
           = (dacs_get bundle.dacs_storage j).cstserv)) := by
  obtain ⟨h0, h4, _, hfl, hfo, hdi⟩ := dacs_reachable_inv codec bundle h
  refine ⟨h0, h4, ?_, hdi⟩
  intro i hi0 hin
  obtain ⟨f1, f2, f3⟩ := hfo i hi0 hin
  have hlen := hfl i hi0 (by omega)
  simp only [BP_MAX_FILLS_PER_DACS] at f3 hlen ⊢
  refine ⟨f1, f2, f3, by omega, ?_, ?_⟩
  · rw [hlen]; omega
  · intro hg
    rw [hlen]
    constructor <;> omega

/-- C35, at the accumulator of `dacs_four`: a channel just opened, then one
custody ID from each of four custodians. -/
theorem dacs_table_invariant_witness :
    dacs_reachable sim_codec dacs_four.bundle ∧
    dacs_four.bundle.num_entries = 4 ∧
    dacs_four.bundle.num_entries ≤ BP_DACS_TABLE_SIZE ∧
    (dacs_get dacs_four.bundle.dacs_storage 3).num_fills % 2 = 1 :=
  ⟨dacs_four_reachable, by decide,
    (dacs_table_invariant sim_codec dacs_four.bundle dacs_four_reachable).2.1,
    ((dacs_table_invariant sim_codec dacs_four.bundle dacs_four_reachable).2.2.1 3
      (by decide) (by decide)).1⟩

/-! ## C33 and C36: the timeout zero, and the loops of `bplib_load` -/

/-- C33: `timeout` of `bp_channel_t` is declared "seconds, zero for infinite"
(line 243), and the only line that reads it adds it to the current time (line
1129).  On a channel whose timeout was set to 0 with `bplib_setopt`, the load
at `100 s` emits the bundle with the storage ID 7 for
the first time and refreshes its record with the retransmit time `100 s`; the
next load, at the same `100 s`, makes no `dequeue` call on the data queue: it
retrieves the bundle in the scan for timed-out bundles and emits it again, under
the custody ID 1. -/
theorem zero_timeout_retransmits :
    zero_timeout_setopt.status = BP_SUCCESS ∧
    (zero_timeout_setopt.channels.getD 0 default).timeout = 0 ∧
    zero_timeout_first.map (fun r => (r.status, r.store.calls.drop 3))
      = some (132, [.dequeue 2 0, .dequeue 0 0, .refresh 0 (sample_record ⟨100, 0⟩) 8 0 7 0,
          .relinquish 0 7]) ∧
    zero_timeout_second.map (fun r =>
      (r.status, r.ch.data_bundle.custody_block.cid.value, r.store.calls.drop 7))
      = some (132, 1, [.dequeue 2 0, .retrieve 0 7 0, .relinquish 0 7]) := by
  refine ⟨?_, ?_, ?_, ?_⟩
  · decide
  · decide
  · decide
  · decide

/-- C36: `bplib_load` returns for every channel of `N > 0` slots, every storage
service, clock, buffer and timeout: the scan for timed-out bundles ends within
`2 * (current_custody_id - oldest_custody_id)` iterations and, from the state
it leaves, the loop for stored bundles within two. -/
theorem bplib_load_terminates {σ : Type} (N : Nat) (codec : bp_codec)
    (adapter : bp_store_t σ) (st : σ) (sysnow : bp_time_t) (channels : List bp_channel_t)
    (channel : Int) (bundle : Option (List Nat)) (size : Int) (timeout : Int) (loadflags : Nat)
    (hN : 0 < N)
    (hlen : (channels.getD channel.toNat default).data_bundle.active_table.length = N)
    (hcur : (channels.getD channel.toNat default).data_bundle.current_custody_id
      < UINT32_MOD) :
    (∃ s1, load_timedout N adapter sysnow timeout
        (2 * ((channels.getD channel.toNat default).data_bundle.current_custody_id -
          (channels.getD channel.toNat default).data_bundle.oldest_custody_id))
        (load_setup adapter st (channels.getD channel.toNat default) timeout) = some s1 ∧
      ∃ s2, load_stored N codec adapter sysnow timeout 2 s1 = some s2) ∧
    ∃ r, bplib_load N codec adapter st sysnow channels channel bundle size timeout loadflags
      = some r := by
  obtain ⟨s1, h1⟩ := load_timedout_total N adapter sysnow timeout hN
    (2 * ((channels.getD channel.toNat default).data_bundle.current_custody_id -
      (channels.getD channel.toNat default).data_bundle.oldest_custody_id))
    (load_setup adapter st (channels.getD channel.toNat default) timeout)
    (by rw [load_setup_ch]; exact hlen)
    (by rw [load_setup_ch]; exact hcur) (by rw [load_setup_ch]; exact Or.inl (le_refl _))
  have hf := load_timedout_frame N adapter sysnow timeout _ _ s1 h1
    (by rw [load_setup_ch]; exact hcur)
  rw [load_setup_ch] at hf
  obtain ⟨s2, h2⟩ := load_stored_total N codec adapter sysnow timeout s1 hN
    (by rw [hf.2.2.2.2.1]; exact hlen)
  refine ⟨⟨s1, h1, s2, h2⟩, ?_⟩
  unfold bplib_load
  split
  · exact ⟨_, rfl⟩
  · split
    · exact ⟨_, rfl⟩
    · cases bundle with
      | none => exact ⟨_, rfl⟩
      | some buf =>
        obtain ⟨r, hr⟩ := load_channel_total N codec adapter st sysnow
          (channels.getD channel.toNat default) buf size timeout hN hlen hcur
        simp only [hr, Option.map_some']
        exact ⟨_, rfl⟩

/-- C36, at a load at `200 s` on the channel of the wrap run after its four loads:
a table of four slots, all of them occupied, under `WRAP_DROP`. -/
theorem bplib_load_terminates_witness :
    (drop_state.1.data_bundle.active_table.length = RUN_TABLE_SIZE) ∧
    ∃ r, bplib_load RUN_TABLE_SIZE sim_codec sim_adapter drop_state.2 ⟨200, 0⟩
      [drop_state.1] 0 (some (List.replicate 256 0)) 256 0 0 = some r :=
  ⟨by decide,
    (bplib_load_terminates RUN_TABLE_SIZE sim_codec sim_adapter drop_state.2 ⟨200, 0⟩
      [drop_state.1] 0 (some (List.replicate 256 0)) 256 0 0 (by decide) (by decide)
      (by decide)).2⟩

/-! ## C39: a retransmission is not rescheduled -/

theorem bplib_cmptime_trans (a b c : bp_time_t) (hab : bplib_cmptime a b ≥ 0)
    (hbc : bplib_cmptime b c ≥ 0) : bplib_cmptime a c ≥ 0 := by
  rcases bplib_cmptime_cases a b with ⟨h1, h2⟩ | ⟨h1, _⟩ | ⟨h1, h2, h3⟩
  · rcases bplib_cmptime_cases b c with ⟨g1, g2⟩ | ⟨g1, _⟩ | ⟨g1, g2, g3⟩
    · rcases bplib_cmptime_cases a c with ⟨k1, _⟩ | ⟨k1, k2⟩ | ⟨k1, _⟩
      · rw [k1]; decide
      · exfalso; simp only [time_later] at h2 g2 k2; omega
      · rw [k1]
    · rw [g1] at hbc; exact absurd hbc (by decide)
    · rcases bplib_cmptime_cases a c with ⟨k1, _⟩ | ⟨k1, k2⟩ | ⟨k1, _⟩
      · rw [k1]; decide
      · exfalso; simp only [time_later] at h2 k2; omega
      · rw [k1]
  · rw [h1] at hab; exact absurd hab (by decide)
  · rcases bplib_cmptime_cases b c with ⟨g1, g2⟩ | ⟨g1, _⟩ | ⟨g1, g2, g3⟩
    · rcases bplib_cmptime_cases a c with ⟨k1, _⟩ | ⟨k1, k2⟩ | ⟨k1, _⟩
      · rw [k1]; decide
      · exfalso; simp only [time_later] at g2 k2; omega
      · rw [k1]
    · rw [g1] at hbc; exact absurd hbc (by decide)
    · rcases bplib_cmptime_cases a c with ⟨k1, _⟩ | ⟨k1, k2⟩ | ⟨k1, _⟩
      · rw [k1]; decide
      · exfalso; simp only [time_later] at k2; omega
      · rw [k1]

/-- C39 (as stated, refuted): the load at `111 s` re-emits the overdue bundle with
the storage ID 7 (calls: `dequeue` on the ACS queue, `retrieve`, `relinquish`; no
`refresh`; `oldest_custody_id` stays 0 and slot 0 keeps 7); at the next load, at
`112 s`, an ACS bundle is ready: the load emits the ACS bundle, makes no
`retrieve` call and leaves the window as it was, though the record could still
be retrieved. -/
theorem acs_precedes_retransmission :
    (resend_second (BP_SUCCESS, acs_record, 5, 9)).map (fun r =>
      (r.status, r.ch.data_bundle.oldest_custody_id, r.ch.data_bundle.active_table,
        r.store.calls.drop 7))
      = some (132, 0, [7, 7, 0, 0], [.dequeue 2 0, .retrieve 0 7 0, .relinquish 0 7]) ∧
    (resend_third (BP_SUCCESS, acs_record, 5, 9)).map (fun r =>
      (r.status, r.bundle.take 5, r.store.calls.drop 10))
      = some (5, [64, 1, 0, 1, 0], [.dequeue 2 0, .relinquish 2 9]) ∧
    (resend_third (BP_SUCCESS, acs_record, 5, 9)).map (fun r =>
      (r.ch.data_bundle.current_custody_id, r.ch.data_bundle.active_table,
        r.store.retrieves.length))
      = some (2, [7, 7, 0, 0], 1) := by
  refine ⟨?_, ?_, ?_⟩
  · decide
  · decide
  · decide

/-- C39 (amended): a load that re-emits a timed-out bundle (no ACS bundle ready,
the bundle at the head of the window, retrieved and due, the buffer large
enough) calls `dequeue` on the ACS queue, `retrieve` and `relinquish` and
nothing else, so no `refresh`; it leaves `oldest_custody_id` alone and the slot
`active_table[oldest_custody_id mod N]` holds the same storage ID after it.
While `current_custody_id < 2 ^ 32 - 1`, the next load at the same or a later
time at which no ACS bundle is ready and the record is retrieved with the
retransmit time unchanged selects the same bundle again: with a buffer large
enough it returns the record's bundlesize and its calls are again `dequeue` on
the ACS queue, `retrieve` and `relinquish`, none on the data queue. -/
theorem bplib_load_retransmit_keeps_schedule {σ : Type} (N : Nat) (codec : bp_codec)
    (adapter : bp_store_t σ) (st : σ) (sysnow sysnext : bp_time_t) (ch : bp_channel_t)
    (bundle bundle2 : List Nat) (size size2 timeout timeout2 : Int)
    (hcur : ch.data_bundle.current_custody_id + 1 < UINT32_MOD)
    (hdacs : (adapter.dequeue st ch.dacs_bundle.dacs_store_handle timeout).2.1 ≠ BP_SUCCESS)
    (hwin : ch.data_bundle.oldest_custody_id < ch.data_bundle.current_custody_id)
    (hocc : ch.data_bundle.active_table.getD (ch.data_bundle.oldest_custody_id % N) 0
      ≠ BP_SID_VACANT)
    (hret : (adapter.retrieve (adapter.dequeue st ch.dacs_bundle.dacs_store_handle timeout).1
      ch.data_bundle.data_store_handle
      (ch.data_bundle.active_table.getD (ch.data_bundle.oldest_custody_id % N) 0)
      timeout).2.1 = BP_SUCCESS)
    (hdue : bplib_cmptime sysnow
      (adapter.retrieve (adapter.dequeue st ch.dacs_bundle.dacs_store_handle timeout).1
        ch.data_bundle.data_store_handle
        (ch.data_bundle.active_table.getD (ch.data_bundle.oldest_custody_id % N) 0)
        timeout).2.2.1.ds.retxtime ≥ 0)
    (hsize : ¬ size <
      (adapter.retrieve (adapter.dequeue st ch.dacs_bundle.dacs_store_handle timeout).1
        ch.data_bundle.data_store_handle
        (ch.data_bundle.active_table.getD (ch.data_bundle.oldest_custody_id % N) 0)
        timeout).2.2.1.ds.bundlesize) :
    let sid := ch.data_bundle.active_table.getD (ch.data_bundle.oldest_custody_id % N) 0
    let got := adapter.retrieve (adapter.dequeue st ch.dacs_bundle.dacs_store_handle timeout).1
      ch.data_bundle.data_store_handle sid timeout
    ∃ r, load_channel N codec adapter st sysnow ch bundle size timeout = some r ∧
      r.store = (adapter.relinquish got.1 ch.data_bundle.data_store_handle sid).1 ∧
      r.ch.data_bundle.oldest_custody_id = ch.data_bundle.oldest_custody_id ∧
      r.ch.data_bundle.active_table.getD (ch.data_bundle.oldest_custody_id % N) 0 = sid ∧
      ((adapter.dequeue r.store ch.dacs_bundle.dacs_store_handle timeout2).2.1 ≠ BP_SUCCESS →
        (adapter.retrieve (adapter.dequeue r.store ch.dacs_bundle.dacs_store_handle timeout2).1
          ch.data_bundle.data_store_handle sid timeout2).2.1 = BP_SUCCESS →
        (adapter.retrieve (adapter.dequeue r.store ch.dacs_bundle.dacs_store_handle timeout2).1
          ch.data_bundle.data_store_handle sid timeout2).2.2.1.ds.retxtime
          = got.2.2.1.ds.retxtime →
        bplib_cmptime sysnext sysnow ≥ 0 →
        ¬ size2 < (adapter.retrieve
          (adapter.dequeue r.store ch.dacs_bundle.dacs_store_handle timeout2).1
          ch.data_bundle.data_store_handle sid timeout2).2.2.1.ds.bundlesize →
        ∃ r2, load_channel N codec adapter r.store sysnext r.ch bundle2 size2 timeout2
            = some r2 ∧
          r2.status = (adapter.retrieve
            (adapter.dequeue r.store ch.dacs_bundle.dacs_store_handle timeout2).1
            ch.data_bundle.data_store_handle sid timeout2).2.2.1.ds.bundlesize ∧
          r2.store = (adapter.relinquish
            (adapter.retrieve
              (adapter.dequeue r.store ch.dacs_bundle.dacs_store_handle timeout2).1
              ch.data_bundle.data_store_handle sid timeout2).1
            ch.data_bundle.data_store_handle sid).1 ∧
          r2.ch.data_bundle.oldest_custody_id = ch.data_bundle.oldest_custody_id) := by
  intro sid got
  have hmod : (ch.data_bundle.current_custody_id + 1) % UINT32_MOD
      = ch.data_bundle.current_custody_id + 1 := Nat.mod_eq_of_lt hcur
  have hslot : (ch.data_bundle.active_table.set (ch.data_bundle.current_custody_id % N)
      sid).getD (ch.data_bundle.oldest_custody_id % N) 0 = sid := by
    rw [getD_set]
    split
    · rfl
    · rfl
  refine ⟨_, load_channel_retransmit N codec adapter st sysnow ch bundle size timeout hdacs hwin
    hocc hret hdue hsize, rfl, rfl, hslot, ?_⟩
  intro hd2 hr2 hx2 hlater hs2
  have hdue2 : bplib_cmptime sysnext
      (adapter.retrieve (adapter.dequeue (adapter.relinquish got.1
        ch.data_bundle.data_store_handle sid).1 ch.dacs_bundle.dacs_store_handle timeout2).1
        ch.data_bundle.data_store_handle sid timeout2).2.2.1.ds.retxtime ≥ 0 := by
    rw [hx2]
    exact bplib_cmptime_trans _ _ _ hlater hdue
  have h2 := load_channel_retransmit N codec adapter
    (adapter.relinquish got.1 ch.data_bundle.data_store_handle sid).1 sysnext
    { ch with data_bundle := { ch.data_bundle with
        active_table :=
          ch.data_bundle.active_table.set (ch.data_bundle.current_custody_id % N) sid,
        custody_block := { ch.data_bundle.custody_block with
          cid := { ch.data_bundle.custody_block.cid with
            value := ch.data_bundle.current_custody_id } },
        current_custody_id := (ch.data_bundle.current_custody_id + 1) % UINT32_MOD } }
    bundle2 size2 timeout2 hd2
    (by show ch.data_bundle.oldest_custody_id < (ch.data_bundle.current_custody_id + 1)
          % UINT32_MOD
        rw [hmod]; omega)
    (by show (ch.data_bundle.active_table.set (ch.data_bundle.current_custody_id % N)
          sid).getD (ch.data_bundle.oldest_custody_id % N) 0 ≠ BP_SID_VACANT
        rw [hslot]; exact hocc)
    (by show (adapter.retrieve _ ch.data_bundle.data_store_handle
          ((ch.data_bundle.active_table.set (ch.data_bundle.current_custody_id % N)
            sid).getD (ch.data_bundle.oldest_custody_id % N) 0) timeout2).2.1 = BP_SUCCESS
        rw [hslot]; exact hr2)
    (by show bplib_cmptime sysnext (adapter.retrieve _ ch.data_bundle.data_store_handle
          ((ch.data_bundle.active_table.set (ch.data_bundle.current_custody_id % N)
            sid).getD (ch.data_bundle.oldest_custody_id % N) 0) timeout2).2.2.1.ds.retxtime ≥ 0
        rw [hslot]; exact hdue2)
    (by show ¬ size2 < (adapter.retrieve _ ch.data_bundle.data_store_handle
          ((ch.data_bundle.active_table.set (ch.data_bundle.current_custody_id % N)
            sid).getD (ch.data_bundle.oldest_custody_id % N) 0) timeout2).2.2.1.ds.bundlesize
        rw [hslot]; exact hs2)
  refine ⟨_, h2, ?_, ?_, rfl⟩
  · show (adapter.retrieve _ ch.data_bundle.data_store_handle
      ((ch.data_bundle.active_table.set (ch.data_bundle.current_custody_id % N)
        sid).getD (ch.data_bundle.oldest_custody_id % N) 0) timeout2).2.2.1.ds.bundlesize = _
    rw [hslot]
  · show (adapter.relinquish (adapter.retrieve _ ch.data_bundle.data_store_handle
      ((ch.data_bundle.active_table.set (ch.data_bundle.current_custody_id % N)
        sid).getD (ch.data_bundle.oldest_custody_id % N) 0) timeout2).1
      ch.data_bundle.data_store_handle
      ((ch.data_bundle.active_table.set (ch.data_bundle.current_custody_id % N)
        sid).getD (ch.data_bundle.oldest_custody_id % N) 0)).1 = _
    rw [hslot]

/-- C39 (amended), at the second and third load of the retransmission run on a
store whose ACS queue stays empty: the load at `111 s` re-emits the bundle and
the load at `112 s` emits it once more. -/
theorem bplib_load_retransmit_keeps_schedule_witness :
    retx_channel.data_bundle.current_custody_id + 1 < UINT32_MOD ∧
    ∃ r, load_channel RUN_TABLE_SIZE sim_codec sim_adapter
        (resend_first nothing_ready).2 ⟨111, 0⟩ (resend_first nothing_ready).1
        (List.replicate 256 0) 256 0 = some r ∧
      r.ch.data_bundle.oldest_custody_id = 0 ∧
      ∃ r2, load_channel RUN_TABLE_SIZE sim_codec sim_adapter r.store ⟨112, 0⟩ r.ch
          (List.replicate 256 0) 256 0 = some r2 ∧
        r2.ch.data_bundle.oldest_custody_id = 0 := by
  obtain ⟨r, h1, h2, h3, _, h5⟩ := bplib_load_retransmit_keeps_schedule RUN_TABLE_SIZE
    sim_codec sim_adapter (resend_first nothing_ready).2 ⟨111, 0⟩ ⟨112, 0⟩
    (resend_first nothing_ready).1 (List.replicate 256 0) (List.replicate 256 0) 256 256 0 0
    (by decide) (by decide) (by decide) (by decide) (by decide) (by decide) (by decide)
  obtain ⟨r2, g1, _, _, g4⟩ := h5 (by rw [h2]; decide) (by rw [h2]; decide)
    (by rw [h2]; decide) (by decide) (by rw [h2]; decide)
  exact ⟨by decide, r, h1, h3, r2, g1, g4⟩

/-! ## C37: `bplib_store` with the fragment length zero -/

theorem store_fragments_stuck {σ : Type} (codec : bp_codec) (layout : bp_layout)
    (adapter : bp_store_t σ) (tm : bp_time_t) (payload : List Nat) (size timeout : Int)
    (hsize : 0 < size) :
    ∀ (fuel : Nat) (ch : bp_channel_t) (st : σ), ch.fragment_maxlength = 0 →
      store_fragments codec layout adapter tm payload size timeout fuel ch st 0 = none := by
  intro fuel
  induction fuel with
  | zero =>
    intro ch st _
    simp only [store_fragments, hsize, if_true]
  | succ n ih =>
    intro ch st hf
    have h0 : (0 : Int) < size - 0 := by omega
    simp only [store_fragments, hsize, if_true, hf, h0, add_zero]
    exact ih _ _ rfl

/-- C37: `bplib_setopt` accepts the fragment length 0, and `bplib_store` of one
byte on the channel, with fragmentation allowed, then never leaves its loop:
`fragment_size` is 0 in every iteration and `payload_offset` stays 0, so no
number of iterations ends it. -/
theorem bplib_store_loops_on_fragment_length_zero :
    (frag_zero_setopt (sim_store_init [] [] [])).status = BP_SUCCESS ∧
    (((frag_zero_setopt (sim_store_init [] [] [])).channels.getD 0
      default).fragment_maxlength,
      ((frag_zero_setopt (sim_store_init [] [] [])).channels.getD 0
        default).data_bundle.primary_block.allow_frag,
      ((frag_zero_setopt (sim_store_init [] [] [])).channels.getD 0
        default).bundle_maxlength) = (0, true, 4096) ∧
    (∀ fuel : Nat, store_fragments sim_codec sim_layout sim_adapter ⟨7, 0⟩ [120] 1 0 fuel
      ((frag_zero_setopt (sim_store_init [] [] [])).channels.getD 0 default)
      (open_on (sim_store_init [] [] [])).2.1 0 = none) ∧
    (bplib_store sim_codec sim_layout sim_adapter (open_on (sim_store_init [] [] [])).2.1 ⟨7, 0⟩
      (frag_zero_setopt (sim_store_init [] [] [])).channels 0 (some [120]) 1 0).map
      (fun r => r.status) = none := by
  refine ⟨?_, ?_, ?_, ?_⟩
  · decide
  · decide
  · intro fuel
    exact store_fragments_stuck sim_codec sim_layout sim_adapter ⟨7, 0⟩ [120] 1 0 (by decide)
      fuel _ _ (by decide)
  · decide

/-! ## C34 and C38: `bplib_getopt` and the caller's buffer -/

/-- C34: `bplib_setopt` of `BP_OPT_PROCADMINONLY` to 0 and of `BP_OPT_WRAPRSP` to
`BP_WRAP_DROP` returns `BP_SUCCESS`, and the following `bplib_getopt` of the
option into an `int` that holds 5 returns `BP_PARMERR` and leaves the 5 there;
into an `int` that holds 0 it returns `BP_SUCCESS` and the value set. -/
theorem bplib_getopt_after_setopt_refused :
    ((set_then_get .BP_OPT_PROCADMINONLY 0 5).1.status,
      (set_then_get .BP_OPT_PROCADMINONLY 0 5).2.status,
      (set_then_get .BP_OPT_PROCADMINONLY 0 5).2.val.map (fun v => v.as_int))
      = (BP_SUCCESS, BP_PARMERR, some 5) ∧
    ((set_then_get .BP_OPT_WRAPRSP BP_WRAP_DROP 5).1.status,
      (set_then_get .BP_OPT_WRAPRSP BP_WRAP_DROP 5).2.status,
      (set_then_get .BP_OPT_WRAPRSP BP_WRAP_DROP 5).2.val.map (fun v => v.as_int))
      = (BP_SUCCESS, BP_PARMERR, some 5) ∧
    ((set_then_get .BP_OPT_PROCADMINONLY 0 0).2.status,
      (set_then_get .BP_OPT_PROCADMINONLY 0 0).2.val.map (fun v => v.as_int))
      = (BP_SUCCESS, some 0) ∧
    ((set_then_get .BP_OPT_WRAPRSP BP_WRAP_DROP 0).2.status,
      (set_then_get .BP_OPT_WRAPRSP BP_WRAP_DROP 0).2.val.map (fun v => v.as_int))
      = (BP_SUCCESS, some BP_WRAP_DROP) ∧
    [bp_opt.BP_OPT_TIMEOUT, .BP_OPT_BUNDLELEN, .BP_OPT_FRAGMENTLEN, .BP_OPT_ACSRATE,
      .BP_OPT_LIFETIME_D, .BP_OPT_PAYCRC_D].map
      (fun o => ((set_then_get o 77 5).1.status, (set_then_get o 77 5).2.status,
        (set_then_get o 77 5).2.val.map (fun v => v.as_int)))
      = List.replicate 6 (BP_SUCCESS, BP_SUCCESS, some 77) := by
  refine ⟨?_, ?_, ?_, ?_, ?_⟩
  · decide
  · decide
  · decide
  · decide
  · decide

/-- C38: two `bplib_getopt` calls on the same channel, for the same option and
with the same length, that differ only in what the caller's `int` holds before
the call: with 0 in it each of the five options returns `BP_SUCCESS`, with 7 in
it `BP_PARMERR`. -/
theorem bplib_getopt_reads_callers_buffer :
    checked_opts.map (fun o => (getopt_fresh o 0).status) = List.replicate 5 BP_SUCCESS ∧
    checked_opts.map (fun o => (getopt_fresh o 7).status) = List.replicate 5 BP_PARMERR ∧
    checked_opts.map (fun o => (getopt_fresh o 0).val.map (fun v => v.as_int))
      = [some 1, some 1, some 0, some 1, some BP_WRAP_RESEND] ∧
    checked_opts.map (fun o => (getopt_fresh o 7).val.map (fun v => v.as_int))
      = List.replicate 5 (some 7) ∧
    checked_opts.map (fun o => (getopt_fresh o 0).channels)
      = checked_opts.map (fun o => (getopt_fresh o 7).channels) := by
  refine ⟨?_, ?_, ?_, ?_, ?_⟩
  · decide
  · decide
  · decide
  · decide
  · decide

/-! ## C40: the payload bytes that `bplib_process` enqueues -/

/-- C40: on a bundle whose payload block of length 5, `"hello"`, is followed by
three more bytes, the integrity check is made over the 5 bytes of the block (it
would fail over the 8 bytes to the end of the buffer), and `bplib_process`
enqueues the 8 bytes `"hello!!!"`: on the payload queue (handle 1) when the
bundle is delivered, where the following `bplib_accept` hands them to the
application, and on the data queue (handle 0) when the bundle is forwarded with
custody.  On the same bundle without the three bytes the 5 bytes are
enqueued. -/
theorem bplib_process_enqueues_bytes_after_payload_block :
    (crc_reader (data_pri 1)).bplib_blk_bib_verify (trailing_bundle.drop 81) 5 default = 1 ∧
    (crc_reader (data_pri 1)).bplib_blk_bib_verify (trailing_bundle.drop 81) 8 default = 0 ∧
    deliver_trailing.map (fun r => (r.status, r.store.calls.getLast?.bind enqueued_payload))
      = some (BP_SUCCESS, some (1, hello ++ [33, 33, 33], 8)) ∧
    accept_trailing.map (fun r => (r.status, r.payload.map (fun p => p.take 8)))
      = some (8, some (hello ++ [33, 33, 33])) ∧
    forward_trailing.map (fun r => (r.status, r.store.calls.getLast?.bind enqueued_payload))
      = some (BP_SUCCESS, some (0, hello ++ [33, 33, 33], 8)) ∧
    (deliver_run 1).map (fun r => (r.status, r.store.calls.getLast?.bind enqueued_payload))
      = some (BP_SUCCESS, some (1, hello, 5)) := by
  refine ⟨?_, ?_, ?_, ?_, ?_, ?_⟩
  · decide
  · decide
  · decide
  · decide
  · decide
  · decide

end Bplib
